import Mathlib

/-!
# NDI IO plugin: connection state machine, capture, audio, sender and readback ring

A shallow embedding of the receive-side connection logic, video capture,
drawing and audio conversion (`NDIConnectionInformation.cpp`,
`NDIMediaReceiver.cpp`, `NDIMediaPlayer.cpp`), of the sender with its
double-buffered readback ring (`NDIMediaSender.cpp`), of the URL test of the
plugin module (`NDIIOPluginModule.cpp`) and of the source search of the
function library (`NDIIOLibrary.cpp`), with the properties the specification
states about them.

Conventions of the embedding:
* engine strings (`FString`) are `String`; `IsEmpty` is `String.isEmpty`; the
  comparison operators of `FString` ignore case (`FString_Equals`);
* pointers and transport handles are natural numbers, `nullptr` being `0`;
* calls into the external transport library and other outward calls are
  recorded, in program order, in a list of `Effect`s returned next to the
  new state; the values the transport hands back (new handles) are inputs of
  the operation that makes the call;
* every operation is embedded as it runs on one thread; where a statement is
  about locks, taking and releasing a lock are entries of the trace;
* `float` code is embedded for an arbitrary arithmetic (`FloatArith`), exact
  rational arithmetic (`exactArith`) being one; statements about the order of
  values hold for every arithmetic with the laws `FloatLaws`, which exact
  arithmetic and `float` arithmetic with rounding to nearest both have; counted `for` loops are
  `forLoop`; a byte buffer is a map from byte offsets to byte values.
-/

namespace NDI

/-! ## Connection descriptor (`FNDIConnectionInformation`) -/

/-- Engine string type. -/
abbrev FString := String

/-- The character codes of a name with the codes of `A` to `Z` moved to those of
`a` to `z`. -/
def ignoreCaseKey (s : FString) : List Nat :=
  s.toList.map (fun c => if 65 ≤ c.toNat ∧ c.toNat ≤ 90 then c.toNat + 32 else c.toNat)

/-- The comparison operator of `FString` (`operator==`; `operator!=` is its
negation). The engine header that defines it is not part of the plugin
sources. The engine compares strings ignoring case: two strings compare equal
when they have the same character codes once `A` to `Z` are moved to `a` to
`z`. -/
def FString_Equals (Lhs Rhs : FString) : Bool := ignoreCaseKey Lhs == ignoreCaseKey Rhs

/-- Bandwidth modes of a connection (`ENDISourceBandwidth`). -/
inductive ENDISourceBandwidth where
  | MetadataOnly
  | AudioOnly
  | Lowest
  | Highest
  deriving DecidableEq, Repr

/-- Bandwidth values of the transport library (`NDIlib_recv_bandwidth_e`). -/
inductive NDIlib_recv_bandwidth_e where
  | NDIlib_recv_bandwidth_metadata_only
  | NDIlib_recv_bandwidth_audio_only
  | NDIlib_recv_bandwidth_lowest
  | NDIlib_recv_bandwidth_highest
  deriving DecidableEq, Repr

/-- Connection descriptor, with the default member initialisers of the header. -/
structure FNDIConnectionInformation where
  SourceName : FString := ""
  MachineName : FString := ""
  StreamName : FString := ""
  Url : FString := ""
  Bandwidth : ENDISourceBandwidth := ENDISourceBandwidth.Highest
  bMuteAudio : Bool := false
  bMuteVideo : Bool := false
  deriving DecidableEq, Repr

namespace FNDIConnectionInformation

/-- Member-wise comparison, `operator==`; the string members are compared with
the comparison operator of `FString`. -/
def eq (self other : FNDIConnectionInformation) : Bool :=
  self.Bandwidth == other.Bandwidth &&
  FString_Equals self.MachineName other.MachineName &&
  FString_Equals self.SourceName other.SourceName &&
  FString_Equals self.StreamName other.StreamName && FString_Equals self.Url other.Url &&
  self.bMuteAudio == other.bMuteAudio && self.bMuteVideo == other.bMuteVideo

/-- Negated comparison, `operator!=`. -/
def ne (self other : FNDIConnectionInformation) : Bool :=
  !(self.eq other)

/-- Conversion to the transport bandwidth value, `operator NDIlib_recv_bandwidth_e`. -/
def toBandwidth (self : FNDIConnectionInformation) : NDIlib_recv_bandwidth_e :=
  if self.Bandwidth = ENDISourceBandwidth.MetadataOnly then
    NDIlib_recv_bandwidth_e.NDIlib_recv_bandwidth_metadata_only
  else if self.Bandwidth = ENDISourceBandwidth.AudioOnly then
    NDIlib_recv_bandwidth_e.NDIlib_recv_bandwidth_audio_only
  else if self.Bandwidth = ENDISourceBandwidth.Lowest then
    NDIlib_recv_bandwidth_e.NDIlib_recv_bandwidth_lowest
  else NDIlib_recv_bandwidth_e.NDIlib_recv_bandwidth_highest

/-- Restores the default property values, `Reset`. -/
def Reset (_self : FNDIConnectionInformation) : FNDIConnectionInformation :=
  { SourceName := "", MachineName := "", StreamName := "", Url := "",
    Bandwidth := ENDISourceBandwidth.Highest, bMuteAudio := false, bMuteVideo := false }

/-- Validity of a descriptor, `IsValid`. -/
def IsValid (self : FNDIConnectionInformation) : Bool :=
  (!self.SourceName.isEmpty) ||
  ((!self.MachineName.isEmpty) && (!self.StreamName.isEmpty)) ||
  (!self.Url.isEmpty)

/-- Name handed to the transport, `GetNDIName`. -/
def GetNDIName (self : FNDIConnectionInformation) : FString :=
  if !self.SourceName.isEmpty then self.SourceName
  else if (!self.MachineName.isEmpty) && (!self.StreamName.isEmpty) then
    self.MachineName ++ " (" ++ self.StreamName ++ ")"
  else ""

end FNDIConnectionInformation

/-! ## Receiver state (`UNDIMediaReceiver`) -/

/-- The null pointer; pointers and transport handles are natural numbers. -/
def nullptr : Nat := 0

/-- Engine frame rate, a fraction. -/
structure FFrameRate where
  Numerator : Int
  Denominator : Int
  deriving DecidableEq, Repr

/-- Engine integer point. -/
structure FIntPoint where
  X : Int
  Y : Int
  deriving DecidableEq, Repr

/-- Value of the engine type `FTimecode`, kept as the constructor call that
produced it: `FTimecode(InSeconds, InFrameRate, InbDropFrame, InbRollover)`. -/
structure FTimecode where
  InSeconds : Int
  InFrameRate : FFrameRate
  InbDropFrame : Bool
  InbRollover : Bool
  deriving DecidableEq, Repr

/-- Counters of `FNDIReceiverPerformanceData`, as written by
`GatherPerformanceMetrics`. -/
structure FNDIReceiverPerformanceData where
  AudioFrames : Int
  DroppedAudioFrames : Int
  DroppedMetadataFrames : Int
  DroppedVideoFrames : Int
  MetadataFrames : Int
  VideoFrames : Int
  deriving DecidableEq, Repr

/-- Modelled from the spec: `FNDIReceiverPerformanceData::Reset` is declared in
`Structures/NDIReceiverPerformanceData.h`, which is not among the sources; it
is taken to restore the counters to zero. -/
def FNDIReceiverPerformanceData.Reset (_self : FNDIReceiverPerformanceData) :
    FNDIReceiverPerformanceData :=
  { AudioFrames := 0, DroppedAudioFrames := 0, DroppedMetadataFrames := 0,
    DroppedVideoFrames := 0, MetadataFrames := 0, VideoFrames := 0 }

/-- Pixel formats of the transport library (`NDIlib_FourCC_video_type_e`). -/
inductive NDIlib_FourCC_video_type_e where
  | NDIlib_FourCC_video_type_UYVY
  | NDIlib_FourCC_video_type_UYVA
  | NDIlib_FourCC_video_type_P216
  | NDIlib_FourCC_video_type_PA16
  | NDIlib_FourCC_video_type_YV12
  | NDIlib_FourCC_video_type_I420
  | NDIlib_FourCC_video_type_NV12
  | NDIlib_FourCC_video_type_BGRA
  | NDIlib_FourCC_video_type_BGRX
  | NDIlib_FourCC_video_type_RGBA
  | NDIlib_FourCC_video_type_RGBX
  | NDIlib_FourCC_video_type_max
  deriving DecidableEq, Repr

/-- Frame format types of the transport library (`NDIlib_frame_format_type_e`). -/
inductive NDIlib_frame_format_type_e where
  | NDIlib_frame_format_type_progressive
  | NDIlib_frame_format_type_interleaved
  | NDIlib_frame_format_type_field_0
  | NDIlib_frame_format_type_field_1
  | NDIlib_frame_format_type_max
  deriving DecidableEq, Repr

/-- The timestamp value of a frame without timestamp, a constant of the
transport library header (`INT64_MAX`). -/
def NDIlib_recv_timestamp_undefined : Int := 9223372036854775807

/-- A video frame as the transport hands it over (`NDIlib_video_frame_v2_t`);
`p_data` is the data pointer and `p_metadata` is `none` for a null pointer. -/
structure NDIlib_video_frame_v2_t where
  xres : Int
  yres : Int
  FourCC : NDIlib_FourCC_video_type_e
  frame_rate_N : Int
  frame_rate_D : Int
  frame_format_type : NDIlib_frame_format_type_e
  timecode : Int
  p_data : Nat
  line_stride_in_bytes : Int
  p_metadata : Option String
  timestamp : Int
  deriving DecidableEq, Repr

/-- Frame counters of the transport library (`NDIlib_recv_performance_t`). -/
structure NDIlib_recv_performance_t where
  video_frames : Int
  audio_frames : Int
  metadata_frames : Int
  deriving DecidableEq, Repr

/-- The critical sections of the sender and the receiver that guard audio,
rendering and metadata. -/
inductive SyncContext where
  | AudioSyncContext
  | RenderSyncContext
  | MetadataSyncContext
  deriving DecidableEq, Repr

/-- A metadata frame as the transport hands it over
(`NDIlib_metadata_frame_t`); `p_data` is `none` for a null pointer. -/
structure NDIlib_metadata_frame_t where
  length : Int
  p_data : Option String
  deriving DecidableEq, Repr

/-- Outward calls of the receiver, recorded in program order. The `result`
arguments are the values the transport handed back. The constant colour format
of the create settings is not recorded. `FScopeLock_Lock` and
`FScopeLock_Unlock` are the points at which a scope lock takes and gives back
its critical section; they appear only in the traces of the operations
embedded with their locks. -/
inductive Effect where
  | NDIlib_recv_create_v3 (allow_video_fields : Bool) (bandwidth : NDIlib_recv_bandwidth_e)
      (result : Nat)
  | NDIlib_recv_connect (p_instance : Nat) (p_ndi_name p_url_address : FString)
  | NDIlib_recv_destroy (p_instance : Nat)
  | NDIlib_framesync_create (p_receiver : Nat) (result : Nat)
  | NDIlib_framesync_destroy (p_instance : Nat)
  | AsyncTask_OnNDIReceiverConnectedEvent_Broadcast
  | AsyncTask_OnNDIReceiverDisconnectedEvent_Broadcast
  | SetConnectionSource (AudioWave : Nat) (InMediaSource : Nat)
  | OnEndFrameRT_Remove (Handle : Nat)
  | NDIlib_framesync_capture_video (p_instance : Nat)
  | NDIlib_recv_get_performance (p_instance : Nat)
  | OnNDIReceiverVideoCaptureEvent_Broadcast (video_frame : NDIlib_video_frame_v2_t)
  | OnReceiverVideoReceived_Broadcast
  | OnReceiverMetaDataReceived_Broadcast (Data : FString) (bAttachedToVideoFrame : Bool)
  | NDIlib_framesync_free_video (p_instance : Nat)
  | FScopeLock_Lock (SynchObject : SyncContext)
  | FScopeLock_Unlock (SynchObject : SyncContext)
  | NDIlib_recv_capture_v3 (p_instance : Nat)
  | OnNDIReceiverMetadataCaptureEvent_Broadcast (metadata : NDIlib_metadata_frame_t)
  | NDIlib_recv_free_metadata (p_instance : Nat)
  | InternalVideoTexture_UpdateResource
  | OnNDIReceiverVideoCaptureEvent_AddLambda (result : Nat)
  | OnEndFrameRT_AddLambda (result : Nat)
  | NDIlib_framesync_audio_queue_depth (p_instance : Nat)
  | NDIlib_framesync_capture_audio (p_instance : Nat) (no_samples : Int)
  | OnNDIReceiverAudioCaptureEvent_Broadcast
  | OnReceiverAudioReceived_Broadcast
  | NDIlib_framesync_free_audio (p_instance : Nat)
  | NDIlib_recv_send_metadata (p_instance : Nat) (Data : FString)
  deriving DecidableEq, Repr

/-- The draw functions of the receiver, named as the draw modes they set
(`EDrawMode`). -/
inductive EDrawMode where
  | Invalid
  | Progressive
  | ProgressiveAlpha
  | Interlaced
  | InterlacedAlpha
  deriving DecidableEq, Repr

/-- The members of `UNDIMediaReceiver` the connection logic reads or writes.
Multicast delegates are the lists of the handles bound to them; a delegate
handle is a number, `0` being the reset handle. `RenderTarget` is the pooled
render target reference (`0` when released) and `RenderTargetDescriptor` the
size of its descriptor (`none` for the default, invalid descriptor).
`SourceTexture` is the size of the source texture (`none` for a null
reference). `RenderTargetItemDesc` is not a member of the class: it keeps the
descriptor the pool was asked for when it handed out `RenderTarget` (what
`RenderTarget->GetDesc()` returns) and is read only in statements about the
size of the render target. -/
structure UNDIMediaReceiver where
  ConnectionSetting : FNDIConnectionInformation := {}
  Timecode : FTimecode
  FrameRate : FFrameRate
  Resolution : FIntPoint
  ConnectionInformation : FNDIConnectionInformation := {}
  PerformanceData : FNDIReceiverPerformanceData
  OnNDIReceiverConnectedEvent : List Nat := []
  OnNDIReceiverDisconnectedEvent : List Nat := []
  OnNDIReceiverVideoCaptureEvent : List Nat := []
  bIsCurrentlyConnected : Bool := false
  p_receive_instance : Nat := nullptr
  p_framesync_instance : Nat := nullptr
  AudioSourceCollection : List Nat := []
  RenderTargetDescriptor : Option FIntPoint := none
  RenderTarget : Nat := nullptr
  FrameEndRTHandle : Nat := 0
  VideoCaptureEventHandle : Nat := 0
  bSyncTimecodeToSource : Bool := true
  LastFrameTimestamp : Int := 0
  LastFrameFormatType : NDIlib_frame_format_type_e :=
    NDIlib_frame_format_type_e.NDIlib_frame_format_type_max
  SourceTexture : Option FIntPoint := none
  DrawMode : EDrawMode := EDrawMode.Invalid
  RenderTargetItemDesc : Option FIntPoint := none
  deriving DecidableEq, Repr

/-- Whether a multicast delegate has a bound handler, `IsBound`. -/
def IsBound (Delegate : List Nat) : Bool := !Delegate.isEmpty

/-- Removes the binding with the given handle from a multicast delegate; the
reset handle is not valid and removes nothing. -/
def Remove (Delegate : List Nat) (Handle : Nat) : List Nat :=
  if Handle = 0 then Delegate else Delegate.filter (fun h => h != Handle)

namespace UNDIMediaReceiver

/-- Destroys the frame-sync instance and the receive instance, each if held
(`StopConnection`). -/
def StopConnection (self : UNDIMediaReceiver) : UNDIMediaReceiver × List Effect :=
  let e1 := if self.p_framesync_instance != nullptr then
      [Effect.NDIlib_framesync_destroy self.p_framesync_instance] else []
  let s1 := { self with p_framesync_instance := nullptr }
  let e2 := if s1.p_receive_instance != nullptr then
      [Effect.NDIlib_recv_destroy s1.p_receive_instance] else []
  let s2 := { s1 with p_receive_instance := nullptr }
  (s2, e1 ++ e2)

/-- Creates and connects a receive instance for the stored descriptor, then
drops the existing connection and stores the new handles (`StartConnection`).
`receive_instance` is what `NDIlib_recv_create_v3` returns and
`framesync_instance` what `NDIlib_framesync_create` returns. -/
def StartConnection (receive_instance framesync_instance : Nat) (self : UNDIMediaReceiver) :
    UNDIMediaReceiver × List Effect :=
  if self.ConnectionInformation.IsValid then
    let e0 := [Effect.NDIlib_recv_create_v3 true self.ConnectionInformation.toBandwidth
                 receive_instance,
               Effect.NDIlib_recv_connect receive_instance
                 self.ConnectionInformation.GetNDIName self.ConnectionInformation.Url]
    let (s1, e1) := self.StopConnection
    let s2 := { s1 with p_receive_instance := receive_instance }
    let s3 := { s2 with p_framesync_instance := framesync_instance }
    (s3, e0 ++ e1 ++ [Effect.NDIlib_framesync_create s2.p_receive_instance framesync_instance])
  else (self, [])

/-- Changes the connection to another source (`ChangeConnection`); the first two
arguments are the transport results `StartConnection` consumes if it runs. The
string members are compared with `operator!=` of `FString`, the negation of
`FString_Equals`. The local `bMutingChanged` of the source is computed there
and never read; it is left out. -/
def ChangeConnection (receive_instance framesync_instance : Nat) (self : UNDIMediaReceiver)
    (InConnectionInformation : FNDIConnectionInformation) : UNDIMediaReceiver × List Effect :=
  if self.p_receive_instance != nullptr then
    if self.ConnectionInformation.ne InConnectionInformation then
      let bSourceChanged := false
      let bSourceChanged :=
        if !FString_Equals self.ConnectionInformation.SourceName InConnectionInformation.SourceName then
          true
        else bSourceChanged
      let bSourceChanged :=
        if !FString_Equals self.ConnectionInformation.Url InConnectionInformation.Url then
          true
        else bSourceChanged
      let bSourceChanged :=
        if !FString_Equals self.ConnectionInformation.MachineName InConnectionInformation.MachineName then
          true
        else bSourceChanged
      let bSourceChanged :=
        if !FString_Equals self.ConnectionInformation.StreamName InConnectionInformation.StreamName then
          true
        else bSourceChanged
      let bBandwidthChanged := false
      let bBandwidthChanged :=
        if self.ConnectionInformation.Bandwidth != InConnectionInformation.Bandwidth then true
        else bBandwidthChanged
      let s1 := { self with ConnectionInformation := InConnectionInformation }
      if s1.ConnectionInformation.IsValid then
        if bSourceChanged || bBandwidthChanged || (s1.p_receive_instance == nullptr) ||
            (s1.p_framesync_instance == nullptr) then
          s1.StartConnection receive_instance framesync_instance
        else (s1, [])
      else s1.StopConnection
    else (self, [])
  else (self, [])

/-- Records a connection state and schedules the matching notification on the
game thread when the state changes (`SetIsCurrentlyConnected`). -/
def SetIsCurrentlyConnected (self : UNDIMediaReceiver) (bConnected : Bool) :
    UNDIMediaReceiver × List Effect :=
  if bConnected != self.bIsCurrentlyConnected then
    if bConnected != self.bIsCurrentlyConnected then
      let s1 := { self with bIsCurrentlyConnected := bConnected }
      if bConnected == true then
        if IsBound s1.OnNDIReceiverConnectedEvent then
          (s1, [Effect.AsyncTask_OnNDIReceiverConnectedEvent_Broadcast])
        else (s1, [])
      else
        if IsBound s1.OnNDIReceiverDisconnectedEvent then
          (s1, [Effect.AsyncTask_OnNDIReceiverDisconnectedEvent_Broadcast])
        else (s1, [])
    else (self, [])
  else (self, [])

/-- The loop of `Shutdown` over the moved-out audio source collection:
`iter` runs from `source_count - 1` down to `0` (the first argument is
`iter + 1`); a non-null entry is removed and told to drop its source. -/
def ShutdownAudioLoop : Nat → List Nat → List Effect
  | 0, _ => []
  | iter + 1, OldAudioSourceCollection =>
    let AudioWave := OldAudioSourceCollection.getD iter nullptr
    if AudioWave != nullptr then
      Effect.SetConnectionSource AudioWave nullptr ::
        ShutdownAudioLoop iter (OldAudioSourceCollection.eraseIdx iter)
    else ShutdownAudioLoop iter OldAudioSourceCollection

/-- Stops receiving and resets the receiver (`Shutdown`). The render command
is embedded as run at once. `SetConnectionSource(nullptr)` may call back
`UnregisterAudioWave`, which removes the wave from the collection that has
already been emptied. -/
def Shutdown (self : UNDIMediaReceiver) : UNDIMediaReceiver × List Effect :=
  let s := { self with RenderTarget := nullptr, RenderTargetDescriptor := none }
  let s := { s with OnNDIReceiverVideoCaptureEvent :=
                      Remove s.OnNDIReceiverVideoCaptureEvent s.VideoCaptureEventHandle }
  let s := { s with VideoCaptureEventHandle := 0 }
  let e1 := [Effect.OnEndFrameRT_Remove s.FrameEndRTHandle]
  let s := { s with FrameEndRTHandle := 0 }
  let OldAudioSourceCollection := s.AudioSourceCollection
  let s := { s with AudioSourceCollection := [] }
  let source_count := OldAudioSourceCollection.length
  let e2 := ShutdownAudioLoop source_count OldAudioSourceCollection
  let (s, e3) :=
    if s.p_receive_instance != nullptr then
      let (s, e) :=
        if s.p_framesync_instance != nullptr then
          ({ s with p_framesync_instance := nullptr },
            [Effect.NDIlib_framesync_destroy s.p_framesync_instance])
        else (s, [])
      ({ s with p_receive_instance := nullptr },
        e ++ [Effect.NDIlib_recv_destroy s.p_receive_instance])
    else (s, [])
  let (s, e4) := s.SetIsCurrentlyConnected false
  let s := { s with ConnectionInformation := s.ConnectionInformation.Reset }
  let s := { s with PerformanceData := s.PerformanceData.Reset }
  let s := { s with FrameRate := { Numerator := 60, Denominator := 1 } }
  let s := { s with Resolution := { X := 0, Y := 0 } }
  let s := { s with Timecode := { InSeconds := 0, InFrameRate := s.FrameRate,
                                  InbDropFrame := true, InbRollover := true } }
  (s, e1 ++ e2 ++ e3 ++ e4)

/-- Runs `SetIsCurrentlyConnected` for each value of a list in turn, collecting
the scheduled notifications. -/
def SetIsCurrentlyConnectedSeq (self : UNDIMediaReceiver) :
    List Bool → UNDIMediaReceiver × List Effect
  | [] => (self, [])
  | b :: bs =>
    let (s1, e1) := self.SetIsCurrentlyConnected b
    let (s2, e2) := s1.SetIsCurrentlyConnectedSeq bs
    (s2, e1 ++ e2)

end UNDIMediaReceiver

/-- Number of positions of `prev, b1, ..., bn` at which the value goes from
`false` to `true`. -/
def risingEdges : Bool → List Bool → Nat
  | _, [] => 0
  | prev, b :: bs => (if !prev && b then 1 else 0) + risingEdges b bs

/-- Number of positions of `prev, b1, ..., bn` at which the value goes from
`true` to `false`. -/
def fallingEdges : Bool → List Bool → Nat
  | _, [] => 0
  | prev, b :: bs => (if prev && !b then 1 else 0) + fallingEdges b bs

/-! ## Readback ring (`UNDIMediaSender::MappedTexture`, `MappedTextureASyncSender`) -/

/-- Ways an operation of the ring ends other than by returning: a `check`
assertion that fires, or `MappedTextures` indexed outside its two elements. -/
inductive Fault where
  | check
  | index
  deriving DecidableEq, Repr

/-- The engine assertion `check(condition)`. -/
def check (condition : Bool) : Except Fault Unit :=
  if condition then pure () else throw Fault.check

/-- The call `NDIlib_send_send_video_async_v2(p_send_instance, frame)`, the only
transport call of the ring; `p_video_data` is `none` for the null frame and
otherwise the data pointer and the metadata (`none` for a null `p_metadata`)
of the frame. -/
structure SendCall where
  p_send_instance : Nat
  p_video_data : Option (Nat × Option String)
  deriving DecidableEq, Repr

/-- A texture with CPU readback. `Texture` is the size of the texture
referenced (`none` for an invalid reference), `pData` the mapped pointer. Calls
to the render hardware interface only show as changes of these members; a
texture creation is taken to succeed. -/
structure MappedTexture where
  Texture : Option FIntPoint := none
  pData : Nat := nullptr
  MetaData : String := ""
  deriving DecidableEq, Repr

namespace MappedTexture

/-- Releases the readback texture; the texture must not be mapped (`Destroy`). -/
def Destroy (self : MappedTexture) : Except Fault MappedTexture := do
  check (self.pData == nullptr)
  let s := if self.Texture.isSome then { self with Texture := none } else self
  let s := { s with pData := nullptr }
  check (s.Texture.isSome == false)
  check (s.pData == nullptr)
  pure s

/-- Creates the readback texture, destroying an existing one first (`Create`). -/
def Create (self : MappedTexture) (InFrameSize : FIntPoint) : Except Fault MappedTexture := do
  let s ← self.Destroy
  check (s.Texture.isSome == false)
  check (s.pData == nullptr)
  let s := { s with Texture := some InFrameSize }
  let s := { s with pData := nullptr }
  check (s.Texture.isSome == true)
  check (s.pData == nullptr)
  pure s

/-- Size of the texture, the zero point when there is none (`GetSizeXY`). -/
def GetSizeXY (self : MappedTexture) : FIntPoint :=
  match self.Texture with
  | some size => size
  | none => { X := 0, Y := 0 }

/-- Copies the source texture into the readback texture (`Resolve`); the
content of textures is not modelled. -/
def Resolve (self : MappedTexture) (SourceTextureRHI : Nat) : Except Fault MappedTexture := do
  check (self.Texture.isSome == true)
  check (self.pData == nullptr)
  check (SourceTextureRHI != nullptr)
  pure self

/-- Maps the readback texture (`Map`). `pMapped` is the pointer
`MapStagingSurface` hands back; the surface size reported is the texture size.
Returns the texture with `OutWidth` and `OutHeight`. -/
def Map (self : MappedTexture) (pMapped : Nat) : Except Fault (MappedTexture × Int × Int) := do
  check (self.Texture.isSome == true)
  check (self.pData == nullptr)
  let s := { self with pData := pMapped }
  check (s.pData != nullptr)
  pure (s, s.GetSizeXY.X, s.GetSizeXY.Y)

/-- Pointer to the mapped content (`MappedData`). -/
def MappedData (self : MappedTexture) : Except Fault Nat := do
  check (self.pData != nullptr)
  pure self.pData

/-- Unmaps the texture if it is mapped and clears its metadata (`Unmap`). -/
def Unmap (self : MappedTexture) : Except Fault MappedTexture := do
  let s ←
    if self.pData != nullptr then do
      check (self.Texture.isSome == true)
      pure { self with pData := nullptr }
    else pure self
  let s := { s with MetaData := "" }
  check (s.pData == nullptr)
  pure s

/-- Appends to the metadata of the texture (`AddMetaData`). -/
def AddMetaData (self : MappedTexture) (Data : FString) : MappedTexture :=
  { self with MetaData := self.MetaData ++ Data }

/-- Metadata of the texture (`GetMetaData`). -/
def GetMetaData (self : MappedTexture) : String := self.MetaData

end MappedTexture

/-- The double-buffered sender: two readback textures and the index of the
current one. -/
structure MappedTextureASyncSender where
  MappedTextures : MappedTexture × MappedTexture := ({}, {})
  CurrentIndex : Int := 0
  deriving DecidableEq, Repr

namespace MappedTextureASyncSender

/-- Reads `MappedTextures[i]`. -/
def get (self : MappedTextureASyncSender) (i : Int) : Except Fault MappedTexture :=
  if i = 0 then pure self.MappedTextures.1
  else if i = 1 then pure self.MappedTextures.2
  else throw Fault.index

/-- Writes `MappedTextures[i]`. -/
def set (self : MappedTextureASyncSender) (i : Int) (t : MappedTexture) :
    Except Fault MappedTextureASyncSender :=
  if i = 0 then pure { self with MappedTextures := (t, self.MappedTextures.2) }
  else if i = 1 then pure { self with MappedTextures := (self.MappedTextures.1, t) }
  else throw Fault.index

/-- Destroys both textures; none may be mapped (`Destroy`). -/
def Destroy (self : MappedTextureASyncSender) : Except Fault MappedTextureASyncSender := do
  let CurrentMappedTexture ← self.get self.CurrentIndex
  let s ← self.set self.CurrentIndex (← CurrentMappedTexture.Destroy)
  let PreviousMappedTexture ← s.get (1 - s.CurrentIndex)
  s.set (1 - s.CurrentIndex) (← PreviousMappedTexture.Destroy)

/-- Destroys, then creates both textures (`Create`). -/
def Create (self : MappedTextureASyncSender) (InFrameSize : FIntPoint) :
    Except Fault MappedTextureASyncSender := do
  let s ← self.Destroy
  let CurrentMappedTexture ← s.get s.CurrentIndex
  let s ← s.set s.CurrentIndex (← CurrentMappedTexture.Create InFrameSize)
  let PreviousMappedTexture ← s.get (1 - s.CurrentIndex)
  s.set (1 - s.CurrentIndex) (← PreviousMappedTexture.Create InFrameSize)

/-- Size of the current texture (`GetSizeXY`). -/
def GetSizeXY (self : MappedTextureASyncSender) : Except Fault FIntPoint := do
  let CurrentMappedTexture ← self.get self.CurrentIndex
  pure CurrentMappedTexture.GetSizeXY

/-- Resolves the source texture to the current texture (`Resolve`). -/
def Resolve (self : MappedTextureASyncSender) (SourceTextureRHI : Nat) :
    Except Fault MappedTextureASyncSender := do
  let CurrentMappedTexture ← self.get self.CurrentIndex
  self.set self.CurrentIndex (← CurrentMappedTexture.Resolve SourceTextureRHI)

/-- Maps the current texture (`Map`); returns the ring with `OutWidth` and
`OutHeight`. -/
def Map (self : MappedTextureASyncSender) (pMapped : Nat) :
    Except Fault (MappedTextureASyncSender × Int × Int) := do
  let CurrentMappedTexture ← self.get self.CurrentIndex
  let (t, OutWidth, OutHeight) ← CurrentMappedTexture.Map pMapped
  pure (← self.set self.CurrentIndex t, OutWidth, OutHeight)

/-- Sends the current texture asynchronously, unmaps the previous one and
swaps the two (`Send`). -/
def Send (self : MappedTextureASyncSender) (p_send_instance_in : Nat) :
    Except Fault (MappedTextureASyncSender × List SendCall) := do
  check (p_send_instance_in != nullptr)
  let CurrentMappedTexture ← self.get self.CurrentIndex
  let p_data ← CurrentMappedTexture.MappedData
  let MetaData := CurrentMappedTexture.GetMetaData
  let p_metadata := if MetaData.isEmpty == false then some MetaData else none
  let call : SendCall :=
    { p_send_instance := p_send_instance_in, p_video_data := some (p_data, p_metadata) }
  let PreviousMappedTexture ← self.get (1 - self.CurrentIndex)
  let s ← self.set (1 - self.CurrentIndex) (← PreviousMappedTexture.Unmap)
  pure ({ s with CurrentIndex := 1 - s.CurrentIndex }, [call])

/-- Sends a null frame, unmaps both textures and swaps them (`Flush`). -/
def Flush (self : MappedTextureASyncSender) (p_send_instance_in : Nat) :
    Except Fault (MappedTextureASyncSender × List SendCall) := do
  check (p_send_instance_in != nullptr)
  let call : SendCall := { p_send_instance := p_send_instance_in, p_video_data := none }
  let PreviousMappedTexture ← self.get (1 - self.CurrentIndex)
  let s ← self.set (1 - self.CurrentIndex) (← PreviousMappedTexture.Unmap)
  let CurrentMappedTexture ← s.get s.CurrentIndex
  let s ← s.set s.CurrentIndex (← CurrentMappedTexture.Unmap)
  pure ({ s with CurrentIndex := 1 - s.CurrentIndex }, [call])

/-- Adds metadata to the current texture (`AddMetaData`). -/
def AddMetaData (self : MappedTextureASyncSender) (Data : FString) :
    Except Fault MappedTextureASyncSender := do
  let CurrentMappedTexture ← self.get self.CurrentIndex
  self.set self.CurrentIndex (CurrentMappedTexture.AddMetaData Data)

/-- Number of slots of the ring that are mapped. -/
def mappedCount (self : MappedTextureASyncSender) : Nat :=
  (if self.MappedTextures.1.pData != nullptr then 1 else 0) +
  (if self.MappedTextures.2.pData != nullptr then 1 else 0)

/-- State invariant of the ring: the index is 0 or 1 and a mapped slot has a
texture. -/
def WellFormed (self : MappedTextureASyncSender) : Bool :=
  (self.CurrentIndex == 0 || self.CurrentIndex == 1) &&
  (self.MappedTextures.1.pData == nullptr || self.MappedTextures.1.Texture.isSome) &&
  (self.MappedTextures.2.pData == nullptr || self.MappedTextures.2.Texture.isSome)

/-- Both textures of the ring have been created. -/
def Created (self : MappedTextureASyncSender) : Bool :=
  self.MappedTextures.1.Texture.isSome && self.MappedTextures.2.Texture.isSome

/-- Mapped pointer of the slot with index `i` (of the second slot for every
index other than 0). -/
def pDataAt (self : MappedTextureASyncSender) (i : Int) : Nat :=
  if i = 0 then self.MappedTextures.1.pData else self.MappedTextures.2.pData

/-- Metadata of the slot with index `i` (of the second slot for every index
other than 0). -/
def metaDataAt (self : MappedTextureASyncSender) (i : Int) : String :=
  if i = 0 then self.MappedTextures.1.MetaData else self.MappedTextures.2.MetaData

/-- The ring after a successful `Send`: the slot that was not current is
unmapped with its metadata cleared, the index is swapped. -/
def afterSend (self : MappedTextureASyncSender) : MappedTextureASyncSender :=
  { MappedTextures :=
      if self.CurrentIndex = 0 then
        (self.MappedTextures.1, { self.MappedTextures.2 with pData := nullptr, MetaData := "" })
      else
        ({ self.MappedTextures.1 with pData := nullptr, MetaData := "" }, self.MappedTextures.2),
    CurrentIndex := 1 - self.CurrentIndex }

/-- The ring after a successful `Map` that was handed the pointer `pMapped`. -/
def afterMap (self : MappedTextureASyncSender) (pMapped : Nat) : MappedTextureASyncSender :=
  { self with MappedTextures :=
      if self.CurrentIndex = 0 then
        ({ self.MappedTextures.1 with pData := pMapped }, self.MappedTextures.2)
      else
        (self.MappedTextures.1, { self.MappedTextures.2 with pData := pMapped }) }

/-- The state at the start of a cycle: well formed, both textures created,
current slot not mapped. -/
def Ready (self : MappedTextureASyncSender) : Bool :=
  self.WellFormed && self.Created && self.pDataAt self.CurrentIndex == nullptr

end MappedTextureASyncSender

/-- What one send cycle takes from its surroundings: the texture to resolve
from, the pointer the map call hands back, and the send instance. -/
structure CycleInput where
  SourceTextureRHI : Nat
  pMapped : Nat
  p_send_instance : Nat
  deriving DecidableEq, Repr

/-- A cycle input without null pointer. -/
def CycleInput.NonNull (i : CycleInput) : Bool :=
  i.SourceTextureRHI != nullptr && i.pMapped != nullptr && i.p_send_instance != nullptr

/-- Runs consecutive `Resolve`, `Map`, `Send` cycles (as `TrySendVideoFrame`
does through `DrawRenderTarget`) and returns the ring state after every single
call, in order. -/
def runCycles : MappedTextureASyncSender → List CycleInput →
    Except Fault (List MappedTextureASyncSender)
  | _, [] => pure []
  | s, i :: rest => do
    let s1 ← s.Resolve i.SourceTextureRHI
    let (s2, _, _) ← s1.Map i.pMapped
    let (s3, _) ← s2.Send i.p_send_instance
    let states ← runCycles s3 rest
    pure (s1 :: s2 :: s3 :: states)

/-- Numbers of mapped slots after each call of `n` cycles that start with `m`
slots mapped. -/
def cycleCounts : Nat → Nat → List Nat
  | _, 0 => []
  | m, n + 1 => m :: (m + 1) :: 1 :: cycleCounts 1 n

/-- The ring of a newly constructed sender. -/
def newRing : MappedTextureASyncSender := {}

/-- The ring `Create` makes of the new ring for 960 by 1080 readback textures. -/
def createdRing : MappedTextureASyncSender :=
  { MappedTextures := ({ Texture := some { X := 960, Y := 1080 } },
                       { Texture := some { X := 960, Y := 1080 } }),
    CurrentIndex := 0 }

/-- The created ring with its current slot mapped at pointer 100. -/
def mappedRing : MappedTextureASyncSender :=
  { MappedTextures := ({ Texture := some { X := 960, Y := 1080 }, pData := 100,
                         MetaData := "<a/>" },
                       { Texture := some { X := 960, Y := 1080 } }),
    CurrentIndex := 0 }

/-- A cycle input used in the concrete checks. -/
def sampleCycle (pMapped : Nat) : CycleInput :=
  { SourceTextureRHI := 7, pMapped := pMapped, p_send_instance := 9 }

/-! ## States used in the concrete checks -/

/-- A small connected receiver used in the concrete checks. -/
def sampleReceiver : UNDIMediaReceiver :=
  { Timecode := { InSeconds := 7, InFrameRate := { Numerator := 30, Denominator := 1 },
                  InbDropFrame := false, InbRollover := true },
    FrameRate := { Numerator := 30, Denominator := 1 },
    Resolution := { X := 1920, Y := 1080 },
    ConnectionInformation := { SourceName := "A (Cam1)" },
    PerformanceData := { AudioFrames := 3, DroppedAudioFrames := 0, DroppedMetadataFrames := 0,
                         DroppedVideoFrames := 1, MetadataFrames := 2, VideoFrames := 9 },
    OnNDIReceiverConnectedEvent := [1],
    OnNDIReceiverDisconnectedEvent := [2],
    OnNDIReceiverVideoCaptureEvent := [5, 6],
    bIsCurrentlyConnected := true,
    p_receive_instance := 11,
    p_framesync_instance := 12,
    AudioSourceCollection := [21, 0, 22],
    RenderTargetDescriptor := some { X := 1920, Y := 1080 },
    RenderTarget := 31,
    FrameEndRTHandle := 41,
    VideoCaptureEventHandle := 5 }

/-- The receiver as `Initialize` leaves it when given an invalid descriptor: a
non-connected receive instance, no frame-sync instance, default descriptor. -/
def unconnectedReceiver : UNDIMediaReceiver :=
  { Timecode := { InSeconds := 0, InFrameRate := { Numerator := 60, Denominator := 1 },
                  InbDropFrame := true, InbRollover := true },
    FrameRate := { Numerator := 60, Denominator := 1 },
    Resolution := { X := 0, Y := 0 },
    PerformanceData := { AudioFrames := 0, DroppedAudioFrames := 0, DroppedMetadataFrames := 0,
                         DroppedVideoFrames := 0, MetadataFrames := 0, VideoFrames := 0 },
    p_receive_instance := 11 }

/-- The non-connected receiver with one observer bound to each connection event. -/
def observedReceiver : UNDIMediaReceiver :=
  { unconnectedReceiver with OnNDIReceiverConnectedEvent := [1],
                             OnNDIReceiverDisconnectedEvent := [2] }

/-- A receiver that holds no transport handle (never initialised, or stopped). -/
def idleReceiver : UNDIMediaReceiver :=
  { unconnectedReceiver with p_receive_instance := nullptr }

/-! ## Video capture (`CaptureConnectedVideo`, `DisplayFrame`) -/

/-- What one call of `CaptureConnectedVideo` takes from its surroundings: the
frame the frame-sync hands back, the two counter sets of the performance query
and the current time of day in ticks. -/
structure VideoCaptureInput where
  video_frame : NDIlib_video_frame_v2_t
  stable_performance : NDIlib_recv_performance_t
  dropped_performance : NDIlib_recv_performance_t
  SystemTime : Int
  deriving DecidableEq, Repr

namespace UNDIMediaReceiver

/-- Copies the frame counters of the transport into the performance data
(`GatherPerformanceMetrics`). -/
def GatherPerformanceMetrics (self : UNDIMediaReceiver)
    (stable_performance dropped_performance : NDIlib_recv_performance_t) :
    UNDIMediaReceiver × List Effect :=
  ({ self with PerformanceData :=
       { AudioFrames := stable_performance.audio_frames,
         DroppedAudioFrames := dropped_performance.audio_frames,
         DroppedMetadataFrames := dropped_performance.metadata_frames,
         DroppedVideoFrames := dropped_performance.video_frames,
         MetadataFrames := stable_performance.metadata_frames,
         VideoFrames := stable_performance.video_frames } },
   [Effect.NDIlib_recv_get_performance self.p_receive_instance])

/-- Captures a video frame and forwards it when it is new
(`CaptureConnectedVideo`); returns the receiver, `bHaveCaptured` and the
outward calls. `FromTimespan ticks rate` stands for the engine expression
`FTimecode::FromTimespan(FTimespan::FromSeconds(ticks / 1e+7), rate,
FTimecode::IsDropFormatTimecodeSupported(rate), true)`. -/
def CaptureConnectedVideo (FromTimespan : Int → FFrameRate → FTimecode)
    (self : UNDIMediaReceiver) (input : VideoCaptureInput) :
    UNDIMediaReceiver × Bool × List Effect :=
  let bHaveCaptured := false
  if self.p_framesync_instance != nullptr && self.ConnectionInformation.bMuteVideo == false then
    let video_frame := input.video_frame
    let e0 := [Effect.NDIlib_framesync_capture_video self.p_framesync_instance]
    let (s, e1) := self.GatherPerformanceMetrics input.stable_performance input.dropped_performance
    let (s, bHaveCaptured, e2) :=
      if video_frame.p_data != nullptr then
        let (s, ec) := s.SetIsCurrentlyConnected true
        let s := { s with FrameRate := { Numerator := video_frame.frame_rate_N,
                                         Denominator := video_frame.frame_rate_D } }
        let s := { s with Resolution := { X := video_frame.xres, Y := video_frame.yres } }
        let s :=
          if s.bSyncTimecodeToSource then
            let SourceTime := Int.tmod video_frame.timecode 864000000000
            { s with Timecode := FromTimespan SourceTime s.FrameRate }
          else
            { s with Timecode := FromTimespan input.SystemTime s.FrameRate }
        if video_frame.timestamp == NDIlib_recv_timestamp_undefined ||
            video_frame.timestamp != s.LastFrameTimestamp ||
            video_frame.frame_format_type != s.LastFrameFormatType then
          let s := { s with LastFrameTimestamp := video_frame.timestamp }
          let s := { s with LastFrameFormatType := video_frame.frame_format_type }
          let eb := [Effect.OnNDIReceiverVideoCaptureEvent_Broadcast video_frame,
                     Effect.OnReceiverVideoReceived_Broadcast] ++
            (match video_frame.p_metadata with
             | some Data => [Effect.OnReceiverMetaDataReceived_Broadcast Data true]
             | none => [])
          (s, true, ec ++ eb)
        else (s, bHaveCaptured, ec)
      else (s, bHaveCaptured, [])
    (s, bHaveCaptured,
      e0 ++ e1 ++ e2 ++ [Effect.NDIlib_framesync_free_video self.p_framesync_instance])
  else (self, bHaveCaptured, [])

/-- Dispatches a frame to the draw function for its format (`DisplayFrame`).
The four draw functions are a parameter: `Draw mode frame` is the texture the
draw function of that mode returns. Returns the texture (`nullptr` when
nothing is drawn) and the draw functions called. -/
def DisplayFrame (Draw : EDrawMode → NDIlib_video_frame_v2_t → Nat)
    (video_frame : NDIlib_video_frame_v2_t) : Nat × List EDrawMode :=
  match video_frame.frame_format_type with
  | NDIlib_frame_format_type_e.NDIlib_frame_format_type_progressive =>
    if video_frame.FourCC = NDIlib_FourCC_video_type_e.NDIlib_FourCC_video_type_UYVY then
      (Draw EDrawMode.Progressive video_frame, [EDrawMode.Progressive])
    else if video_frame.FourCC = NDIlib_FourCC_video_type_e.NDIlib_FourCC_video_type_UYVA then
      (Draw EDrawMode.ProgressiveAlpha video_frame, [EDrawMode.ProgressiveAlpha])
    else (nullptr, [])
  | NDIlib_frame_format_type_e.NDIlib_frame_format_type_field_0
  | NDIlib_frame_format_type_e.NDIlib_frame_format_type_field_1 =>
    if video_frame.FourCC = NDIlib_FourCC_video_type_e.NDIlib_FourCC_video_type_UYVY then
      (Draw EDrawMode.Interlaced video_frame, [EDrawMode.Interlaced])
    else if video_frame.FourCC = NDIlib_FourCC_video_type_e.NDIlib_FourCC_video_type_UYVA then
      (Draw EDrawMode.InterlacedAlpha video_frame, [EDrawMode.InterlacedAlpha])
    else (nullptr, [])
  | _ => (nullptr, [])

end UNDIMediaReceiver

/-- A media texture sample of the player (`NDIMediaTextureSample`); `Data` is
the number of bytes held by the byte vector of the sample. -/
structure NDIMediaTextureSample where
  VideoFrame : Option NDIlib_video_frame_v2_t := none
  Receiver : Nat := nullptr
  Time : Int := 0
  Data : Int := 0
  deriving DecidableEq, Repr

/-- Copies a frame into the sample (`NDIMediaTextureSample::Initialize`);
`Data_data` is the address of the byte vector after the copy. Returns the
sample and the result. -/
def NDIMediaTextureSample.Initialize (self : NDIMediaTextureSample)
    (InVideoFrame : NDIlib_video_frame_v2_t) (InTime : Int) (InReceiver : Nat)
    (Data_data : Nat) : NDIMediaTextureSample × Bool :=
  let s := { self with VideoFrame := some InVideoFrame }
  let s := { s with Receiver := InReceiver }
  let s := { s with Time := InTime }
  if InVideoFrame.FourCC = NDIlib_FourCC_video_type_e.NDIlib_FourCC_video_type_UYVY then
    let s := { s with Data := InVideoFrame.line_stride_in_bytes * InVideoFrame.yres }
    ({ s with VideoFrame := some { InVideoFrame with p_data := Data_data } }, true)
  else if InVideoFrame.FourCC = NDIlib_FourCC_video_type_e.NDIlib_FourCC_video_type_UYVA then
    let s := { s with Data := InVideoFrame.line_stride_in_bytes * InVideoFrame.yres +
                               InVideoFrame.xres * InVideoFrame.yres }
    ({ s with VideoFrame := some { InVideoFrame with p_data := Data_data } }, true)
  else (s, false)

/-- Hands a frame to the sample queue of the player
(`FNDIMediaPlayer::DisplayFrame`): a sample acquired from the pool is
initialised and added to `Samples` when that succeeds. -/
def FNDIMediaPlayer_DisplayFrame (Samples : List NDIMediaTextureSample)
    (TextureSample : NDIMediaTextureSample) (video_frame : NDIlib_video_frame_v2_t)
    (Time : Int) (Receiver : Nat) (Data_data : Nat) : List NDIMediaTextureSample :=
  let (TextureSample, result) := TextureSample.Initialize video_frame Time Receiver Data_data
  if result then Samples ++ [TextureSample] else Samples

/-! ## Metadata attached to video frames -/

/-- The two calls a sender makes on its ring between reconfigurations: attach
metadata to the next frame, or run one `Resolve`, `Map`, `Send` cycle. -/
inductive RingOp where
  | AddMetaData (Data : FString)
  | SendCycle (i : CycleInput)
  deriving DecidableEq, Repr

/-- Runs a sequence of ring calls and collects the transport sends. -/
def runOps : MappedTextureASyncSender → List RingOp →
    Except Fault (MappedTextureASyncSender × List SendCall)
  | s, [] => pure (s, [])
  | s, RingOp.AddMetaData Data :: rest => do
    let s1 ← s.AddMetaData Data
    runOps s1 rest
  | s, RingOp.SendCycle i :: rest => do
    let s1 ← s.Resolve i.SourceTextureRHI
    let (s2, _, _) ← s1.Map i.pMapped
    let (s3, calls) ← s2.Send i.p_send_instance
    let (s4, more) ← runOps s3 rest
    pure (s4, calls ++ more)

/-- The frames the specification expects from a sequence of ring calls: every
send carries the pointer mapped in its cycle and the concatenation, in order,
of the strings attached since the previous send (`pending`), as null metadata
when that is empty. -/
def expectedSends : String → List RingOp → List SendCall
  | _, [] => []
  | pending, RingOp.AddMetaData Data :: rest => expectedSends (pending ++ Data) rest
  | pending, RingOp.SendCycle i :: rest =>
    { p_send_instance := i.p_send_instance,
      p_video_data := some (i.pMapped, if pending.isEmpty then none else some pending) } ::
      expectedSends "" rest

/-- The send cycles of a sequence of ring calls have no null input. -/
def RingOp.NonNull : RingOp → Bool
  | RingOp.AddMetaData _ => true
  | RingOp.SendCycle i => i.NonNull

/-- The created ring with both slots mapped, as between `Map` and `Send` of a
second cycle. -/
def bothMappedRing : MappedTextureASyncSender :=
  { MappedTextures := ({ Texture := some { X := 960, Y := 1080 }, pData := 100 },
                       { Texture := some { X := 960, Y := 1080 }, pData := 200 }),
    CurrentIndex := 1 }

/-- A timecode function used in the concrete checks: keeps the ticks and the
rate. -/
def sampleFromTimespan (ticks : Int) (rate : FFrameRate) : FTimecode :=
  { InSeconds := ticks, InFrameRate := rate, InbDropFrame := false, InbRollover := true }

/-- A capture input whose frame has data but no timestamp. -/
def untimedCapture : VideoCaptureInput :=
  { video_frame :=
      { xres := 1920, yres := 1080,
        FourCC := NDIlib_FourCC_video_type_e.NDIlib_FourCC_video_type_UYVY,
        frame_rate_N := 30, frame_rate_D := 1,
        frame_format_type := NDIlib_frame_format_type_e.NDIlib_frame_format_type_progressive,
        timecode := 0, p_data := 500, line_stride_in_bytes := 3840, p_metadata := none,
        timestamp := NDIlib_recv_timestamp_undefined },
    stable_performance := { video_frames := 1, audio_frames := 0, metadata_frames := 0 },
    dropped_performance := { video_frames := 0, audio_frames := 0, metadata_frames := 0 },
    SystemTime := 0 }

/-- A capture input whose frame has data and the timestamp 1000. -/
def timedCapture : VideoCaptureInput :=
  { untimedCapture with
    video_frame := { untimedCapture.video_frame with timestamp := 1000 } }

/-- A frame in a pixel format the receiver does not draw. -/
def bgraFrame : NDIlib_video_frame_v2_t :=
  { untimedCapture.video_frame with
    FourCC := NDIlib_FourCC_video_type_e.NDIlib_FourCC_video_type_BGRA }

/-! ## Audio conversion (`GeneratePCMData`) -/

/-- The operations on `float` values the audio conversion uses: conversion
from an integer (also used for float constants), addition, multiplication,
division and `FMath::RoundToInt`. The conversion code is embedded for an
arbitrary arithmetic of this kind. -/
structure FloatArith (F : Type) where
  ofInt : Int → F
  add : F → F → F
  mul : F → F → F
  div : F → F → F
  RoundToInt : F → Int

/-- Exact arithmetic on the rationals, with rounding to the nearest integer,
halves upwards (`FMath::RoundToInt` is the floor of the value plus one
half). -/
def exactArith : FloatArith ℚ :=
  { ofInt := fun n => (n : ℚ),
    add := fun x y => x + y,
    mul := fun x y => x * y,
    div := fun x y => x / y,
    RoundToInt := fun x => ⌊x + 1 / 2⌋ }

/-- The loop `for (k = lo; k < lo + n; ++k) body(k)`, run on a state: the
second argument is the number of iterations. -/
def forLoop {σ : Type} (lo : Nat) : Nat → (Nat → σ → σ) → σ → σ
  | 0, _, s => s
  | n + 1, body, s => body (lo + n) (forLoop lo n body s)

/-- An audio frame as the frame-sync hands it over (`NDIlib_audio_frame_v2_t`).
`p_data c i` is the float at `p_data + c * channel_stride_in_bytes` with index
`i`, sample `i` of channel `c`; the channels are taken not to overlap. Counts
are natural numbers. -/
structure NDIlib_audio_frame_v2_t (F : Type) where
  sample_rate : Int
  no_channels : Nat
  no_samples : Nat
  p_data : Nat → Nat → F

/-- The members of the sound wave the conversion reads (`UNDIMediaSoundWave`),
with the values its constructor sets. -/
structure UNDIMediaSoundWave where
  NumChannels : Nat := 1
  SampleRate : Int := 48000
  deriving DecidableEq, Repr

/-- Lower bound of `int16`. -/
def INT16_MIN : Int := -32768

/-- Upper bound of `int16`. -/
def INT16_MAX : Int := 32767

/-- The clamp of an `int32` sample to `int16`:
`sample_int32 < INT16_MIN ? INT16_MIN : sample_int32 > INT16_MAX ? INT16_MAX : sample_int32`. -/
def clampToInt16 (sample_int32 : Int) : Int :=
  if sample_int32 < INT16_MIN then INT16_MIN
  else if sample_int32 > INT16_MAX then INT16_MAX
  else sample_int32

/-- Conversion of a float sample: `FMath::RoundToInt(x * 32767.0f)`, clamped. -/
def convertSample {F : Type} (A : FloatArith F) (x : F) : Int :=
  clampToInt16 (A.RoundToInt (A.mul x (A.ofInt 32767)))

/-- The two stores `pcm_data[0] = sample & 0xff; pcm_data[1] = (sample >> 8) & 0xff`
at byte offset `offset` of the PCM buffer. The buffer is a map from byte
offsets to byte values; for the two's complement `sample`, `& 0xff` is the
remainder modulo 256 and `>> 8` the floor of the quotient by 256. -/
def storeSample (PCMData : Nat → Nat) (offset : Nat) (sample : Int) : Nat → Nat :=
  Function.update (Function.update PCMData offset (sample % 256).toNat)
    (offset + 1) ((sample / 256) % 256).toNat

/-- Writes sample `i` of channel `c` of the frame data. -/
def setSample {F : Type} (p_data : Nat → Nat → F) (c i : Nat) (v : F) : Nat → Nat → F :=
  fun c1 i1 => if c1 = c ∧ i1 = i then v else p_data c1 i1

/-- `FMemory::Memset(PCMData, 0, Count)`. -/
def Memset0 (PCMData : Nat → Nat) (Count : Nat) : Nat → Nat :=
  fun a => if a < Count then 0 else PCMData a

/-- The conversion loop the three branches of `GeneratePCMData` share: for each
of the first `channels` channels and each sample of the frame, `value` of the
channel and sample is converted and stored at `channel_index * sizeof(int16)`
plus `sample_index` steps of `requested_no_channels * sizeof(int16)`. -/
def ConvertToPCM {F : Type} (A : FloatArith F) (channels no_samples requested_no_channels : Nat)
    (value : Nat → Nat → F) (PCMData : Nat → Nat) : Nat → Nat :=
  forLoop 0 channels (fun channel_index PCMData =>
    forLoop 0 no_samples (fun sample_index PCMData =>
      storeSample PCMData (channel_index * 2 + sample_index * (requested_no_channels * 2))
        (convertSample A (value channel_index sample_index))) PCMData) PCMData

/-- The first loop nest of the branch for more source than requested channels:
every extra source channel is added, in place, to every common channel. -/
def AddExtraChannels {F : Type} (A : FloatArith F) (requested_no_channels : Nat)
    (audio_frame : NDIlib_audio_frame_v2_t F) : Nat → Nat → F :=
  forLoop requested_no_channels (audio_frame.no_channels - requested_no_channels)
    (fun src_channel_index p_data =>
      forLoop 0 requested_no_channels (fun dst_channel_index p_data =>
        forLoop 0 audio_frame.no_samples (fun sample_index p_data =>
          setSample p_data dst_channel_index sample_index
            (A.add (p_data dst_channel_index sample_index)
              (p_data src_channel_index sample_index))) p_data) p_data)
    audio_frame.p_data

/-- The second loop nest of the branch for fewer source than requested
channels: per sample, the source channels are summed from `0.f`, the sum is
divided by their number, converted, and stored in every extra channel. -/
def FillExtraChannels {F : Type} (A : FloatArith F) (requested_no_channels : Nat)
    (audio_frame : NDIlib_audio_frame_v2_t F) (PCMData : Nat → Nat) : Nat → Nat :=
  forLoop 0 audio_frame.no_samples (fun sample_index PCMData =>
    let sample_value := forLoop 0 audio_frame.no_channels
      (fun src_channel_index sample_value =>
        A.add sample_value (audio_frame.p_data src_channel_index sample_index)) (A.ofInt 0)
    let sample := convertSample A (A.div sample_value (A.ofInt audio_frame.no_channels))
    forLoop audio_frame.no_channels (requested_no_channels - audio_frame.no_channels)
      (fun dst_channel_index PCMData =>
        storeSample PCMData
          (dst_channel_index * 2 + sample_index * requested_no_channels * 2) sample)
      PCMData) PCMData

/-- The channel count asked for: `IsValid(AudioWave) ? AudioWave->NumChannels : 1`. -/
def requestedChannels (AudioWave : Option UNDIMediaSoundWave) : Nat :=
  match AudioWave with
  | some wave => wave.NumChannels
  | none => 1

/-- Generates PCM data for a sound wave (`GeneratePCMData`); returns the PCM
buffer and `samples_generated`, or `none` where the source has no defined
behaviour (division by a channel count of zero, `Memset` with a negative
count). `AudioWave` is `none` for an invalid wave; `available_no_frames` is
the queue depth and `audio_frame` the frame the frame-sync hands back.
Arithmetic on `int32` is exact. -/
def UNDIMediaReceiver.GeneratePCMData {F : Type} (A : FloatArith F) (self : UNDIMediaReceiver)
    (AudioWave : Option UNDIMediaSoundWave) (PCMData : Nat → Nat) (SamplesNeeded : Int)
    (available_no_frames : Int) (audio_frame : NDIlib_audio_frame_v2_t F) :
    Option ((Nat → Nat) × Int) :=
  let samples_generated : Int := 0
  let requested_no_channels : Nat := requestedChannels AudioWave
  if requested_no_channels = 0 then none
  else
    if self.p_framesync_instance != nullptr && self.ConnectionInformation.bMuteAudio == false then
      if available_no_frames > 0 then
        let PCMData :=
          if requested_no_channels = audio_frame.no_channels then
            ConvertToPCM A requested_no_channels audio_frame.no_samples requested_no_channels
              audio_frame.p_data PCMData
          else if requested_no_channels < audio_frame.no_channels then
            let no_extra_channels := audio_frame.no_channels - requested_no_channels
            let p_data := AddExtraChannels A requested_no_channels audio_frame
            ConvertToPCM A requested_no_channels audio_frame.no_samples requested_no_channels
              (fun c i => A.div (p_data c i) (A.ofInt ((no_extra_channels : Int) + 1))) PCMData
          else if requested_no_channels > audio_frame.no_channels then
            let PCMData := ConvertToPCM A audio_frame.no_channels audio_frame.no_samples
              requested_no_channels audio_frame.p_data PCMData
            FillExtraChannels A requested_no_channels audio_frame PCMData
          else PCMData
        some (PCMData, (audio_frame.no_samples : Int) * requested_no_channels)
      else
        let available_samples := min (128 * (requested_no_channels : Int)) SamplesNeeded
        if available_samples < 0 then none
        else some (Memset0 PCMData (available_samples * 2).toNat, available_samples)
    else some (PCMData, samples_generated)

/-- The sum the source builds in place for channel `c` and sample `i`: the
channel itself, then the extra source channels added in rising order. -/
def mixedDown {F : Type} (A : FloatArith F) (requested_no_channels : Nat)
    (audio_frame : NDIlib_audio_frame_v2_t F) (c i : Nat) : F :=
  forLoop requested_no_channels (audio_frame.no_channels - requested_no_channels)
    (fun src v => A.add v (audio_frame.p_data src i)) (audio_frame.p_data c i)

/-- The sum of all source channels of sample `i`, started at `0.f`. -/
def sumChannels {F : Type} (A : FloatArith F) (audio_frame : NDIlib_audio_frame_v2_t F)
    (i : Nat) : F :=
  forLoop 0 audio_frame.no_channels (fun src v => A.add v (audio_frame.p_data src i)) (A.ofInt 0)

/-- The value each output sample is converted from, by branch: the source
sample for equal channel counts; the in-place sum divided by the number of
extra channels plus one for more source channels; the source sample for a
common channel, and the sum of all source channels divided by their number for
an extra channel, for fewer source channels. -/
def mixedValue {F : Type} (A : FloatArith F) (requested_no_channels : Nat)
    (audio_frame : NDIlib_audio_frame_v2_t F) (c i : Nat) : F :=
  if requested_no_channels = audio_frame.no_channels then audio_frame.p_data c i
  else if requested_no_channels < audio_frame.no_channels then
    A.div (mixedDown A requested_no_channels audio_frame c i)
      (A.ofInt (((audio_frame.no_channels - requested_no_channels : Nat) : Int) + 1))
  else if c < audio_frame.no_channels then audio_frame.p_data c i
  else A.div (sumChannels A audio_frame i) (A.ofInt audio_frame.no_channels)

/-- The clamp of the specification, `clamp(v, -32768, 32767)`. -/
def clampInt16 (v : Int) : Int := max (-32768) (min 32767 v)

/-- The `int16` conversion of a float value as the specification words it:
the value times 32767, rounded to an integer, clamped to the `int16` range.
The product and the rounding (`FMath::RoundToInt`) are those of the
arithmetic. -/
def int16Conversion {F : Type} (A : FloatArith F) (x : F) : Int :=
  clampInt16 (A.RoundToInt (A.mul x (A.ofInt 32767)))

/-- Laws of the comparison `le` of float values that the statements about
ranges and about the mean of a single channel rest on. They hold for exact
arithmetic and for `float` arithmetic that rounds every result to the nearest
value (integers up to 16777216 are `float` values, rounding keeps the order,
and `FMath::RoundToInt` of a value between two integers lies between them);
`le x x` says that `x` is a number. -/
structure FloatLaws {F : Type} (A : FloatArith F) (le : F → F → Prop) : Prop where
  le_trans : ∀ x y z, le x y → le y z → le x z
  zero_add : ∀ x, le x x → le (A.add (A.ofInt 0) x) x ∧ le x (A.add (A.ofInt 0) x)
  div_one : ∀ x, le x x → le (A.div x (A.ofInt 1)) x ∧ le x (A.div x (A.ofInt 1))
  mul_congr : ∀ x y, le x y → le y x →
    le (A.mul x (A.ofInt 32767)) (A.mul y (A.ofInt 32767))
  round_congr : ∀ x y, le x y → le y x → A.RoundToInt x = A.RoundToInt y
  add_bounds : ∀ (a b : Int) (v x : F), -16777216 < a → b < 16777216 →
    le (A.ofInt a) v → le v (A.ofInt b) → le (A.ofInt (-1)) x → le x (A.ofInt 1) →
    le (A.ofInt (a - 1)) (A.add v x) ∧ le (A.add v x) (A.ofInt (b + 1))
  div_bounds : ∀ (n : Int) (v : F), 0 < n → n ≤ 16777216 →
    le (A.ofInt (-n)) v → le v (A.ofInt n) →
    le (A.ofInt (-1)) (A.div v (A.ofInt n)) ∧ le (A.div v (A.ofInt n)) (A.ofInt 1)
  mul_bounds : ∀ v, le (A.ofInt (-1)) v → le v (A.ofInt 1) →
    le (A.ofInt (-32767)) (A.mul v (A.ofInt 32767)) ∧
    le (A.mul v (A.ofInt 32767)) (A.ofInt 32767)
  round_bounds : ∀ v, le (A.ofInt (-32767)) v → le v (A.ofInt 32767) →
    -32767 ≤ A.RoundToInt v ∧ A.RoundToInt v ≤ 32767

/-- The order of the rationals, the comparison of exact arithmetic. -/
def exactLe (x y : ℚ) : Prop := x ≤ y

/-- A mono frame of two samples, 1/2 and -1, over exact arithmetic. -/
def monoFrame : NDIlib_audio_frame_v2_t ℚ :=
  { sample_rate := 48000, no_channels := 1, no_samples := 2,
    p_data := fun _ i => if i = 0 then 1 / 2 else -1 }

/-- A frame of four channels and one sample, all at full amplitude. -/
def quadFrame : NDIlib_audio_frame_v2_t ℚ :=
  { sample_rate := 48000, no_channels := 4, no_samples := 1, p_data := fun _ _ => 1 }

/-- The PCM buffer of a sound wave before generation: all zero. -/
def zeroPCM : Nat → Nat := fun _ => 0

/-- The PCM buffer holds the 16-bit `sample` at byte offset `offset`, low byte
first. -/
def HoldsSample (PCMData : Nat → Nat) (offset : Nat) (sample : Int) : Prop :=
  PCMData offset = (sample % 256).toNat ∧ PCMData (offset + 1) = ((sample / 256) % 256).toNat

/-- A buffer transformation that stores `target s` in every 16-bit cell `s`
of the set `cells` and leaves every byte outside these cells as it was. -/
def BlockWrite (f : (Nat → Nat) → (Nat → Nat)) (cells : Nat → Prop) (target : Nat → Int) : Prop :=
  ∀ m : Nat → Nat,
    (∀ s, cells s → HoldsSample (f m) (2 * s) (target s)) ∧
    (∀ x, (∀ s, cells s → x ≠ 2 * s ∧ x ≠ 2 * s + 1) → f m x = m x)

/-! ## Source addressing by URL (`GetUrl`, `CanPlayUrl`) -/

/-- Engine `FString::Split` searching from the start: the text before and the
text after the first occurrence of the separator `InS`, or `none` when the
separator does not occur. On lists of characters. -/
def splitAtFirst (InS : List Char) : List Char → Option (List Char × List Char)
  | [] => none
  | c :: cs =>
    if InS.isPrefixOf (c :: cs) then some ([], (c :: cs).drop InS.length)
    else
      match splitAtFirst InS cs with
      | some (LeftS, RightS) => some (c :: LeftS, RightS)
      | none => none

/-- Engine `FString::Split` on strings, see `splitAtFirst`. -/
def FString_Split (self InS : FString) : Option (FString × FString) :=
  match splitAtFirst InS.data self.data with
  | some (LeftS, RightS) => some (String.mk LeftS, String.mk RightS)
  | none => none

/-- The URI schemes the plugin module registers in `StartupModule`. -/
def SupportedUriSchemes : List FString := ["ndiio"]

/-- Engine `TArray<FString>::Contains`: whether an element of the array
compares equal to the item. `Equals` is the comparison operator of `FString`,
which the engine header defines and the sources do not contain
(`FString_Equals`). -/
def TArray_Contains (Equals : FString → FString → Bool) (self : List FString)
    (Item : FString) : Bool :=
  self.any (fun Element => Equals Element Item)

/-- Whether the player factory accepts a URL (`FNDIIOPluginModule::CanPlayUrl`).
The error texts added to `OutErrors` are not modelled. `Equals` is the
comparison operator of `FString` that `Contains` uses (`FString_Equals`). -/
def CanPlayUrl (Equals : FString → FString → Bool) (Url : FString) : Bool :=
  match FString_Split Url "://" with
  | none => false
  | some (Scheme, _Location) =>
    if !TArray_Contains Equals SupportedUriSchemes Scheme then false
    else true

/-- The URL of the source of a receiver (`UNDIMediaReceiver::GetUrl`). -/
def UNDIMediaReceiver.GetUrl (self : UNDIMediaReceiver) : FString :=
  if !self.ConnectionInformation.SourceName.isEmpty then
    "ndiio://" ++ self.ConnectionInformation.SourceName
  else if !self.ConnectionSetting.SourceName.isEmpty then
    "ndiio://" ++ self.ConnectionSetting.SourceName
  else if !self.ConnectionInformation.Url.isEmpty then
    "ndiio://" ++ self.ConnectionInformation.Url
  else if !self.ConnectionSetting.Url.isEmpty then
    "ndiio://" ++ self.ConnectionSetting.Url
  else "ndiio://"

/-- The first non-empty string of a list, the empty string when there is
none: the source location the specification puts after the scheme. -/
def firstNonEmpty : List FString → FString
  | [] => ""
  | s :: rest => if s.isEmpty then firstNonEmpty rest else s

/-- A string has the separator `sep` in it and `before` is the text in front
of the first occurrence. -/
def TextBeforeFirst (sep before : List Char) (s : List Char) : Prop :=
  ∃ after, s = before ++ sep ++ after ∧
    ∀ l r, s = l ++ sep ++ r → before.length ≤ l.length

/-! ## Sender (`UNDIMediaSender`) -/

/-- Frame size and rate of a broadcast (`FNDIBroadcastConfiguration`). -/
structure FNDIBroadcastConfiguration where
  FrameSize : FIntPoint
  FrameRate : FFrameRate
  deriving DecidableEq, Repr

/-- Outward calls of the sender, recorded in program order, with the points
at which a scope lock takes and gives back its critical section. The `result`
arguments are the values the transport handed back. -/
inductive SenderEffect where
  | Lock (SynchObject : SyncContext)
  | Unlock (SynchObject : SyncContext)
  | NDIlib_send_destroy (p_instance : Nat)
  | NDIlib_send_create (p_ndi_name : FString) (result : Nat)
  | NDIlib_send_add_connection_metadata (p_instance : Nat) (ntk_ptz : Bool)
  | NDIlib_send_send_video_async_v2 (call : SendCall)
  | NDIlib_send_capture (p_instance : Nat)
  | NDIlib_send_free_metadata (p_instance : Nat)
  | NDIlib_send_get_no_connections (p_instance : Nat)
  | EventOnSendAudioFrame_AddUObject
  | EventOnSendVideoFrame_AddUObject
  | EventOnSendAudioFrame_RemoveAll
  | ResizeTarget (InSizeX InSizeY : Int)
  | OnBroadcastConfigurationChanged_Broadcast
  | OnSenderMetaDataReceived_Broadcast (Data : FString)
  | OnSenderVideoPreSend_Broadcast
  | OnSenderVideoSent_Broadcast
  | NDIlib_util_audio_from_interleaved_32f_v2
  | OnSenderAudioPreSend_Broadcast
  | NDIlib_send_send_audio_v2 (p_instance : Nat)
  | OnSenderAudioSent_Broadcast
  | OnSenderMetaDataPreSend_Broadcast
  | NDIlib_send_send_metadata (p_instance : Nat) (Data : FString)
  | OnSenderMetaDataSent_Broadcast
  deriving DecidableEq, Repr

/-- The members of `UNDIMediaSender` the video path reads or writes, with the
default member initialisers of the header. `RenderTarget` is the pointer to
the render target object, `OnBroadcastConfigurationChanged` the list of the
handlers bound to the delegate. -/
structure UNDIMediaSender where
  SourceName : FString := "Unreal Engine Output"
  FrameSize : FIntPoint := { X := 1920, Y := 1080 }
  FrameRate : FFrameRate := { Numerator := 60, Denominator := 1 }
  OutputAlpha : Bool := false
  bEnablePTZ : Bool := true
  RenderTarget : Nat := nullptr
  OnBroadcastConfigurationChanged : List Nat := []
  bIsChangingBroadcastSize : Bool := false
  LastRenderTime : FTimecode
  DefaultVideoTextureRHI : Nat := nullptr
  NDI_video_frame : NDIlib_video_frame_v2_t
  p_send_instance : Nat := nullptr
  ReadbackTextures : MappedTextureASyncSender := {}
  ReadbackTexturesHaveAlpha : Bool := false
  RenderTargetDescriptor : Option FIntPoint := none
  bEnableAudio : Bool := true
  deriving DecidableEq, Repr

/-- What one call of `TrySendVideoFrame` takes from its surroundings: the
metadata frames the transport has pending for the sender, the resource of the
render target and its texture, the number of connections, the texture the
render target pool hands out and the pointer the map call hands back. -/
structure SendVideoInput where
  time_code : Int
  metadata : List NDIlib_metadata_frame_t
  Resource : Nat
  TextureRHI : Nat
  no_connections : Int
  TargetableTexture : Nat
  pMapped : Nat
  deriving DecidableEq, Repr

namespace UNDIMediaSender

/-- The transport sends of a ring call as outward calls of the sender. -/
def sends (calls : List SendCall) : List SenderEffect :=
  calls.map SenderEffect.NDIlib_send_send_video_async_v2

/-- Destroys the send instance if there is one and creates a new one
(`CreateSender`); `send_instance` is what `NDIlib_send_create` returns. -/
def CreateSender (send_instance : Nat) (self : UNDIMediaSender) :
    UNDIMediaSender × Bool × List SenderEffect :=
  let (s, e0) :=
    if self.p_send_instance != nullptr then
      ({ self with p_send_instance := nullptr },
        [SenderEffect.NDIlib_send_destroy self.p_send_instance])
    else (self, [])
  let s := { s with p_send_instance := send_instance }
  let e1 := [SenderEffect.NDIlib_send_create s.SourceName send_instance]
  let e2 :=
    if s.p_send_instance != nullptr then
      [SenderEffect.NDIlib_send_add_connection_metadata s.p_send_instance
         (if s.bEnablePTZ == true then true else false)]
    else []
  (s, if s.p_send_instance != nullptr then true else false, e0 ++ e1 ++ e2)

/-- Size of the readback texture in UYVY format, with the alpha part when
alpha is output (the local `UYVYTextureSize` of
`ChangeRenderTargetConfiguration`). Integer division is that of C++, towards
zero. -/
def UYVYTextureSize (FrameSize : FIntPoint) (OutputAlpha : Bool) : FIntPoint :=
  { X := Int.tdiv FrameSize.X 2,
    Y := FrameSize.Y + (if OutputAlpha then Int.tdiv FrameSize.Y 2 else 0) }

/-- Sets frame size and rate, re-creates the readback textures and notifies
(`ChangeRenderTargetConfiguration`). The scope lock is given back before the
broadcast. -/
def ChangeRenderTargetConfiguration (self : UNDIMediaSender) (InFrameSize : FIntPoint)
    (InFrameRate : FFrameRate) : Except Fault (UNDIMediaSender × List SenderEffect) := do
  let e0 := [SenderEffect.Lock SyncContext.RenderSyncContext]
  let s := { self with FrameSize := InFrameSize }
  let s := { s with FrameRate := InFrameRate }
  let s := { s with NDI_video_frame :=
    { s.NDI_video_frame with
      xres := s.FrameSize.X, yres := s.FrameSize.Y,
      line_stride_in_bytes := s.FrameSize.X * 2,
      frame_rate_D := s.FrameRate.Denominator, frame_rate_N := s.FrameRate.Numerator,
      FourCC := if s.OutputAlpha then NDIlib_FourCC_video_type_e.NDIlib_FourCC_video_type_UYVA
                else NDIlib_FourCC_video_type_e.NDIlib_FourCC_video_type_UYVY } }
  let ring ← s.ReadbackTextures.Create (UYVYTextureSize s.FrameSize s.OutputAlpha)
  let s := { s with ReadbackTextures := ring }
  let s := { s with ReadbackTexturesHaveAlpha := s.OutputAlpha }
  let s := { s with RenderTargetDescriptor := some (UYVYTextureSize s.FrameSize s.OutputAlpha) }
  let e1 :=
    if s.RenderTarget != nullptr then [SenderEffect.ResizeTarget s.FrameSize.X s.FrameSize.Y]
    else []
  let e2 := [SenderEffect.Unlock SyncContext.RenderSyncContext]
  let e3 :=
    if IsBound s.OnBroadcastConfigurationChanged then
      [SenderEffect.OnBroadcastConfigurationChanged_Broadcast]
    else []
  pure (s, e0 ++ e1 ++ e2 ++ e3)

/-- Creates the send instance and configures the sender (`Initialize`).
`send_instance` is what `NDIlib_send_create` returns and `RenderableTexture`
the default video texture the render hardware interface creates.
`FromTimespan` stands for the engine timecode function, as in
`CaptureConnectedVideo`. The handlers registered under `UE_EDITOR` are left
out. -/
def Initialize (FromTimespan : Int → FFrameRate → FTimecode)
    (send_instance RenderableTexture : Nat) (self : UNDIMediaSender) :
    Except Fault (UNDIMediaSender × List SenderEffect) := do
  if self.p_send_instance == nullptr then
    let (s, _, e0) := self.CreateSender send_instance
    if s.p_send_instance != nullptr then
      let (s, e1) ← s.ChangeRenderTargetConfiguration s.FrameSize s.FrameRate
      let e2 := [SenderEffect.EventOnSendAudioFrame_AddUObject,
                 SenderEffect.EventOnSendVideoFrame_AddUObject]
      let s := { s with LastRenderTime := FromTimespan 0 s.FrameRate }
      let s := { s with DefaultVideoTextureRHI := RenderableTexture }
      pure (s, e0 ++ e1 ++ e2)
    else pure (s, e0)
  else pure (self, [])

/-- Changes the name under which the sender is seen (`ChangeSourceName`);
`send_instance` is what `NDIlib_send_create` returns if the sender is
re-created. -/
def ChangeSourceName (send_instance : Nat) (self : UNDIMediaSender) (InSourceName : FString) :
    Except Fault (UNDIMediaSender × List SenderEffect) := do
  let s := { self with SourceName := InSourceName }
  if s.p_send_instance != nullptr then
    let e0 := [SenderEffect.Lock SyncContext.AudioSyncContext,
               SenderEffect.Lock SyncContext.RenderSyncContext]
    let (ring, calls) ← s.ReadbackTextures.Flush s.p_send_instance
    let s := { s with ReadbackTextures := ring }
    let (s, _, e1) := s.CreateSender send_instance
    pure (s, e0 ++ sends calls ++ e1 ++
      [SenderEffect.Unlock SyncContext.RenderSyncContext,
       SenderEffect.Unlock SyncContext.AudioSyncContext])
  else pure (s, [])

/-- Changes frame size and rate of the broadcast
(`ChangeBroadcastConfiguration`). -/
def ChangeBroadcastConfiguration (self : UNDIMediaSender)
    (InConfiguration : FNDIBroadcastConfiguration) :
    Except Fault (UNDIMediaSender × List SenderEffect) := do
  let s := { self with bIsChangingBroadcastSize := true }
  let (s, e0) ←
    if s.p_send_instance != nullptr then do
      let (ring, calls) ← s.ReadbackTextures.Flush s.p_send_instance
      pure ({ s with ReadbackTextures := ring },
        [SenderEffect.Lock SyncContext.AudioSyncContext,
         SenderEffect.Lock SyncContext.RenderSyncContext] ++ sends calls ++
        [SenderEffect.Unlock SyncContext.RenderSyncContext,
         SenderEffect.Unlock SyncContext.AudioSyncContext])
    else pure (s, [])
  let (s, e1) ← s.ChangeRenderTargetConfiguration InConfiguration.FrameSize
    InConfiguration.FrameRate
  let s := { s with bIsChangingBroadcastSize := false }
  pure (s, e0 ++ e1)

/-- The loop `while(GetMetadataFrame())` of `TrySendVideoFrame` over the
metadata frames the transport has pending: every frame is captured, broadcast
when it has data and a positive length, and freed; `GetMetadataFrame` returns
true for each, and false for the capture that finds no frame. The send
instance is not null where the loop runs. -/
def GetMetadataFrameLoop (p_send_instance : Nat) : List NDIlib_metadata_frame_t → List SenderEffect
  | [] => [SenderEffect.NDIlib_send_capture p_send_instance]
  | metadata :: rest =>
    [SenderEffect.NDIlib_send_capture p_send_instance] ++
    (match metadata.p_data with
     | some Data =>
       if metadata.length > 0 then [SenderEffect.OnSenderMetaDataReceived_Broadcast Data]
       else []
     | none => []) ++
    [SenderEffect.NDIlib_send_free_metadata p_send_instance] ++
    GetMetadataFrameLoop p_send_instance rest

/-- The resource of the render target, null without a valid render target
(`GetRenderTargetResource`); `Resource` is what `GetResource` returns. -/
def GetRenderTargetResource (self : UNDIMediaSender) (Resource : Nat) : Nat :=
  if self.RenderTarget != nullptr then Resource else nullptr

/-- Converts the render target and resolves it to the current readback
texture (`DrawRenderTarget`); returns the sender and `DrawResult`. The
conversion passes change no member of the sender; their fit rectangle is
embedded as `fitRectangle`. `TextureRHI` is the texture of the render target
resource and `TargetableTexture` the texture the render target pool hands
out. -/
def DrawRenderTarget (self : UNDIMediaSender) (Resource TextureRHI TargetableTexture : Nat) :
    Except Fault (UNDIMediaSender × Bool) := do
  let DrawResult := false
  if !self.bIsChangingBroadcastSize && self.GetRenderTargetResource Resource != nullptr then
    if TextureRHI != nullptr then
      let ring ← self.ReadbackTextures.Resolve TargetableTexture
      pure ({ self with ReadbackTextures := ring }, true)
    else pure (self, DrawResult)
  else pure (self, DrawResult)

/-- The frame size `TrySendVideoFrame` works out from the size of the mapped
readback texture: twice the width, and two thirds of the height when the
readback textures have the alpha part. -/
def recoveredFrameSize (Width Height : Int) (ReadbackTexturesHaveAlpha : Bool) : FIntPoint :=
  let Width := Width * 2
  let Height := if ReadbackTexturesHaveAlpha == true then Int.tdiv (2 * Height) 3 else Height
  { X := Width, Y := Height }

/-- Draws, maps and sends one video frame, or reconfigures the sender when
the mapped size is not that of the frame (`TrySendVideoFrame`). `FromTimespan`
stands for the engine timecode function and `Frames` for the member `Frames`
of a timecode. -/
def TrySendVideoFrame (FromTimespan : Int → FFrameRate → FTimecode) (Frames : FTimecode → Int)
    (self : UNDIMediaSender) (input : SendVideoInput) :
    Except Fault (UNDIMediaSender × List SenderEffect) := do
  if self.p_send_instance != nullptr && !self.bIsChangingBroadcastSize then
    let e0 := [SenderEffect.Lock SyncContext.RenderSyncContext] ++
      GetMetadataFrameLoop self.p_send_instance input.metadata
    let unlock := [SenderEffect.Unlock SyncContext.RenderSyncContext]
    if self.GetRenderTargetResource input.Resource != nullptr then
      let e1 := [SenderEffect.NDIlib_send_get_no_connections self.p_send_instance]
      if input.no_connections > 0 then
        let RenderTimecode := FromTimespan input.time_code self.FrameRate
        if Frames RenderTimecode != Frames self.LastRenderTime then
          let s := { self with NDI_video_frame :=
                       { self.NDI_video_frame with timecode := input.time_code } }
          let (s, DrawResult) ← s.DrawRenderTarget input.Resource input.TextureRHI
            input.TargetableTexture
          if DrawResult then
            let (ring, Width, Height) ← s.ReadbackTextures.Map input.pMapped
            let s := { s with ReadbackTextures := ring }
            let Size := recoveredFrameSize Width Height s.ReadbackTexturesHaveAlpha
            if s.FrameSize != Size then
              let (ring, calls) ← s.ReadbackTextures.Flush s.p_send_instance
              let s := { s with ReadbackTextures := ring }
              let (s, e2) ← s.ChangeRenderTargetConfiguration Size s.FrameRate
              pure (s, e0 ++ e1 ++ sends calls ++ unlock ++ e2)
            else
              let (ring, calls) ← s.ReadbackTextures.Send s.p_send_instance
              let s := { s with ReadbackTextures := ring }
              let s := { s with LastRenderTime := RenderTimecode }
              pure (s, e0 ++ e1 ++ [SenderEffect.OnSenderVideoPreSend_Broadcast] ++
                sends calls ++ [SenderEffect.OnSenderVideoSent_Broadcast] ++ unlock)
          else pure (s, e0 ++ e1 ++ unlock)
        else pure (self, e0 ++ e1 ++ unlock)
      else pure (self, e0 ++ e1 ++ unlock)
    else pure (self, e0 ++ unlock)
  else pure (self, [])

/-- Stops sending and releases the send instance and the readback textures
(`Shutdown`). -/
def Shutdown (self : UNDIMediaSender) : Except Fault (UNDIMediaSender × List SenderEffect) := do
  let e0 := [SenderEffect.Lock SyncContext.AudioSyncContext,
             SenderEffect.EventOnSendAudioFrame_RemoveAll,
             SenderEffect.Unlock SyncContext.AudioSyncContext]
  let e1 := [SenderEffect.Lock SyncContext.RenderSyncContext]
  let (s, e2) ←
    if self.p_send_instance != nullptr then do
      let (ring, calls) ← self.ReadbackTextures.Flush self.p_send_instance
      let s := { self with ReadbackTextures := ring }
      pure ({ s with p_send_instance := nullptr },
        sends calls ++ [SenderEffect.NDIlib_send_destroy s.p_send_instance])
    else pure (self, [])
  let s := { s with DefaultVideoTextureRHI := nullptr }
  let ring ← s.ReadbackTextures.Destroy
  let s := { s with ReadbackTextures := ring }
  let s := { s with RenderTargetDescriptor := none }
  pure (s, e0 ++ e1 ++ e2 ++ [SenderEffect.Unlock SyncContext.RenderSyncContext])

end UNDIMediaSender

/-- State invariant of the sender between calls: the ring is well formed, no
reconfiguration is going on, without a send instance no slot is mapped, and
with one the ring is ready for a cycle. -/
def UNDIMediaSender.Inv (s : UNDIMediaSender) : Prop :=
  s.ReadbackTextures.WellFormed = true ∧ s.bIsChangingBroadcastSize = false ∧
  (s.p_send_instance = nullptr → s.ReadbackTextures.mappedCount = 0) ∧
  (s.p_send_instance ≠ nullptr → s.ReadbackTextures.Ready = true)

/-- A sender as constructed: no send instance, the ring of a new sender, no
reconfiguration going on; the properties may have any value. -/
def UNDIMediaSender.IsNew (s : UNDIMediaSender) : Prop :=
  s.p_send_instance = nullptr ∧ s.ReadbackTextures = {} ∧ s.bIsChangingBroadcastSize = false

/-- The sender states reachable from a constructed sender through calls of
`Initialize`, `ChangeSourceName`, `ChangeBroadcastConfiguration`,
`TrySendVideoFrame` and `Shutdown` that return. -/
inductive UNDIMediaSender.Reachable (FromTimespan : Int → FFrameRate → FTimecode)
    (Frames : FTimecode → Int) : UNDIMediaSender → Prop where
  | constructed (s : UNDIMediaSender) : s.IsNew → Reachable FromTimespan Frames s
  | Initialize (s s1 : UNDIMediaSender) (e : List SenderEffect)
      (send_instance RenderableTexture : Nat) :
      Reachable FromTimespan Frames s →
      s.Initialize FromTimespan send_instance RenderableTexture = .ok (s1, e) →
      Reachable FromTimespan Frames s1
  | ChangeSourceName (s s1 : UNDIMediaSender) (e : List SenderEffect)
      (send_instance : Nat) (InSourceName : FString) :
      Reachable FromTimespan Frames s →
      s.ChangeSourceName send_instance InSourceName = .ok (s1, e) →
      Reachable FromTimespan Frames s1
  | ChangeBroadcastConfiguration (s s1 : UNDIMediaSender) (e : List SenderEffect)
      (InConfiguration : FNDIBroadcastConfiguration) :
      Reachable FromTimespan Frames s →
      s.ChangeBroadcastConfiguration InConfiguration = .ok (s1, e) →
      Reachable FromTimespan Frames s1
  | TrySendVideoFrame (s s1 : UNDIMediaSender) (e : List SenderEffect)
      (input : SendVideoInput) :
      Reachable FromTimespan Frames s →
      s.TrySendVideoFrame FromTimespan Frames input = .ok (s1, e) →
      Reachable FromTimespan Frames s1
  | Shutdown (s s1 : UNDIMediaSender) (e : List SenderEffect) :
      Reachable FromTimespan Frames s →
      s.Shutdown = .ok (s1, e) →
      Reachable FromTimespan Frames s1

/-- A member `Frames` used in the concrete checks: the ticks kept by
`sampleFromTimespan`. -/
def sampleFrames (t : FTimecode) : Int := t.InSeconds

/-- A sender as constructed, with a render target and one handler bound to the
configuration notification. -/
def newSender : UNDIMediaSender :=
  { RenderTarget := 51,
    OnBroadcastConfigurationChanged := [3],
    LastRenderTime := { InSeconds := 0, InFrameRate := { Numerator := 60, Denominator := 1 },
                        InbDropFrame := false, InbRollover := true },
    NDI_video_frame := untimedCapture.video_frame }

/-- The input of a `TrySendVideoFrame` call that draws, maps and sends: one
metadata frame pending, one connection, no null pointer. -/
def sampleSendInput : SendVideoInput :=
  { time_code := 170000, metadata := [{ length := 5, p_data := some "<a/>" }],
    Resource := 52, TextureRHI := 53, no_connections := 1, TargetableTexture := 54,
    pMapped := 100 }

/-- The new sender after `Initialize` with send instance 9. -/
def initializedSender : UNDIMediaSender :=
  { newSender with
    LastRenderTime := sampleFromTimespan 0 { Numerator := 60, Denominator := 1 },
    DefaultVideoTextureRHI := 8,
    NDI_video_frame := { untimedCapture.video_frame with
                         xres := 1920, yres := 1080, line_stride_in_bytes := 3840,
                         frame_rate_N := 60, frame_rate_D := 1 },
    p_send_instance := 9,
    ReadbackTextures := createdRing,
    RenderTargetDescriptor := some { X := 960, Y := 1080 } }

/-- The initialised sender after one `TrySendVideoFrame` that sent a frame:
slot 0 is mapped at pointer 100 and in flight. -/
def sendingSender : UNDIMediaSender :=
  { initializedSender with
    LastRenderTime := sampleFromTimespan 170000 { Numerator := 60, Denominator := 1 },
    NDI_video_frame := { initializedSender.NDI_video_frame with timecode := 170000 },
    ReadbackTextures :=
      { MappedTextures := ({ Texture := some { X := 960, Y := 1080 }, pData := 100 },
                           { Texture := some { X := 960, Y := 1080 } }),
        CurrentIndex := 1 } }

/-- The outward calls of `Initialize` on the new sender. -/
def initializeTrace : List SenderEffect :=
  [SenderEffect.NDIlib_send_create "Unreal Engine Output" 9,
   SenderEffect.NDIlib_send_add_connection_metadata 9 true,
   SenderEffect.Lock SyncContext.RenderSyncContext,
   SenderEffect.ResizeTarget 1920 1080,
   SenderEffect.Unlock SyncContext.RenderSyncContext,
   SenderEffect.OnBroadcastConfigurationChanged_Broadcast,
   SenderEffect.EventOnSendAudioFrame_AddUObject,
   SenderEffect.EventOnSendVideoFrame_AddUObject]

/-- The outward calls of `TrySendVideoFrame` on the initialised sender with
the sample input. -/
def sampleSendTrace : List SenderEffect :=
  [SenderEffect.Lock SyncContext.RenderSyncContext,
   SenderEffect.NDIlib_send_capture 9,
   SenderEffect.OnSenderMetaDataReceived_Broadcast "<a/>",
   SenderEffect.NDIlib_send_free_metadata 9,
   SenderEffect.NDIlib_send_capture 9,
   SenderEffect.NDIlib_send_get_no_connections 9,
   SenderEffect.OnSenderVideoPreSend_Broadcast,
   SenderEffect.NDIlib_send_send_video_async_v2
     { p_send_instance := 9, p_video_data := some (100, none) },
   SenderEffect.OnSenderVideoSent_Broadcast,
   SenderEffect.Unlock SyncContext.RenderSyncContext]

/-- The conditions under which `TrySendVideoFrame` gets as far as mapping the
readback texture: a send instance, no reconfiguration going on, a render
target with a resource and a texture, a connection, a frame number other than
that of the last render, and no null pointer from the pool or the map call. -/
def UNDIMediaSender.ReachesMap (FromTimespan : Int → FFrameRate → FTimecode)
    (Frames : FTimecode → Int) (s : UNDIMediaSender) (input : SendVideoInput) : Bool :=
  s.p_send_instance != nullptr && !s.bIsChangingBroadcastSize && s.RenderTarget != nullptr &&
  input.Resource != nullptr && input.TextureRHI != nullptr &&
  input.TargetableTexture != nullptr && input.pMapped != nullptr &&
  decide (input.no_connections > 0) &&
  Frames (FromTimespan input.time_code s.FrameRate) != Frames s.LastRenderTime

/-! ## Locks held when a notification is made -/

/-- What a step of a trace is with regard to locks: taking a critical
section, giving one back, an outward-facing notification, or anything else. -/
inductive TraceKind where
  | Lock (SynchObject : SyncContext)
  | Unlock (SynchObject : SyncContext)
  | Notification
  | Other
  deriving DecidableEq, Repr

/-- The critical sections held after a trace that starts with `held`. -/
def heldAfter : List SyncContext → List TraceKind → List SyncContext
  | held, [] => held
  | held, TraceKind.Lock c :: rest => heldAfter (c :: held) rest
  | held, TraceKind.Unlock c :: rest => heldAfter (held.erase c) rest
  | held, TraceKind.Notification :: rest => heldAfter held rest
  | held, TraceKind.Other :: rest => heldAfter held rest

/-- Whether, in a trace that starts with the critical sections `held`, the
critical sections held at every notification satisfy `ok`. -/
def notifiesWhen (ok : List SyncContext → Bool) : List SyncContext → List TraceKind → Bool
  | _, [] => true
  | held, TraceKind.Lock c :: rest => notifiesWhen ok (c :: held) rest
  | held, TraceKind.Unlock c :: rest => notifiesWhen ok (held.erase c) rest
  | held, TraceKind.Notification :: rest => ok held && notifiesWhen ok held rest
  | held, TraceKind.Other :: rest => notifiesWhen ok held rest

/-- No critical section is held. -/
def noneHeld (held : List SyncContext) : Bool := held.isEmpty

/-- Exactly `RenderSyncContext` is held. -/
def renderHeld (held : List SyncContext) : Bool := held == [SyncContext.RenderSyncContext]

/-- Exactly `AudioSyncContext` is held. -/
def audioHeld (held : List SyncContext) : Bool := held == [SyncContext.AudioSyncContext]

/-- Exactly `MetadataSyncContext` is held. -/
def metadataHeld (held : List SyncContext) : Bool := held == [SyncContext.MetadataSyncContext]

/-- The steps of a receiver trace: the event broadcasts made in place are the
notifications. The connection events are handed to the game thread as tasks
and count as other calls. -/
def Effect.kind : Effect → TraceKind
  | Effect.FScopeLock_Lock c => TraceKind.Lock c
  | Effect.FScopeLock_Unlock c => TraceKind.Unlock c
  | Effect.OnNDIReceiverVideoCaptureEvent_Broadcast _ => TraceKind.Notification
  | Effect.OnReceiverVideoReceived_Broadcast => TraceKind.Notification
  | Effect.OnReceiverMetaDataReceived_Broadcast _ _ => TraceKind.Notification
  | Effect.OnNDIReceiverMetadataCaptureEvent_Broadcast _ => TraceKind.Notification
  | Effect.OnNDIReceiverAudioCaptureEvent_Broadcast => TraceKind.Notification
  | Effect.OnReceiverAudioReceived_Broadcast => TraceKind.Notification
  | _ => TraceKind.Other

/-- The steps of a sender trace: every event broadcast is a notification. -/
def SenderEffect.kind : SenderEffect → TraceKind
  | SenderEffect.Lock c => TraceKind.Lock c
  | SenderEffect.Unlock c => TraceKind.Unlock c
  | SenderEffect.OnBroadcastConfigurationChanged_Broadcast => TraceKind.Notification
  | SenderEffect.OnSenderMetaDataReceived_Broadcast _ => TraceKind.Notification
  | SenderEffect.OnSenderVideoPreSend_Broadcast => TraceKind.Notification
  | SenderEffect.OnSenderVideoSent_Broadcast => TraceKind.Notification
  | SenderEffect.OnSenderAudioPreSend_Broadcast => TraceKind.Notification
  | SenderEffect.OnSenderAudioSent_Broadcast => TraceKind.Notification
  | SenderEffect.OnSenderMetaDataPreSend_Broadcast => TraceKind.Notification
  | SenderEffect.OnSenderMetaDataSent_Broadcast => TraceKind.Notification
  | _ => TraceKind.Other

/-- The steps of a sender trace with only the configuration-changed
notification counted as notification. -/
def SenderEffect.configurationKind : SenderEffect → TraceKind
  | SenderEffect.Lock c => TraceKind.Lock c
  | SenderEffect.Unlock c => TraceKind.Unlock c
  | SenderEffect.OnBroadcastConfigurationChanged_Broadcast => TraceKind.Notification
  | _ => TraceKind.Other

/-- The steps of a sender trace with every event broadcast but the
configuration-changed notification counted as notification: the frame
notifications (metadata received, video pre-send, video sent) and the audio
and metadata send notifications. -/
def SenderEffect.frameKind : SenderEffect → TraceKind
  | SenderEffect.Lock c => TraceKind.Lock c
  | SenderEffect.Unlock c => TraceKind.Unlock c
  | SenderEffect.OnSenderMetaDataReceived_Broadcast _ => TraceKind.Notification
  | SenderEffect.OnSenderVideoPreSend_Broadcast => TraceKind.Notification
  | SenderEffect.OnSenderVideoSent_Broadcast => TraceKind.Notification
  | SenderEffect.OnSenderAudioPreSend_Broadcast => TraceKind.Notification
  | SenderEffect.OnSenderAudioSent_Broadcast => TraceKind.Notification
  | SenderEffect.OnSenderMetaDataPreSend_Broadcast => TraceKind.Notification
  | SenderEffect.OnSenderMetaDataSent_Broadcast => TraceKind.Notification
  | _ => TraceKind.Other

/-- `CaptureConnectedVideo` with the scope lock on `RenderSyncContext` that
its first statement takes and its return gives back shown in the trace. The
lock on `ConnectionSyncContext` inside `SetIsCurrentlyConnected` is not
shown. -/
def UNDIMediaReceiver.CaptureConnectedVideoScoped (FromTimespan : Int → FFrameRate → FTimecode)
    (self : UNDIMediaReceiver) (input : VideoCaptureInput) :
    UNDIMediaReceiver × Bool × List Effect :=
  let (s, bHaveCaptured, e) := self.CaptureConnectedVideo FromTimespan input
  (s, bHaveCaptured,
    [Effect.FScopeLock_Lock SyncContext.RenderSyncContext] ++ e ++
    [Effect.FScopeLock_Unlock SyncContext.RenderSyncContext])

/-- A step that neither takes nor gives back a critical section and is no
notification. -/
def TraceKind.isOther : TraceKind → Bool
  | TraceKind.Other => true
  | _ => false

/-- A step that neither takes nor gives back a critical section. -/
def TraceKind.isCall : TraceKind → Bool
  | TraceKind.Other => true
  | TraceKind.Notification => true
  | _ => false

/-! ## Fit rectangle of the send-side conversion (`DrawRenderTarget`) -/

/-- The values `DrawRenderTarget` computes for the rectangle in which the
source is drawn. -/
structure FitRectangle (F : Type) where
  NewFrameSize : FIntPoint
  ULeft : F
  URight : F
  VTop : F
  VBottom : F

/-- The rectangle in which `DrawRenderTarget` draws the source, keeping its
aspect ratio. `FrameSize` is the output frame size and `TargetSize` the size
of the source texture. `lt` is the comparison of `float` values, and a mixed
operation converts its integer operand first. -/
def fitRectangle {F : Type} (A : FloatArith F) (lt : F → F → Bool)
    (FrameSize TargetSize : FIntPoint) : FitRectangle F :=
  let FrameRatio := A.div (A.ofInt FrameSize.X) (A.ofInt FrameSize.Y)
  let TargetRatio := A.div (A.ofInt TargetSize.X) (A.ofInt TargetSize.Y)
  let NewFrameSize := FrameSize
  let NewFrameSize :=
    if lt FrameRatio TargetRatio then
      { NewFrameSize with Y := A.RoundToInt (A.div (A.ofInt FrameSize.X) TargetRatio) }
    else if lt TargetRatio FrameRatio then
      { NewFrameSize with X := A.RoundToInt (A.mul (A.ofInt FrameSize.Y) TargetRatio) }
    else NewFrameSize
  { NewFrameSize := NewFrameSize,
    ULeft := A.div (A.ofInt (NewFrameSize.X - FrameSize.X)) (A.ofInt (2 * NewFrameSize.X)),
    URight := A.div (A.ofInt (NewFrameSize.X + FrameSize.X)) (A.ofInt (2 * NewFrameSize.X)),
    VTop := A.div (A.ofInt (NewFrameSize.Y - FrameSize.Y)) (A.ofInt (2 * NewFrameSize.Y)),
    VBottom := A.div (A.ofInt (NewFrameSize.Y + FrameSize.Y)) (A.ofInt (2 * NewFrameSize.Y)) }

/-- Comparison of rationals, the `lt` of exact arithmetic. -/
def exactLt (a b : ℚ) : Bool := decide (a < b)

/-! ## Metadata capture of the standalone receiver -/

namespace UNDIMediaReceiver

/-- Captures one metadata frame (`CaptureConnectedMetadata`). `queue` holds the
metadata frames the transport has pending: `NDIlib_recv_capture_v3`, called
without video and audio frame and with no timeout, takes the first one and
reports the frame type metadata, or reports no frame when there is none.
Returns the receiver, `bHaveCaptured`, the frames still pending and the
outward calls. The scope lock on `MetadataSyncContext` is not shown. -/
def CaptureConnectedMetadata (self : UNDIMediaReceiver) (queue : List NDIlib_metadata_frame_t) :
    UNDIMediaReceiver × Bool × List NDIlib_metadata_frame_t × List Effect :=
  let bHaveCaptured := false
  if self.p_receive_instance != nullptr then
    match queue with
    | [] => (self, bHaveCaptured, [], [Effect.NDIlib_recv_capture_v3 self.p_receive_instance])
    | metadata :: rest =>
      let (s, bHaveCaptured, e) :=
        match metadata.p_data with
        | some Data =>
          let (s, ec) := self.SetIsCurrentlyConnected true
          if metadata.length > 0 then
            (s, true, ec ++ [Effect.OnNDIReceiverMetadataCaptureEvent_Broadcast metadata,
                             Effect.OnReceiverMetaDataReceived_Broadcast Data false])
          else (s, bHaveCaptured, ec)
        | none => (self, bHaveCaptured, [])
      (s, bHaveCaptured, rest,
        [Effect.NDIlib_recv_capture_v3 self.p_receive_instance] ++ e ++
        [Effect.NDIlib_recv_free_metadata self.p_receive_instance])
  else (self, bHaveCaptured, queue, [])

/-- The loop `while(this->CaptureConnectedMetadata());` of the end-of-frame
handler that `Initialize` registers for a standalone receiver. The first
argument bounds the number of iterations; `none` means the bound was
reached. Returns the receiver, the frames still pending and the outward
calls. -/
def CaptureConnectedMetadataLoop :
    Nat → UNDIMediaReceiver → List NDIlib_metadata_frame_t →
      Option (UNDIMediaReceiver × List NDIlib_metadata_frame_t × List Effect)
  | 0, _, _ => none
  | fuel + 1, self, queue =>
    let (s, bHaveCaptured, rest, e) := self.CaptureConnectedMetadata queue
    if bHaveCaptured then
      match CaptureConnectedMetadataLoop fuel s rest with
      | some (s2, rest2, e2) => some (s2, rest2, e ++ e2)
      | none => none
    else some (s, rest, e)

end UNDIMediaReceiver

/-- A metadata frame with data of length zero. -/
def emptyMetadata : NDIlib_metadata_frame_t := { length := 0, p_data := some "" }

/-- A metadata frame with data. -/
def sampleMetadata : NDIlib_metadata_frame_t := { length := 5, p_data := some "<a/>" }

/-! ## Receiver initialisation -/

/-- How a receiver is used (`UNDIMediaReceiver::EUsage`). -/
inductive EUsage where
  | Standalone
  | Controlled
  deriving DecidableEq, Repr

/-- Creates the receive instance and connects (`UNDIMediaReceiver::Initialize`);
returns the receiver, the result and the outward calls.
`receive_instance0` is what the `NDIlib_recv_create_v3` of `Initialize`
returns, `receive_instance` and `framesync_instance` are the transport results
`StartConnection` consumes if it runs, and the two handles are what the two
`AddLambda` calls return. The internal video texture is taken to be valid. The
handlers registered under `UE_EDITOR` are left out. -/
def UNDIMediaReceiver.Initialize
    (receive_instance0 receive_instance framesync_instance : Nat)
    (NewVideoCaptureEventHandle NewFrameEndRTHandle : Nat)
    (self : UNDIMediaReceiver) (InConnectionInformation : FNDIConnectionInformation)
    (InUsage : EUsage) : UNDIMediaReceiver × Bool × List Effect :=
  if self.p_receive_instance == nullptr then
    let e0 := [Effect.InternalVideoTexture_UpdateResource]
    let s := { self with p_receive_instance := receive_instance0 }
    let e1 := [Effect.NDIlib_recv_create_v3 false
                 NDIlib_recv_bandwidth_e.NDIlib_recv_bandwidth_highest receive_instance0]
    if s.p_receive_instance != nullptr then
      let (s, e2) :=
        if InConnectionInformation.IsValid then
          s.ChangeConnection receive_instance framesync_instance InConnectionInformation
        else (s, [])
      let (s, e3) :=
        if InUsage = EUsage.Standalone then
          let s := { s with OnNDIReceiverVideoCaptureEvent :=
                              Remove s.OnNDIReceiverVideoCaptureEvent s.VideoCaptureEventHandle }
          let s := { s with OnNDIReceiverVideoCaptureEvent :=
                              s.OnNDIReceiverVideoCaptureEvent ++ [NewVideoCaptureEventHandle],
                            VideoCaptureEventHandle := NewVideoCaptureEventHandle }
          let e := [Effect.OnNDIReceiverVideoCaptureEvent_AddLambda NewVideoCaptureEventHandle,
                    Effect.OnEndFrameRT_Remove s.FrameEndRTHandle]
          let s := { s with FrameEndRTHandle := 0 }
          let s := { s with FrameEndRTHandle := NewFrameEndRTHandle }
          (s, e ++ [Effect.OnEndFrameRT_AddLambda NewFrameEndRTHandle])
        else (s, [])
      (s, true, e0 ++ e1 ++ e2 ++ e3)
    else (s, false, e0 ++ e1)
  else (self, false, [])

/-- The descriptor of the source `A (Cam1)`. -/
def sampleInformation : FNDIConnectionInformation := { SourceName := "A (Cam1)" }

/-- The idle receiver after `Initialize` for the sample source: connected,
with receive instance 13 and frame-sync instance 14. -/
def initializedReceiver : UNDIMediaReceiver :=
  { idleReceiver with ConnectionInformation := sampleInformation,
                      p_receive_instance := 13, p_framesync_instance := 14 }

/-- The initialised receiver after `StopConnection`: no transport handle, the
descriptor of the sample source still stored. -/
def stoppedReceiver : UNDIMediaReceiver :=
  { idleReceiver with ConnectionInformation := sampleInformation }

/-- Whether a metadata frame carries data: a data pointer and a positive
length. -/
def NDIlib_metadata_frame_t.hasData (metadata : NDIlib_metadata_frame_t) : Bool :=
  metadata.p_data.isSome && decide (metadata.length > 0)

/-- The metadata frames a trace broadcasts through
`OnNDIReceiverMetadataCaptureEvent`, in order. -/
def metadataBroadcasts : List Effect → List NDIlib_metadata_frame_t
  | [] => []
  | Effect.OnNDIReceiverMetadataCaptureEvent_Broadcast metadata :: rest =>
    metadata :: metadataBroadcasts rest
  | _ :: rest => metadataBroadcasts rest

/-! ## Finding a network source by name (`UNDIIOLibrary`) -/

/-- The search loop of `K2_FindNetworkSourceByName`, entered at the loop test
with the given `current_index` and `last_index`. `Compare` is the engine's
`FString::Compare` with `ESearchCase::IgnoreCase`, of which only the sign is
read. The first argument bounds the number of iterations; `none` means the
bound was reached. Returns the descriptor handed back and the result. -/
def K2_FindNetworkSourceByName_loop (Compare : FString → FString → Int)
    (NetworkSourceCollection : List FNDIConnectionInformation) (InSourceName : FString)
    (ConnectionInformation : FNDIConnectionInformation) :
    Nat → Int → Int → Option (FNDIConnectionInformation × Bool)
  | 0, _, _ => none
  | fuel + 1, current_index, last_index =>
    if current_index < last_index then
      if 0 ≤ current_index ∧ current_index < NetworkSourceCollection.length then
        match NetworkSourceCollection[current_index.toNat]? with
        | some source_info =>
          let comparitor_value := Compare InSourceName source_info.SourceName
          if comparitor_value ≠ 0 then
            if comparitor_value ≤ 0 then
              let last_index := current_index
              let current_index := Int.tdiv last_index 2
              K2_FindNetworkSourceByName_loop Compare NetworkSourceCollection InSourceName
                ConnectionInformation fuel current_index last_index
            else if comparitor_value > 0 then
              let current_index := Int.tdiv (last_index + current_index + 1) 2
              K2_FindNetworkSourceByName_loop Compare NetworkSourceCollection InSourceName
                ConnectionInformation fuel current_index last_index
            else
              K2_FindNetworkSourceByName_loop Compare NetworkSourceCollection InSourceName
                ConnectionInformation fuel current_index last_index
          else
            let ConnectionInformation := source_info
            some (ConnectionInformation, true)
        | none => some (ConnectionInformation, false)
      else some (ConnectionInformation, false)
    else some (ConnectionInformation, false)

/-- Looks a source up by name (`UNDIIOLibrary::K2_FindNetworkSourceByName`).
`NetworkSourceCollection` is what the finder service hands back. Returns the
descriptor handed back through `ConnectionInformation` and the result. -/
def K2_FindNetworkSourceByName (Compare : FString → FString → Int) (fuel : Nat)
    (NetworkSourceCollection : List FNDIConnectionInformation)
    (ConnectionInformation : FNDIConnectionInformation) (InSourceName : FString) :
    Option (FNDIConnectionInformation × Bool) :=
  let ConnectionInformation := ConnectionInformation.Reset
  let final_count : Int := NetworkSourceCollection.length
  let last_index := final_count
  K2_FindNetworkSourceByName_loop Compare NetworkSourceCollection InSourceName
    ConnectionInformation fuel 0 last_index

/-- A comparison of names that ignores the case of the letters `A` to `Z` and
orders names by their character codes; its sign is what the search reads. -/
def sampleCompare (a b : FString) : Int :=
  if ignoreCaseKey a < ignoreCaseKey b then -1
  else if ignoreCaseKey a = ignoreCaseKey b then 0 else 1

/-- Three sources in ascending order of their names. -/
def sampleSources : List FNDIConnectionInformation :=
  [{ SourceName := "alpha (Cam)" }, { SourceName := "Beta (Cam)" }, { SourceName := "gamma (Cam)" }]

/-! ## Drawing a progressive frame (`DrawProgressiveVideoFrame`) -/

/-- The render-thread calls of a draw function that say which buffers are
created and used. A texture is written as its size. `BeginRenderPass` carries
the texture the pass renders into and, next to it, the size of the pooled
render target it belongs to. -/
inductive RenderCall where
  | RHICreateTexture (SizeX SizeY : Int)
  | FindFreeElement (Desc : Option FIntPoint) (Element : Nat)
  | BeginRenderPass (ConversionTexture : Nat) (Size : Option FIntPoint)
  | SetParameters (SourceTexture : Option FIntPoint) (OutputSize : FIntPoint)
  | RHIUpdateTexture2D (Texture : Option FIntPoint) (Width Height : Int) (SourcePitch : Int)
      (SourceData : Nat)
  | SetViewport (MaxX MaxY : Int)
  | DrawPrimitive
  | EndRenderPass
  deriving DecidableEq, Repr

/-- Whether a call creates a buffer. -/
def RenderCall.isCreation : RenderCall → Bool
  | RenderCall.RHICreateTexture _ _ => true
  | RenderCall.FindFreeElement _ _ => true
  | _ => false

/-- The descriptor `FPooledRenderTargetDesc::Create2DDesc` makes for an extent,
in the representation of `RenderTargetDescriptor`: its size when the engine's
`FPooledRenderTargetDesc::IsValid` accepts it. That test is the parameter
`IsValid`. -/
def Create2DDesc (IsValid : FIntPoint → Bool) (InExtent : FIntPoint) : Option FIntPoint :=
  if IsValid InExtent then some InExtent else none

namespace UNDIMediaReceiver

/-- Converts and draws one progressive frame (`DrawProgressiveVideoFrame`).
`Element` is the pooled render target `FindFreeElement` hands out if it is
called. Returns the receiver, the targetable texture and the render-thread
calls. `GetSize()` of a descriptor made by `Create2DDesc` is its extent with
depth 0, so the size test compares the extent with the frame size. The scope
lock and the pipeline state set-up are not shown. -/
def DrawProgressiveVideoFrame (IsValid : FIntPoint → Bool) (Element : Nat)
    (self : UNDIMediaReceiver) (Result : NDIlib_video_frame_v2_t) :
    UNDIMediaReceiver × Nat × List RenderCall :=
  let TargetableTexture := nullptr
  if self.p_framesync_instance != nullptr then
    let FrameSize : FIntPoint := { X := Result.xres, Y := Result.yres }
    let (s, e0) :=
      if self.RenderTarget == nullptr || self.RenderTargetDescriptor.isNone ||
          self.RenderTargetDescriptor != some FrameSize ||
          self.DrawMode != EDrawMode.Progressive then
        let s := { self with RenderTargetDescriptor := Create2DDesc IsValid FrameSize }
        let s := { s with SourceTexture :=
                            some { X := Int.tdiv FrameSize.X 2, Y := FrameSize.Y } }
        let s := { s with RenderTarget := Element,
                          RenderTargetItemDesc := s.RenderTargetDescriptor }
        let s := { s with DrawMode := EDrawMode.Progressive }
        (s, [RenderCall.RHICreateTexture (Int.tdiv FrameSize.X 2) FrameSize.Y,
             RenderCall.FindFreeElement s.RenderTargetDescriptor Element])
      else (self, [])
    let TargetableTexture := s.RenderTarget
    let ConversionTexture := TargetableTexture
    (s, TargetableTexture,
      e0 ++
      [RenderCall.BeginRenderPass ConversionTexture s.RenderTargetItemDesc,
       RenderCall.SetParameters s.SourceTexture FrameSize,
       RenderCall.RHIUpdateTexture2D s.SourceTexture (Int.tdiv FrameSize.X 2) FrameSize.Y
         Result.line_stride_in_bytes Result.p_data,
       RenderCall.SetViewport FrameSize.X FrameSize.Y,
       RenderCall.DrawPrimitive,
       RenderCall.EndRenderPass])
  else (self, TargetableTexture, [])

/-- Draws a sequence of progressive frames, each with the pooled render target
the pool would hand out for it; returns the receiver and the calls of each
frame. -/
def DrawProgressiveVideoFrames (IsValid : FIntPoint → Bool) (self : UNDIMediaReceiver) :
    List (Nat × NDIlib_video_frame_v2_t) → UNDIMediaReceiver × List (List RenderCall)
  | [] => (self, [])
  | (Element, Result) :: rest =>
    let (s1, _, e1) := self.DrawProgressiveVideoFrame IsValid Element Result
    let (s2, e2) := s1.DrawProgressiveVideoFrames IsValid rest
    (s2, e1 :: e2)

/-- The buffers of a receiver in progressive draw mode fit their descriptor:
the source texture has half its width and the render target was handed out
for it. -/
def ProgressiveCoherent (self : UNDIMediaReceiver) : Prop :=
  self.RenderTarget ≠ nullptr → self.DrawMode = EDrawMode.Progressive →
    ∀ d, self.RenderTargetDescriptor = some d →
      self.SourceTexture = some { X := Int.tdiv d.X 2, Y := d.Y } ∧
      self.RenderTargetItemDesc = some d

end UNDIMediaReceiver

/-- The size of a frame. -/
def NDIlib_video_frame_v2_t.FrameSize (Result : NDIlib_video_frame_v2_t) : FIntPoint :=
  { X := Result.xres, Y := Result.yres }

/-- The calls that create the buffers for a frame size: the source texture of
half the width and the render target `Element` for the descriptor of the full
size. -/
def progressiveCreate (Element : Nat) (FrameSize : FIntPoint) : List RenderCall :=
  [RenderCall.RHICreateTexture (Int.tdiv FrameSize.X 2) FrameSize.Y,
   RenderCall.FindFreeElement (some FrameSize) Element]

/-- The calls that draw a frame into buffers of its own size: a render target
of the frame size and a source texture of half the width. -/
def progressiveDraw (RenderTarget : Nat) (Result : NDIlib_video_frame_v2_t) : List RenderCall :=
  [RenderCall.BeginRenderPass RenderTarget (some Result.FrameSize),
   RenderCall.SetParameters (some { X := Int.tdiv Result.xres 2, Y := Result.yres })
     Result.FrameSize,
   RenderCall.RHIUpdateTexture2D (some { X := Int.tdiv Result.xres 2, Y := Result.yres })
     (Int.tdiv Result.xres 2) Result.yres Result.line_stride_in_bytes Result.p_data,
   RenderCall.SetViewport Result.xres Result.yres,
   RenderCall.DrawPrimitive,
   RenderCall.EndRenderPass]

/-- The engine test of a descriptor as far as the extent goes: both sides
positive. -/
def positiveExtent (d : FIntPoint) : Bool := decide (0 < d.X) && decide (0 < d.Y)

/-- A progressive 1280x720 frame. -/
def smallFrame : NDIlib_video_frame_v2_t :=
  { untimedCapture.video_frame with xres := 1280, yres := 720, line_stride_in_bytes := 2560 }

/-- The receiver holds buffers made for the frame size `d` in progressive draw
mode and a frame-sync instance. -/
def UNDIMediaReceiver.SettledFor (self : UNDIMediaReceiver) (d : FIntPoint) : Prop :=
  self.p_framesync_instance ≠ nullptr ∧ self.RenderTarget ≠ nullptr ∧
  self.RenderTargetDescriptor = some d ∧ self.DrawMode = EDrawMode.Progressive ∧
  self.SourceTexture = some { X := Int.tdiv d.X 2, Y := d.Y } ∧
  self.RenderTargetItemDesc = some d

/-! ## Audio and metadata operations with their locks -/

/-- What one call of `CaptureConnectedAudio` takes from the transport: the
depth of the audio queue and, of the frame the frame-sync hands back, the data
pointer and the numbers of samples and channels. -/
structure AudioCaptureInput where
  queue_depth : Int
  p_data : Nat
  no_samples : Int
  no_channels : Int
  deriving DecidableEq, Repr

namespace UNDIMediaReceiver

/-- Captures an audio frame (`CaptureConnectedAudio`), with the scope lock on
`AudioSyncContext` that its first statement takes and its return gives back
shown in the trace. Returns the receiver, `bHaveCaptured` and the outward
calls. Arithmetic on `int32` is exact. -/
def CaptureConnectedAudio (self : UNDIMediaReceiver) (input : AudioCaptureInput) :
    UNDIMediaReceiver × Bool × List Effect :=
  let bHaveCaptured := false
  let (s, bHaveCaptured, e) :=
    if self.p_framesync_instance != nullptr &&
        self.ConnectionInformation.bMuteAudio == false then
      let no_samples := input.queue_depth
      let e0 := [Effect.NDIlib_framesync_audio_queue_depth self.p_framesync_instance,
                 Effect.NDIlib_framesync_capture_audio self.p_framesync_instance no_samples]
      let (s, bHaveCaptured, e1) :=
        if input.p_data != nullptr then
          let (s, ec) := self.SetIsCurrentlyConnected true
          let available_samples := input.no_samples * input.no_channels
          if available_samples > 0 then
            (s, true, ec ++ [Effect.OnNDIReceiverAudioCaptureEvent_Broadcast,
                             Effect.OnReceiverAudioReceived_Broadcast])
          else (s, bHaveCaptured, ec)
        else (self, bHaveCaptured, [])
      (s, bHaveCaptured,
        e0 ++ e1 ++ [Effect.NDIlib_framesync_free_audio self.p_framesync_instance])
    else (self, bHaveCaptured, [])
  (s, bHaveCaptured,
    [Effect.FScopeLock_Lock SyncContext.AudioSyncContext] ++ e ++
    [Effect.FScopeLock_Unlock SyncContext.AudioSyncContext])

/-- `CaptureConnectedMetadata` with the scope lock on `MetadataSyncContext`
that its first statement takes and its return gives back shown in the
trace. -/
def CaptureConnectedMetadataScoped (self : UNDIMediaReceiver)
    (queue : List NDIlib_metadata_frame_t) :
    UNDIMediaReceiver × Bool × List NDIlib_metadata_frame_t × List Effect :=
  let (s, bHaveCaptured, rest, e) := self.CaptureConnectedMetadata queue
  (s, bHaveCaptured, rest,
    [Effect.FScopeLock_Lock SyncContext.MetadataSyncContext] ++ e ++
    [Effect.FScopeLock_Unlock SyncContext.MetadataSyncContext])

/-- Sends a metadata frame to the sender the receiver is connected to
(`UNDIMediaReceiver::SendMetadataFrame`), with its scope lock; the timecode of
the frame is not recorded. -/
def SendMetadataFrame (self : UNDIMediaReceiver) (Data : FString) :
    UNDIMediaReceiver × List Effect :=
  let e :=
    if self.p_receive_instance != nullptr then
      [Effect.NDIlib_recv_send_metadata self.p_receive_instance Data]
    else []
  (self,
    [Effect.FScopeLock_Lock SyncContext.MetadataSyncContext] ++ e ++
    [Effect.FScopeLock_Unlock SyncContext.MetadataSyncContext])

end UNDIMediaReceiver

namespace UNDIMediaSender

/-- Sends an audio frame (`TrySendAudioFrame`). `no_connections` is what
`NDIlib_send_get_no_connections` returns. The audio data, the sample rate and
the timecode go into the frame that is sent and are not recorded. Returns
`none` where the source has no defined behaviour (`NumSamples / NumChannels`
with no channel). -/
def TrySendAudioFrame (self : UNDIMediaSender) (NumSamples NumChannels : Int)
    (no_connections : Int) : Option (UNDIMediaSender × List SenderEffect) :=
  if self.bEnableAudio && (self.p_send_instance != nullptr) &&
      (!self.bIsChangingBroadcastSize) then
    if no_connections > 0 then
      if NumChannels = 0 then none
      else
        let _no_samples := Int.tdiv NumSamples NumChannels
        some (self,
          [SenderEffect.Lock SyncContext.AudioSyncContext,
           SenderEffect.NDIlib_send_get_no_connections self.p_send_instance,
           SenderEffect.NDIlib_util_audio_from_interleaved_32f_v2,
           SenderEffect.OnSenderAudioPreSend_Broadcast,
           SenderEffect.NDIlib_send_send_audio_v2 self.p_send_instance,
           SenderEffect.OnSenderAudioSent_Broadcast,
           SenderEffect.Unlock SyncContext.AudioSyncContext])
    else
      some (self,
        [SenderEffect.Lock SyncContext.AudioSyncContext,
         SenderEffect.NDIlib_send_get_no_connections self.p_send_instance,
         SenderEffect.Unlock SyncContext.AudioSyncContext])
  else some (self, [])

/-- Sends a metadata frame, or attaches it to the next video frame
(`UNDIMediaSender::SendMetadataFrame`); the timecode of the frame is not
recorded. The scope lock on `RenderSyncContext` is taken only where the data
is attached. -/
def SendMetadataFrame (self : UNDIMediaSender) (Data : FString) (AttachToVideoFrame : Bool) :
    Except Fault (UNDIMediaSender × List SenderEffect) := do
  if self.p_send_instance != nullptr then
    if AttachToVideoFrame == true then
      let ring ← self.ReadbackTextures.AddMetaData Data
      pure ({ self with ReadbackTextures := ring },
        [SenderEffect.Lock SyncContext.RenderSyncContext,
         SenderEffect.Unlock SyncContext.RenderSyncContext])
    else
      pure (self,
        [SenderEffect.OnSenderMetaDataPreSend_Broadcast,
         SenderEffect.NDIlib_send_send_metadata self.p_send_instance Data,
         SenderEffect.OnSenderMetaDataSent_Broadcast])
  else pure (self, [])

end UNDIMediaSender

/-- An audio capture with data: 480 samples of 2 channels. -/
def sampleAudioCapture : AudioCaptureInput :=
  { queue_depth := 480, p_data := 600, no_samples := 480, no_channels := 2 }

/-- The outward calls of `TrySendAudioFrame` on the initialised sender (send
instance 9) when it has a connection. -/
def sampleAudioSendTrace : List SenderEffect :=
  [SenderEffect.Lock SyncContext.AudioSyncContext,
   SenderEffect.NDIlib_send_get_no_connections 9,
   SenderEffect.NDIlib_util_audio_from_interleaved_32f_v2,
   SenderEffect.OnSenderAudioPreSend_Broadcast,
   SenderEffect.NDIlib_send_send_audio_v2 9,
   SenderEffect.OnSenderAudioSent_Broadcast,
   SenderEffect.Unlock SyncContext.AudioSyncContext]

/-! ## Helper lemmas -/

theorem FString_isEmpty_iff (s : FString) : s.isEmpty = true ↔ s = "" :=
  String.isEmpty_iff s

theorem ignoreCaseKey_eq_nil (s : FString) : ignoreCaseKey s = [] ↔ s = "" := by
  unfold ignoreCaseKey
  rw [List.map_eq_nil_iff]
  constructor
  · intro h
    exact String.ext (by simpa using h)
  · intro h
    rw [h]
    rfl

theorem FString_Equals_refl (a : FString) : FString_Equals a a = true := by
  simp [FString_Equals]

theorem FString_Equals_of_eq (a b : FString) (h : a = b) : FString_Equals a b = true := by
  rw [h]
  exact FString_Equals_refl b

theorem FString_Equals_empty (a : FString) : FString_Equals a "" = true ↔ a = "" := by
  have h0 : ignoreCaseKey "" = [] := rfl
  simp only [FString_Equals, beq_iff_eq, h0]
  exact ignoreCaseKey_eq_nil a

theorem FString_Equals_empty_left (a : FString) : FString_Equals "" a = true ↔ a = "" := by
  have h0 : ignoreCaseKey "" = [] := rfl
  simp only [FString_Equals, beq_iff_eq, h0]
  rw [eq_comm]
  exact ignoreCaseKey_eq_nil a

theorem FNDIConnectionInformation.eq_iff (a b : FNDIConnectionInformation) :
    a.eq b = true ↔
      (a.Bandwidth = b.Bandwidth ∧ FString_Equals a.MachineName b.MachineName = true ∧
       FString_Equals a.SourceName b.SourceName = true ∧
       FString_Equals a.StreamName b.StreamName = true ∧
       FString_Equals a.Url b.Url = true ∧
       a.bMuteAudio = b.bMuteAudio ∧ a.bMuteVideo = b.bMuteVideo) := by
  simp only [FNDIConnectionInformation.eq, Bool.and_eq_true, beq_iff_eq]
  tauto

theorem FNDIConnectionInformation.eq_self (a : FNDIConnectionInformation) : a.eq a = true := by
  rw [FNDIConnectionInformation.eq_iff]
  exact ⟨rfl, FString_Equals_refl _, FString_Equals_refl _, FString_Equals_refl _,
    FString_Equals_refl _, rfl, rfl⟩

theorem FNDIConnectionInformation.ne_iff (a b : FNDIConnectionInformation) :
    a.ne b = true ↔ a.eq b = false := by
  simp [FNDIConnectionInformation.ne]

theorem FNDIConnectionInformation.ne_false_iff (a b : FNDIConnectionInformation) :
    a.ne b = false ↔ a.eq b = true := by
  simp [FNDIConnectionInformation.ne]

theorem FNDIConnectionInformation.ne_self (a : FNDIConnectionInformation) : a.ne a = false :=
  (FNDIConnectionInformation.ne_false_iff a a).2 (FNDIConnectionInformation.eq_self a)

namespace UNDIMediaReceiver

theorem ChangeConnection_no_receive_instance (a b : Nat) (r : UNDIMediaReceiver)
    (d : FNDIConnectionInformation) (h : r.p_receive_instance = nullptr) :
    r.ChangeConnection a b d = (r, []) := by
  simp [ChangeConnection, h]

theorem ChangeConnection_same_descriptor (a b : Nat) (r : UNDIMediaReceiver)
    (d : FNDIConnectionInformation) (h : r.ConnectionInformation.ne d = false) :
    r.ChangeConnection a b d = (r, []) := by
  simp [ChangeConnection, h]

theorem ChangeConnection_invalid (a b : Nat) (r : UNDIMediaReceiver)
    (d : FNDIConnectionInformation) (hrecv : r.p_receive_instance ≠ nullptr)
    (hne : r.ConnectionInformation.ne d = true) (hinv : d.IsValid = false) :
    r.ChangeConnection a b d = ({ r with ConnectionInformation := d }).StopConnection := by
  simp [ChangeConnection, hrecv, hne, hinv]

theorem ChangeConnection_start (a b : Nat) (r : UNDIMediaReceiver)
    (d : FNDIConnectionInformation) (hrecv : r.p_receive_instance ≠ nullptr)
    (hvalid : d.IsValid = true)
    (hchg : FString_Equals r.ConnectionInformation.SourceName d.SourceName = false ∨
      FString_Equals r.ConnectionInformation.MachineName d.MachineName = false ∨
      FString_Equals r.ConnectionInformation.StreamName d.StreamName = false ∨
      FString_Equals r.ConnectionInformation.Url d.Url = false ∨
      r.ConnectionInformation.Bandwidth ≠ d.Bandwidth ∨
      (r.ConnectionInformation.ne d = true ∧ r.p_framesync_instance = nullptr)) :
    r.ChangeConnection a b d = ({ r with ConnectionInformation := d }).StartConnection a b := by
  have hne2 : r.ConnectionInformation.ne d = true := by
    rw [FNDIConnectionInformation.ne_iff, ← Bool.not_eq_true, FNDIConnectionInformation.eq_iff]
    rcases hchg with h | h | h | h | h | h
    · intro e; rw [e.2.2.1] at h; exact Bool.noConfusion h
    · intro e; rw [e.2.1] at h; exact Bool.noConfusion h
    · intro e; rw [e.2.2.2.1] at h; exact Bool.noConfusion h
    · intro e; rw [e.2.2.2.2.1] at h; exact Bool.noConfusion h
    · intro e; exact h e.1
    · intro e
      have := h.1
      rw [FNDIConnectionInformation.ne_iff, ← Bool.not_eq_true,
        FNDIConnectionInformation.eq_iff] at this
      exact this e
  simp only [ChangeConnection, bne_iff_ne, ne_eq, hrecv, not_false_eq_true, ↓reduceIte, hne2,
    hvalid, Bool.or_eq_true, beq_iff_eq]
  rw [if_pos]
  cases h1 : FString_Equals r.ConnectionInformation.SourceName d.SourceName <;>
  cases h2 : FString_Equals r.ConnectionInformation.MachineName d.MachineName <;>
  cases h3 : FString_Equals r.ConnectionInformation.StreamName d.StreamName <;>
  cases h4 : FString_Equals r.ConnectionInformation.Url d.Url <;>
  by_cases h5 : r.ConnectionInformation.Bandwidth = d.Bandwidth <;>
  simp_all

theorem StartConnection_valid (a b : Nat) (r : UNDIMediaReceiver)
    (hvalid : r.ConnectionInformation.IsValid = true) :
    r.StartConnection a b =
      ({ r with p_receive_instance := a, p_framesync_instance := b },
        [Effect.NDIlib_recv_create_v3 true r.ConnectionInformation.toBandwidth a,
         Effect.NDIlib_recv_connect a r.ConnectionInformation.GetNDIName
           r.ConnectionInformation.Url] ++
        (if r.p_framesync_instance = nullptr then []
          else [Effect.NDIlib_framesync_destroy r.p_framesync_instance]) ++
        (if r.p_receive_instance = nullptr then []
          else [Effect.NDIlib_recv_destroy r.p_receive_instance]) ++
        [Effect.NDIlib_framesync_create a b]) := by
  simp [StartConnection, StopConnection, hvalid]

theorem SetIsCurrentlyConnected_state (r : UNDIMediaReceiver) (b : Bool) :
    (r.SetIsCurrentlyConnected b).1 = { r with bIsCurrentlyConnected := b } := by
  unfold SetIsCurrentlyConnected
  by_cases h : b = r.bIsCurrentlyConnected
  · subst h
    simp
  · have h2 : (b != r.bIsCurrentlyConnected) = true := by simpa using h
    simp only [h2, if_true]
    split <;> split <;> rfl

theorem SetIsCurrentlyConnected_effects (r : UNDIMediaReceiver) (b : Bool)
    (hc : IsBound r.OnNDIReceiverConnectedEvent = true)
    (hd : IsBound r.OnNDIReceiverDisconnectedEvent = true) :
    (r.SetIsCurrentlyConnected b).2 =
      if (!r.bIsCurrentlyConnected && b) = true then
        [Effect.AsyncTask_OnNDIReceiverConnectedEvent_Broadcast]
      else if (r.bIsCurrentlyConnected && !b) = true then
        [Effect.AsyncTask_OnNDIReceiverDisconnectedEvent_Broadcast]
      else [] := by
  unfold SetIsCurrentlyConnected
  cases b <;> cases h : r.bIsCurrentlyConnected <;> simp [hc, hd]

theorem SetIsCurrentlyConnected_same (r : UNDIMediaReceiver) (b : Bool)
    (h : b = r.bIsCurrentlyConnected) : r.SetIsCurrentlyConnected b = (r, []) := by
  simp [SetIsCurrentlyConnected, h]

theorem SetIsCurrentlyConnectedSeq_counts (bs : List Bool) :
    ∀ r : UNDIMediaReceiver, IsBound r.OnNDIReceiverConnectedEvent = true →
      IsBound r.OnNDIReceiverDisconnectedEvent = true →
      (r.SetIsCurrentlyConnectedSeq bs).2.count
          Effect.AsyncTask_OnNDIReceiverConnectedEvent_Broadcast =
        risingEdges r.bIsCurrentlyConnected bs ∧
      (r.SetIsCurrentlyConnectedSeq bs).2.count
          Effect.AsyncTask_OnNDIReceiverDisconnectedEvent_Broadcast =
        fallingEdges r.bIsCurrentlyConnected bs := by
  induction bs with
  | nil => intro r _ _; simp [SetIsCurrentlyConnectedSeq, risingEdges, fallingEdges]
  | cons b bs ih =>
    intro r hc hd
    have hst := SetIsCurrentlyConnected_state r b
    have hef := SetIsCurrentlyConnected_effects r b hc hd
    have ih2 := ih (r.SetIsCurrentlyConnected b).1 (by rw [hst]; exact hc) (by rw [hst]; exact hd)
    have hcur : (r.SetIsCurrentlyConnected b).1.bIsCurrentlyConnected = b := by rw [hst]
    rw [hcur] at ih2
    simp only [SetIsCurrentlyConnectedSeq, List.count_append, risingEdges, fallingEdges,
      ih2.1, ih2.2, hef]
    cases b <;> cases r.bIsCurrentlyConnected <;> simp

end UNDIMediaReceiver

/-! ## Connection state machine: the claims -/

/-- C1: on a receiver that holds a receive instance and a frame-sync instance
and whose stored descriptor is valid, `ChangeConnection` with a descriptor that
agrees with the stored one in source name, machine name, stream name, url and
bandwidth (so differs at most in the mute flags) makes no outward call at all:
no transport handle is destroyed or created, no Connected or Disconnected
notification is scheduled, both handles are kept, and only the stored
descriptor is replaced. -/
theorem C1_mute_only_change_keeps_connection (a b : Nat) (r : UNDIMediaReceiver)
    (d : FNDIConnectionInformation)
    (hrecv : r.p_receive_instance ≠ nullptr) (hfs : r.p_framesync_instance ≠ nullptr)
    (hvalid : r.ConnectionInformation.IsValid = true)
    (hSource : d.SourceName = r.ConnectionInformation.SourceName)
    (hMachine : d.MachineName = r.ConnectionInformation.MachineName)
    (hStream : d.StreamName = r.ConnectionInformation.StreamName)
    (hUrl : d.Url = r.ConnectionInformation.Url)
    (hBandwidth : d.Bandwidth = r.ConnectionInformation.Bandwidth) :
    (r.ChangeConnection a b d).2 = [] ∧
    (r.ChangeConnection a b d).1.p_receive_instance = r.p_receive_instance ∧
    (r.ChangeConnection a b d).1.p_framesync_instance = r.p_framesync_instance ∧
    (r.ChangeConnection a b d).1.bIsCurrentlyConnected = r.bIsCurrentlyConnected ∧
    (r.ChangeConnection a b d).1 = { r with ConnectionInformation := d } := by
  have hdvalid : d.IsValid = true := by
    simpa [FNDIConnectionInformation.IsValid, hSource, hMachine, hStream, hUrl] using hvalid
  cases hne : r.ConnectionInformation.ne d with
  | false =>
    rw [UNDIMediaReceiver.ChangeConnection_same_descriptor a b r d hne]
    have he := (FNDIConnectionInformation.eq_iff _ _).1
      ((FNDIConnectionInformation.ne_false_iff _ _).1 hne)
    have hd : r.ConnectionInformation = d := by
      cases hci : r.ConnectionInformation
      cases d
      simp only [hci] at hSource hMachine hStream hUrl hBandwidth he
      simp only [FNDIConnectionInformation.mk.injEq]
      exact ⟨hSource.symm, hMachine.symm, hStream.symm, hUrl.symm, hBandwidth.symm,
        he.2.2.2.2.2.1, he.2.2.2.2.2.2⟩
    subst hd
    exact ⟨rfl, rfl, rfl, rfl, rfl⟩
  | true =>
    have hres : r.ChangeConnection a b d = ({ r with ConnectionInformation := d }, []) := by
      simp [UNDIMediaReceiver.ChangeConnection, hrecv, hfs, hne, hdvalid, hSource, hMachine,
        hStream, hUrl, hBandwidth, FString_Equals_refl]
    rw [hres]
    exact ⟨rfl, rfl, rfl, rfl, rfl⟩

/-- Witness of C1: muting the audio of the sample receiver. -/
theorem C1_mute_only_change_keeps_connection_witness :
    (sampleReceiver.ChangeConnection 13 14
        { SourceName := "A (Cam1)", bMuteAudio := true }).2 = [] ∧
    (sampleReceiver.ChangeConnection 13 14
        { SourceName := "A (Cam1)", bMuteAudio := true }).1.p_receive_instance = 11 ∧
    (sampleReceiver.ChangeConnection 13 14
        { SourceName := "A (Cam1)", bMuteAudio := true }).1.p_framesync_instance = 12 :=
  have h := C1_mute_only_change_keeps_connection 13 14 sampleReceiver
    { SourceName := "A (Cam1)", bMuteAudio := true }
    (by decide) (by decide) (by decide) rfl rfl rfl rfl rfl
  ⟨h.1, h.2.1, h.2.2.1⟩

/-- Counterexample to C2 as stated: the sample receiver is connected to
"A (Cam1)"; the valid descriptor with the source name "a (cam1)" differs from
the stored descriptor in its source name, yet `ChangeConnection` makes no
transport call, keeps both handles and does not store the descriptor, because
the two names compare equal under the comparison of `FString`, which ignores
case. -/
theorem C2_case_only_change_counterexample :
    FNDIConnectionInformation.IsValid { SourceName := "a (cam1)" } = true ∧
    sampleReceiver.p_receive_instance ≠ nullptr ∧
    sampleReceiver.ConnectionInformation.SourceName = "A (Cam1)" ∧
    sampleReceiver.ConnectionInformation.SourceName ≠ "a (cam1)" ∧
    sampleReceiver.ChangeConnection 13 14 { SourceName := "a (cam1)" } =
      (sampleReceiver, []) := by
  decide

/-- C2, amended: on a receiver that holds a receive instance, `ChangeConnection`
with a valid descriptor whose source name, machine name, stream name or url
does not compare equal to the stored one under the comparison of `FString`
(which ignores case), or whose bandwidth differs, reconnects. With the
transport handing back non-null handles, the new receive handle not being the
one still in use, the old receive instance is destroyed exactly once, the old
frame-sync instance is destroyed exactly once if there was one (and no
frame-sync destroy call is made otherwise), the new receive instance is never
destroyed, the creation of the new frame-sync instance is the last transport
call, and afterwards the receiver holds the receive instance created with the
bandwidth of the new descriptor and connected to its name and url, and the
frame-sync instance created on it. -/
theorem C2_identity_change_reconnects (a b : Nat) (r : UNDIMediaReceiver)
    (d : FNDIConnectionInformation)
    (hrecv : r.p_receive_instance ≠ nullptr) (hvalid : d.IsValid = true)
    (hchg : FString_Equals r.ConnectionInformation.SourceName d.SourceName = false ∨
      FString_Equals r.ConnectionInformation.MachineName d.MachineName = false ∨
      FString_Equals r.ConnectionInformation.StreamName d.StreamName = false ∨
      FString_Equals r.ConnectionInformation.Url d.Url = false ∨
      r.ConnectionInformation.Bandwidth ≠ d.Bandwidth)
    (ha : a ≠ nullptr) (hb : b ≠ nullptr) (hafresh : a ≠ r.p_receive_instance) :
    ((r.ChangeConnection a b d).2.count (Effect.NDIlib_recv_destroy r.p_receive_instance) = 1) ∧
    ((r.ChangeConnection a b d).2.count
        (Effect.NDIlib_framesync_destroy r.p_framesync_instance) =
      if r.p_framesync_instance = nullptr then 0 else 1) ∧
    (∀ h, Effect.NDIlib_recv_destroy h ∈ (r.ChangeConnection a b d).2 →
      h = r.p_receive_instance) ∧
    (∀ h, Effect.NDIlib_framesync_destroy h ∈ (r.ChangeConnection a b d).2 →
      h = r.p_framesync_instance ∧ h ≠ nullptr) ∧
    Effect.NDIlib_recv_create_v3 true d.toBandwidth a ∈ (r.ChangeConnection a b d).2 ∧
    Effect.NDIlib_recv_connect a d.GetNDIName d.Url ∈ (r.ChangeConnection a b d).2 ∧
    Effect.NDIlib_framesync_create a b ∈ (r.ChangeConnection a b d).2 ∧
    (r.ChangeConnection a b d).1.p_receive_instance = a ∧
    (r.ChangeConnection a b d).1.p_framesync_instance = b ∧
    (r.ChangeConnection a b d).1.p_receive_instance ≠ nullptr ∧
    (r.ChangeConnection a b d).1.p_framesync_instance ≠ nullptr ∧
    Effect.NDIlib_recv_destroy a ∉ (r.ChangeConnection a b d).2 ∧
    (r.ChangeConnection a b d).2.getLast? = some (Effect.NDIlib_framesync_create a b) ∧
    (r.ChangeConnection a b d).1.ConnectionInformation = d := by
  have hchg2 : FString_Equals r.ConnectionInformation.SourceName d.SourceName = false ∨
      FString_Equals r.ConnectionInformation.MachineName d.MachineName = false ∨
      FString_Equals r.ConnectionInformation.StreamName d.StreamName = false ∨
      FString_Equals r.ConnectionInformation.Url d.Url = false ∨
      r.ConnectionInformation.Bandwidth ≠ d.Bandwidth ∨
      (r.ConnectionInformation.ne d = true ∧ r.p_framesync_instance = nullptr) := by tauto
  rw [UNDIMediaReceiver.ChangeConnection_start a b r d hrecv hvalid hchg2,
    UNDIMediaReceiver.StartConnection_valid a b _ hvalid]
  by_cases hfs : r.p_framesync_instance = nullptr
  · simp [hfs, hrecv, ha, hb, hafresh, Ne.symm hafresh]
  · simp [hfs, hrecv, ha, hb, hafresh, Ne.symm hafresh]

/-- Witness of the amended C2: the sample receiver, connected to "A (Cam1)", is
sent to "B". -/
theorem C2_identity_change_reconnects_witness :
    (sampleReceiver.ChangeConnection 13 14 { SourceName := "B" }).2.count
        (Effect.NDIlib_recv_destroy 11) = 1 ∧
    (sampleReceiver.ChangeConnection 13 14 { SourceName := "B" }).2.count
        (Effect.NDIlib_framesync_destroy 12) = 1 ∧
    (sampleReceiver.ChangeConnection 13 14 { SourceName := "B" }).1.p_receive_instance = 13 ∧
    (sampleReceiver.ChangeConnection 13 14 { SourceName := "B" }).1.p_framesync_instance = 14 :=
  have h := C2_identity_change_reconnects 13 14 sampleReceiver { SourceName := "B" }
    (by decide) (by decide) (Or.inl (by decide)) (by decide) (by decide) (by decide)
  ⟨h.1, h.2.1, h.2.2.2.2.2.2.2.1, h.2.2.2.2.2.2.2.2.1⟩

/-- Counterexample to C3 as stated: when the sample receiver (handles 11 and
12) is sent to source "B", the create call for the new receive instance 13 is
the first transport call; the destroy calls for the old frame-sync and receive
instances come after it, not before. -/
theorem C3_destroy_before_create_counterexample :
    (sampleReceiver.ChangeConnection 13 14 { SourceName := "B" }).2 =
      [Effect.NDIlib_recv_create_v3 true
         NDIlib_recv_bandwidth_e.NDIlib_recv_bandwidth_highest 13,
       Effect.NDIlib_recv_connect 13 "B" "",
       Effect.NDIlib_framesync_destroy 12,
       Effect.NDIlib_recv_destroy 11,
       Effect.NDIlib_framesync_create 13 14] ∧
    ¬ ((sampleReceiver.ChangeConnection 13 14 { SourceName := "B" }).2.indexOf
          (Effect.NDIlib_recv_destroy 11) <
        (sampleReceiver.ChangeConnection 13 14 { SourceName := "B" }).2.indexOf
          (Effect.NDIlib_recv_create_v3 true
            NDIlib_recv_bandwidth_e.NDIlib_recv_bandwidth_highest 13)) ∧
    ¬ ((sampleReceiver.ChangeConnection 13 14 { SourceName := "B" }).2.indexOf
          (Effect.NDIlib_framesync_destroy 12) <
        (sampleReceiver.ChangeConnection 13 14 { SourceName := "B" }).2.indexOf
          (Effect.NDIlib_recv_create_v3 true
            NDIlib_recv_bandwidth_e.NDIlib_recv_bandwidth_highest 13)) := by
  decide

/-- C3, amended: in every `ChangeConnection` call that reconnects (source
name, machine name, stream name or url not equal to the stored one under the
comparison of `FString`, which ignores case, or bandwidth changed; new
descriptor valid, receive instance held), the transport calls of the
operation are, in this order: create the new receive instance, connect it,
destroy the old frame-sync instance (if there is one), destroy the old
receive instance, create the new frame-sync instance. The new receive
instance is created before the old handles are destroyed; the old handles are
destroyed before the new frame-sync instance is created. -/
theorem C3_reconnect_call_order (a b : Nat) (r : UNDIMediaReceiver)
    (d : FNDIConnectionInformation)
    (hrecv : r.p_receive_instance ≠ nullptr) (hvalid : d.IsValid = true)
    (hchg : FString_Equals r.ConnectionInformation.SourceName d.SourceName = false ∨
      FString_Equals r.ConnectionInformation.MachineName d.MachineName = false ∨
      FString_Equals r.ConnectionInformation.StreamName d.StreamName = false ∨
      FString_Equals r.ConnectionInformation.Url d.Url = false ∨
      r.ConnectionInformation.Bandwidth ≠ d.Bandwidth) :
    (r.ChangeConnection a b d).2 =
      [Effect.NDIlib_recv_create_v3 true d.toBandwidth a,
       Effect.NDIlib_recv_connect a d.GetNDIName d.Url] ++
      (if r.p_framesync_instance = nullptr then []
        else [Effect.NDIlib_framesync_destroy r.p_framesync_instance]) ++
      [Effect.NDIlib_recv_destroy r.p_receive_instance,
       Effect.NDIlib_framesync_create a b] := by
  have hchg2 : FString_Equals r.ConnectionInformation.SourceName d.SourceName = false ∨
      FString_Equals r.ConnectionInformation.MachineName d.MachineName = false ∨
      FString_Equals r.ConnectionInformation.StreamName d.StreamName = false ∨
      FString_Equals r.ConnectionInformation.Url d.Url = false ∨
      r.ConnectionInformation.Bandwidth ≠ d.Bandwidth ∨
      (r.ConnectionInformation.ne d = true ∧ r.p_framesync_instance = nullptr) := by tauto
  rw [UNDIMediaReceiver.ChangeConnection_start a b r d hrecv hvalid hchg2,
    UNDIMediaReceiver.StartConnection_valid a b _ hvalid]
  simp [hrecv]

/-- Witness of the amended C3: a bandwidth change on the sample receiver. -/
theorem C3_reconnect_call_order_witness :
    (sampleReceiver.ChangeConnection 13 14
        { SourceName := "A (Cam1)", Bandwidth := ENDISourceBandwidth.Lowest }).2 =
      [Effect.NDIlib_recv_create_v3 true
         NDIlib_recv_bandwidth_e.NDIlib_recv_bandwidth_lowest 13,
       Effect.NDIlib_recv_connect 13 "A (Cam1)" "",
       Effect.NDIlib_framesync_destroy 12,
       Effect.NDIlib_recv_destroy 11,
       Effect.NDIlib_framesync_create 13 14] :=
  C3_reconnect_call_order 13 14 sampleReceiver
    { SourceName := "A (Cam1)", Bandwidth := ENDISourceBandwidth.Lowest }
    (by decide) (by decide) (Or.inr (Or.inr (Or.inr (Or.inr (by decide)))))

/-- C4: a descriptor is valid exactly when its source name is non-empty, or
its machine name and stream name are both non-empty, or its url is non-empty;
replacing the bandwidth and the mute flags by any values leaves the result
unchanged. -/
theorem C4_IsValid_iff (d : FNDIConnectionInformation) :
    (d.IsValid = true ↔
      (d.SourceName ≠ "" ∨ (d.MachineName ≠ "" ∧ d.StreamName ≠ "") ∨ d.Url ≠ "")) ∧
    (∀ (bw : ENDISourceBandwidth) (ma mv : Bool),
      ({ d with Bandwidth := bw, bMuteAudio := ma, bMuteVideo := mv }).IsValid = d.IsValid) := by
  constructor
  · simp only [FNDIConnectionInformation.IsValid, Bool.or_eq_true, Bool.and_eq_true,
      Bool.not_eq_true', ← Bool.not_eq_true, FString_isEmpty_iff, ne_eq]
    tauto
  · intro bw ma mv
    rfl

/-- Counterexample to C5 as stated: the receiver left by `Initialize` with an
invalid descriptor holds a non-connected receive instance and stores the
default descriptor; `ChangeConnection` with that same (invalid) descriptor
changes nothing, so the receive instance is still held afterwards. -/
theorem C5_invalid_descriptor_counterexample :
    FNDIConnectionInformation.IsValid {} = false ∧
    (unconnectedReceiver.ChangeConnection 13 14 {}).1.p_receive_instance = 11 ∧
    (unconnectedReceiver.ChangeConnection 13 14 {}).1.p_receive_instance ≠ nullptr ∧
    (unconnectedReceiver.ChangeConnection 13 14 {}).2 = [] := by
  decide

/-- C5, amended: for every receiver that holds a receive instance and every
invalid descriptor that does not compare equal to the stored descriptor
(`operator!=` of the descriptor, which compares the string members ignoring
case), `ChangeConnection` tears the connection down at once: the frame-sync
instance (if held) and the receive instance are destroyed, afterwards the
receiver holds neither, and the invalid descriptor is stored. When the
receiver holds no receive instance, or the incoming descriptor compares equal
to the stored one, the call changes nothing. -/
theorem C5_invalid_descriptor_teardown (a b : Nat) (r : UNDIMediaReceiver)
    (d : FNDIConnectionInformation) (hinv : d.IsValid = false)
    (hrecv : r.p_receive_instance ≠ nullptr) (hne : r.ConnectionInformation.ne d = true) :
    (r.ChangeConnection a b d).1.p_receive_instance = nullptr ∧
    (r.ChangeConnection a b d).1.p_framesync_instance = nullptr ∧
    (r.ChangeConnection a b d).2 =
      (if r.p_framesync_instance = nullptr then []
        else [Effect.NDIlib_framesync_destroy r.p_framesync_instance]) ++
      [Effect.NDIlib_recv_destroy r.p_receive_instance] ∧
    (r.ChangeConnection a b d).1.ConnectionInformation = d ∧
    (∀ r0 : UNDIMediaReceiver,
      r0.p_receive_instance = nullptr ∨ r0.ConnectionInformation.ne d = false →
        r0.ChangeConnection a b d = (r0, [])) := by
  rw [UNDIMediaReceiver.ChangeConnection_invalid a b r d hrecv hne hinv]
  refine ⟨rfl, rfl, ?_, rfl, ?_⟩
  · simp [UNDIMediaReceiver.StopConnection, hrecv]
  · intro r0 h0
    rcases h0 with h0 | h0
    · exact UNDIMediaReceiver.ChangeConnection_no_receive_instance a b r0 d h0
    · exact UNDIMediaReceiver.ChangeConnection_same_descriptor a b r0 d h0

/-- Witness of the amended C5: the connected sample receiver is given the
default (invalid) descriptor. -/
theorem C5_invalid_descriptor_teardown_witness :
    (sampleReceiver.ChangeConnection 13 14 {}).1.p_receive_instance = nullptr ∧
    (sampleReceiver.ChangeConnection 13 14 {}).1.p_framesync_instance = nullptr ∧
    (sampleReceiver.ChangeConnection 13 14 {}).2 =
      [Effect.NDIlib_framesync_destroy 12, Effect.NDIlib_recv_destroy 11] :=
  have h := C5_invalid_descriptor_teardown 13 14 sampleReceiver {}
    (by decide) (by decide) (by decide)
  ⟨h.1, h.2.1, h.2.2.1⟩

/-- Counterexample to C6 as stated: a receiver that holds no receive instance
(no transport connection exists) is given the valid descriptor for source "B";
`ChangeConnection` changes nothing: afterwards the receiver still holds
neither handle, no transport call was made, and the stored descriptor is not
the incoming one. -/
theorem C6_no_connection_counterexample :
    FNDIConnectionInformation.IsValid { SourceName := "B" } = true ∧
    idleReceiver.p_receive_instance = nullptr ∧
    idleReceiver.p_framesync_instance = nullptr ∧
    (idleReceiver.ChangeConnection 13 14 { SourceName := "B" }).1.p_receive_instance = nullptr ∧
    (idleReceiver.ChangeConnection 13 14 { SourceName := "B" }).1.p_framesync_instance
      = nullptr ∧
    (idleReceiver.ChangeConnection 13 14 { SourceName := "B" }).2 = [] ∧
    (idleReceiver.ChangeConnection 13 14 { SourceName := "B" }).1.ConnectionInformation ≠
      { SourceName := "B" } := by
  decide

/-- C6, amended: for every receiver that holds a receive instance but no
frame-sync instance (the non-connected receiver `Initialize` creates) and every
valid descriptor that does not compare equal to the stored descriptor
(`operator!=` of the descriptor, which compares the string members ignoring
case), `ChangeConnection` creates the transport connection: with the
transport handing back non-null handles, afterwards the receiver holds the
new receive instance and the new frame-sync instance and its stored
descriptor equals the incoming one. A
receiver that holds no receive instance is left unchanged by the call. -/
theorem C6_unconnected_receiver_connects (a b : Nat) (r : UNDIMediaReceiver)
    (d : FNDIConnectionInformation) (hvalid : d.IsValid = true)
    (hrecv : r.p_receive_instance ≠ nullptr) (hfs : r.p_framesync_instance = nullptr)
    (hne : r.ConnectionInformation.ne d = true) (ha : a ≠ nullptr) (hb : b ≠ nullptr) :
    (r.ChangeConnection a b d).1.p_receive_instance = a ∧
    (r.ChangeConnection a b d).1.p_framesync_instance = b ∧
    (r.ChangeConnection a b d).1.p_receive_instance ≠ nullptr ∧
    (r.ChangeConnection a b d).1.p_framesync_instance ≠ nullptr ∧
    (r.ChangeConnection a b d).1.ConnectionInformation = d ∧
    (r.ChangeConnection a b d).2 =
      [Effect.NDIlib_recv_create_v3 true d.toBandwidth a,
       Effect.NDIlib_recv_connect a d.GetNDIName d.Url,
       Effect.NDIlib_recv_destroy r.p_receive_instance,
       Effect.NDIlib_framesync_create a b] ∧
    (∀ r0 : UNDIMediaReceiver, r0.p_receive_instance = nullptr →
      r0.ChangeConnection a b d = (r0, [])) := by
  have hchg2 : FString_Equals r.ConnectionInformation.SourceName d.SourceName = false ∨
      FString_Equals r.ConnectionInformation.MachineName d.MachineName = false ∨
      FString_Equals r.ConnectionInformation.StreamName d.StreamName = false ∨
      FString_Equals r.ConnectionInformation.Url d.Url = false ∨
      r.ConnectionInformation.Bandwidth ≠ d.Bandwidth ∨
      (r.ConnectionInformation.ne d = true ∧ r.p_framesync_instance = nullptr) :=
    Or.inr (Or.inr (Or.inr (Or.inr (Or.inr ⟨hne, hfs⟩))))
  rw [UNDIMediaReceiver.ChangeConnection_start a b r d hrecv hvalid hchg2,
    UNDIMediaReceiver.StartConnection_valid a b _ hvalid]
  refine ⟨rfl, rfl, ha, hb, rfl, ?_, ?_⟩
  · simp [hfs, hrecv]
  · intro r0 h0
    exact UNDIMediaReceiver.ChangeConnection_no_receive_instance a b r0 d h0

/-- Witness of the amended C6: the non-connected receiver is given source "B". -/
theorem C6_unconnected_receiver_connects_witness :
    (unconnectedReceiver.ChangeConnection 13 14 { SourceName := "B" }).1.p_receive_instance
      = 13 ∧
    (unconnectedReceiver.ChangeConnection 13 14 { SourceName := "B" }).1.p_framesync_instance
      = 14 ∧
    (unconnectedReceiver.ChangeConnection 13 14 { SourceName := "B" }).1.ConnectionInformation
      = { SourceName := "B" } :=
  have h := C6_unconnected_receiver_connects 13 14 unconnectedReceiver { SourceName := "B" }
    (by decide) (by decide) (by decide) (by decide) (by decide) (by decide)
  ⟨h.1, h.2.1, h.2.2.2.2.1⟩

/-- C7: on a receiver that starts disconnected and has observers bound to both
events, a sequence of `SetIsCurrentlyConnected(b1)`, ..., `(bn)` calls schedules
exactly as many Connected notifications as `false, b1, ..., bn` has
false-to-true transitions and exactly as many Disconnected notifications as it
has true-to-false transitions; a call whose value equals the current state
schedules nothing and leaves the receiver unchanged. -/
theorem C7_one_notification_per_edge (r : UNDIMediaReceiver) (bs : List Bool)
    (hstart : r.bIsCurrentlyConnected = false)
    (hc : IsBound r.OnNDIReceiverConnectedEvent = true)
    (hd : IsBound r.OnNDIReceiverDisconnectedEvent = true) :
    (r.SetIsCurrentlyConnectedSeq bs).2.count
        Effect.AsyncTask_OnNDIReceiverConnectedEvent_Broadcast = risingEdges false bs ∧
    (r.SetIsCurrentlyConnectedSeq bs).2.count
        Effect.AsyncTask_OnNDIReceiverDisconnectedEvent_Broadcast = fallingEdges false bs ∧
    (∀ (r0 : UNDIMediaReceiver) (b : Bool), b = r0.bIsCurrentlyConnected →
      r0.SetIsCurrentlyConnected b = (r0, [])) := by
  have h := UNDIMediaReceiver.SetIsCurrentlyConnectedSeq_counts bs r hc hd
  rw [hstart] at h
  exact ⟨h.1, h.2, UNDIMediaReceiver.SetIsCurrentlyConnected_same⟩

/-- Witness of C7: the sequence true, true, false, false, true on a
disconnected receiver with one observer per event gives two Connected and one
Disconnected notification. -/
theorem C7_one_notification_per_edge_witness :
    (observedReceiver.SetIsCurrentlyConnectedSeq [true, true, false, false, true]).2.count
        Effect.AsyncTask_OnNDIReceiverConnectedEvent_Broadcast = 2 ∧
    (observedReceiver.SetIsCurrentlyConnectedSeq [true, true, false, false, true]).2.count
        Effect.AsyncTask_OnNDIReceiverDisconnectedEvent_Broadcast = 1 :=
  have h := C7_one_notification_per_edge observedReceiver
    [true, true, false, false, true] (by decide) (by decide) (by decide)
  ⟨h.1, h.2.1⟩

/-- Counterexample to C8 as stated: `StartConnection` on the sample receiver
with the transport handing back no receive instance but the frame-sync
instance 14 leaves a receiver that holds a frame-sync instance and no receive
instance; `Shutdown` looks at the frame-sync instance only when a receive
instance is held, so it makes no destroy call and the frame-sync instance is
still held afterwards. -/
theorem C8_framesync_instance_kept_counterexample :
    (sampleReceiver.StartConnection nullptr 14).1.p_receive_instance = nullptr ∧
    (sampleReceiver.StartConnection nullptr 14).1.p_framesync_instance = 14 ∧
    (sampleReceiver.StartConnection nullptr 14).1.Shutdown.1.p_framesync_instance = 14 ∧
    (sampleReceiver.StartConnection nullptr 14).1.Shutdown.1.p_framesync_instance ≠ nullptr ∧
    Effect.NDIlib_framesync_destroy 14 ∉ (sampleReceiver.StartConnection nullptr 14).1.Shutdown.2 := by
  decide

/-- C8, amended: for every receiver state, `Shutdown` (a total operation, so it
cannot fail) leaves no receive instance, an empty audio-source collection, the
disconnected state, the default descriptor, frame rate 60/1 and resolution
(0,0), and no frame-sync instance when the state held a receive instance or
held no frame-sync instance; a second `Shutdown` right after it leaves the
state exactly as the first did, and its only outward call is the removal of
the already reset frame-end delegate handle: it destroys no transport handle
and schedules no notification. -/
theorem C8_Shutdown_idempotent (r : UNDIMediaReceiver) :
    (r.Shutdown.1.Shutdown).1 = r.Shutdown.1 ∧
    r.Shutdown.1.p_receive_instance = nullptr ∧
    (r.p_receive_instance ≠ nullptr ∨ r.p_framesync_instance = nullptr →
      r.Shutdown.1.p_framesync_instance = nullptr) ∧
    r.Shutdown.1.AudioSourceCollection = [] ∧
    r.Shutdown.1.bIsCurrentlyConnected = false ∧
    r.Shutdown.1.ConnectionInformation = {} ∧
    r.Shutdown.1.FrameRate = { Numerator := 60, Denominator := 1 } ∧
    r.Shutdown.1.Resolution = { X := 0, Y := 0 } ∧
    (r.Shutdown.1.Shutdown).2 = [Effect.OnEndFrameRT_Remove 0] ∧
    (∀ h, Effect.NDIlib_recv_destroy h ∉ (r.Shutdown.1.Shutdown).2 ∧
      Effect.NDIlib_framesync_destroy h ∉ (r.Shutdown.1.Shutdown).2) := by
  have hstate : r.Shutdown.1 =
      { r with RenderTarget := nullptr, RenderTargetDescriptor := none,
               OnNDIReceiverVideoCaptureEvent :=
                 Remove r.OnNDIReceiverVideoCaptureEvent r.VideoCaptureEventHandle,
               VideoCaptureEventHandle := 0, FrameEndRTHandle := 0,
               AudioSourceCollection := [], p_receive_instance := nullptr,
               p_framesync_instance :=
                 if r.p_receive_instance = nullptr then r.p_framesync_instance else nullptr,
               bIsCurrentlyConnected := false,
               ConnectionInformation := {},
               PerformanceData := r.PerformanceData.Reset,
               FrameRate := { Numerator := 60, Denominator := 1 },
               Resolution := { X := 0, Y := 0 },
               Timecode := { InSeconds := 0,
                             InFrameRate := { Numerator := 60, Denominator := 1 },
                             InbDropFrame := true, InbRollover := true } } := by
    by_cases h1 : r.p_receive_instance = nullptr
    · simp [UNDIMediaReceiver.Shutdown, UNDIMediaReceiver.SetIsCurrentlyConnected_state, h1,
        FNDIConnectionInformation.Reset]
    · by_cases h2 : r.p_framesync_instance = nullptr <;>
      simp [UNDIMediaReceiver.Shutdown, UNDIMediaReceiver.SetIsCurrentlyConnected_state, h1, h2,
        FNDIConnectionInformation.Reset]
  have hsecond : r.Shutdown.1.Shutdown = (r.Shutdown.1, [Effect.OnEndFrameRT_Remove 0]) := by
    rw [hstate]
    simp [UNDIMediaReceiver.Shutdown, UNDIMediaReceiver.SetIsCurrentlyConnected,
      UNDIMediaReceiver.ShutdownAudioLoop, Remove, FNDIConnectionInformation.Reset,
      FNDIReceiverPerformanceData.Reset]
  rw [hsecond]
  rw [hstate]
  refine ⟨rfl, rfl, ?_, rfl, rfl, rfl, rfl, rfl, rfl, ?_⟩
  · intro h
    by_cases h1 : r.p_receive_instance = nullptr
    · rcases h with h | h
      · exact absurd h1 h
      · simp [h1, h]
    · simp [h1]
  · intro h
    simp

/-- Witness of the amended C8: shutting the connected sample receiver down
twice; after the first call it holds no frame-sync instance. -/
theorem C8_Shutdown_idempotent_witness :
    (sampleReceiver.Shutdown.1.Shutdown).1 = sampleReceiver.Shutdown.1 ∧
    sampleReceiver.p_receive_instance ≠ nullptr ∧
    sampleReceiver.Shutdown.1.p_framesync_instance = nullptr ∧
    sampleReceiver.Shutdown.2 =
      [Effect.OnEndFrameRT_Remove 41, Effect.SetConnectionSource 22 0,
       Effect.SetConnectionSource 21 0, Effect.NDIlib_framesync_destroy 12,
       Effect.NDIlib_recv_destroy 11,
       Effect.AsyncTask_OnNDIReceiverDisconnectedEvent_Broadcast] ∧
    (sampleReceiver.Shutdown.1.Shutdown).2 = [Effect.OnEndFrameRT_Remove 0] :=
  have h := C8_Shutdown_idempotent sampleReceiver
  ⟨h.1, by decide, h.2.2.1 (Or.inl (by decide)), by decide, h.2.2.2.2.2.2.2.2.1⟩

/-! ## Readback ring: lemmas -/

namespace MappedTextureASyncSender

theorem Create_ready (r r0 : MappedTextureASyncSender) (InFrameSize : FIntPoint)
    (h : r.Create InFrameSize = .ok r0) : r0.Ready = true ∧ r0.mappedCount = 0 := by
  obtain ⟨⟨⟨tex0, p0, m0⟩, ⟨tex1, p1, m1⟩⟩, idx⟩ := r
  simp only [Create, Destroy, get, set, MappedTexture.Create, MappedTexture.Destroy, check,
    bind, Except.bind, pure, Except.pure, throw, throwThe, MonadExceptOf.throw] at h
  by_cases h0 : idx = 0
  · subst h0
    by_cases hp0 : p0 = nullptr <;> by_cases hp1 : p1 = nullptr <;>
      cases tex0 <;> cases tex1 <;> simp [hp0, hp1] at h <;>
      subst h <;> simp [Ready, WellFormed, Created, pDataAt, mappedCount]
  · by_cases h1 : idx = 1
    · subst h1
      by_cases hp0 : p0 = nullptr <;> by_cases hp1 : p1 = nullptr <;>
        cases tex0 <;> cases tex1 <;> simp [hp0, hp1] at h <;>
        subst h <;> simp [Ready, WellFormed, Created, pDataAt, mappedCount]
    · simp [h0, h1] at h

theorem Resolve_eq (s : MappedTextureASyncSender) (SourceTextureRHI : Nat)
    (hs : s.Ready = true) (hsrc : SourceTextureRHI ≠ nullptr) :
    s.Resolve SourceTextureRHI = .ok s := by
  obtain ⟨⟨⟨tex0, p0, m0⟩, ⟨tex1, p1, m1⟩⟩, idx⟩ := s
  simp only [Ready, WellFormed, Created, pDataAt, Bool.and_eq_true, Bool.or_eq_true,
    beq_iff_eq] at hs
  obtain ⟨⟨⟨⟨hidx, -⟩, -⟩, hc0, hc1⟩, hcur⟩ := hs
  rcases hidx with hidx | hidx <;> subst hidx <;>
    simp_all [Resolve, get, set, MappedTexture.Resolve, check, bind, Except.bind, pure,
      Except.pure]

theorem Map_eq (s : MappedTextureASyncSender) (pMapped : Nat)
    (hs : s.Ready = true) (hp : pMapped ≠ nullptr) :
    ∃ w h, s.Map pMapped = .ok (s.afterMap pMapped, w, h) := by
  obtain ⟨⟨⟨tex0, p0, m0⟩, ⟨tex1, p1, m1⟩⟩, idx⟩ := s
  simp only [Ready, WellFormed, Created, pDataAt, Bool.and_eq_true, Bool.or_eq_true,
    beq_iff_eq] at hs
  obtain ⟨⟨⟨⟨hidx, -⟩, -⟩, hc0, hc1⟩, hcur⟩ := hs
  rcases hidx with hidx | hidx <;> subst hidx <;>
    simp_all [Map, afterMap, get, set, MappedTexture.Map, check, bind, Except.bind, pure,
      Except.pure]

theorem Send_eq (s : MappedTextureASyncSender) (p_send_instance : Nat)
    (hwf : s.WellFormed = true) (hcur : s.pDataAt s.CurrentIndex ≠ nullptr)
    (hsend : p_send_instance ≠ nullptr) :
    s.Send p_send_instance =
      .ok (s.afterSend,
        [{ p_send_instance := p_send_instance,
           p_video_data := some (s.pDataAt s.CurrentIndex,
             if (s.metaDataAt s.CurrentIndex).isEmpty then none
             else some (s.metaDataAt s.CurrentIndex)) }]) := by
  obtain ⟨⟨⟨tex0, p0, m0⟩, ⟨tex1, p1, m1⟩⟩, idx⟩ := s
  simp only [WellFormed, Bool.and_eq_true, Bool.or_eq_true, beq_iff_eq] at hwf
  obtain ⟨⟨hidx, hw0⟩, hw1⟩ := hwf
  rcases hidx with hidx | hidx <;> subst hidx
  · by_cases hp1 : p1 = nullptr <;>
      simp_all [Send, afterSend, pDataAt, metaDataAt, get, set, MappedTexture.MappedData,
        MappedTexture.Unmap, MappedTexture.GetMetaData, check, bind, Except.bind, pure,
        Except.pure] <;>
      split <;> simp_all
  · by_cases hp0 : p0 = nullptr <;>
      simp_all [Send, afterSend, pDataAt, metaDataAt, get, set, MappedTexture.MappedData,
        MappedTexture.Unmap, MappedTexture.GetMetaData, check, bind, Except.bind, pure,
        Except.pure] <;>
      split <;> simp_all

theorem cycle_facts (s : MappedTextureASyncSender) (pMapped : Nat)
    (hs : s.Ready = true) (hp : pMapped ≠ nullptr) :
    (s.afterMap pMapped).WellFormed = true ∧
    (s.afterMap pMapped).pDataAt (s.afterMap pMapped).CurrentIndex = pMapped ∧
    (s.afterMap pMapped).mappedCount = s.mappedCount + 1 ∧
    (s.afterMap pMapped).afterSend.Ready = true ∧
    (s.afterMap pMapped).afterSend.mappedCount = 1 := by
  obtain ⟨⟨⟨tex0, p0, m0⟩, ⟨tex1, p1, m1⟩⟩, idx⟩ := s
  simp only [Ready, WellFormed, Created, pDataAt, Bool.and_eq_true, Bool.or_eq_true,
    beq_iff_eq] at hs
  obtain ⟨⟨⟨⟨hidx, hw0⟩, hw1⟩, hc0, hc1⟩, hcur⟩ := hs
  rcases hidx with hidx | hidx <;> subst hidx
  · by_cases hp1 : p1 = nullptr <;>
      simp_all [afterMap, afterSend, Ready, WellFormed, Created, pDataAt, mappedCount]
  · by_cases hp0 : p0 = nullptr <;>
      simp_all [afterMap, afterSend, Ready, WellFormed, Created, pDataAt, mappedCount]

theorem runCycles_ok (inputs : List CycleInput) :
    ∀ s : MappedTextureASyncSender, s.Ready = true → (∀ i ∈ inputs, i.NonNull = true) →
      ∃ states, runCycles s inputs = .ok states ∧
        states.map mappedCount = cycleCounts s.mappedCount inputs.length := by
  induction inputs with
  | nil => intro s _ _; exact ⟨[], rfl, rfl⟩
  | cons i rest ih =>
    intro s hs hin
    have hi : i.NonNull = true := hin i (List.mem_cons_self _ _)
    simp only [CycleInput.NonNull, Bool.and_eq_true, bne_iff_ne, ne_eq] at hi
    obtain ⟨⟨hsrc, hp⟩, hsend⟩ := hi
    obtain ⟨hwf, hcur, hcount, hready, hone⟩ := cycle_facts s i.pMapped hs hp
    obtain ⟨w, h, hmap⟩ := Map_eq s i.pMapped hs hp
    have hsnd := Send_eq (s.afterMap i.pMapped) i.p_send_instance hwf (by rw [hcur]; exact hp)
      hsend
    obtain ⟨states, hrun, hcounts⟩ :=
      ih (s.afterMap i.pMapped).afterSend hready (fun j hj => hin j (List.mem_cons_of_mem _ hj))
    refine ⟨s :: s.afterMap i.pMapped :: (s.afterMap i.pMapped).afterSend :: states, ?_, ?_⟩
    · simp only [runCycles, Resolve_eq s _ hs hsrc, hmap, hsnd, hrun, bind, Except.bind, pure,
        Except.pure]
    · simp only [List.map_cons, hcount, hone, hcounts, List.length_cons, cycleCounts]

theorem Flush_eq (s : MappedTextureASyncSender) (p_send_instance : Nat)
    (hwf : s.WellFormed = true) (hsend : p_send_instance ≠ nullptr) :
    ∃ sf, s.Flush p_send_instance =
        .ok (sf, [{ p_send_instance := p_send_instance, p_video_data := none }]) ∧
      sf.mappedCount = 0 ∧ sf.CurrentIndex = 1 - s.CurrentIndex := by
  obtain ⟨⟨⟨tex0, p0, m0⟩, ⟨tex1, p1, m1⟩⟩, idx⟩ := s
  simp only [WellFormed, Bool.and_eq_true, Bool.or_eq_true, beq_iff_eq] at hwf
  obtain ⟨⟨hidx, hw0⟩, hw1⟩ := hwf
  rcases hidx with hidx | hidx <;> subst hidx <;>
    by_cases hp0 : p0 = nullptr <;> by_cases hp1 : p1 = nullptr <;>
    simp_all [Flush, get, set, MappedTexture.Unmap, check, bind, Except.bind, pure,
      Except.pure, mappedCount]

theorem afterSend_facts (s : MappedTextureASyncSender) (hwf : s.WellFormed = true) :
    s.afterSend.WellFormed = true ∧
    s.afterSend.CurrentIndex = 1 - s.CurrentIndex ∧
    s.afterSend.get s.CurrentIndex = s.get s.CurrentIndex ∧
    s.afterSend.pDataAt s.CurrentIndex = s.pDataAt s.CurrentIndex ∧
    s.afterSend.metaDataAt s.CurrentIndex = s.metaDataAt s.CurrentIndex ∧
    s.afterSend.pDataAt (1 - s.CurrentIndex) = nullptr ∧
    s.afterSend.metaDataAt (1 - s.CurrentIndex) = "" ∧
    (s.Created = true → s.afterSend.Ready = true) := by
  obtain ⟨⟨⟨tex0, p0, m0⟩, ⟨tex1, p1, m1⟩⟩, idx⟩ := s
  simp only [WellFormed, Bool.and_eq_true, Bool.or_eq_true, beq_iff_eq] at hwf
  obtain ⟨⟨hidx, hw0⟩, hw1⟩ := hwf
  rcases hidx with hidx | hidx <;> subst hidx <;>
    simp_all [afterSend, Ready, WellFormed, Created, pDataAt, metaDataAt, get]

theorem next_cycle_facts (s : MappedTextureASyncSender) (pMapped : Nat)
    (hwf : s.WellFormed = true) :
    (s.afterSend.afterMap pMapped).pDataAt s.CurrentIndex = s.pDataAt s.CurrentIndex ∧
    (s.afterSend.afterMap pMapped).afterSend.pDataAt s.CurrentIndex = nullptr := by
  obtain ⟨⟨⟨tex0, p0, m0⟩, ⟨tex1, p1, m1⟩⟩, idx⟩ := s
  simp only [WellFormed, Bool.and_eq_true, Bool.or_eq_true, beq_iff_eq] at hwf
  obtain ⟨⟨hidx, hw0⟩, hw1⟩ := hwf
  rcases hidx with hidx | hidx <;> subst hidx <;>
    simp [afterSend, afterMap, pDataAt]

end MappedTextureASyncSender

theorem cycleCounts_length (n : Nat) : ∀ m, (cycleCounts m n).length = 3 * n := by
  induction n with
  | zero => intro m; rfl
  | succ n ih => intro m; simp only [cycleCounts, List.length_cons, ih]; omega

theorem cycleCounts_getElem (n : Nat) :
    ∀ m k, k < n →
      (cycleCounts m n)[3 * k]? = some (if k = 0 then m else 1) ∧
      (cycleCounts m n)[3 * k + 1]? = some (if k = 0 then m + 1 else 2) ∧
      (cycleCounts m n)[3 * k + 2]? = some 1 := by
  induction n with
  | zero => intro m k hk; omega
  | succ n ih =>
    intro m k hk
    cases k with
    | zero => simp [cycleCounts]
    | succ k =>
      have h := ih 1 k (by omega)
      have e0 : 3 * (k + 1) = (3 * k + 2) + 1 := by omega
      have e1 : 3 * (k + 1) + 1 = (3 * k + 1 + 2) + 1 := by omega
      have e2 : 3 * (k + 1) + 2 = (3 * k + 2 + 2) + 1 := by omega
      refine ⟨?_, ?_, ?_⟩
      · rw [e0]
        simp only [cycleCounts, List.getElem?_cons_succ]
        by_cases hk0 : k = 0
        · subst hk0; simpa using h.1
        · simpa [hk0] using h.1
      · rw [e1]
        simp only [cycleCounts, List.getElem?_cons_succ]
        by_cases hk0 : k = 0
        · subst hk0; simpa using h.2.1
        · simpa [hk0] using h.2.1
      · rw [e2]
        simp only [cycleCounts, List.getElem?_cons_succ]
        simpa using h.2.2

/-! ## Readback ring: the claims -/

/-- Counterexample to C9 as stated: after `Create`, in the second of two
`Resolve`, `Map`, `Send` cycles, the state between `Map` and `Send` has both
slots mapped (slot 0 still holds the buffer of the first send at pointer 100,
slot 1 has just been mapped at pointer 200), so more than one slot is mapped
at that instant. -/
theorem C9_both_slots_mapped_counterexample :
    newRing.Create { X := 960, Y := 1080 } = .ok createdRing ∧
    ∃ states, runCycles createdRing [sampleCycle 100, sampleCycle 200] = .ok states ∧
      states.map MappedTextureASyncSender.mappedCount = [0, 1, 1, 1, 2, 1] ∧
      states[4]? = some
        { MappedTextures := ({ Texture := some { X := 960, Y := 1080 }, pData := 100 },
                             { Texture := some { X := 960, Y := 1080 }, pData := 200 }),
          CurrentIndex := 1 } ∧
      ¬ (∀ s ∈ states, s.mappedCount ≤ 1) := by
  refine ⟨rfl, _, rfl, ?_, ?_, ?_⟩ <;> decide

/-- C9, amended: after `Create`, any number of consecutive `Resolve`, `Map`,
`Send` cycles (with non-null source texture, mapped pointer and send
instance) runs without assertion, and the number of mapped slots is: none
after `Create`; in the first cycle none after `Resolve` and one after `Map`
and after `Send`; in every later cycle one after `Resolve`, two between `Map`
and `Send`, and one after `Send`. At most one slot is mapped after `Create`,
after every `Send` and throughout the first cycle; between `Map` and `Send` of
every later cycle both slots are mapped. -/
theorem C9_mapped_slots_per_instant (r r0 : MappedTextureASyncSender) (InFrameSize : FIntPoint)
    (inputs : List CycleInput) (hcreate : r.Create InFrameSize = .ok r0)
    (hin : ∀ i ∈ inputs, i.NonNull = true) :
    r0.mappedCount = 0 ∧
    ∃ states, runCycles r0 inputs = .ok states ∧ states.length = 3 * inputs.length ∧
      ∀ k, k < inputs.length →
        (states.map MappedTextureASyncSender.mappedCount)[3 * k]? =
          some (if k = 0 then 0 else 1) ∧
        (states.map MappedTextureASyncSender.mappedCount)[3 * k + 1]? =
          some (if k = 0 then 1 else 2) ∧
        (states.map MappedTextureASyncSender.mappedCount)[3 * k + 2]? = some 1 := by
  obtain ⟨hready, hzero⟩ := MappedTextureASyncSender.Create_ready r r0 InFrameSize hcreate
  obtain ⟨states, hrun, hcounts⟩ := MappedTextureASyncSender.runCycles_ok inputs r0 hready hin
  rw [hzero] at hcounts
  refine ⟨hzero, states, hrun, ?_, ?_⟩
  · have h := congrArg List.length hcounts
    rw [List.length_map, cycleCounts_length] at h
    exact h
  · intro k hk
    rw [hcounts]
    exact cycleCounts_getElem inputs.length 0 k hk

/-- Witness of the amended C9: three cycles on the ring created from the new
ring. -/
theorem C9_mapped_slots_per_instant_witness :
    createdRing.mappedCount = 0 ∧
    ∃ states, runCycles createdRing [sampleCycle 100, sampleCycle 200, sampleCycle 300]
        = .ok states ∧ states.length = 9 :=
  have h := C9_mapped_slots_per_instant newRing createdRing { X := 960, Y := 1080 }
    [sampleCycle 100, sampleCycle 200, sampleCycle 300] rfl (by decide)
  ⟨h.1, h.2.imp fun _ hs => ⟨hs.1, hs.2.1⟩⟩

/-- C10: for every well-formed ring state whose current slot is mapped, `Send`
with a send instance makes one asynchronous send of the current slot (its
mapped pointer, and its metadata or null when that is empty), leaves the
current slot as it is (still mapped at the same pointer), unmaps the other
slot and sets the index to `1 - CurrentIndex`. On a created ring the buffer
sent stays mapped through the `Resolve` and `Map` of the next cycle and is
unmapped by the next `Send`; a `Flush` instead of the next cycle unmaps
everything; and any sequence of further cycles runs without an assertion. -/
theorem C10_Send_defers_unmap (s : MappedTextureASyncSender) (p_send_instance : Nat)
    (hwf : s.WellFormed = true) (hcur : s.pDataAt s.CurrentIndex ≠ nullptr)
    (hsend : p_send_instance ≠ nullptr) :
    ∃ s1, s.Send p_send_instance =
        .ok (s1, [{ p_send_instance := p_send_instance,
                    p_video_data := some (s.pDataAt s.CurrentIndex,
                      if (s.metaDataAt s.CurrentIndex).isEmpty then none
                      else some (s.metaDataAt s.CurrentIndex)) }]) ∧
      s1.CurrentIndex = 1 - s.CurrentIndex ∧
      s1.get s.CurrentIndex = s.get s.CurrentIndex ∧
      s1.pDataAt s.CurrentIndex = s.pDataAt s.CurrentIndex ∧
      s1.pDataAt (1 - s.CurrentIndex) = nullptr ∧
      (∃ sf, s1.Flush p_send_instance =
          .ok (sf, [{ p_send_instance := p_send_instance, p_video_data := none }]) ∧
        sf.mappedCount = 0) ∧
      (s.Created = true →
        (∀ i : CycleInput, i.NonNull = true →
          ∃ s2 w h s3 calls,
            s1.Resolve i.SourceTextureRHI = .ok s1 ∧
            s1.pDataAt s.CurrentIndex = s.pDataAt s.CurrentIndex ∧
            s1.Map i.pMapped = .ok (s2, w, h) ∧
            s2.pDataAt s.CurrentIndex = s.pDataAt s.CurrentIndex ∧
            s2.Send i.p_send_instance = .ok (s3, calls) ∧
            s3.pDataAt s.CurrentIndex = nullptr) ∧
        (∀ inputs : List CycleInput, (∀ i ∈ inputs, i.NonNull = true) →
          ∃ states, runCycles s1 inputs = .ok states ∧
            states.length = 3 * inputs.length)) := by
  obtain ⟨hwf1, hidx1, hget1, hp1, -, hprev1, -, hready1⟩ :=
    MappedTextureASyncSender.afterSend_facts s hwf
  refine ⟨s.afterSend, MappedTextureASyncSender.Send_eq s p_send_instance hwf hcur hsend,
    hidx1, hget1, hp1, hprev1, ?_, ?_⟩
  · obtain ⟨sf, hf, hcount, -⟩ :=
      MappedTextureASyncSender.Flush_eq s.afterSend p_send_instance hwf1 hsend
    exact ⟨sf, hf, hcount⟩
  · intro hcreated
    have hready := hready1 hcreated
    constructor
    · intro i hi
      simp only [CycleInput.NonNull, Bool.and_eq_true, bne_iff_ne, ne_eq] at hi
      obtain ⟨⟨hsrc, hp⟩, hsnd⟩ := hi
      obtain ⟨w, h, hmap⟩ := MappedTextureASyncSender.Map_eq s.afterSend i.pMapped hready hp
      obtain ⟨hwf2, hcur2, -, -, -⟩ :=
        MappedTextureASyncSender.cycle_facts s.afterSend i.pMapped hready hp
      obtain ⟨hkeep, hgone⟩ := MappedTextureASyncSender.next_cycle_facts s i.pMapped hwf
      exact ⟨_, w, h, _, _, MappedTextureASyncSender.Resolve_eq _ _ hready hsrc, hp1, hmap,
        hkeep,
        MappedTextureASyncSender.Send_eq _ i.p_send_instance hwf2 (by rw [hcur2]; exact hp) hsnd,
        hgone⟩
    · intro inputs hin
      obtain ⟨states, hrun, hcounts⟩ :=
        MappedTextureASyncSender.runCycles_ok inputs s.afterSend hready hin
      refine ⟨states, hrun, ?_⟩
      have h := congrArg List.length hcounts
      rw [List.length_map, cycleCounts_length] at h
      exact h

/-- Witness of C10: `Send` on the created ring whose slot 0 is mapped at
pointer 100 with metadata attached. -/
theorem C10_Send_defers_unmap_witness :
    ∃ s1, mappedRing.Send 9 =
        .ok (s1, [{ p_send_instance := 9, p_video_data := some (100, some "<a/>") }]) ∧
      s1.CurrentIndex = 1 ∧ s1.pDataAt 0 = 100 ∧ s1.pDataAt 1 = nullptr :=
  have h := C10_Send_defers_unmap mappedRing 9 (by decide) (by decide) (by decide)
  h.imp fun _ hs => ⟨hs.1, hs.2.1, hs.2.2.2.1, hs.2.2.2.2.1⟩

/-! ## Readback ring: flush, create and destroy -/

namespace MappedTextureASyncSender

theorem Destroy_unmapped (s : MappedTextureASyncSender)
    (hidx : s.CurrentIndex = 0 ∨ s.CurrentIndex = 1) (h : s.mappedCount = 0) :
    ∃ d, s.Destroy = .ok d ∧ d.MappedTextures.1.Texture = none ∧
      d.MappedTextures.2.Texture = none ∧ d.mappedCount = 0 ∧
      d.CurrentIndex = s.CurrentIndex := by
  obtain ⟨⟨⟨tex0, p0, m0⟩, ⟨tex1, p1, m1⟩⟩, idx⟩ := s
  have hp0 : p0 = nullptr := by
    by_contra hne
    simp [mappedCount, hne] at h
  have hp1 : p1 = nullptr := by
    by_contra hne
    simp [mappedCount, hne] at h
  subst hp0 hp1
  rcases hidx with hidx | hidx <;> simp only at hidx <;> subst hidx <;>
    cases tex0 <;> cases tex1 <;>
    simp [Destroy, get, set, MappedTexture.Destroy, check, bind, Except.bind, pure,
      Except.pure, mappedCount]

theorem Create_unmapped (s : MappedTextureASyncSender) (InFrameSize : FIntPoint)
    (hidx : s.CurrentIndex = 0 ∨ s.CurrentIndex = 1) (h : s.mappedCount = 0) :
    ∃ c, s.Create InFrameSize = .ok c ∧ c.MappedTextures.1.Texture = some InFrameSize ∧
      c.MappedTextures.2.Texture = some InFrameSize ∧ c.mappedCount = 0 ∧
      c.CurrentIndex = s.CurrentIndex := by
  obtain ⟨⟨⟨tex0, p0, m0⟩, ⟨tex1, p1, m1⟩⟩, idx⟩ := s
  have hp0 : p0 = nullptr := by
    by_contra hne
    simp [mappedCount, hne] at h
  have hp1 : p1 = nullptr := by
    by_contra hne
    simp [mappedCount, hne] at h
  subst hp0 hp1
  rcases hidx with hidx | hidx <;> simp only at hidx <;> subst hidx <;>
    cases tex0 <;> cases tex1 <;>
    simp [Create, Destroy, get, set, MappedTexture.Create, MappedTexture.Destroy, check, bind,
      Except.bind, pure, Except.pure, mappedCount]

theorem Destroy_mapped (s : MappedTextureASyncSender)
    (hidx : s.CurrentIndex = 0 ∨ s.CurrentIndex = 1) (h : 0 < s.mappedCount) :
    s.Destroy = .error Fault.check := by
  obtain ⟨⟨⟨tex0, p0, m0⟩, ⟨tex1, p1, m1⟩⟩, idx⟩ := s
  rcases hidx with hidx | hidx <;> simp only at hidx <;> subst hidx <;>
    by_cases hp0 : p0 = nullptr <;> by_cases hp1 : p1 = nullptr <;>
    cases tex0 <;> cases tex1 <;>
    simp_all [Destroy, get, set, MappedTexture.Destroy, check, bind, Except.bind, pure,
      Except.pure, mappedCount, throw, throwThe, MonadExceptOf.throw]

theorem Create_mapped (s : MappedTextureASyncSender) (InFrameSize : FIntPoint)
    (hidx : s.CurrentIndex = 0 ∨ s.CurrentIndex = 1) (h : 0 < s.mappedCount) :
    s.Create InFrameSize = .error Fault.check := by
  simp [Create, Destroy_mapped s hidx h, bind, Except.bind]

end MappedTextureASyncSender

/-- C11: for every well-formed ring state, whatever slots are mapped, `Flush`
with a send instance makes exactly one send, of the null frame, and afterwards
no slot is mapped; a `Destroy` and a `Create` that follow run without
assertion. -/
theorem C11_Flush_unmaps_all (s : MappedTextureASyncSender) (p_send_instance : Nat)
    (hwf : s.WellFormed = true) (hsend : p_send_instance ≠ nullptr) :
    ∃ sf, s.Flush p_send_instance =
        .ok (sf, [{ p_send_instance := p_send_instance, p_video_data := none }]) ∧
      sf.MappedTextures.1.pData = nullptr ∧ sf.MappedTextures.2.pData = nullptr ∧
      sf.mappedCount = 0 ∧
      (∃ d, sf.Destroy = .ok d) ∧
      (∀ InFrameSize : FIntPoint, ∃ c, sf.Create InFrameSize = .ok c) := by
  obtain ⟨sf, hflush, hcount, hidx⟩ :=
    MappedTextureASyncSender.Flush_eq s p_send_instance hwf hsend
  have hidx2 : sf.CurrentIndex = 0 ∨ sf.CurrentIndex = 1 := by
    simp only [MappedTextureASyncSender.WellFormed, Bool.and_eq_true, Bool.or_eq_true,
      beq_iff_eq] at hwf
    rcases hwf.1.1 with h | h <;> rw [hidx, h] <;> simp
  have hp : sf.MappedTextures.1.pData = nullptr ∧ sf.MappedTextures.2.pData = nullptr := by
    constructor <;> by_contra hne <;>
      simp [MappedTextureASyncSender.mappedCount, hne] at hcount
  refine ⟨sf, hflush, hp.1, hp.2, hcount, ?_, ?_⟩
  · obtain ⟨d, hd, -⟩ := MappedTextureASyncSender.Destroy_unmapped sf hidx2 hcount
    exact ⟨d, hd⟩
  · intro InFrameSize
    obtain ⟨c, hc, -⟩ := MappedTextureASyncSender.Create_unmapped sf InFrameSize hidx2 hcount
    exact ⟨c, hc⟩

/-- Witness of C11: `Flush` on the ring whose two slots are both mapped. -/
theorem C11_Flush_unmaps_all_witness :
    ∃ sf, bothMappedRing.Flush 9 = .ok (sf, [{ p_send_instance := 9, p_video_data := none }]) ∧
      sf.mappedCount = 0 :=
  (C11_Flush_unmaps_all bothMappedRing 9 (by decide) (by decide)).imp
    fun _ h => ⟨h.1, h.2.2.2.1⟩

/-- C12: on a ring whose index is 0 or 1, `Destroy` and `Create` end in a
fatal assertion exactly when at least one of the two slots is mapped. When no
slot is mapped, `Destroy` returns with both textures released and `Create`
returns with both textures allocated in the requested size and no slot
mapped. -/
theorem C12_Create_Destroy_assert_iff_mapped (s : MappedTextureASyncSender)
    (InFrameSize : FIntPoint) (hidx : s.CurrentIndex = 0 ∨ s.CurrentIndex = 1) :
    (s.Destroy = .error Fault.check ↔ 0 < s.mappedCount) ∧
    (s.Create InFrameSize = .error Fault.check ↔ 0 < s.mappedCount) ∧
    (s.mappedCount = 0 →
      ∃ d, s.Destroy = .ok d ∧ d.MappedTextures.1.Texture = none ∧
        d.MappedTextures.2.Texture = none ∧ d.mappedCount = 0) ∧
    (s.mappedCount = 0 →
      ∃ c, s.Create InFrameSize = .ok c ∧ c.MappedTextures.1.Texture = some InFrameSize ∧
        c.MappedTextures.2.Texture = some InFrameSize ∧ c.mappedCount = 0) := by
  refine ⟨⟨?_, MappedTextureASyncSender.Destroy_mapped s hidx⟩,
    ⟨?_, MappedTextureASyncSender.Create_mapped s InFrameSize hidx⟩, ?_, ?_⟩
  · intro h
    by_contra hpos
    obtain ⟨d, hd, -⟩ := MappedTextureASyncSender.Destroy_unmapped s hidx (by omega)
    rw [hd] at h
    cases h
  · intro h
    by_contra hpos
    obtain ⟨c, hc, -⟩ := MappedTextureASyncSender.Create_unmapped s InFrameSize hidx (by omega)
    rw [hc] at h
    cases h
  · intro h
    obtain ⟨d, hd, h1, h2, h3, -⟩ := MappedTextureASyncSender.Destroy_unmapped s hidx h
    exact ⟨d, hd, h1, h2, h3⟩
  · intro h
    obtain ⟨c, hc, h1, h2, h3, -⟩ := MappedTextureASyncSender.Create_unmapped s InFrameSize hidx h
    exact ⟨c, hc, h1, h2, h3⟩

/-- Witness of C12: `Destroy` asserts on the ring with slot 0 mapped, and
`Create` succeeds on the new ring. -/
theorem C12_Create_Destroy_assert_iff_mapped_witness :
    mappedRing.Destroy = .error Fault.check ∧
    newRing.Create { X := 960, Y := 1080 } = .ok createdRing :=
  ⟨(C12_Create_Destroy_assert_iff_mapped mappedRing { X := 960, Y := 1080 }
      (Or.inl rfl)).1.2 (by decide), rfl⟩

/-! ## Video capture: lemmas and claims -/

theorem UNDIMediaReceiver.SetIsCurrentlyConnected_no_capture_event (r : UNDIMediaReceiver)
    (b : Bool) (f : NDIlib_video_frame_v2_t) :
    Effect.OnNDIReceiverVideoCaptureEvent_Broadcast f ∉ (r.SetIsCurrentlyConnected b).2 := by
  cases b <;> cases h : r.bIsCurrentlyConnected <;>
    cases hc : IsBound r.OnNDIReceiverConnectedEvent <;>
    cases hd : IsBound r.OnNDIReceiverDisconnectedEvent <;>
    simp [UNDIMediaReceiver.SetIsCurrentlyConnected, h, hc, hd]

/-- Counterexample to C17 as stated: the sample receiver captures the same
frame twice in a row; the frame has data and the undefined timestamp. The
second time its timestamp and format type equal the last-seen ones, yet it is
forwarded again: the call returns true and broadcasts the capture event. -/
theorem C17_untimed_frame_counterexample :
    (sampleReceiver.CaptureConnectedVideo sampleFromTimespan untimedCapture).2.1 = true ∧
    untimedCapture.video_frame.timestamp =
      (sampleReceiver.CaptureConnectedVideo sampleFromTimespan
        untimedCapture).1.LastFrameTimestamp ∧
    untimedCapture.video_frame.frame_format_type =
      (sampleReceiver.CaptureConnectedVideo sampleFromTimespan
        untimedCapture).1.LastFrameFormatType ∧
    ((sampleReceiver.CaptureConnectedVideo sampleFromTimespan untimedCapture).1.CaptureConnectedVideo
        sampleFromTimespan untimedCapture).2.1 = true ∧
    Effect.OnNDIReceiverVideoCaptureEvent_Broadcast untimedCapture.video_frame ∈
      ((sampleReceiver.CaptureConnectedVideo sampleFromTimespan
        untimedCapture).1.CaptureConnectedVideo sampleFromTimespan untimedCapture).2.2 := by
  decide

/-- C17, amended: for every receiver that holds a frame-sync instance and is
not video-muted, and every captured frame with data, `CaptureConnectedVideo`
returns true and broadcasts the capture event exactly when the frame has the
undefined timestamp, or its timestamp differs from the last-seen one, or its
format type differs from the last-seen one; it then records the timestamp and
format type of the frame as last seen. A frame with a defined timestamp equal
to the last-seen one and the last-seen format type is not forwarded, the call
returns false and the last-seen values stay. -/
theorem C17_forward_iff_new (FromTimespan : Int → FFrameRate → FTimecode)
    (r : UNDIMediaReceiver) (input : VideoCaptureInput)
    (hfs : r.p_framesync_instance ≠ nullptr)
    (hmute : r.ConnectionInformation.bMuteVideo = false)
    (hdata : input.video_frame.p_data ≠ nullptr) :
    ((r.CaptureConnectedVideo FromTimespan input).2.1 = true ↔
      (input.video_frame.timestamp = NDIlib_recv_timestamp_undefined ∨
       input.video_frame.timestamp ≠ r.LastFrameTimestamp ∨
       input.video_frame.frame_format_type ≠ r.LastFrameFormatType)) ∧
    (Effect.OnNDIReceiverVideoCaptureEvent_Broadcast input.video_frame ∈
        (r.CaptureConnectedVideo FromTimespan input).2.2 ↔
      (r.CaptureConnectedVideo FromTimespan input).2.1 = true) ∧
    ((r.CaptureConnectedVideo FromTimespan input).2.1 = true →
      (r.CaptureConnectedVideo FromTimespan input).1.LastFrameTimestamp =
        input.video_frame.timestamp ∧
      (r.CaptureConnectedVideo FromTimespan input).1.LastFrameFormatType =
        input.video_frame.frame_format_type) ∧
    ((r.CaptureConnectedVideo FromTimespan input).2.1 = false →
      (r.CaptureConnectedVideo FromTimespan input).1.LastFrameTimestamp =
        r.LastFrameTimestamp ∧
      (r.CaptureConnectedVideo FromTimespan input).1.LastFrameFormatType =
        r.LastFrameFormatType) := by
  have hno := fun x : UNDIMediaReceiver =>
    UNDIMediaReceiver.SetIsCurrentlyConnected_no_capture_event x true input.video_frame
  by_cases hnew : input.video_frame.timestamp = NDIlib_recv_timestamp_undefined ∨
      input.video_frame.timestamp ≠ r.LastFrameTimestamp ∨
      input.video_frame.frame_format_type ≠ r.LastFrameFormatType
  · have hcond : (input.video_frame.timestamp == NDIlib_recv_timestamp_undefined ||
          input.video_frame.timestamp != r.LastFrameTimestamp ||
          input.video_frame.frame_format_type != r.LastFrameFormatType) = true := by
      simpa [Bool.or_eq_true, bne_iff_ne, or_assoc] using hnew
    cases hsync : r.bSyncTimecodeToSource <;>
    simp [UNDIMediaReceiver.CaptureConnectedVideo, hfs, hmute, hdata,
      UNDIMediaReceiver.SetIsCurrentlyConnected_state,
      UNDIMediaReceiver.GatherPerformanceMetrics, hcond, hnew, hsync]
  · have hcond : (input.video_frame.timestamp == NDIlib_recv_timestamp_undefined ||
          input.video_frame.timestamp != r.LastFrameTimestamp ||
          input.video_frame.frame_format_type != r.LastFrameFormatType) = false := by
      rw [Bool.eq_false_iff]
      simpa [Bool.or_eq_true, bne_iff_ne, or_assoc] using hnew
    cases hsync : r.bSyncTimecodeToSource <;>
    simp [UNDIMediaReceiver.CaptureConnectedVideo, hfs, hmute, hdata,
      UNDIMediaReceiver.SetIsCurrentlyConnected_state,
      UNDIMediaReceiver.GatherPerformanceMetrics, hcond, hnew, hsync] <;>
    exact hno _
/-- Witness of the amended C17: a frame with timestamp 1000 is forwarded by the
sample receiver, whose last-seen timestamp is 0. -/
theorem C17_forward_iff_new_witness :
    (sampleReceiver.CaptureConnectedVideo sampleFromTimespan timedCapture).2.1 = true ∧
    (sampleReceiver.CaptureConnectedVideo sampleFromTimespan timedCapture).1.LastFrameTimestamp
      = 1000 :=
  have h := C17_forward_iff_new sampleFromTimespan sampleReceiver timedCapture
    (by decide) (by decide) (by decide)
  ⟨h.1.2 (Or.inr (Or.inl (by decide))), (h.2.2.1 (h.1.2 (Or.inr (Or.inl (by decide))))).1⟩

/-- C18: for every video frame whose pixel format is neither UYVY nor UYVA, or
whose frame format type is none of progressive, field 0 and field 1,
`DisplayFrame` calls no draw function and returns the null texture; and for
every frame whose pixel format is neither UYVY nor UYVA the texture sample's
`Initialize` returns false, so the player adds no sample to its queue. -/
theorem C18_unsupported_frame_dropped (Draw : EDrawMode → NDIlib_video_frame_v2_t → Nat)
    (video_frame : NDIlib_video_frame_v2_t)
    (h : (video_frame.FourCC ≠ NDIlib_FourCC_video_type_e.NDIlib_FourCC_video_type_UYVY ∧
          video_frame.FourCC ≠ NDIlib_FourCC_video_type_e.NDIlib_FourCC_video_type_UYVA) ∨
         (video_frame.frame_format_type ≠
            NDIlib_frame_format_type_e.NDIlib_frame_format_type_progressive ∧
          video_frame.frame_format_type ≠
            NDIlib_frame_format_type_e.NDIlib_frame_format_type_field_0 ∧
          video_frame.frame_format_type ≠
            NDIlib_frame_format_type_e.NDIlib_frame_format_type_field_1)) :
    UNDIMediaReceiver.DisplayFrame Draw video_frame = (nullptr, []) ∧
    ((video_frame.FourCC ≠ NDIlib_FourCC_video_type_e.NDIlib_FourCC_video_type_UYVY ∧
      video_frame.FourCC ≠ NDIlib_FourCC_video_type_e.NDIlib_FourCC_video_type_UYVA) →
      ∀ (Samples : List NDIMediaTextureSample) (TextureSample : NDIMediaTextureSample)
        (Time : Int) (Receiver Data_data : Nat),
        (TextureSample.Initialize video_frame Time Receiver Data_data).2 = false ∧
        FNDIMediaPlayer_DisplayFrame Samples TextureSample video_frame Time Receiver Data_data
          = Samples) := by
  constructor
  · unfold UNDIMediaReceiver.DisplayFrame
    rcases h with ⟨h1, h2⟩ | ⟨h1, h2, h3⟩
    · split <;> simp [h1, h2]
    · split <;> simp_all
  · intro hf Samples TextureSample Time Receiver Data_data
    simp [NDIMediaTextureSample.Initialize, FNDIMediaPlayer_DisplayFrame, hf.1, hf.2]

/-- Witness of C18: a BGRA frame is neither drawn nor queued. -/
theorem C18_unsupported_frame_dropped_witness :
    UNDIMediaReceiver.DisplayFrame (fun _ _ => 77) bgraFrame = (nullptr, []) ∧
    FNDIMediaPlayer_DisplayFrame [] {} bgraFrame 0 1 2 = [] :=
  have h := C18_unsupported_frame_dropped (fun _ _ => 77) bgraFrame
    (Or.inl ⟨by decide, by decide⟩)
  ⟨h.1, (h.2 ⟨by decide, by decide⟩ [] {} 0 1 2).2⟩

/-! ## Metadata attached to video frames: lemmas and claim -/

namespace MappedTextureASyncSender

theorem AddMetaData_eq (s : MappedTextureASyncSender) (Data : FString)
    (hs : s.Ready = true) :
    ∃ s1, s.AddMetaData Data = .ok s1 ∧ s1.Ready = true ∧
      s1.metaDataAt s1.CurrentIndex = s.metaDataAt s.CurrentIndex ++ Data := by
  obtain ⟨⟨⟨tex0, p0, m0⟩, ⟨tex1, p1, m1⟩⟩, idx⟩ := s
  simp only [Ready, WellFormed, Created, pDataAt, Bool.and_eq_true, Bool.or_eq_true,
    beq_iff_eq] at hs
  obtain ⟨⟨⟨⟨hidx, hw0⟩, hw1⟩, hc0, hc1⟩, hcur⟩ := hs
  rcases hidx with hidx | hidx <;> subst hidx <;>
    simp_all [AddMetaData, MappedTexture.AddMetaData, get, set, Ready, WellFormed, Created,
      pDataAt, metaDataAt, bind, Except.bind, pure, Except.pure]

theorem afterMap_metaDataAt (s : MappedTextureASyncSender) (pMapped : Nat) (i : Int) :
    (s.afterMap pMapped).metaDataAt i = s.metaDataAt i ∧
    (s.afterMap pMapped).CurrentIndex = s.CurrentIndex := by
  unfold afterMap metaDataAt
  constructor
  · split <;> split <;> simp_all
  · rfl

theorem runOps_eq (ops : List RingOp) :
    ∀ s : MappedTextureASyncSender, s.Ready = true → (∀ op ∈ ops, op.NonNull = true) →
      ∃ s1, runOps s ops = .ok (s1, expectedSends (s.metaDataAt s.CurrentIndex) ops) := by
  induction ops with
  | nil => intro s _ _; exact ⟨s, rfl⟩
  | cons op rest ih =>
    intro s hs hops
    have hrest : ∀ o ∈ rest, o.NonNull = true := fun o ho => hops o (List.mem_cons_of_mem _ ho)
    cases op with
    | AddMetaData Data =>
      obtain ⟨s1, hadd, hready, hmeta⟩ := AddMetaData_eq s Data hs
      obtain ⟨s2, hrun⟩ := ih s1 hready hrest
      refine ⟨s2, ?_⟩
      simp only [runOps, hadd, bind, Except.bind, expectedSends]
      rw [hrun, hmeta]
    | SendCycle i =>
      have hi : i.NonNull = true := hops (RingOp.SendCycle i) (List.mem_cons_self _ _)
      simp only [CycleInput.NonNull, Bool.and_eq_true, bne_iff_ne, ne_eq] at hi
      obtain ⟨⟨hsrc, hp⟩, hsend⟩ := hi
      obtain ⟨hwf, hcur, -, hready, -⟩ := cycle_facts s i.pMapped hs hp
      obtain ⟨w, h, hmap⟩ := Map_eq s i.pMapped hs hp
      have hsnd := Send_eq (s.afterMap i.pMapped) i.p_send_instance hwf
        (by rw [hcur]; exact hp) hsend
      obtain ⟨hm1, hm2⟩ := afterMap_metaDataAt s i.pMapped s.CurrentIndex
      obtain ⟨-, hidx3, -, -, -, -, hm3, -⟩ := afterSend_facts (s.afterMap i.pMapped) hwf
      obtain ⟨s4, hrun⟩ := ih (s.afterMap i.pMapped).afterSend hready hrest
      rw [hidx3, hm3] at hrun
      have hcur2 := hcur
      rw [hm2] at hcur2
      refine ⟨s4, ?_⟩
      simp only [runOps, Resolve_eq s _ hs hsrc, hmap, hsnd, hrun, bind, Except.bind, pure,
        Except.pure, expectedSends, hm2, hcur2, hm1, List.singleton_append]

end MappedTextureASyncSender

/-- C19: on a ring that is ready for a cycle and whose current slot has no
metadata pending (as after `Create` on a new ring, or after any `Send` or
`Flush`), every sequence of attach-metadata calls and send cycles runs
without assertion and makes exactly one transport send per cycle: frame N
carries the pointer mapped in its cycle and, as metadata, the concatenation in
attachment order of the strings attached after send N-1 and before send N, or
null metadata when that concatenation is empty. -/
theorem C19_attached_metadata_goes_with_next_frame (s : MappedTextureASyncSender)
    (ops : List RingOp) (hs : s.Ready = true) (hmeta : s.metaDataAt s.CurrentIndex = "")
    (hops : ∀ op ∈ ops, op.NonNull = true) :
    ∃ s1, runOps s ops = .ok (s1, expectedSends "" ops) := by
  have h := MappedTextureASyncSender.runOps_eq ops s hs hops
  rw [hmeta] at h
  exact h

/-- Witness of C19: two strings attached before the first send, nothing before
the second, one string before the third. -/
theorem C19_attached_metadata_goes_with_next_frame_witness :
    ∃ s1, runOps createdRing
        [RingOp.AddMetaData "<a/>", RingOp.AddMetaData "<b/>", RingOp.SendCycle (sampleCycle 100),
         RingOp.SendCycle (sampleCycle 200), RingOp.AddMetaData "<c/>",
         RingOp.SendCycle (sampleCycle 300)] =
      .ok (s1, [{ p_send_instance := 9, p_video_data := some (100, some "<a/><b/>") },
                { p_send_instance := 9, p_video_data := some (200, none) },
                { p_send_instance := 9, p_video_data := some (300, some "<c/>") }]) :=
  C19_attached_metadata_goes_with_next_frame createdRing
    [RingOp.AddMetaData "<a/>", RingOp.AddMetaData "<b/>", RingOp.SendCycle (sampleCycle 100),
     RingOp.SendCycle (sampleCycle 200), RingOp.AddMetaData "<c/>",
     RingOp.SendCycle (sampleCycle 300)] (by decide) (by decide) (by decide)

/-! ## Source identity given as name or as machine and stream -/

theorem FString_paren_ne_empty (M S : FString) : M ++ " (" ++ S ++ ")" ≠ "" := by
  intro h
  have hl := congrArg String.length h
  simp only [String.length_append] at hl
  have h2 : (" (" : String).length = 2 := by decide
  have h0 : ("" : String).length = 0 := by decide
  omega

/-- Counterexample to C20 as stated: the sample receiver is connected with the
descriptor of source name "A (Cam1)"; `ChangeConnection` with machine name "A"
and stream name "Cam1", which resolves to the same NDI name, destroys the
frame-sync instance 12 and the receive instance 11 and creates new ones. -/
theorem C20_same_name_reconnects_counterexample :
    FNDIConnectionInformation.GetNDIName { MachineName := "A", StreamName := "Cam1" } =
      sampleReceiver.ConnectionInformation.GetNDIName ∧
    (sampleReceiver.ChangeConnection 13 14 { MachineName := "A", StreamName := "Cam1" }).2 =
      [Effect.NDIlib_recv_create_v3 true
         NDIlib_recv_bandwidth_e.NDIlib_recv_bandwidth_highest 13,
       Effect.NDIlib_recv_connect 13 "A (Cam1)" "",
       Effect.NDIlib_framesync_destroy 12,
       Effect.NDIlib_recv_destroy 11,
       Effect.NDIlib_framesync_create 13 14] ∧
    (sampleReceiver.ChangeConnection 13 14
        { MachineName := "A", StreamName := "Cam1" }).1.p_receive_instance ≠
      sampleReceiver.p_receive_instance := by
  decide

/-- C20, amended: for all non-empty names M and S, the descriptors with source
name `M (S)` and with machine name M and stream name S resolve to the same
NDI name, but `ChangeConnection` compares the fields and not the resolved
name: on a receiver that holds a receive instance and whose stored descriptor
is the first, `ChangeConnection` with the second tears the connection down
and creates it again, connecting to the same NDI name `M (S)`. -/
theorem C20_same_name_reconnects (a b : Nat) (r : UNDIMediaReceiver) (M S : FString)
    (hM : M ≠ "") (hS : S ≠ "") (hrecv : r.p_receive_instance ≠ nullptr)
    (hcur : r.ConnectionInformation = { SourceName := M ++ " (" ++ S ++ ")" }) :
    FNDIConnectionInformation.GetNDIName { MachineName := M, StreamName := S } =
      r.ConnectionInformation.GetNDIName ∧
    (r.ChangeConnection a b { MachineName := M, StreamName := S }).2 =
      [Effect.NDIlib_recv_create_v3 true
         NDIlib_recv_bandwidth_e.NDIlib_recv_bandwidth_highest a,
       Effect.NDIlib_recv_connect a (M ++ " (" ++ S ++ ")") ""] ++
      (if r.p_framesync_instance = nullptr then []
        else [Effect.NDIlib_framesync_destroy r.p_framesync_instance]) ++
      [Effect.NDIlib_recv_destroy r.p_receive_instance,
       Effect.NDIlib_framesync_create a b] ∧
    (r.ChangeConnection a b { MachineName := M, StreamName := S }).1.p_receive_instance = a ∧
    (r.ChangeConnection a b { MachineName := M, StreamName := S }).1.p_framesync_instance
      = b := by
  have hMe : M.isEmpty = false := by
    rw [Bool.eq_false_iff, ne_eq, FString_isEmpty_iff]; exact hM
  have hSe : S.isEmpty = false := by
    rw [Bool.eq_false_iff, ne_eq, FString_isEmpty_iff]; exact hS
  have hPe : (M ++ " (" ++ S ++ ")").isEmpty = false := by
    rw [Bool.eq_false_iff, ne_eq, FString_isEmpty_iff]; exact FString_paren_ne_empty M S
  have hEe : ("" : String).isEmpty = true := by decide
  have hvalid : FNDIConnectionInformation.IsValid { MachineName := M, StreamName := S }
      = true := by
    simp [FNDIConnectionInformation.IsValid, hMe, hSe]
  have hname : FNDIConnectionInformation.GetNDIName { MachineName := M, StreamName := S } =
      M ++ " (" ++ S ++ ")" := by
    simp [FNDIConnectionInformation.GetNDIName, hMe, hSe, hEe]
  have hchg : FString_Equals r.ConnectionInformation.SourceName
        (({ MachineName := M, StreamName := S } : FNDIConnectionInformation)).SourceName
          = false ∨
      FString_Equals r.ConnectionInformation.MachineName
        (({ MachineName := M, StreamName := S } : FNDIConnectionInformation)).MachineName
          = false ∨
      FString_Equals r.ConnectionInformation.StreamName
        (({ MachineName := M, StreamName := S } : FNDIConnectionInformation)).StreamName
          = false ∨
      FString_Equals r.ConnectionInformation.Url
        (({ MachineName := M, StreamName := S } : FNDIConnectionInformation)).Url = false ∨
      r.ConnectionInformation.Bandwidth ≠
        (({ MachineName := M, StreamName := S } : FNDIConnectionInformation)).Bandwidth ∨
      (r.ConnectionInformation.ne { MachineName := M, StreamName := S } = true ∧
        r.p_framesync_instance = nullptr) := by
    left
    rw [hcur, ← Bool.not_eq_true]
    exact fun h => FString_paren_ne_empty M S ((FString_Equals_empty _).1 h)
  rw [UNDIMediaReceiver.ChangeConnection_start a b r _ hrecv hvalid hchg,
    UNDIMediaReceiver.StartConnection_valid a b _ hvalid]
  refine ⟨?_, ?_, rfl, rfl⟩
  · rw [hname, hcur]
    simp [FNDIConnectionInformation.GetNDIName, hPe]
  · simp [hname, hrecv, FNDIConnectionInformation.toBandwidth]

/-- Witness of the amended C20: names "A" and "Cam1" on the sample receiver. -/
theorem C20_same_name_reconnects_witness :
    (sampleReceiver.ChangeConnection 13 14
        { MachineName := "A", StreamName := "Cam1" }).1.p_receive_instance = 13 ∧
    (sampleReceiver.ChangeConnection 13 14
        { MachineName := "A", StreamName := "Cam1" }).1.p_framesync_instance = 14 :=
  have h := C20_same_name_reconnects 13 14 sampleReceiver "A" "Cam1"
    (by decide) (by decide) (by decide) (by decide)
  ⟨h.2.2.1, h.2.2.2⟩

/-! ## Audio conversion: lemmas -/

theorem storeSample_holds (m : Nat → Nat) (offset : Nat) (sample : Int) :
    HoldsSample (storeSample m offset sample) offset sample := by
  unfold HoldsSample storeSample
  constructor
  · rw [Function.update_noteq (by omega), Function.update_same]
  · rw [Function.update_same]

theorem storeSample_other (m : Nat → Nat) (offset : Nat) (sample : Int) (x : Nat)
    (h0 : x ≠ offset) (h1 : x ≠ offset + 1) : storeSample m offset sample x = m x := by
  unfold storeSample
  rw [Function.update_noteq h1, Function.update_noteq h0]

theorem BlockWrite_store (s0 : Nat) (target : Nat → Int) :
    BlockWrite (fun m => storeSample m (2 * s0) (target s0)) (fun s => s = s0) target := by
  intro m
  constructor
  · intro s hs
    subst hs
    exact storeSample_holds m _ _
  · intro x hx
    exact storeSample_other m _ _ x (hx s0 rfl).1 (hx s0 rfl).2

theorem BlockWrite_forLoop (lo : Nat) (body : Nat → (Nat → Nat) → (Nat → Nat))
    (cells : Nat → Nat → Prop) (target : Nat → Int) :
    ∀ n, (∀ k, lo ≤ k → k < lo + n → BlockWrite (body k) (cells k) target) →
      BlockWrite (forLoop lo n body) (fun s => ∃ k, lo ≤ k ∧ k < lo + n ∧ cells k s) target := by
  intro n
  induction n with
  | zero =>
    intro _ m
    constructor
    · rintro s ⟨k, h1, h2, -⟩
      omega
    · intro x _
      rfl
  | succ n ih =>
    intro hbody m
    have hprev := ih (fun k h1 h2 => hbody k h1 (by omega)) m
    have hlast := hbody (lo + n) (by omega) (by omega) (forLoop lo n body m)
    constructor
    · rintro s ⟨k, h1, h2, hc⟩
      show HoldsSample (body (lo + n) (forLoop lo n body m)) (2 * s) (target s)
      by_cases hs : cells (lo + n) s
      · exact hlast.1 s hs
      · have hk : k < lo + n := by
          by_contra hge
          have : k = lo + n := by omega
          subst this
          exact hs hc
        have hold := hprev.1 s ⟨k, h1, hk, hc⟩
        unfold HoldsSample at hold ⊢
        rw [hlast.2 (2 * s), hlast.2 (2 * s + 1)]
        · exact hold
        · intro s1 hs1
          have : s1 ≠ s := fun e => hs (e ▸ hs1)
          omega
        · intro s1 hs1
          have : s1 ≠ s := fun e => hs (e ▸ hs1)
          omega
    · intro x hx
      show body (lo + n) (forLoop lo n body m) x = m x
      rw [hlast.2 x (fun s hs => hx s ⟨lo + n, by omega, by omega, hs⟩)]
      exact hprev.2 x (fun s ⟨k, h1, h2, hc⟩ => hx s ⟨k, h1, by omega, hc⟩)

theorem BlockWrite_comp (f g : (Nat → Nat) → (Nat → Nat)) (C D : Nat → Prop)
    (target : Nat → Int) (hf : BlockWrite f C target) (hg : BlockWrite g D target) :
    BlockWrite (fun m => g (f m)) (fun s => C s ∨ D s) target := by
  intro m
  constructor
  · intro s hs
    by_cases hD : D s
    · exact (hg (f m)).1 s hD
    · have hC : C s := hs.resolve_right hD
      have hold := (hf m).1 s hC
      unfold HoldsSample at hold ⊢
      beta_reduce
      rw [(hg (f m)).2 (2 * s), (hg (f m)).2 (2 * s + 1)]
      · exact hold
      · intro s1 hs1
        have : s1 ≠ s := fun e => hD (e ▸ hs1)
        omega
      · intro s1 hs1
        have : s1 ≠ s := fun e => hD (e ▸ hs1)
        omega
  · intro x hx
    beta_reduce
    rw [(hg (f m)).2 x (fun s hs => hx s (Or.inr hs))]
    exact (hf m).2 x (fun s hs => hx s (Or.inl hs))

theorem BlockWrite_congr (f : (Nat → Nat) → (Nat → Nat)) (C D : Nat → Prop)
    (target : Nat → Int) (hf : BlockWrite f C target) (h : ∀ s, D s ↔ C s) :
    BlockWrite f D target := by
  intro m
  exact ⟨fun s hs => (hf m).1 s ((h s).1 hs), fun x hx => (hf m).2 x (fun s hs => hx s ((h s).2 hs))⟩

theorem slot_mod (R c i : Nat) (hc : c < R) : (i * R + c) % R = c := by
  rw [Nat.add_comm, Nat.add_mul_mod_self_right]
  exact Nat.mod_eq_of_lt hc

theorem slot_div (R c i : Nat) (hc : c < R) : (i * R + c) / R = i := by
  have hR : 0 < R := by omega
  rw [Nat.add_comm, Nat.add_mul_div_right _ _ hR, Nat.div_eq_of_lt hc]
  omega
theorem ConvertToPCM_block {F : Type} (A : FloatArith F) (channels n R : Nat)
    (value : Nat → Nat → F) (target : Nat → Int)
    (ht : ∀ c i, c < channels → i < n → target (i * R + c) = convertSample A (value c i)) :
    BlockWrite (ConvertToPCM A channels n R value)
      (fun s => ∃ c, c < channels ∧ ∃ i, i < n ∧ s = i * R + c) target := by
  have houter := BlockWrite_forLoop 0
    (fun channel_index PCMData =>
      forLoop 0 n (fun sample_index PCMData =>
        storeSample PCMData (channel_index * 2 + sample_index * (R * 2))
          (convertSample A (value channel_index sample_index))) PCMData)
    (fun c s => ∃ i, 0 ≤ i ∧ i < 0 + n ∧ s = i * R + c) target channels ?_
  · refine BlockWrite_congr _ _ _ target houter ?_
    intro s
    constructor
    · rintro ⟨c, hc, i, hi, hs⟩
      exact ⟨c, by omega, by omega, i, by omega, by omega, hs⟩
    · rintro ⟨c, -, hc, i, -, hi, hs⟩
      exact ⟨c, by omega, i, by omega, hs⟩
  · intro c _ hc
    have hinner := BlockWrite_forLoop 0
      (fun sample_index PCMData =>
        storeSample PCMData (c * 2 + sample_index * (R * 2))
          (convertSample A (value c sample_index)))
      (fun i s => s = i * R + c) target n ?_
    · exact hinner
    · intro i _ hi m
      have hst := BlockWrite_store (i * R + c) target m
      have e1 : c * 2 + i * (R * 2) = 2 * (i * R + c) := by ring
      have e2 := ht c i (by omega) (by omega)
      simp only [e1, ← e2]
      exact hst

theorem FillExtraChannels_block {F : Type} (A : FloatArith F) (R : Nat)
    (audio_frame : NDIlib_audio_frame_v2_t F) (target : Nat → Int)
    (ht : ∀ c i, audio_frame.no_channels ≤ c → c < R → i < audio_frame.no_samples →
      target (i * R + c) = convertSample A
        (A.div (sumChannels A audio_frame i) (A.ofInt audio_frame.no_channels))) :
    BlockWrite (FillExtraChannels A R audio_frame)
      (fun s => ∃ c, audio_frame.no_channels ≤ c ∧ c < R ∧
        ∃ i, i < audio_frame.no_samples ∧ s = i * R + c) target := by
  have houter := BlockWrite_forLoop 0
    (fun sample_index PCMData =>
      forLoop audio_frame.no_channels (R - audio_frame.no_channels)
        (fun dst_channel_index PCMData =>
          storeSample PCMData (dst_channel_index * 2 + sample_index * R * 2)
            (convertSample A
              (A.div (sumChannels A audio_frame sample_index)
                (A.ofInt audio_frame.no_channels))))
        PCMData)
    (fun i s => ∃ c, audio_frame.no_channels ≤ c ∧
      c < audio_frame.no_channels + (R - audio_frame.no_channels) ∧ s = i * R + c)
    target audio_frame.no_samples ?_
  · refine BlockWrite_congr _ _ _ target houter ?_
    intro s
    constructor
    · rintro ⟨c, hc1, hc2, i, hi, hs⟩
      exact ⟨i, by omega, by omega, c, hc1, by omega, hs⟩
    · rintro ⟨i, -, hi, c, hc1, hc2, hs⟩
      exact ⟨c, hc1, by omega, i, by omega, hs⟩
  · intro i _ hi
    have hinner := BlockWrite_forLoop audio_frame.no_channels
      (fun dst_channel_index PCMData =>
        storeSample PCMData (dst_channel_index * 2 + i * R * 2)
          (convertSample A
            (A.div (sumChannels A audio_frame i) (A.ofInt audio_frame.no_channels))))
      (fun c s => s = i * R + c) target (R - audio_frame.no_channels) ?_
    · exact hinner
    · intro c hc1 hc2 m
      have hst := BlockWrite_store (i * R + c) target m
      have e1 : c * 2 + i * R * 2 = 2 * (i * R + c) := by ring
      have e2 := ht c i hc1 (by omega) (by omega)
      simp only [e1, ← e2]
      exact hst
theorem addInto_samples {F : Type} (A : FloatArith F) (dst src : Nat) (hne : src ≠ dst) :
    ∀ (n : Nat) (d : Nat → Nat → F) (c i : Nat),
      forLoop 0 n (fun sample_index p_data =>
          setSample p_data dst sample_index
            (A.add (p_data dst sample_index) (p_data src sample_index))) d c i =
        if c = dst ∧ i < n then A.add (d dst i) (d src i) else d c i := by
  intro n
  induction n with
  | zero => intro d c i; simp [forLoop]
  | succ n ih =>
    intro d c i
    simp only [forLoop, setSample, Nat.zero_add]
    rw [ih d dst n, ih d src n, ih d c i]
    by_cases h1 : c = dst
    · by_cases h2 : i = n
      · subst h1 h2
        simp [hne]
      · by_cases h3 : i < n
        · simp [h1, h2, h3, Nat.lt_succ_of_lt h3]
        · have h4 : ¬ i < n + 1 := by omega
          simp [h1, h2, h3, h4]
    · simp [h1]

theorem addInto_channels {F : Type} (A : FloatArith F) (src n R : Nat) (hsrc : R ≤ src) :
    ∀ (k : Nat), k ≤ R → ∀ (d : Nat → Nat → F) (c i : Nat),
      forLoop 0 k (fun dst_channel_index p_data =>
          forLoop 0 n (fun sample_index p_data =>
            setSample p_data dst_channel_index sample_index
              (A.add (p_data dst_channel_index sample_index) (p_data src sample_index)))
            p_data) d c i =
        if c < k ∧ i < n then A.add (d c i) (d src i) else d c i := by
  intro k
  induction k with
  | zero => intro _ d c i; simp [forLoop]
  | succ k ih =>
    intro hk d c i
    simp only [forLoop, Nat.zero_add]
    rw [addInto_samples A k src (by omega) n _ c i]
    rw [ih (by omega) d k i, ih (by omega) d src i, ih (by omega) d c i]
    have hs : ¬ src < k := by omega
    by_cases h1 : c = k
    · subst h1
      by_cases h3 : i < n <;> simp [h3, hs]
    · by_cases h2 : c < k
      · have : c < k + 1 := by omega
        simp [h1, h2, this]
      · have : ¬ c < k + 1 := by omega
        simp [h1, h2, this]

theorem AddExtraChannels_outer {F : Type} (A : FloatArith F) (R n : Nat)
    (p : Nat → Nat → F) :
    ∀ (k : Nat) (c i : Nat),
      forLoop R k (fun src_channel_index p_data =>
          forLoop 0 R (fun dst_channel_index p_data =>
            forLoop 0 n (fun sample_index p_data =>
              setSample p_data dst_channel_index sample_index
                (A.add (p_data dst_channel_index sample_index)
                  (p_data src_channel_index sample_index))) p_data) p_data) p c i =
        if c < R ∧ i < n then forLoop R k (fun src v => A.add v (p src i)) (p c i)
        else p c i := by
  intro k
  induction k with
  | zero => intro c i; simp [forLoop]
  | succ k ih =>
    intro c i
    simp only [forLoop]
    rw [addInto_channels A (R + k) n R (by omega) R (le_refl R) _ c i]
    rw [ih c i, ih (R + k) i]
    have hs : ¬ R + k < R := by omega
    by_cases h : c < R ∧ i < n
    · simp [h, hs]
    · simp [h]

theorem AddExtraChannels_eq {F : Type} (A : FloatArith F) (R : Nat)
    (audio_frame : NDIlib_audio_frame_v2_t F) (c i : Nat) (hc : c < R)
    (hi : i < audio_frame.no_samples) :
    AddExtraChannels A R audio_frame c i = mixedDown A R audio_frame c i := by
  unfold AddExtraChannels mixedDown
  rw [AddExtraChannels_outer A R audio_frame.no_samples audio_frame.p_data _ c i]
  simp [hc, hi]
theorem slot_lt (R n c i : Nat) (hc : c < R) (hi : i < n) : i * R + c < n * R := by
  have h1 : (i + 1) * R ≤ n * R := Nat.mul_le_mul_right R (by omega)
  have h2 : (i + 1) * R = i * R + R := by ring
  omega

theorem GeneratePCMData_block {F : Type} (A : FloatArith F) (self : UNDIMediaReceiver)
    (AudioWave : Option UNDIMediaSoundWave) (PCMData : Nat → Nat) (SamplesNeeded : Int)
    (available_no_frames : Int) (audio_frame : NDIlib_audio_frame_v2_t F)
    (hR : requestedChannels AudioWave ≠ 0) (hfs : self.p_framesync_instance ≠ nullptr)
    (hmute : self.ConnectionInformation.bMuteAudio = false) (havail : 0 < available_no_frames) :
    ∃ f, BlockWrite f
        (fun s => ∃ c, c < requestedChannels AudioWave ∧
          ∃ i, i < audio_frame.no_samples ∧ s = i * requestedChannels AudioWave + c)
        (fun s => convertSample A (mixedValue A (requestedChannels AudioWave) audio_frame
          (s % requestedChannels AudioWave) (s / requestedChannels AudioWave))) ∧
      self.GeneratePCMData A AudioWave PCMData SamplesNeeded available_no_frames audio_frame =
        some (f PCMData, (audio_frame.no_samples : Int) * requestedChannels AudioWave) := by
  generalize hRdef : requestedChannels AudioWave = R at hR ⊢
  have htarget : ∀ c i, c < R →
      convertSample A (mixedValue A R audio_frame ((i * R + c) % R) ((i * R + c) / R)) =
        convertSample A (mixedValue A R audio_frame c i) := by
    intro c i hc
    simp only [slot_mod R c i hc, slot_div R c i hc]
  rcases Nat.lt_trichotomy R audio_frame.no_channels with hlt | heq | hgt
  · refine ⟨ConvertToPCM A R audio_frame.no_samples R
      (fun c i => A.div (AddExtraChannels A R audio_frame c i)
        (A.ofInt (((audio_frame.no_channels - R : Nat) : Int) + 1))), ?_, ?_⟩
    · apply ConvertToPCM_block
      intro c i hc hi
      beta_reduce
      rw [htarget c i hc, AddExtraChannels_eq A R audio_frame c i hc hi]
      simp [mixedValue, hlt, Nat.ne_of_lt hlt]
    · simp [UNDIMediaReceiver.GeneratePCMData, hRdef, hR, hfs, hmute, havail, hlt,
        Nat.ne_of_lt hlt]
  · refine ⟨ConvertToPCM A R audio_frame.no_samples R audio_frame.p_data, ?_, ?_⟩
    · apply ConvertToPCM_block
      intro c i hc _
      beta_reduce
      rw [htarget c i hc]
      simp [mixedValue, heq]
    · simp [UNDIMediaReceiver.GeneratePCMData, hRdef, hR, hfs, hmute, havail, ← heq]
  · have hne : R ≠ audio_frame.no_channels := by omega
    have hnlt : ¬ R < audio_frame.no_channels := by omega
    refine ⟨fun m => FillExtraChannels A R audio_frame
      (ConvertToPCM A audio_frame.no_channels audio_frame.no_samples R audio_frame.p_data m),
      ?_, ?_⟩
    · have h1 := ConvertToPCM_block A audio_frame.no_channels audio_frame.no_samples R
        audio_frame.p_data
        (fun s => convertSample A (mixedValue A R audio_frame (s % R) (s / R)))
        (by
          intro c i hc _
          beta_reduce
          rw [htarget c i (by omega)]
          simp [mixedValue, hne, hnlt, hc])
      have h2 := FillExtraChannels_block A R audio_frame
        (fun s => convertSample A (mixedValue A R audio_frame (s % R) (s / R)))
        (by
          intro c i hc1 hc2 _
          have hc3 : ¬ c < audio_frame.no_channels := by omega
          beta_reduce
          rw [htarget c i hc2]
          simp [mixedValue, hne, hnlt, hc3])
      refine BlockWrite_congr _ _ _ _ (BlockWrite_comp _ _ _ _ _ h1 h2) ?_
      intro s
      constructor
      · rintro ⟨c, hc, i, hi, hs⟩
        by_cases hcn : c < audio_frame.no_channels
        · exact Or.inl ⟨c, hcn, i, hi, hs⟩
        · exact Or.inr ⟨c, by omega, hc, i, hi, hs⟩
      · rintro (⟨c, hc, i, hi, hs⟩ | ⟨c, -, hc, i, hi, hs⟩)
        · exact ⟨c, by omega, i, hi, hs⟩
        · exact ⟨c, hc, i, hi, hs⟩
    · simp [UNDIMediaReceiver.GeneratePCMData, hRdef, hR, hfs, hmute, havail, hne, hnlt, hgt]

theorem GeneratePCMData_captured {F : Type} (A : FloatArith F) (self : UNDIMediaReceiver)
    (AudioWave : Option UNDIMediaSoundWave) (PCMData : Nat → Nat) (SamplesNeeded : Int)
    (available_no_frames : Int) (audio_frame : NDIlib_audio_frame_v2_t F)
    (hR : requestedChannels AudioWave ≠ 0) (hfs : self.p_framesync_instance ≠ nullptr)
    (hmute : self.ConnectionInformation.bMuteAudio = false) (havail : 0 < available_no_frames) :
    ∃ m, self.GeneratePCMData A AudioWave PCMData SamplesNeeded available_no_frames audio_frame =
        some (m, (audio_frame.no_samples : Int) * requestedChannels AudioWave) ∧
      (∀ i c, i < audio_frame.no_samples → c < requestedChannels AudioWave →
        HoldsSample m ((i * requestedChannels AudioWave + c) * 2)
          (convertSample A (mixedValue A (requestedChannels AudioWave) audio_frame c i))) ∧
      (∀ x, 2 * (audio_frame.no_samples * requestedChannels AudioWave) ≤ x →
        m x = PCMData x) := by
  obtain ⟨f, hblock, hgen⟩ := GeneratePCMData_block A self AudioWave PCMData SamplesNeeded
    available_no_frames audio_frame hR hfs hmute havail
  refine ⟨f PCMData, hgen, ?_, ?_⟩
  · intro i c hi hc
    have h := (hblock PCMData).1 (i * requestedChannels AudioWave + c) ⟨c, hc, i, hi, rfl⟩
    simp only [slot_mod _ c i hc, slot_div _ c i hc] at h
    rw [Nat.mul_comm]
    exact h
  · intro x hx
    apply (hblock PCMData).2 x
    rintro s ⟨c, hc, i, hi, hs⟩
    have := slot_lt _ _ c i hc hi
    omega
theorem convertSample_range {F : Type} (A : FloatArith F) (x : F) :
    INT16_MIN ≤ convertSample A x ∧ convertSample A x ≤ INT16_MAX := by
  unfold convertSample clampToInt16 INT16_MIN INT16_MAX
  split
  · omega
  · split <;> omega

theorem int16_bytes (s : Int) :
    (((s % 256).toNat : Int) + 256 * (((s / 256) % 256).toNat : Int) = s % 65536) ∧
    (s % 256).toNat < 256 ∧ ((s / 256) % 256).toNat < 256 := by
  have ha : 0 ≤ s % 256 := Int.emod_nonneg _ (by norm_num)
  have hb : s % 256 < 256 := Int.emod_lt_of_pos _ (by norm_num)
  have hc : 0 ≤ (s / 256) % 256 := Int.emod_nonneg _ (by norm_num)
  have hd : (s / 256) % 256 < 256 := Int.emod_lt_of_pos _ (by norm_num)
  refine ⟨?_, by omega, by omega⟩
  rw [Int.toNat_of_nonneg ha, Int.toNat_of_nonneg hc]
  omega

theorem exactArith_sumChannels (audio_frame : NDIlib_audio_frame_v2_t ℚ) (i : Nat) :
    sumChannels exactArith audio_frame i =
      ∑ s in Finset.range audio_frame.no_channels, audio_frame.p_data s i := by
  unfold sumChannels
  generalize audio_frame.no_channels = n
  induction n with
  | zero => simp [forLoop, exactArith]
  | succ n ih =>
    rw [Finset.sum_range_succ, ← ih]
    simp [forLoop, exactArith]

theorem exactArith_mixedDown (audio_frame : NDIlib_audio_frame_v2_t ℚ) (i k : Nat) :
    forLoop 1 k (fun src v => exactArith.add v (audio_frame.p_data src i))
        (audio_frame.p_data 0 i) =
      ∑ s in Finset.range (k + 1), audio_frame.p_data s i := by
  induction k with
  | zero => simp [forLoop]
  | succ k ih =>
    rw [Finset.sum_range_succ, ← ih]
    simp [forLoop, exactArith, Nat.add_comm]

theorem exactArith_mono_mixedValue (audio_frame : NDIlib_audio_frame_v2_t ℚ) (i : Nat)
    (hN : 1 ≤ audio_frame.no_channels) :
    mixedValue exactArith 1 audio_frame 0 i =
      (∑ s in Finset.range audio_frame.no_channels, audio_frame.p_data s i) /
        audio_frame.no_channels := by
  unfold mixedValue
  by_cases h1 : 1 = audio_frame.no_channels
  · rw [if_pos h1, ← h1]
    simp
  · have hlt : 1 < audio_frame.no_channels := by omega
    rw [if_neg h1, if_pos hlt]
    unfold mixedDown
    rw [exactArith_mixedDown audio_frame i (audio_frame.no_channels - 1)]
    have e : audio_frame.no_channels - 1 + 1 = audio_frame.no_channels := by omega
    rw [e]
    simp only [exactArith]
    congr 1
    have e2 : ((audio_frame.no_channels - 1 : Nat) : Int) + 1 = audio_frame.no_channels := by
      omega
    rw [e2]
    simp

theorem mean_scaled_range (n : Nat) (hn : 1 ≤ n) (p : Nat → ℚ)
    (hp : ∀ s, s < n → |p s| ≤ 1) :
    -32767 ≤ ⌊(∑ s in Finset.range n, p s) / n * 32767 + 1 / 2⌋ ∧
    ⌊(∑ s in Finset.range n, p s) / n * 32767 + 1 / 2⌋ ≤ 32767 := by
  have hnpos : (0 : ℚ) < n := by exact_mod_cast hn
  have hsum : |∑ s in Finset.range n, p s| ≤ n := by
    calc |∑ s in Finset.range n, p s| ≤ ∑ s in Finset.range n, |p s| :=
          Finset.abs_sum_le_sum_abs _ _
      _ ≤ ∑ _s in Finset.range n, (1 : ℚ) :=
          Finset.sum_le_sum (fun s hs => hp s (Finset.mem_range.1 hs))
      _ = n := by simp
  have hmean : |(∑ s in Finset.range n, p s) / n| ≤ 1 := by
    rw [abs_div, abs_of_pos hnpos]
    exact (div_le_one hnpos).2 hsum
  obtain ⟨hlo, hhi⟩ := abs_le.1 hmean
  constructor
  · rw [Int.le_floor]
    push_cast
    linarith
  · have : ⌊(∑ s in Finset.range n, p s) / n * 32767 + 1 / 2⌋ < 32768 := by
      rw [Int.floor_lt]
      push_cast
      linarith
    omega

theorem clampToInt16_eq_clampInt16 (v : Int) : clampToInt16 v = clampInt16 v := by
  unfold clampToInt16 clampInt16 INT16_MIN INT16_MAX
  split
  · omega
  · split <;> omega

theorem convertSample_eq_int16Conversion {F : Type} (A : FloatArith F) (x : F) :
    convertSample A x = int16Conversion A x := by
  unfold convertSample int16Conversion
  exact clampToInt16_eq_clampInt16 _

theorem clampInt16_range (v : Int) : -32768 ≤ clampInt16 v ∧ clampInt16 v ≤ 32767 := by
  unfold clampInt16
  omega

theorem clampInt16_of_range (v : Int) (h1 : -32768 ≤ v) (h2 : v ≤ 32767) :
    clampInt16 v = v := by
  unfold clampInt16
  omega

theorem exactArith_laws : FloatLaws exactArith exactLe := by
  refine ⟨?_, ?_, ?_, ?_, ?_, ?_, ?_, ?_, ?_⟩
  · intro x y z h1 h2
    exact le_trans h1 h2
  · intro x _
    simp [exactArith, exactLe]
  · intro x _
    simp [exactArith, exactLe]
  · intro x y h1 h2
    have : x = y := le_antisymm h1 h2
    simp [exactLe, this]
  · intro x y h1 h2
    have : x = y := le_antisymm h1 h2
    rw [this]
  · intro a b v x _ _ h1 h2 h3 h4
    simp only [exactArith, exactLe] at *
    push_cast at *
    constructor <;> linarith
  · intro n v hn _ h1 h2
    simp only [exactArith, exactLe] at *
    have hpos : (0 : ℚ) < (n : ℚ) := by exact_mod_cast hn
    push_cast at *
    constructor
    · rw [le_div_iff₀ hpos]; linarith
    · rw [div_le_iff₀ hpos]; linarith
  · intro v h1 h2
    simp only [exactArith, exactLe] at *
    push_cast at *
    constructor <;> linarith
  · intro v h1 h2
    simp only [exactArith, exactLe] at *
    push_cast at h1 h2
    constructor
    · rw [Int.le_floor]
      push_cast
      linarith
    · have : ⌊v + 1 / 2⌋ < 32768 := by
        rw [Int.floor_lt]
        push_cast
        linarith
      omega

namespace FloatLaws

theorem conversion_congr {F : Type} {A : FloatArith F} {le : F → F → Prop}
    (h : FloatLaws A le) (x y : F) (h1 : le x y) (h2 : le y x) :
    int16Conversion A x = int16Conversion A y := by
  unfold int16Conversion
  rw [h.round_congr _ _ (h.mul_congr x y h1 h2) (h.mul_congr y x h2 h1)]

theorem mean_of_one {F : Type} {A : FloatArith F} {le : F → F → Prop}
    (h : FloatLaws A le) (x : F) (hx : le x x) :
    int16Conversion A (A.div (A.add (A.ofInt 0) x) (A.ofInt 1)) = int16Conversion A x := by
  obtain ⟨a1, a2⟩ := h.zero_add x hx
  have hs : le (A.add (A.ofInt 0) x) (A.add (A.ofInt 0) x) := h.le_trans _ _ _ a1 a2
  obtain ⟨d1, d2⟩ := h.div_one _ hs
  exact h.conversion_congr _ _ (h.le_trans _ _ _ d1 a1) (h.le_trans _ _ _ a2 d2)

theorem conversion_of_unit {F : Type} {A : FloatArith F} {le : F → F → Prop}
    (h : FloatLaws A le) (x : F) (h1 : le (A.ofInt (-1)) x) (h2 : le x (A.ofInt 1)) :
    -32767 ≤ A.RoundToInt (A.mul x (A.ofInt 32767)) ∧
    A.RoundToInt (A.mul x (A.ofInt 32767)) ≤ 32767 ∧
    int16Conversion A x = A.RoundToInt (A.mul x (A.ofInt 32767)) := by
  obtain ⟨m1, m2⟩ := h.mul_bounds x h1 h2
  obtain ⟨r1, r2⟩ := h.round_bounds _ m1 m2
  refine ⟨r1, r2, ?_⟩
  unfold int16Conversion
  exact clampInt16_of_range _ (by omega) r2

theorem sum_bounds {F : Type} {A : FloatArith F} {le : F → F → Prop}
    (h : FloatLaws A le) (p : Nat → F) (hp : ∀ s, le (A.ofInt (-1)) (p s) ∧ le (p s) (A.ofInt 1)) :
    ∀ k : Nat, k + 1 ≤ 16777216 →
      le (A.ofInt (-((k : Int) + 1))) (forLoop 1 k (fun src v => A.add v (p src)) (p 0)) ∧
      le (forLoop 1 k (fun src v => A.add v (p src)) (p 0)) (A.ofInt ((k : Int) + 1)) := by
  intro k
  induction k with
  | zero =>
    intro _
    simpa [forLoop] using hp 0
  | succ k ih =>
    intro hk
    obtain ⟨i1, i2⟩ := ih (by omega)
    obtain ⟨b1, b2⟩ := h.add_bounds (-((k : Int) + 1)) ((k : Int) + 1) _ (p (1 + k))
      (by omega) (by omega) i1 i2 (hp (1 + k)).1 (hp (1 + k)).2
    have e1 : -((k : Int) + 1) - 1 = -(((k + 1 : Nat) : Int) + 1) := by push_cast; ring
    have e3 : (k : Int) + 1 + 1 = ((k + 1 : Nat) : Int) + 1 := by push_cast; ring
    rw [e1] at b1
    rw [e3] at b2
    simpa [forLoop] using And.intro b1 b2

end FloatLaws

/-! ## Audio conversion: the claims -/

theorem int16Conversion_exact_half : int16Conversion exactArith (1 / 2) = 16384 := by
  have h : ((1 / 2 : ℚ) * ((32767 : Int) : ℚ) + 1 / 2) = ((16384 : Int) : ℚ) := by norm_num
  simp only [int16Conversion, exactArith]
  rw [h, Int.floor_intCast]
  rfl

theorem int16Conversion_exact_minus_one : int16Conversion exactArith (-1) = -32767 := by
  have h : ((-1 : ℚ) * ((32767 : Int) : ℚ) + 1 / 2) = ((-32767 : Int) : ℚ) + 1 / 2 := by
    norm_num
  have h2 : ⌊((-32767 : Int) : ℚ) + 1 / 2⌋ = -32767 := by
    rw [Int.floor_eq_iff]
    constructor <;> norm_num
  simp only [int16Conversion, exactArith]
  rw [h, h2]
  rfl

theorem int16Conversion_exact_one : int16Conversion exactArith 1 = 32767 := by
  have h : ((1 : ℚ) * ((32767 : Int) : ℚ) + 1 / 2) = ((32767 : Int) : ℚ) + 1 / 2 := by
    norm_num
  have h2 : ⌊((32767 : Int) : ℚ) + 1 / 2⌋ = 32767 := by
    rw [Int.floor_eq_iff]
    constructor <;> norm_num
  simp only [int16Conversion, exactArith]
  rw [h, h2]
  rfl

/-- C13: for every receiver that holds a frame-sync instance and is not
audio-muted, every float arithmetic and every captured frame with fewer source
channels than requested channels, `GeneratePCMData` stores, for every sample
index, the `int16` conversion (times 32767, rounded, clamped to
[-32768, 32767]) of the sample of source channel c in output channel c for
each source channel c, and the conversion of the sum of all source channels
(added in channel order from `0.f`) divided by their number in every extra
output channel. With one source channel, in an arithmetic with the laws
`FloatLaws`, every output channel holds the conversion of the source sample,
for every sample that is a number. -/
theorem C13_upmix_copies_and_averages {F : Type} (A : FloatArith F) (self : UNDIMediaReceiver)
    (AudioWave : Option UNDIMediaSoundWave) (PCMData : Nat → Nat) (SamplesNeeded : Int)
    (available_no_frames : Int) (audio_frame : NDIlib_audio_frame_v2_t F)
    (hfs : self.p_framesync_instance ≠ nullptr)
    (hmute : self.ConnectionInformation.bMuteAudio = false) (havail : 0 < available_no_frames)
    (hup : audio_frame.no_channels < requestedChannels AudioWave) :
    ∃ m, self.GeneratePCMData A AudioWave PCMData SamplesNeeded available_no_frames audio_frame =
        some (m, (audio_frame.no_samples : Int) * requestedChannels AudioWave) ∧
      (∀ i c, i < audio_frame.no_samples → c < audio_frame.no_channels →
        HoldsSample m ((i * requestedChannels AudioWave + c) * 2)
          (int16Conversion A (audio_frame.p_data c i))) ∧
      (∀ i c, i < audio_frame.no_samples → audio_frame.no_channels ≤ c →
        c < requestedChannels AudioWave →
        HoldsSample m ((i * requestedChannels AudioWave + c) * 2)
          (int16Conversion A
            (A.div (sumChannels A audio_frame i) (A.ofInt audio_frame.no_channels)))) ∧
      (∀ le : F → F → Prop, FloatLaws A le → audio_frame.no_channels = 1 →
        ∀ i c, i < audio_frame.no_samples → c < requestedChannels AudioWave →
          le (audio_frame.p_data 0 i) (audio_frame.p_data 0 i) →
          HoldsSample m ((i * requestedChannels AudioWave + c) * 2)
            (int16Conversion A (audio_frame.p_data 0 i))) := by
  obtain ⟨m, hgen, hcells, -⟩ := GeneratePCMData_captured A self AudioWave PCMData
    SamplesNeeded available_no_frames audio_frame (by omega) hfs hmute havail
  have hne : requestedChannels AudioWave ≠ audio_frame.no_channels := by omega
  have hnlt : ¬ requestedChannels AudioWave < audio_frame.no_channels := by omega
  have hcommon : ∀ i c, i < audio_frame.no_samples → c < audio_frame.no_channels →
      HoldsSample m ((i * requestedChannels AudioWave + c) * 2)
        (int16Conversion A (audio_frame.p_data c i)) := by
    intro i c hi hc
    have h := hcells i c hi (by omega)
    rw [convertSample_eq_int16Conversion] at h
    simpa [mixedValue, hne, hnlt, hc] using h
  have hextra : ∀ i c, i < audio_frame.no_samples → audio_frame.no_channels ≤ c →
      c < requestedChannels AudioWave →
      HoldsSample m ((i * requestedChannels AudioWave + c) * 2)
        (int16Conversion A
          (A.div (sumChannels A audio_frame i) (A.ofInt audio_frame.no_channels))) := by
    intro i c hi hc1 hc2
    have hc3 : ¬ c < audio_frame.no_channels := by omega
    have h := hcells i c hi hc2
    rw [convertSample_eq_int16Conversion] at h
    simpa [mixedValue, hne, hnlt, hc3] using h
  refine ⟨m, hgen, hcommon, hextra, ?_⟩
  intro le hlaws hN i c hi hc hx
  by_cases hc0 : c < audio_frame.no_channels
  · have : c = 0 := by omega
    subst this
    exact hcommon i 0 hi hc0
  · have h := hextra i c hi (by omega) hc
    have hsum : sumChannels A audio_frame i = A.add (A.ofInt 0) (audio_frame.p_data 0 i) := by
      simp [sumChannels, hN, forLoop]
    rw [hsum, hN] at h
    have e : ((1 : Nat) : Int) = 1 := rfl
    rw [e, hlaws.mean_of_one _ hx] at h
    exact h

/-- Witness of C13: the mono frame with the samples 1/2 and -1, over exact
arithmetic, generated for a sound wave with four channels: each of the four
channels holds the bytes 0 and 64 (16384) for the first sample and the bytes 1
and 128 (-32767) for the second. -/
theorem C13_upmix_copies_and_averages_witness :
    ∃ m, sampleReceiver.GeneratePCMData exactArith (some { NumChannels := 4 }) zeroPCM 8 2
        monoFrame = some (m, 8) ∧
      ∀ c, c < 4 → m (c * 2) = 0 ∧ m (c * 2 + 1) = 64 ∧
        m ((4 + c) * 2) = 1 ∧ m ((4 + c) * 2 + 1) = 128 :=
  (C13_upmix_copies_and_averages exactArith sampleReceiver (some { NumChannels := 4 }) zeroPCM
    8 2 monoFrame (by decide) (by decide) (by decide) (by decide)).imp
    fun m h => ⟨h.1, fun c hc => by
      have h0 := h.2.2.2 exactLe exactArith_laws rfl 0 c (by decide) hc (le_refl _)
      have h1 := h.2.2.2 exactLe exactArith_laws rfl 1 c (by decide) hc (le_refl _)
      have e0 : monoFrame.p_data 0 0 = 1 / 2 := rfl
      have e1 : monoFrame.p_data 0 1 = -1 := rfl
      rw [e0, int16Conversion_exact_half] at h0
      rw [e1, int16Conversion_exact_minus_one] at h1
      have r4 : requestedChannels (some ({ NumChannels := 4 } : UNDIMediaSoundWave)) = 4 := rfl
      rw [r4] at h0 h1
      have a0 : (0 * 4 + c) * 2 = c * 2 := by omega
      have a1 : (1 * 4 + c) * 2 = (4 + c) * 2 := by omega
      rw [a0] at h0
      rw [a1] at h1
      exact ⟨h0.1, h0.2, h1.1, h1.2⟩⟩

/-- C14: for every receiver that is not audio-muted and holds a frame-sync
instance, every float arithmetic with the laws `FloatLaws`, and every captured
frame with S source channels (S from 1 to 16777216) and one requested channel,
every output sample of `GeneratePCMData` is the `int16` conversion (times
32767, rounded, clamped to [-32768, 32767]) of the mean of the S source samples
of its index: the source sample itself for S = 1, and for S > 1 the sum of the
S samples, added in channel order, divided by S (not the raw sum). When the S
samples all lie in [-1, 1], the rounded value lies between -32767 and 32767,
so the clamp leaves it unchanged. -/
theorem C14_downmix_to_mono_averages {F : Type} (A : FloatArith F) (le : F → F → Prop)
    (hlaws : FloatLaws A le) (self : UNDIMediaReceiver)
    (AudioWave : Option UNDIMediaSoundWave) (PCMData : Nat → Nat) (SamplesNeeded : Int)
    (available_no_frames : Int) (audio_frame : NDIlib_audio_frame_v2_t F)
    (hfs : self.p_framesync_instance ≠ nullptr)
    (hmute : self.ConnectionInformation.bMuteAudio = false) (havail : 0 < available_no_frames)
    (hR : requestedChannels AudioWave = 1) (hS : 1 ≤ audio_frame.no_channels)
    (hmax : audio_frame.no_channels ≤ 16777216) :
    ∃ m, self.GeneratePCMData A AudioWave PCMData SamplesNeeded available_no_frames
        audio_frame = some (m, (audio_frame.no_samples : Int)) ∧
      ∀ i, i < audio_frame.no_samples →
        HoldsSample m (i * 2)
          (int16Conversion A
            (if audio_frame.no_channels = 1 then audio_frame.p_data 0 i
             else A.div (mixedDown A 1 audio_frame 0 i) (A.ofInt audio_frame.no_channels))) ∧
        ((∀ s, s < audio_frame.no_channels →
            le (A.ofInt (-1)) (audio_frame.p_data s i) ∧
            le (audio_frame.p_data s i) (A.ofInt 1)) →
          -32767 ≤ A.RoundToInt (A.mul
            (if audio_frame.no_channels = 1 then audio_frame.p_data 0 i
             else A.div (mixedDown A 1 audio_frame 0 i) (A.ofInt audio_frame.no_channels))
            (A.ofInt 32767)) ∧
          A.RoundToInt (A.mul
            (if audio_frame.no_channels = 1 then audio_frame.p_data 0 i
             else A.div (mixedDown A 1 audio_frame 0 i) (A.ofInt audio_frame.no_channels))
            (A.ofInt 32767)) ≤ 32767 ∧
          int16Conversion A
            (if audio_frame.no_channels = 1 then audio_frame.p_data 0 i
             else A.div (mixedDown A 1 audio_frame 0 i) (A.ofInt audio_frame.no_channels)) =
          A.RoundToInt (A.mul
            (if audio_frame.no_channels = 1 then audio_frame.p_data 0 i
             else A.div (mixedDown A 1 audio_frame 0 i) (A.ofInt audio_frame.no_channels))
            (A.ofInt 32767))) := by
  obtain ⟨m, hgen, hcells, -⟩ := GeneratePCMData_captured A self AudioWave PCMData
    SamplesNeeded available_no_frames audio_frame (by rw [hR]; decide) hfs hmute havail
  rw [hR] at hgen hcells
  refine ⟨m, by simpa using hgen, ?_⟩
  intro i hi
  have hval : mixedValue A 1 audio_frame 0 i =
      (if audio_frame.no_channels = 1 then audio_frame.p_data 0 i
       else A.div (mixedDown A 1 audio_frame 0 i) (A.ofInt audio_frame.no_channels)) := by
    unfold mixedValue
    by_cases h1 : audio_frame.no_channels = 1
    · rw [if_pos h1.symm, if_pos h1]
    · have hlt : 1 < audio_frame.no_channels := by omega
      have e2 : ((audio_frame.no_channels - 1 : Nat) : Int) + 1 = audio_frame.no_channels := by
        omega
      rw [if_neg (fun e => h1 e.symm), if_pos hlt, if_neg h1, e2]
  constructor
  · have h := hcells i 0 hi (by decide)
    rw [convertSample_eq_int16Conversion, hval] at h
    simpa using h
  · intro hp
    have hunit : le (A.ofInt (-1))
          (if audio_frame.no_channels = 1 then audio_frame.p_data 0 i
           else A.div (mixedDown A 1 audio_frame 0 i) (A.ofInt audio_frame.no_channels)) ∧
        le (if audio_frame.no_channels = 1 then audio_frame.p_data 0 i
           else A.div (mixedDown A 1 audio_frame 0 i) (A.ofInt audio_frame.no_channels))
          (A.ofInt 1) := by
      by_cases h1 : audio_frame.no_channels = 1
      · rw [if_pos h1]
        exact hp 0 (by omega)
      · rw [if_neg h1]
        have hb := hlaws.sum_bounds
          (fun s => if s < audio_frame.no_channels then audio_frame.p_data s i
            else audio_frame.p_data 0 i)
          (fun s => by
            by_cases hs : s < audio_frame.no_channels
            · simpa [hs] using hp s hs
            · simpa [hs] using hp 0 (by omega))
          (audio_frame.no_channels - 1) (by omega)
        have hsum : forLoop 1 (audio_frame.no_channels - 1)
            (fun src v => A.add v
              (if src < audio_frame.no_channels then audio_frame.p_data src i
               else audio_frame.p_data 0 i))
            (if 0 < audio_frame.no_channels then audio_frame.p_data 0 i
              else audio_frame.p_data 0 i) = mixedDown A 1 audio_frame 0 i := by
          unfold mixedDown
          rw [if_pos (by omega)]
          have hgen2 : ∀ k, k + 1 ≤ audio_frame.no_channels → ∀ v,
              forLoop 1 k (fun src v => A.add v
                (if src < audio_frame.no_channels then audio_frame.p_data src i
                 else audio_frame.p_data 0 i)) v =
              forLoop 1 k (fun src v => A.add v (audio_frame.p_data src i)) v := by
            intro k
            induction k with
            | zero => intro _ v; rfl
            | succ k ih =>
              intro hk v
              simp only [forLoop]
              rw [ih (by omega) v, if_pos (by omega)]
          exact hgen2 _ (by omega) _
        simp only at hb
        rw [hsum] at hb
        have e2 : ((audio_frame.no_channels - 1 : Nat) : Int) + 1 = audio_frame.no_channels := by
          omega
        rw [e2] at hb
        exact hlaws.div_bounds (audio_frame.no_channels : Int) _ (by omega) (by omega)
          hb.1 hb.2
    exact hlaws.conversion_of_unit _ hunit.1 hunit.2

/-- Witness of C14: four channels at full amplitude, over exact arithmetic,
give the sample 32767, stored as the bytes 255 and 127. -/
theorem C14_downmix_to_mono_averages_witness :
    FloatLaws exactArith exactLe ∧
    ∃ m, sampleReceiver.GeneratePCMData exactArith none zeroPCM 8 2 quadFrame =
        some (m, 1) ∧ m 0 = 255 ∧ m 1 = 127 :=
  ⟨exactArith_laws,
    (C14_downmix_to_mono_averages exactArith exactLe exactArith_laws sampleReceiver none
      zeroPCM 8 2 quadFrame (by decide) (by decide) (by decide) rfl (by decide)
      (by decide)).imp
    fun m h => ⟨h.1, by
      have h0 := (h.2 0 (by decide)).1
      have e : (if quadFrame.no_channels = 1 then quadFrame.p_data 0 0
          else exactArith.div (mixedDown exactArith 1 quadFrame 0 0)
            (exactArith.ofInt quadFrame.no_channels)) = 1 := by
        simp [quadFrame, mixedDown, forLoop, exactArith]
        norm_num
      rw [e, int16Conversion_exact_one] at h0
      exact ⟨h0.1, h0.2⟩⟩⟩

/-- C15: for every receiver that holds a frame-sync instance and is not
audio-muted, every float arithmetic and every captured frame, each sample
`GeneratePCMData` writes is `clamp(RoundToInt(x * 32767), -32768, 32767)` for
the value x of its channel and index (the source sample, or the mixed and
normalised value of the branch taken), `RoundToInt` being `FMath::RoundToInt`
and the product the `float` product; it lies in the `int16` range, and is
stored at byte offset `(sample_index * requested_channels + channel) * 2` as
two bytes, low byte first: the two bytes are below 256 and combine to the
two's complement of the sample; no byte beyond the samples generated is
changed. -/
theorem C15_samples_rounded_clamped_little_endian {F : Type} (A : FloatArith F)
    (self : UNDIMediaReceiver) (AudioWave : Option UNDIMediaSoundWave) (PCMData : Nat → Nat)
    (SamplesNeeded : Int) (available_no_frames : Int) (audio_frame : NDIlib_audio_frame_v2_t F)
    (hR : requestedChannels AudioWave ≠ 0) (hfs : self.p_framesync_instance ≠ nullptr)
    (hmute : self.ConnectionInformation.bMuteAudio = false) (havail : 0 < available_no_frames) :
    ∃ m, self.GeneratePCMData A AudioWave PCMData SamplesNeeded available_no_frames audio_frame =
        some (m, (audio_frame.no_samples : Int) * requestedChannels AudioWave) ∧
      (∀ i c, i < audio_frame.no_samples → c < requestedChannels AudioWave →
        ∃ sample : Int,
          sample = max (-32768) (min 32767 (A.RoundToInt (A.mul
            (mixedValue A (requestedChannels AudioWave) audio_frame c i) (A.ofInt 32767)))) ∧
          -32768 ≤ sample ∧ sample ≤ 32767 ∧
          m ((i * requestedChannels AudioWave + c) * 2) = (sample % 256).toNat ∧
          m ((i * requestedChannels AudioWave + c) * 2 + 1) = ((sample / 256) % 256).toNat ∧
          m ((i * requestedChannels AudioWave + c) * 2) < 256 ∧
          m ((i * requestedChannels AudioWave + c) * 2 + 1) < 256 ∧
          (m ((i * requestedChannels AudioWave + c) * 2) : Int) +
            256 * (m ((i * requestedChannels AudioWave + c) * 2 + 1) : Int) = sample % 65536) ∧
      (∀ x, 2 * (audio_frame.no_samples * requestedChannels AudioWave) ≤ x →
        m x = PCMData x) := by
  obtain ⟨m, hgen, hcells, hrest⟩ := GeneratePCMData_captured A self AudioWave PCMData
    SamplesNeeded available_no_frames audio_frame hR hfs hmute havail
  refine ⟨m, hgen, ?_, hrest⟩
  intro i c hi hc
  have hcell := hcells i c hi hc
  rw [convertSample_eq_int16Conversion] at hcell
  obtain ⟨h0, h1⟩ := hcell
  obtain ⟨hlo, hhi⟩ := clampInt16_range (A.RoundToInt (A.mul
    (mixedValue A (requestedChannels AudioWave) audio_frame c i) (A.ofInt 32767)))
  obtain ⟨hb, hb0, hb1⟩ := int16_bytes
    (int16Conversion A (mixedValue A (requestedChannels AudioWave) audio_frame c i))
  refine ⟨_, rfl, hlo, hhi, h0, h1, ?_, ?_, ?_⟩
  · rw [h0]; exact hb0
  · rw [h1]; exact hb1
  · rw [h0, h1]; exact hb

/-- Witness of C15: the mono frame with the samples 1/2 and -1, over exact
arithmetic, generated for an invalid sound wave (one channel): the first
sample, 16384, is stored as the bytes 0 and 64, the second, -32767, as the
bytes 1 and 128. -/
theorem C15_samples_rounded_clamped_little_endian_witness :
    ∃ m, sampleReceiver.GeneratePCMData exactArith none zeroPCM 8 2 monoFrame =
        some (m, 2) ∧ m 0 = 0 ∧ m 1 = 64 ∧ m 2 = 1 ∧ m 3 = 128 :=
  (C15_samples_rounded_clamped_little_endian exactArith sampleReceiver none zeroPCM 8 2
    monoFrame (by decide) (by decide) (by decide) (by decide)).imp
    fun m h => ⟨h.1, by
      obtain ⟨s0, hs0, -, -, a0, a1, -⟩ := h.2.1 0 0 (by decide) (by decide)
      obtain ⟨s1, hs1, -, -, b0, b1, -⟩ := h.2.1 1 0 (by decide) (by decide)
      have v0 : s0 = 16384 := by
        rw [hs0]
        exact int16Conversion_exact_half
      have v1 : s1 = -32767 := by
        rw [hs1]
        exact int16Conversion_exact_minus_one
      rw [v0] at a0 a1
      rw [v1] at b0 b1
      exact ⟨a0, a1, b0, b1⟩⟩

/-- Counterexample to C16 as stated: the sample receiver is not muted and
holds a frame-sync instance, the audio queue is empty and 1024 samples are
needed for one channel; `GeneratePCMData` returns 128, not 1024, and zeroes
only the first 128 samples: byte 255 of the buffer is 0, byte 256 keeps its
old value 7. -/
theorem C16_silence_capped_counterexample :
    (sampleReceiver.GeneratePCMData exactArith none (fun _ => 7) 1024 0 monoFrame).map
      (fun r => (r.2, r.1 255, r.1 256)) = some (128, 0, 7) := by
  decide

/-- C16, amended: for every receiver that holds a frame-sync instance and is
not audio-muted, whose upstream audio queue is empty, every requested channel
count other than zero and every `SamplesNeeded >= 0`, `GeneratePCMData` writes
`min(128 * requested_no_channels, SamplesNeeded)` zero-valued `int16` samples
at the start of the buffer, leaves the rest of the buffer as it was, and
returns that number; it is `SamplesNeeded` exactly when `SamplesNeeded` is at
most 128 times the channel count. -/
theorem C16_silence_when_queue_empty {F : Type} (A : FloatArith F) (self : UNDIMediaReceiver)
    (AudioWave : Option UNDIMediaSoundWave) (PCMData : Nat → Nat) (SamplesNeeded : Int)
    (available_no_frames : Int) (audio_frame : NDIlib_audio_frame_v2_t F)
    (hR : requestedChannels AudioWave ≠ 0) (hfs : self.p_framesync_instance ≠ nullptr)
    (hmute : self.ConnectionInformation.bMuteAudio = false)
    (hempty : available_no_frames ≤ 0) (hneeded : 0 ≤ SamplesNeeded) :
    ∃ m, self.GeneratePCMData A AudioWave PCMData SamplesNeeded available_no_frames audio_frame =
        some (m, min (128 * (requestedChannels AudioWave : Int)) SamplesNeeded) ∧
      (∀ x : Nat, (x : Int) < 2 * min (128 * (requestedChannels AudioWave : Int)) SamplesNeeded →
        m x = 0) ∧
      (∀ x : Nat, 2 * min (128 * (requestedChannels AudioWave : Int)) SamplesNeeded ≤ (x : Int) →
        m x = PCMData x) ∧
      (min (128 * (requestedChannels AudioWave : Int)) SamplesNeeded = SamplesNeeded ↔
        SamplesNeeded ≤ 128 * (requestedChannels AudioWave : Int)) := by
  have hnn : ¬ (min (128 * (requestedChannels AudioWave : Int)) SamplesNeeded < 0) := by
    have : (0 : Int) ≤ 128 * (requestedChannels AudioWave : Int) := by positivity
    simp only [not_lt]
    exact le_min this hneeded
  have hna : ¬ (0 < available_no_frames) := by omega
  refine ⟨Memset0 PCMData
    (min (128 * (requestedChannels AudioWave : Int)) SamplesNeeded * 2).toNat, ?_, ?_, ?_, ?_⟩
  · have hfs2 : (self.p_framesync_instance != nullptr) = true := by simpa using hfs
    simp [UNDIMediaReceiver.GeneratePCMData, hR, hfs2, hmute, hna, hnn]
  · intro x hx
    simp only [Memset0]
    rw [if_pos]
    omega
  · intro x hx
    simp only [Memset0]
    rw [if_neg]
    omega
  · exact min_eq_right_iff

/-- Witness of the amended C16: 64 samples of silence for one channel. -/
theorem C16_silence_when_queue_empty_witness :
    ∃ m, sampleReceiver.GeneratePCMData exactArith none (fun _ => 7) 64 0 monoFrame =
        some (m, min (128 * (requestedChannels none : Int)) 64) ∧
      (∀ x : Nat, (x : Int) < 2 * min (128 * (requestedChannels none : Int)) 64 → m x = 0) :=
  (C16_silence_when_queue_empty exactArith sampleReceiver none (fun _ => 7) 64 0 monoFrame
    (by decide) (by decide) (by decide) (by decide) (by decide)).imp
    fun _ h => ⟨h.1, h.2.1⟩

/-! ## Source addressing by URL: lemmas and claim -/

theorem splitAtFirst_some (InS : List Char) :
    ∀ (s LeftS RightS : List Char), splitAtFirst InS s = some (LeftS, RightS) →
      s = LeftS ++ InS ++ RightS ∧
      ∀ l r, s = l ++ InS ++ r → LeftS.length ≤ l.length := by
  intro s
  induction s with
  | nil => intro LeftS RightS h; simp [splitAtFirst] at h
  | cons c cs ih =>
    intro LeftS RightS h
    simp only [splitAtFirst] at h
    by_cases hp : InS.isPrefixOf (c :: cs) = true
    · rw [if_pos hp] at h
      obtain ⟨rfl, rfl⟩ := Prod.mk.inj (Option.some.inj h)
      rw [ List.isPrefixOf_iff_prefix] at hp
      refine ⟨?_, fun l r _ => Nat.zero_le _⟩
      obtain ⟨t, ht⟩ := hp
      rw [← ht]
      simp
    · rw [if_neg hp] at h
      cases hrec : splitAtFirst InS cs with
      | none => rw [hrec] at h; cases h
      | some p =>
        obtain ⟨l0, r0⟩ := p
        rw [hrec] at h
        obtain ⟨rfl, rfl⟩ := Prod.mk.inj (Option.some.inj h)
        obtain ⟨heq, hmin⟩ := ih l0 r0 hrec
        refine ⟨by rw [heq]; simp, ?_⟩
        intro l r hl
        cases l with
        | nil =>
          exfalso
          apply hp
          rw [ List.isPrefixOf_iff_prefix]
          exact ⟨r, by simpa using hl.symm⟩
        | cons d l =>
          simp only [List.cons_append, List.cons.injEq] at hl
          have := hmin l r hl.2
          simp only [List.length_cons]
          omega

theorem splitAtFirst_none (InS : List Char) :
    ∀ (s : List Char), splitAtFirst InS s = none → InS ≠ [] →
      ∀ l r, s ≠ l ++ InS ++ r := by
  intro s
  induction s with
  | nil =>
    intro _ hne l r h
    have h1 := congrArg List.length h
    simp only [List.length_nil, List.length_append] at h1
    have : InS.length ≠ 0 := by simpa using hne
    omega
  | cons c cs ih =>
    intro h hne l r hl
    simp only [splitAtFirst] at h
    by_cases hp : InS.isPrefixOf (c :: cs) = true
    · rw [if_pos hp] at h; cases h
    · rw [if_neg hp] at h
      cases hrec : splitAtFirst InS cs with
      | some p => rw [hrec] at h; cases h
      | none =>
        cases l with
        | nil =>
          apply hp
          rw [ List.isPrefixOf_iff_prefix]
          exact ⟨r, by simpa using hl.symm⟩
        | cons d l =>
          simp only [List.cons_append, List.cons.injEq] at hl
          exact ih hrec hne l r hl.2

theorem splitAtFirst_iff (InS before s : List Char) (hne : InS ≠ []) :
    (∃ RightS, splitAtFirst InS s = some (before, RightS)) ↔ TextBeforeFirst InS before s := by
  constructor
  · rintro ⟨RightS, h⟩
    obtain ⟨heq, hmin⟩ := splitAtFirst_some InS s before RightS h
    exact ⟨RightS, heq, hmin⟩
  · rintro ⟨after, heq, hmin⟩
    cases hs : splitAtFirst InS s with
    | none => exact absurd heq (splitAtFirst_none InS s hs hne before after)
    | some p =>
      obtain ⟨l0, r0⟩ := p
      obtain ⟨heq0, hmin0⟩ := splitAtFirst_some InS s l0 r0 hs
      have h1 := hmin0 before after heq
      have h2 := hmin l0 r0 heq0
      have hlen : l0.length = before.length := by omega
      have : l0 = before := by
        have h3 : l0 ++ (InS ++ r0) = before ++ (InS ++ after) := by
          rw [← List.append_assoc, ← List.append_assoc, ← heq0, ← heq]
        exact (List.append_inj h3 hlen).1
      subst this
      exact ⟨r0, rfl⟩

theorem CanPlayUrl_iff_Equals (Equals : FString → FString → Bool) (Url : FString) :
    CanPlayUrl Equals Url = true ↔
      ∃ Scheme, TextBeforeFirst "://".data Scheme Url.data ∧
        Equals "ndiio" (String.mk Scheme) = true := by
  simp only [CanPlayUrl, FString_Split, SupportedUriSchemes, TArray_Contains]
  cases hs : splitAtFirst "://".data Url.data with
  | none =>
    simp only [Bool.false_eq_true, false_iff, not_exists, not_and]
    intro Scheme hS
    obtain ⟨R, hR⟩ := (splitAtFirst_iff _ _ _ (by decide)).2 hS
    rw [hs] at hR
    cases hR
  | some p =>
    obtain ⟨l0, r0⟩ := p
    have h0 : TextBeforeFirst "://".data l0 Url.data :=
      (splitAtFirst_iff _ _ _ (by decide)).1 ⟨r0, hs⟩
    constructor
    · intro h
      refine ⟨l0, h0, ?_⟩
      simpa using h
    · rintro ⟨Scheme, hS, hE⟩
      obtain ⟨R, hR⟩ := (splitAtFirst_iff _ _ _ (by decide)).2 hS
      rw [hs] at hR
      obtain ⟨rfl, -⟩ := Prod.mk.inj (Option.some.inj hR)
      simpa using hE

theorem GetUrl_eq (r : UNDIMediaReceiver) :
    r.GetUrl = "ndiio" ++ "://" ++
      firstNonEmpty [r.ConnectionInformation.SourceName, r.ConnectionSetting.SourceName,
        r.ConnectionInformation.Url, r.ConnectionSetting.Url] := by
  have e : ("ndiio" : String) ++ "://" = "ndiio://" := by decide
  rw [e]
  simp only [UNDIMediaReceiver.GetUrl, firstNonEmpty]
  cases h1 : r.ConnectionInformation.SourceName.isEmpty <;>
    cases h2 : r.ConnectionSetting.SourceName.isEmpty <;>
    cases h3 : r.ConnectionInformation.Url.isEmpty <;>
    cases h4 : r.ConnectionSetting.Url.isEmpty <;> simp

theorem TextBeforeFirst_scheme (Location : FString) :
    TextBeforeFirst "://".data "ndiio".data ("ndiio" ++ "://" ++ Location).data := by
  refine ⟨Location.data, by simp [String.data_append], ?_⟩
  intro l r h
  by_contra hlt
  have hlen : l.length < 5 := by
    have : "ndiio".data.length = 5 := by decide
    omega
  have hd : ("ndiio" ++ "://" ++ Location).data =
      'n' :: 'd' :: 'i' :: 'i' :: 'o' :: ':' :: '/' :: '/' :: Location.data := by
    simp [String.data_append]
  rw [hd] at h
  have hsep : "://".data = [':', '/', '/'] := by decide
  rw [hsep] at h
  match l, hlen with
  | [], _ => simp at h
  | [_], _ => simp at h
  | [_, _], _ => simp at h
  | [_, _, _], _ => simp at h
  | [_, _, _, _], _ => simp at h
  | _ :: _ :: _ :: _ :: _ :: _, hl => simp only [List.length_cons] at hl; omega

/-- Counterexample to C25 as stated: the text in front of the first `://` of
`NDIIO://x` is `NDIIO`, which is not exactly `ndiio`, yet `CanPlayUrl` accepts
the URL, because `Contains` compares the scheme with the comparison of
`FString`, which ignores case. -/
theorem C25_upper_case_scheme_counterexample :
    FString_Split "NDIIO://x" "://" = some ("NDIIO", "x") ∧
    ("NDIIO" : FString) ≠ "ndiio" ∧
    CanPlayUrl FString_Equals "NDIIO://x" = true := by
  decide

/-- C25, amended: for every receiver state, `GetUrl` returns the scheme token
`ndiio` followed by `://` and the first non-empty of
`ConnectionInformation.SourceName`, `ConnectionSetting.SourceName`,
`ConnectionInformation.Url`, `ConnectionSetting.Url` (nothing when all are
empty). `CanPlayUrl` accepts a URL exactly when the URL contains `://` and the
text in front of its first `://` compares equal to `ndiio` under the
comparison of `FString`, which ignores case; with any comparison operator
`Equals` in its place, exactly when that text compares equal to `ndiio` under
`Equals`. And `CanPlayUrl` accepts what `GetUrl` returns, also under every
comparison operator for which `ndiio` equals itself. -/
theorem C25_GetUrl_scheme_and_CanPlayUrl (r : UNDIMediaReceiver) :
    r.GetUrl = "ndiio" ++ "://" ++
      firstNonEmpty [r.ConnectionInformation.SourceName, r.ConnectionSetting.SourceName,
        r.ConnectionInformation.Url, r.ConnectionSetting.Url] ∧
    (∀ Url : FString,
      CanPlayUrl FString_Equals Url = true ↔
        ∃ Scheme, TextBeforeFirst "://".data Scheme Url.data ∧
          FString_Equals "ndiio" (String.mk Scheme) = true) ∧
    (∀ (Equals : FString → FString → Bool) (Url : FString),
      CanPlayUrl Equals Url = true ↔
        ∃ Scheme, TextBeforeFirst "://".data Scheme Url.data ∧
          Equals "ndiio" (String.mk Scheme) = true) ∧
    CanPlayUrl FString_Equals r.GetUrl = true ∧
    (∀ Equals : FString → FString → Bool, Equals "ndiio" "ndiio" = true →
      CanPlayUrl Equals r.GetUrl = true) := by
  refine ⟨GetUrl_eq r, CanPlayUrl_iff_Equals FString_Equals, CanPlayUrl_iff_Equals, ?_, ?_⟩
  · rw [GetUrl_eq, CanPlayUrl_iff_Equals]
    exact ⟨"ndiio".data, TextBeforeFirst_scheme _, by decide⟩
  · intro Equals hE
    rw [GetUrl_eq, CanPlayUrl_iff_Equals]
    exact ⟨"ndiio".data, TextBeforeFirst_scheme _, hE⟩

/-- Witness of the amended C25: the sample receiver, connected to the source
`A (Cam1)`. -/
theorem C25_GetUrl_scheme_and_CanPlayUrl_witness :
    sampleReceiver.GetUrl = "ndiio://A (Cam1)" ∧
    CanPlayUrl FString_Equals sampleReceiver.GetUrl = true :=
  have h := C25_GetUrl_scheme_and_CanPlayUrl sampleReceiver
  ⟨by decide, h.2.2.2.2 FString_Equals (by decide)⟩

namespace MappedTextureASyncSender

theorem Resolve_ok_inv (s r : MappedTextureASyncSender) (t : Nat)
    (h : s.Resolve t = .ok r) : r = s ∧ t ≠ nullptr := by
  obtain ⟨⟨⟨tex0, p0, m0⟩, ⟨tex1, p1, m1⟩⟩, idx⟩ := s
  simp only [Resolve, get, set, MappedTexture.Resolve, check, bind, Except.bind, pure,
    Except.pure, throw, throwThe, MonadExceptOf.throw] at h
  by_cases h0 : idx = 0
  · subst h0
    by_cases ht : t = nullptr <;> by_cases hp0 : p0 = nullptr <;> cases tex0 <;>
      simp [ht, hp0] at h <;> simp [← h, ht, hp0]
  · by_cases h1 : idx = 1
    · subst h1
      by_cases ht : t = nullptr <;> by_cases hp1 : p1 = nullptr <;> cases tex1 <;>
        simp [ht, hp1] at h <;> simp [← h, ht, hp1]
    · simp [h0, h1] at h

theorem Map_ok_inv (s r : MappedTextureASyncSender) (p : Nat) (w h : Int)
    (hm : s.Map p = .ok (r, w, h)) (hwf : s.WellFormed = true) :
    r = s.afterMap p ∧ p ≠ nullptr ∧ s.pDataAt s.CurrentIndex = nullptr ∧
    s.GetSizeXY = .ok { X := w, Y := h } ∧ r.WellFormed = true ∧
    r.pDataAt r.CurrentIndex ≠ nullptr := by
  obtain ⟨⟨⟨tex0, p0, m0⟩, ⟨tex1, p1, m1⟩⟩, idx⟩ := s
  simp only [WellFormed, Bool.and_eq_true, Bool.or_eq_true, beq_iff_eq] at hwf
  obtain ⟨⟨hidx, hw0⟩, hw1⟩ := hwf
  simp only [Map, get, set, MappedTexture.Map, MappedTexture.GetSizeXY, check, bind,
    Except.bind, pure, Except.pure, throw, throwThe, MonadExceptOf.throw] at hm
  rcases hidx with hidx | hidx <;> subst hidx
  · by_cases hp : p = nullptr <;> by_cases hp0 : p0 = nullptr <;> cases tex0 <;>
      simp [hp, hp0] at hm
    obtain ⟨rfl, rfl, rfl⟩ := hm
    simp_all [afterMap, pDataAt, GetSizeXY, get, MappedTexture.GetSizeXY, WellFormed, pure,
      Except.pure, bind, Except.bind]
  · by_cases hp : p = nullptr <;> by_cases hp1 : p1 = nullptr <;> cases tex1 <;>
      simp [hp, hp1] at hm
    obtain ⟨rfl, rfl, rfl⟩ := hm
    simp_all [afterMap, pDataAt, GetSizeXY, get, MappedTexture.GetSizeXY, WellFormed, pure,
      Except.pure, bind, Except.bind]

end MappedTextureASyncSender
namespace MappedTextureASyncSender

theorem Flush_facts (s : MappedTextureASyncSender) (p_send_instance : Nat)
    (hwf : s.WellFormed = true) (hsend : p_send_instance ≠ nullptr) :
    ∃ sf, s.Flush p_send_instance =
        .ok (sf, [{ p_send_instance := p_send_instance, p_video_data := none }]) ∧
      sf.mappedCount = 0 ∧ sf.WellFormed = true ∧ (s.Created = true → sf.Ready = true) := by
  obtain ⟨⟨⟨tex0, p0, m0⟩, ⟨tex1, p1, m1⟩⟩, idx⟩ := s
  simp only [WellFormed, Bool.and_eq_true, Bool.or_eq_true, beq_iff_eq] at hwf
  obtain ⟨⟨hidx, hw0⟩, hw1⟩ := hwf
  rcases hidx with hidx | hidx <;> subst hidx <;>
    by_cases hp0 : p0 = nullptr <;> by_cases hp1 : p1 = nullptr <;>
    simp_all [Flush, get, set, MappedTexture.Unmap, check, bind, Except.bind, pure,
      Except.pure, mappedCount, WellFormed, Ready, Created, pDataAt]

theorem Flush_null (s : MappedTextureASyncSender) :
    s.Flush nullptr = .error Fault.check := by
  simp [Flush, check, bind, Except.bind, throw, throwThe, MonadExceptOf.throw]

theorem Ready_facts (s : MappedTextureASyncSender) (h : s.Ready = true) :
    s.WellFormed = true ∧ s.Created = true ∧ s.pDataAt s.CurrentIndex = nullptr := by
  simpa [Ready, and_assoc] using h

theorem WellFormed_index (s : MappedTextureASyncSender) (h : s.WellFormed = true) :
    s.CurrentIndex = 0 ∨ s.CurrentIndex = 1 := by
  simp only [WellFormed, Bool.and_eq_true, Bool.or_eq_true, beq_iff_eq] at h
  exact h.1.1

theorem Destroy_facts (s : MappedTextureASyncSender) (hwf : s.WellFormed = true)
    (h : s.mappedCount = 0) :
    ∃ d, s.Destroy = .ok d ∧ d.MappedTextures.1.Texture = none ∧
      d.MappedTextures.2.Texture = none ∧ d.MappedTextures.1.pData = nullptr ∧
      d.MappedTextures.2.pData = nullptr ∧ d.mappedCount = 0 ∧ d.WellFormed = true ∧
      d.Destroy = .ok d := by
  obtain ⟨⟨⟨tex0, p0, m0⟩, ⟨tex1, p1, m1⟩⟩, idx⟩ := s
  have hidx := WellFormed_index _ hwf
  have hp0 : p0 = nullptr := by
    by_contra hne
    simp [mappedCount, hne] at h
  have hp1 : p1 = nullptr := by
    by_contra hne
    simp [mappedCount, hne] at h
  subst hp0 hp1
  rcases hidx with hidx | hidx <;> simp only at hidx <;> subst hidx <;>
    cases tex0 <;> cases tex1 <;>
    simp [Destroy, get, set, MappedTexture.Destroy, check, bind, Except.bind, pure,
      Except.pure, mappedCount, WellFormed]

end MappedTextureASyncSender

namespace UNDIMediaSender

theorem CreateSender_facts (s : UNDIMediaSender) (send_instance : Nat) :
    (s.CreateSender send_instance).1.p_send_instance = send_instance ∧
    (s.CreateSender send_instance).1.ReadbackTextures = s.ReadbackTextures ∧
    (s.CreateSender send_instance).1.bIsChangingBroadcastSize = s.bIsChangingBroadcastSize := by
  simp only [CreateSender]
  split <;> simp

theorem ChangeRenderTargetConfiguration_inv (s s1 : UNDIMediaSender) (e : List SenderEffect)
    (InFrameSize : FIntPoint) (InFrameRate : FFrameRate)
    (h : s.ChangeRenderTargetConfiguration InFrameSize InFrameRate = .ok (s1, e)) :
    s1.p_send_instance = s.p_send_instance ∧
    s1.bIsChangingBroadcastSize = s.bIsChangingBroadcastSize ∧
    s1.ReadbackTextures.Ready = true ∧ s1.ReadbackTextures.mappedCount = 0 := by
  simp only [ChangeRenderTargetConfiguration, bind, Except.bind, pure, Except.pure] at h
  dsimp only at h
  cases hc : s.ReadbackTextures.Create (UYVYTextureSize InFrameSize s.OutputAlpha) with
  | error f => rw [hc] at h; cases h
  | ok ring =>
    rw [hc] at h
    simp only [Except.ok.injEq, Prod.mk.injEq] at h
    have hs := h.1
    subst hs
    have := MappedTextureASyncSender.Create_ready _ _ _ hc
    exact ⟨rfl, rfl, this.1, this.2⟩

theorem ChangeRenderTargetConfiguration_Inv (s s1 : UNDIMediaSender) (e : List SenderEffect)
    (InFrameSize : FIntPoint) (InFrameRate : FFrameRate)
    (hb : s.bIsChangingBroadcastSize = false)
    (h : s.ChangeRenderTargetConfiguration InFrameSize InFrameRate = .ok (s1, e)) :
    s1.Inv ∧ s1.p_send_instance = s.p_send_instance := by
  obtain ⟨h1, h2, h3, h4⟩ := ChangeRenderTargetConfiguration_inv s s1 e _ _ h
  exact ⟨⟨(MappedTextureASyncSender.Ready_facts _ h3).1, by rw [h2, hb], fun _ => h4,
    fun _ => h3⟩, h1⟩

end UNDIMediaSender
namespace UNDIMediaSender

theorem IsNew_Inv (s : UNDIMediaSender) (h : s.IsNew) : s.Inv := by
  obtain ⟨h1, h2, h3⟩ := h
  refine ⟨by rw [h2]; decide, h3, fun _ => by rw [h2]; decide, fun hne => absurd h1 hne⟩

theorem DrawRenderTarget_inv (s s1 : UNDIMediaSender) (Resource TextureRHI TargetableTexture : Nat)
    (b : Bool) (h : s.DrawRenderTarget Resource TextureRHI TargetableTexture = .ok (s1, b)) :
    s1 = s := by
  simp only [DrawRenderTarget, bind, Except.bind, pure, Except.pure] at h
  split at h
  · split at h
    · cases hr : s.ReadbackTextures.Resolve TargetableTexture with
      | error f => rw [hr] at h; cases h
      | ok ring =>
        rw [hr] at h
        obtain ⟨rfl, -⟩ := MappedTextureASyncSender.Resolve_ok_inv _ _ _ hr
        simp only [Except.ok.injEq, Prod.mk.injEq] at h
        exact h.1.symm
    · simp only [Except.ok.injEq, Prod.mk.injEq] at h
      exact h.1.symm
  · simp only [Except.ok.injEq, Prod.mk.injEq] at h
    exact h.1.symm

theorem Initialize_Inv (FromTimespan : Int → FFrameRate → FTimecode) (s s1 : UNDIMediaSender)
    (e : List SenderEffect) (send_instance RenderableTexture : Nat) (hinv : s.Inv)
    (h : s.Initialize FromTimespan send_instance RenderableTexture = .ok (s1, e)) : s1.Inv := by
  simp only [Initialize, bind, Except.bind, pure, Except.pure] at h
  split at h
  · rename_i hnull
    obtain ⟨c1, c2, c3⟩ := CreateSender_facts s send_instance
    split at h
    · cases hc : (s.CreateSender send_instance).1.ChangeRenderTargetConfiguration
          (s.CreateSender send_instance).1.FrameSize (s.CreateSender send_instance).1.FrameRate with
      | error f => rw [hc] at h; cases h
      | ok r =>
        obtain ⟨s2, e2⟩ := r
        rw [hc] at h
        simp only [Except.ok.injEq, Prod.mk.injEq] at h
        obtain ⟨⟨i1, i2, i3, i4⟩, -⟩ :=
          ChangeRenderTargetConfiguration_Inv _ _ _ _ _ (by rw [c3]; exact hinv.2.1) hc
        rw [← h.1]
        exact ⟨i1, i2, i3, i4⟩
    · rename_i hz
      simp only [Except.ok.injEq, Prod.mk.injEq] at h
      rw [← h.1]
      have hn : s.p_send_instance = nullptr := by simpa using hnull
      have hz2 : (s.CreateSender send_instance).1.p_send_instance = nullptr := by simpa using hz
      refine ⟨by rw [c2]; exact hinv.1, by rw [c3]; exact hinv.2.1,
        fun _ => by rw [c2]; exact hinv.2.2.1 hn, fun hne => absurd hz2 hne⟩
  · simp only [Except.ok.injEq, Prod.mk.injEq] at h
    rw [← h.1]
    exact hinv

end UNDIMediaSender
namespace UNDIMediaSender

theorem ChangeSourceName_Inv (s s1 : UNDIMediaSender) (e : List SenderEffect)
    (send_instance : Nat) (InSourceName : FString) (hinv : s.Inv)
    (h : s.ChangeSourceName send_instance InSourceName = .ok (s1, e)) : s1.Inv := by
  simp only [ChangeSourceName, bind, Except.bind, pure, Except.pure] at h
  split at h
  · rename_i hne
    have hne2 : s.p_send_instance ≠ nullptr := by simpa using hne
    obtain ⟨sf, hf, hcount, hwf, hready⟩ :=
      MappedTextureASyncSender.Flush_facts s.ReadbackTextures s.p_send_instance hinv.1 hne2
    rw [hf] at h
    dsimp only at h
    simp only [Except.ok.injEq, Prod.mk.injEq] at h
    rw [← h.1]
    obtain ⟨c1, c2, c3⟩ := CreateSender_facts
      { s with SourceName := InSourceName, ReadbackTextures := sf } send_instance
    have hcr := (MappedTextureASyncSender.Ready_facts _ (hinv.2.2.2 hne2)).2.1
    exact ⟨by rw [c2]; exact hwf, by rw [c3]; exact hinv.2.1, fun _ => by rw [c2]; exact hcount,
      fun _ => by rw [c2]; exact hready hcr⟩
  · rename_i hz
    simp only [Except.ok.injEq, Prod.mk.injEq] at h
    rw [← h.1]
    exact hinv

theorem ChangeBroadcastConfiguration_Inv (s s1 : UNDIMediaSender) (e : List SenderEffect)
    (InConfiguration : FNDIBroadcastConfiguration) (hinv : s.Inv)
    (h : s.ChangeBroadcastConfiguration InConfiguration = .ok (s1, e)) : s1.Inv := by
  simp only [ChangeBroadcastConfiguration, bind, Except.bind, pure, Except.pure] at h
  split at h
  · split at h
    · cases h
    · rename_i v hv
      split at h
      · cases h
      · rename_i w hw
        simp only [Except.ok.injEq, Prod.mk.injEq] at h
        obtain ⟨i1, i2, i3, i4⟩ := ChangeRenderTargetConfiguration_inv _ _ _ _ _ hw
        rw [← h.1]
        exact ⟨(MappedTextureASyncSender.Ready_facts _ i3).1, rfl, fun _ => i4, fun _ => i3⟩
  · split at h
    · cases h
    · rename_i w hw
      simp only [Except.ok.injEq, Prod.mk.injEq] at h
      obtain ⟨i1, i2, i3, i4⟩ := ChangeRenderTargetConfiguration_inv _ _ _ _ _ hw
      rw [← h.1]
      exact ⟨(MappedTextureASyncSender.Ready_facts _ i3).1, rfl, fun _ => i4, fun _ => i3⟩

end UNDIMediaSender
namespace UNDIMediaSender

theorem TrySendVideoFrame_Inv (FromTimespan : Int → FFrameRate → FTimecode)
    (Frames : FTimecode → Int) (s s1 : UNDIMediaSender) (e : List SenderEffect)
    (input : SendVideoInput) (hinv : s.Inv)
    (h : s.TrySendVideoFrame FromTimespan Frames input = .ok (s1, e)) : s1.Inv := by
  simp only [TrySendVideoFrame, bind, Except.bind, pure, Except.pure] at h
  have same : ∀ t, Except.ok (s, t) = Except.ok (ε := Fault) (s1, e) → s1.Inv := by
    intro t ht
    simp only [Except.ok.injEq, Prod.mk.injEq] at ht
    rw [← ht.1]
    exact hinv
  split at h
  · rename_i hgo
    have hne : s.p_send_instance ≠ nullptr := by
      simp only [Bool.and_eq_true, bne_iff_ne, ne_eq] at hgo
      exact hgo.1
    have hready := hinv.2.2.2 hne
    split at h
    · split at h
      · split at h
        · split at h
          · cases h
          · rename_i v hv
            obtain ⟨s2, b⟩ := v
            have hs2 := DrawRenderTarget_inv _ _ _ _ _ _ hv
            subst hs2
            try dsimp only at h
            split at h
            · split at h
              · cases h
              · rename_i m hm
                obtain ⟨ring, Width, Height⟩ := m
                try dsimp only at hm
                obtain ⟨hring, hp, -, -, hwf2, hcur2⟩ :=
                  MappedTextureASyncSender.Map_ok_inv _ _ _ _ _ hm hinv.1
                try dsimp only at h
                split at h
                · obtain ⟨sf, hf, hcount, hwf, -⟩ :=
                    MappedTextureASyncSender.Flush_facts ring s.p_send_instance hwf2 hne
                  try dsimp only at hf
                  rw [hf] at h
                  try dsimp only at h
                  split at h
                  · cases h
                  · rename_i w hw
                    simp only [Except.ok.injEq, Prod.mk.injEq] at h
                    rw [← h.1]
                    obtain ⟨-, i2, i3, i4⟩ := ChangeRenderTargetConfiguration_inv _ _ _ _ _ hw
                    exact ⟨(MappedTextureASyncSender.Ready_facts _ i3).1, by rw [i2]; exact hinv.2.1,
                      fun _ => i4, fun _ => i3⟩
                · have hsend := MappedTextureASyncSender.Send_eq ring s.p_send_instance hwf2 hcur2 hne
                  try dsimp only at hsend
                  rw [hsend] at h
                  simp only [Except.ok.injEq, Prod.mk.injEq] at h
                  rw [← h.1]
                  obtain ⟨-, -, -, hr, hone⟩ :=
                    MappedTextureASyncSender.cycle_facts s.ReadbackTextures input.pMapped hready hp
                  rw [← hring] at hr hone
                  exact ⟨(MappedTextureASyncSender.Ready_facts _ hr).1, hinv.2.1,
                    fun hz => absurd hz hne, fun _ => hr⟩
            · simp only [Except.ok.injEq, Prod.mk.injEq] at h
              rw [← h.1]
              exact hinv
        · exact same _ h
      · exact same _ h
    · exact same _ h
  · exact same _ h

theorem Shutdown_facts (s : UNDIMediaSender) (hinv : s.Inv) :
    ∃ s1 e1, s.Shutdown = .ok (s1, e1) ∧ s1.p_send_instance = nullptr ∧
      s1.ReadbackTextures.MappedTextures.1.Texture = none ∧
      s1.ReadbackTextures.MappedTextures.2.Texture = none ∧
      s1.ReadbackTextures.MappedTextures.1.pData = nullptr ∧
      s1.ReadbackTextures.MappedTextures.2.pData = nullptr ∧
      s1.Inv ∧
      s1.Shutdown = .ok (s1,
        [SenderEffect.Lock SyncContext.AudioSyncContext,
         SenderEffect.EventOnSendAudioFrame_RemoveAll,
         SenderEffect.Unlock SyncContext.AudioSyncContext,
         SenderEffect.Lock SyncContext.RenderSyncContext,
         SenderEffect.Unlock SyncContext.RenderSyncContext]) := by
  by_cases hne : s.p_send_instance = nullptr
  · obtain ⟨d, hd, d1, d2, d3, d4, d5, d6, d7⟩ :=
      MappedTextureASyncSender.Destroy_facts s.ReadbackTextures hinv.1 (hinv.2.2.1 hne)
    refine ⟨{ s with DefaultVideoTextureRHI := nullptr, ReadbackTextures := d,
                     RenderTargetDescriptor := none },
      [SenderEffect.Lock SyncContext.AudioSyncContext,
       SenderEffect.EventOnSendAudioFrame_RemoveAll,
       SenderEffect.Unlock SyncContext.AudioSyncContext,
       SenderEffect.Lock SyncContext.RenderSyncContext,
       SenderEffect.Unlock SyncContext.RenderSyncContext], ?_, hne, d1, d2, d3, d4,
      ⟨d6, hinv.2.1, fun _ => d5, fun h => absurd hne h⟩, ?_⟩
    · simp [Shutdown, hne, hd, bind, Except.bind, pure, Except.pure]
    · simp [Shutdown, hne, d7, bind, Except.bind, pure, Except.pure]
  · obtain ⟨sf, hf, hcount, hwf, -⟩ :=
      MappedTextureASyncSender.Flush_facts s.ReadbackTextures s.p_send_instance hinv.1 hne
    obtain ⟨d, hd, d1, d2, d3, d4, d5, d6, d7⟩ :=
      MappedTextureASyncSender.Destroy_facts sf hwf hcount
    refine ⟨{ s with p_send_instance := nullptr, DefaultVideoTextureRHI := nullptr,
                     ReadbackTextures := d, RenderTargetDescriptor := none },
      [SenderEffect.Lock SyncContext.AudioSyncContext,
       SenderEffect.EventOnSendAudioFrame_RemoveAll,
       SenderEffect.Unlock SyncContext.AudioSyncContext,
       SenderEffect.Lock SyncContext.RenderSyncContext,
       SenderEffect.NDIlib_send_send_video_async_v2
         { p_send_instance := s.p_send_instance, p_video_data := none },
       SenderEffect.NDIlib_send_destroy s.p_send_instance,
       SenderEffect.Unlock SyncContext.RenderSyncContext], ?_, rfl,
      d1, d2, d3, d4, ⟨d6, hinv.2.1, fun _ => d5, fun h => absurd rfl h⟩, ?_⟩
    · simp [Shutdown, hne, hf, hd, sends, bind, Except.bind, pure, Except.pure]
    · simp [Shutdown, d7, bind, Except.bind, pure, Except.pure]

theorem Shutdown_Inv (s s1 : UNDIMediaSender) (e : List SenderEffect) (hinv : s.Inv)
    (h : s.Shutdown = .ok (s1, e)) : s1.Inv := by
  obtain ⟨s2, e2, h2, -, -, -, -, -, hi, -⟩ := Shutdown_facts s hinv
  rw [h2] at h
  simp only [Except.ok.injEq, Prod.mk.injEq] at h
  rw [← h.1]
  exact hi

theorem Reachable_Inv (FromTimespan : Int → FFrameRate → FTimecode) (Frames : FTimecode → Int)
    (s : UNDIMediaSender) (h : Reachable FromTimespan Frames s) : s.Inv := by
  induction h with
  | constructed s hnew => exact IsNew_Inv s hnew
  | Initialize s s1 e a b _ hop ih => exact Initialize_Inv _ _ _ _ _ _ ih hop
  | ChangeSourceName s s1 e a n _ hop ih => exact ChangeSourceName_Inv _ _ _ _ _ ih hop
  | ChangeBroadcastConfiguration s s1 e c _ hop ih =>
    exact ChangeBroadcastConfiguration_Inv _ _ _ _ ih hop
  | TrySendVideoFrame s s1 e i _ hop ih => exact TrySendVideoFrame_Inv _ _ _ _ _ _ ih hop
  | Shutdown s s1 e _ hop ih => exact Shutdown_Inv _ _ _ ih hop

end UNDIMediaSender

/-! ## Sender teardown: the claim -/

/-- C24: for every sender state reachable from a constructed sender through
`Initialize`, `ChangeSourceName`, `ChangeBroadcastConfiguration`,
`TrySendVideoFrame` and `Shutdown`, `Shutdown` returns without an assertion
(no slot is mapped when the ring is destroyed); afterwards there is no send
instance, no readback texture is allocated and none is mapped; and a second
`Shutdown` returns the same state, its only outward calls being the removal
of the audio handler inside the audio lock and taking and giving back the
render lock: it sends nothing and destroys nothing. -/
theorem C24_sender_Shutdown_repeatable (FromTimespan : Int → FFrameRate → FTimecode)
    (Frames : FTimecode → Int) (s : UNDIMediaSender)
    (h : UNDIMediaSender.Reachable FromTimespan Frames s) :
    ∃ s1 e1, s.Shutdown = .ok (s1, e1) ∧ s1.p_send_instance = nullptr ∧
      s1.ReadbackTextures.MappedTextures.1.Texture = none ∧
      s1.ReadbackTextures.MappedTextures.2.Texture = none ∧
      s1.ReadbackTextures.MappedTextures.1.pData = nullptr ∧
      s1.ReadbackTextures.MappedTextures.2.pData = nullptr ∧
      s1.Shutdown = .ok (s1,
        [SenderEffect.Lock SyncContext.AudioSyncContext,
         SenderEffect.EventOnSendAudioFrame_RemoveAll,
         SenderEffect.Unlock SyncContext.AudioSyncContext,
         SenderEffect.Lock SyncContext.RenderSyncContext,
         SenderEffect.Unlock SyncContext.RenderSyncContext]) := by
  obtain ⟨s1, e1, h1, h2, h3, h4, h5, h6, -, h8⟩ :=
    UNDIMediaSender.Shutdown_facts s (UNDIMediaSender.Reachable_Inv _ _ s h)
  exact ⟨s1, e1, h1, h2, h3, h4, h5, h6, h8⟩

/-- Witness of C24: the sender that was initialised and has sent one frame,
which is still mapped in slot 0. -/
theorem C24_sender_Shutdown_repeatable_witness :
    sendingSender.ReadbackTextures.mappedCount = 1 ∧
    ∃ s1 e1, sendingSender.Shutdown = .ok (s1, e1) ∧ s1.p_send_instance = nullptr ∧
      s1.ReadbackTextures.mappedCount = 0 :=
  have h := C24_sender_Shutdown_repeatable sampleFromTimespan sampleFrames sendingSender
    (UNDIMediaSender.Reachable.TrySendVideoFrame initializedSender sendingSender sampleSendTrace
      sampleSendInput
      (UNDIMediaSender.Reachable.Initialize newSender initializedSender initializeTrace 9 8
        (UNDIMediaSender.Reachable.constructed newSender ⟨rfl, rfl, rfl⟩) rfl) rfl)
  ⟨by decide, h.imp fun _ h1 => h1.imp fun _ h2 =>
    ⟨h2.1, h2.2.1, by
      simp [MappedTextureASyncSender.mappedCount, h2.2.2.2.2.1, h2.2.2.2.2.2.1]⟩⟩

/-! ## Readback texture size and the frame size recovered from it -/

theorem tdiv_two_cases (W : Int) :
    (0 ≤ W ∧ Int.tdiv W 2 = W / 2) ∨ (W < 0 ∧ Int.tdiv W 2 = -((-W) / 2)) := by
  rcases le_or_lt 0 W with h | h
  · left; exact ⟨h, Int.tdiv_eq_ediv h (by norm_num)⟩
  · right
    refine ⟨h, ?_⟩
    have : W = -(-W) := by omega
    conv_lhs => rw [this]
    rw [Int.neg_tdiv, Int.tdiv_eq_ediv (by omega) (by norm_num)]

theorem tdiv_three_cases (W : Int) :
    (0 ≤ W ∧ Int.tdiv W 3 = W / 3) ∨ (W < 0 ∧ Int.tdiv W 3 = -((-W) / 3)) := by
  rcases le_or_lt 0 W with h | h
  · left; exact ⟨h, Int.tdiv_eq_ediv h (by norm_num)⟩
  · right
    refine ⟨h, ?_⟩
    have : W = -(-W) := by omega
    conv_lhs => rw [this]
    rw [Int.neg_tdiv, Int.tdiv_eq_ediv (by omega) (by norm_num)]

theorem recovered_width_iff (W : Int) : Int.tdiv W 2 * 2 = W ↔ 2 ∣ W := by
  rcases tdiv_two_cases W with ⟨h, e⟩ | ⟨h, e⟩ <;> rw [e] <;> omega

theorem recovered_height_iff (H : Int) : Int.tdiv (2 * (H + Int.tdiv H 2)) 3 = H ↔ 2 ∣ H := by
  rcases tdiv_two_cases H with ⟨h, e⟩ | ⟨h, e⟩ <;> rw [e] <;>
  rcases tdiv_three_cases (2 * (H + _)) with ⟨h3, e3⟩ | ⟨h3, e3⟩ <;> rw [e3] <;> omega

theorem recoveredFrameSize_iff (W H : Int) (OutputAlpha : Bool) :
    UNDIMediaSender.recoveredFrameSize
        (UNDIMediaSender.UYVYTextureSize { X := W, Y := H } OutputAlpha).X
        (UNDIMediaSender.UYVYTextureSize { X := W, Y := H } OutputAlpha).Y OutputAlpha =
      { X := W, Y := H } ↔
    2 ∣ W ∧ (OutputAlpha = false ∨ 2 ∣ H) := by
  cases OutputAlpha
  · simp [UNDIMediaSender.recoveredFrameSize, UNDIMediaSender.UYVYTextureSize,
      recovered_width_iff]
  · simp [UNDIMediaSender.recoveredFrameSize, UNDIMediaSender.UYVYTextureSize,
      recovered_width_iff, recovered_height_iff]

namespace MappedTextureASyncSender

theorem Map_size (s : MappedTextureASyncSender) (pMapped : Nat) (sz : FIntPoint)
    (hs : s.Ready = true) (hp : pMapped ≠ nullptr) (hsz : s.GetSizeXY = .ok sz) :
    s.Map pMapped = .ok (s.afterMap pMapped, sz.X, sz.Y) := by
  obtain ⟨w, h, hm⟩ := Map_eq s pMapped hs hp
  obtain ⟨-, -, -, hg, -, -⟩ := Map_ok_inv _ _ _ _ _ hm (Ready_facts _ hs).1
  rw [hsz] at hg
  simp only [Except.ok.injEq] at hg
  rw [hm, hg]

theorem Create_size (s c : MappedTextureASyncSender) (InFrameSize : FIntPoint)
    (h : s.Create InFrameSize = .ok c) :
    c.MappedTextures.1.Texture = some InFrameSize ∧
    c.MappedTextures.2.Texture = some InFrameSize ∧ c.GetSizeXY = .ok InFrameSize ∧
    c.CurrentIndex = s.CurrentIndex := by
  obtain ⟨⟨⟨tex0, p0, m0⟩, ⟨tex1, p1, m1⟩⟩, idx⟩ := s
  simp only [Create, Destroy, get, set, MappedTexture.Create, MappedTexture.Destroy, check,
    bind, Except.bind, pure, Except.pure, throw, throwThe, MonadExceptOf.throw] at h
  by_cases h0 : idx = 0
  · subst h0
    by_cases hp0 : p0 = nullptr <;> by_cases hp1 : p1 = nullptr <;>
      cases tex0 <;> cases tex1 <;> simp [hp0, hp1] at h <;>
      subst h <;> simp [GetSizeXY, get, MappedTexture.GetSizeXY, bind, Except.bind, pure,
        Except.pure]
  · by_cases h1 : idx = 1
    · subst h1
      by_cases hp0 : p0 = nullptr <;> by_cases hp1 : p1 = nullptr <;>
        cases tex0 <;> cases tex1 <;> simp [hp0, hp1] at h <;>
        subst h <;> simp [GetSizeXY, get, MappedTexture.GetSizeXY, bind, Except.bind, pure,
          Except.pure]
    · simp [h0, h1] at h

end MappedTextureASyncSender

namespace UNDIMediaSender

theorem ChangeRenderTargetConfiguration_ok (s : UNDIMediaSender) (InFrameSize : FIntPoint)
    (InFrameRate : FFrameRate) (hwf : s.ReadbackTextures.WellFormed = true)
    (hcount : s.ReadbackTextures.mappedCount = 0) :
    ∃ s1 e1, s.ChangeRenderTargetConfiguration InFrameSize InFrameRate = .ok (s1, e1) ∧
      s1.FrameSize = InFrameSize ∧ s1.FrameRate = InFrameRate ∧
      s1.NDI_video_frame.line_stride_in_bytes = InFrameSize.X * 2 ∧
      s1.ReadbackTextures.MappedTextures.1.Texture =
        some (UYVYTextureSize InFrameSize s.OutputAlpha) ∧
      s1.ReadbackTextures.MappedTextures.2.Texture =
        some (UYVYTextureSize InFrameSize s.OutputAlpha) ∧
      s1.ReadbackTextures.GetSizeXY = .ok (UYVYTextureSize InFrameSize s.OutputAlpha) ∧
      s1.ReadbackTexturesHaveAlpha = s.OutputAlpha ∧
      s1.ReadbackTextures.Ready = true ∧
      s1.ReadbackTextures.mappedCount = 0 ∧
      s1.p_send_instance = s.p_send_instance ∧
      s1.bIsChangingBroadcastSize = s.bIsChangingBroadcastSize ∧
      s1.RenderTarget = s.RenderTarget ∧ s1.LastRenderTime = s.LastRenderTime ∧
      s1.OutputAlpha = s.OutputAlpha ∧
      e1 = [SenderEffect.Lock SyncContext.RenderSyncContext] ++
           (if s.RenderTarget != nullptr then
              [SenderEffect.ResizeTarget InFrameSize.X InFrameSize.Y] else []) ++
           [SenderEffect.Unlock SyncContext.RenderSyncContext] ++
           (if IsBound s.OnBroadcastConfigurationChanged then
              [SenderEffect.OnBroadcastConfigurationChanged_Broadcast] else []) := by
  obtain ⟨c, hc, -⟩ := MappedTextureASyncSender.Create_unmapped s.ReadbackTextures
    (UYVYTextureSize InFrameSize s.OutputAlpha)
    (MappedTextureASyncSender.WellFormed_index _ hwf) hcount
  obtain ⟨z1, z2, z3, -⟩ := MappedTextureASyncSender.Create_size _ _ _ hc
  obtain ⟨r1, r2⟩ := MappedTextureASyncSender.Create_ready _ _ _ hc
  cases hres : s.ChangeRenderTargetConfiguration InFrameSize InFrameRate with
  | error f =>
    simp only [ChangeRenderTargetConfiguration, bind, Except.bind, pure, Except.pure] at hres
    dsimp only at hres
    rw [hc] at hres
    cases hres
  | ok r =>
    obtain ⟨s1, e1⟩ := r
    simp only [ChangeRenderTargetConfiguration, bind, Except.bind, pure, Except.pure] at hres
    dsimp only at hres
    rw [hc] at hres
    simp only [Except.ok.injEq, Prod.mk.injEq] at hres
    obtain ⟨h1, h2⟩ := hres
    subst h1 h2
    exact ⟨_, _, rfl, rfl, rfl, rfl, z1, z2, z3, rfl, r1, r2, rfl, rfl, rfl, rfl, rfl, rfl⟩

end UNDIMediaSender
namespace UNDIMediaSender

theorem TrySendVideoFrame_maps (FromTimespan : Int → FFrameRate → FTimecode)
    (Frames : FTimecode → Int) (s : UNDIMediaSender) (input : SendVideoInput) (sz : FIntPoint)
    (hgo : s.ReachesMap FromTimespan Frames input = true)
    (hready : s.ReadbackTextures.Ready = true)
    (hsz : s.ReadbackTextures.GetSizeXY = .ok sz) :
    ∃ s2 e2, s.TrySendVideoFrame FromTimespan Frames input = .ok (s2, e2) ∧
      (s.FrameSize = recoveredFrameSize sz.X sz.Y s.ReadbackTexturesHaveAlpha →
        s2.FrameSize = s.FrameSize ∧ s2.ReadbackTextures.mappedCount = 1 ∧
        s2.LastRenderTime = FromTimespan input.time_code s.FrameRate ∧
        e2 = [SenderEffect.Lock SyncContext.RenderSyncContext] ++
             GetMetadataFrameLoop s.p_send_instance input.metadata ++
             [SenderEffect.NDIlib_send_get_no_connections s.p_send_instance,
              SenderEffect.OnSenderVideoPreSend_Broadcast,
              SenderEffect.NDIlib_send_send_video_async_v2
                { p_send_instance := s.p_send_instance,
                  p_video_data := some (input.pMapped,
                    if (s.ReadbackTextures.metaDataAt s.ReadbackTextures.CurrentIndex).isEmpty
                    then none
                    else some (s.ReadbackTextures.metaDataAt s.ReadbackTextures.CurrentIndex)) },
              SenderEffect.OnSenderVideoSent_Broadcast,
              SenderEffect.Unlock SyncContext.RenderSyncContext]) ∧
      (s.FrameSize ≠ recoveredFrameSize sz.X sz.Y s.ReadbackTexturesHaveAlpha →
        s2.FrameSize = recoveredFrameSize sz.X sz.Y s.ReadbackTexturesHaveAlpha ∧
        s2.ReadbackTextures.mappedCount = 0 ∧
        s2.LastRenderTime = s.LastRenderTime ∧
        e2 = [SenderEffect.Lock SyncContext.RenderSyncContext] ++
             GetMetadataFrameLoop s.p_send_instance input.metadata ++
             [SenderEffect.NDIlib_send_get_no_connections s.p_send_instance,
              SenderEffect.NDIlib_send_send_video_async_v2
                { p_send_instance := s.p_send_instance, p_video_data := none },
              SenderEffect.Unlock SyncContext.RenderSyncContext,
              SenderEffect.Lock SyncContext.RenderSyncContext] ++
             (if s.RenderTarget != nullptr then
                [SenderEffect.ResizeTarget
                   (recoveredFrameSize sz.X sz.Y s.ReadbackTexturesHaveAlpha).X
                   (recoveredFrameSize sz.X sz.Y s.ReadbackTexturesHaveAlpha).Y] else []) ++
             [SenderEffect.Unlock SyncContext.RenderSyncContext] ++
             (if IsBound s.OnBroadcastConfigurationChanged then
                [SenderEffect.OnBroadcastConfigurationChanged_Broadcast] else [])) := by
  simp only [ReachesMap, Bool.and_eq_true, bne_iff_ne, ne_eq, Bool.not_eq_true',
    decide_eq_true_eq] at hgo
  obtain ⟨⟨⟨⟨⟨⟨⟨⟨hne, hb⟩, hrt⟩, hres⟩, htex⟩, htt⟩, hp⟩, hconn⟩, hfr⟩ := hgo
  have hresolve := MappedTextureASyncSender.Resolve_eq s.ReadbackTextures _ hready htt
  have hmap := MappedTextureASyncSender.Map_size s.ReadbackTextures _ sz hready hp hsz
  obtain ⟨hwf2, hcur2, -, hr3, hone⟩ :=
    MappedTextureASyncSender.cycle_facts s.ReadbackTextures input.pMapped hready hp
  have hsend := MappedTextureASyncSender.Send_eq (s.ReadbackTextures.afterMap input.pMapped)
    s.p_send_instance hwf2 (by rw [hcur2]; exact hp) hne
  rw [hcur2, (MappedTextureASyncSender.afterMap_metaDataAt s.ReadbackTextures input.pMapped 0).2,
    (MappedTextureASyncSender.afterMap_metaDataAt s.ReadbackTextures input.pMapped
      s.ReadbackTextures.CurrentIndex).1] at hsend
  obtain ⟨sf, hf, hcount, hwf3, -⟩ := MappedTextureASyncSender.Flush_facts
    (s.ReadbackTextures.afterMap input.pMapped) s.p_send_instance hwf2 hne
  have hpre : s.TrySendVideoFrame FromTimespan Frames input =
      (if s.FrameSize != recoveredFrameSize sz.X sz.Y s.ReadbackTexturesHaveAlpha then
        (do
          let (s3, e3) ←
            ({ s with NDI_video_frame := { s.NDI_video_frame with timecode := input.time_code },
                      ReadbackTextures := sf } : UNDIMediaSender).ChangeRenderTargetConfiguration
              (recoveredFrameSize sz.X sz.Y s.ReadbackTexturesHaveAlpha) s.FrameRate
          pure (s3, [SenderEffect.Lock SyncContext.RenderSyncContext] ++
             GetMetadataFrameLoop s.p_send_instance input.metadata ++
             [SenderEffect.NDIlib_send_get_no_connections s.p_send_instance] ++
             sends [{ p_send_instance := s.p_send_instance, p_video_data := none }] ++
             [SenderEffect.Unlock SyncContext.RenderSyncContext] ++ e3))
      else
        pure ({ s with NDI_video_frame := { s.NDI_video_frame with timecode := input.time_code },
                       ReadbackTextures := (s.ReadbackTextures.afterMap input.pMapped).afterSend,
                       LastRenderTime := FromTimespan input.time_code s.FrameRate },
          [SenderEffect.Lock SyncContext.RenderSyncContext] ++
             GetMetadataFrameLoop s.p_send_instance input.metadata ++
             [SenderEffect.NDIlib_send_get_no_connections s.p_send_instance] ++
             [SenderEffect.OnSenderVideoPreSend_Broadcast] ++
             sends [SendCall.mk s.p_send_instance (some (input.pMapped,
                    if (s.ReadbackTextures.metaDataAt s.ReadbackTextures.CurrentIndex).isEmpty
                    then none
                    else some (s.ReadbackTextures.metaDataAt s.ReadbackTextures.CurrentIndex)))]
             ++ [SenderEffect.OnSenderVideoSent_Broadcast] ++
             [SenderEffect.Unlock SyncContext.RenderSyncContext])) := by
    simp only [TrySendVideoFrame, DrawRenderTarget, GetRenderTargetResource, bind, Except.bind,
      pure, Except.pure, hne, hb, hrt, hres, htex, hconn, hfr, hresolve, hmap, hsend, hf,
      bne_iff_ne, ne_eq, not_false_eq_true, Bool.not_false, Bool.and_self, if_true, ite_true,
      decide_True, Bool.true_and, Bool.and_true]
  rw [hpre]
  by_cases hsame : s.FrameSize = recoveredFrameSize sz.X sz.Y s.ReadbackTexturesHaveAlpha
  · rw [if_neg (by simpa using hsame)]
    refine ⟨_, _, rfl, fun _ => ⟨rfl, hone, rfl, by simp [sends]⟩, fun h => absurd hsame h⟩
  · rw [if_pos (by simpa using hsame)]
    obtain ⟨s3, e3, hc, c1, -, -, -, -, -, -, -, c2, -, -, -, c3, -, c4⟩ :=
      ChangeRenderTargetConfiguration_ok
        ({ s with NDI_video_frame := { s.NDI_video_frame with timecode := input.time_code },
                  ReadbackTextures := sf } : UNDIMediaSender)
        (recoveredFrameSize sz.X sz.Y s.ReadbackTexturesHaveAlpha) s.FrameRate hwf3 hcount
    simp only [bind, Except.bind, pure, Except.pure]
    rw [hc]
    refine ⟨_, _, rfl, fun h => absurd h hsame, fun _ => ⟨c1, c2, c3, ?_⟩⟩
    rw [c4]
    simp [sends]

end UNDIMediaSender
theorem GetMetadataFrameLoop_mem (p_send_instance : Nat) (queue : List NDIlib_metadata_frame_t) :
    ∀ x ∈ UNDIMediaSender.GetMetadataFrameLoop p_send_instance queue,
      x = SenderEffect.NDIlib_send_capture p_send_instance ∨
      x = SenderEffect.NDIlib_send_free_metadata p_send_instance ∨
      ∃ Data, x = SenderEffect.OnSenderMetaDataReceived_Broadcast Data := by
  induction queue with
  | nil => intro x hx; simp [UNDIMediaSender.GetMetadataFrameLoop] at hx; exact Or.inl hx
  | cons m rest ih =>
    intro x hx
    simp only [UNDIMediaSender.GetMetadataFrameLoop, List.mem_append, List.mem_singleton] at hx
    rcases hx with ((hx | hx) | hx) | hx
    · exact Or.inl hx
    · right; right
      cases hd : m.p_data with
      | none => rw [hd] at hx; simp at hx
      | some Data =>
        rw [hd] at hx
        by_cases hl : m.length > 0
        · simp only [hl, if_true, List.mem_singleton] at hx
          exact ⟨Data, hx⟩
        · simp [hl] at hx
    · exact Or.inr (Or.inl hx)
    · exact ih x hx

/-- C27: for every frame size `(W, H)` set through
`ChangeRenderTargetConfiguration` (on a sender whose ring is well formed with
no slot mapped, so that the textures can be re-created), both readback
textures are `W / 2` wide and `H` high without alpha, `H + H / 2` high with
alpha (C++ integer division), and the line stride is `2 * W`. The frame size
worked out from the mapped texture size equals `(W, H)` exactly when `W` is
even and alpha is off or `H` is even. A following `TrySendVideoFrame` that
gets as far as mapping then sends the frame, without reconfiguration and
without flushing, in exactly those cases; otherwise it flushes and sets the
frame size to the size worked out, which differs from `(W, H)`. -/
theorem C27_readback_size_and_recovered_frame_size
    (FromTimespan : Int → FFrameRate → FTimecode) (Frames : FTimecode → Int)
    (s : UNDIMediaSender) (W H : Int) (InFrameRate : FFrameRate)
    (hwf : s.ReadbackTextures.WellFormed = true)
    (hcount : s.ReadbackTextures.mappedCount = 0) :
    ∃ s1 e1, s.ChangeRenderTargetConfiguration { X := W, Y := H } InFrameRate = .ok (s1, e1) ∧
      s1.FrameSize = { X := W, Y := H } ∧
      s1.ReadbackTextures.MappedTextures.1.Texture =
        some { X := Int.tdiv W 2, Y := H + (if s.OutputAlpha then Int.tdiv H 2 else 0) } ∧
      s1.ReadbackTextures.MappedTextures.2.Texture =
        some { X := Int.tdiv W 2, Y := H + (if s.OutputAlpha then Int.tdiv H 2 else 0) } ∧
      s1.NDI_video_frame.line_stride_in_bytes = 2 * W ∧
      (UNDIMediaSender.recoveredFrameSize (Int.tdiv W 2)
          (H + (if s.OutputAlpha then Int.tdiv H 2 else 0)) s1.ReadbackTexturesHaveAlpha =
            { X := W, Y := H } ↔
        2 ∣ W ∧ (s.OutputAlpha = false ∨ 2 ∣ H)) ∧
      ∀ input : SendVideoInput, s1.ReachesMap FromTimespan Frames input = true →
        ∃ s2 e2, s1.TrySendVideoFrame FromTimespan Frames input = .ok (s2, e2) ∧
          (2 ∣ W ∧ (s.OutputAlpha = false ∨ 2 ∣ H) →
            s2.FrameSize = { X := W, Y := H } ∧ s2.ReadbackTextures.mappedCount = 1 ∧
            SenderEffect.OnSenderVideoSent_Broadcast ∈ e2 ∧
            SenderEffect.OnBroadcastConfigurationChanged_Broadcast ∉ e2 ∧
            SenderEffect.NDIlib_send_send_video_async_v2
              { p_send_instance := s1.p_send_instance, p_video_data := none } ∉ e2) ∧
          (¬ (2 ∣ W ∧ (s.OutputAlpha = false ∨ 2 ∣ H)) →
            s2.FrameSize = UNDIMediaSender.recoveredFrameSize (Int.tdiv W 2)
              (H + (if s.OutputAlpha then Int.tdiv H 2 else 0)) s.OutputAlpha ∧
            s2.FrameSize ≠ { X := W, Y := H } ∧ s2.ReadbackTextures.mappedCount = 0 ∧
            SenderEffect.OnSenderVideoSent_Broadcast ∉ e2 ∧
            SenderEffect.NDIlib_send_send_video_async_v2
              { p_send_instance := s1.p_send_instance, p_video_data := none } ∈ e2) := by
  obtain ⟨s1, e1, hc, c1, -, c3, c4, c5, c6, c7, c8, -, c10, -, -, -, -, -⟩ :=
    UNDIMediaSender.ChangeRenderTargetConfiguration_ok s { X := W, Y := H } InFrameRate hwf hcount
  have hiff := recoveredFrameSize_iff W H s.OutputAlpha
  simp only [UNDIMediaSender.UYVYTextureSize] at c4 c5 c6 hiff
  refine ⟨s1, e1, hc, c1, c4, c5, by rw [c3]; ring, by rw [c7]; exact hiff, ?_⟩
  intro input hgo
  obtain ⟨s2, e2, hrun, hsame, hdiff⟩ :=
    UNDIMediaSender.TrySendVideoFrame_maps FromTimespan Frames s1 input _ hgo c8 c6
  rw [c1, c7] at hsame hdiff
  dsimp only at hsame hdiff
  refine ⟨s2, e2, hrun, ?_, ?_⟩
  · intro hcond
    obtain ⟨h1, h2, -, h4⟩ := hsame (hiff.2 hcond).symm
    refine ⟨h1, h2, ?_, ?_, ?_⟩
    · rw [h4]; simp
    · rw [h4]
      simp only [List.mem_append, List.mem_cons, List.mem_singleton, not_or, List.mem_nil_iff,
        or_false]
      refine ⟨⟨by simp, ?_⟩, by simp⟩
      intro hmem
      rcases GetMetadataFrameLoop_mem _ _ _ hmem with h | h | ⟨D, h⟩ <;> cases h
    · rw [h4]
      simp only [List.mem_append, List.mem_cons, List.mem_singleton, not_or, List.mem_nil_iff,
        or_false]
      refine ⟨⟨by simp, ?_⟩, by simp⟩
      intro hmem
      rcases GetMetadataFrameLoop_mem _ _ _ hmem with h | h | ⟨D, h⟩ <;> cases h
  · intro hcond
    have hne : ({ X := W, Y := H } : FIntPoint) ≠
        UNDIMediaSender.recoveredFrameSize (Int.tdiv W 2)
          (H + (if s.OutputAlpha then Int.tdiv H 2 else 0)) s.OutputAlpha :=
      fun h => hcond (hiff.1 h.symm)
    obtain ⟨h1, h2, -, h4⟩ := hdiff hne
    refine ⟨h1, by rw [h1]; exact fun h => hne h.symm, h2, ?_, ?_⟩
    · rw [h4]
      simp only [List.mem_append, List.mem_cons, List.mem_singleton, not_or, List.mem_nil_iff,
        or_false]
      refine ⟨⟨⟨⟨⟨by simp, ?_⟩, by simp⟩, ?_⟩, by simp⟩, ?_⟩
      · intro hmem
        rcases GetMetadataFrameLoop_mem _ _ _ hmem with h | h | ⟨D, h⟩ <;> cases h
      · split <;> simp
      · split <;> simp
    · rw [h4]; simp

/-- Witness of C27: the initialised sender set to the odd frame width 1921. -/
theorem C27_readback_size_and_recovered_frame_size_witness :
    ∃ s1 e1, initializedSender.ChangeRenderTargetConfiguration { X := 1921, Y := 1080 }
        { Numerator := 60, Denominator := 1 } = .ok (s1, e1) ∧
      s1.ReadbackTextures.MappedTextures.1.Texture = some { X := 960, Y := 1080 } ∧
      s1.NDI_video_frame.line_stride_in_bytes = 3842 :=
  (C27_readback_size_and_recovered_frame_size sampleFromTimespan sampleFrames initializedSender
    1921 1080 { Numerator := 60, Denominator := 1 } (by decide) (by decide)).imp
    fun _ h => h.imp fun _ h1 => ⟨h1.1, h1.2.2.1, h1.2.2.2.2.1⟩

/-! ## Locks held when a notification is made: lemmas and claim -/

theorem heldAfter_append (a b : List TraceKind) :
    ∀ held, heldAfter held (a ++ b) = heldAfter (heldAfter held a) b := by
  induction a with
  | nil => intro held; rfl
  | cons k rest ih => intro held; cases k <;> simp [heldAfter, ih]

theorem notifiesWhen_append (ok : List SyncContext → Bool) (a b : List TraceKind) :
    ∀ held, notifiesWhen ok held (a ++ b) =
      (notifiesWhen ok held a && notifiesWhen ok (heldAfter held a) b) := by
  induction a with
  | nil => intro held; simp [notifiesWhen, heldAfter]
  | cons k rest ih => intro held; cases k <;> simp [notifiesWhen, heldAfter, ih, Bool.and_assoc]

theorem notifiesWhen_calm (ok : List SyncContext → Bool) (held : List SyncContext)
    (l : List TraceKind) (hok : ok held = true) (h : l.all TraceKind.isCall = true) :
    heldAfter held l = held ∧ notifiesWhen ok held l = true := by
  induction l with
  | nil => exact ⟨rfl, rfl⟩
  | cons k rest ih =>
    simp only [List.all_cons, Bool.and_eq_true] at h
    have ih2 := ih h.2
    cases k <;> simp [TraceKind.isCall] at h <;> simp [heldAfter, notifiesWhen, ih2, hok]

theorem notifiesWhen_quiet (ok : List SyncContext → Bool) (held : List SyncContext)
    (l : List TraceKind) (h : l.all TraceKind.isOther = true) :
    heldAfter held l = held ∧ notifiesWhen ok held l = true := by
  induction l with
  | nil => exact ⟨rfl, rfl⟩
  | cons k rest ih =>
    simp only [List.all_cons, Bool.and_eq_true] at h
    have ih2 := ih h.2
    cases k <;> simp [TraceKind.isOther] at h <;> simp [heldAfter, notifiesWhen, ih2]

theorem SetIsCurrentlyConnected_kind (r : UNDIMediaReceiver) (b : Bool) :
    ((r.SetIsCurrentlyConnected b).2.map Effect.kind).all TraceKind.isCall = true := by
  cases b <;> cases h : r.bIsCurrentlyConnected <;>
    cases hc : IsBound r.OnNDIReceiverConnectedEvent <;>
    cases hd : IsBound r.OnNDIReceiverDisconnectedEvent <;>
    simp [UNDIMediaReceiver.SetIsCurrentlyConnected, h, hc, hd, Effect.kind, TraceKind.isCall]

theorem CaptureConnectedVideo_kind (FromTimespan : Int → FFrameRate → FTimecode)
    (r : UNDIMediaReceiver) (input : VideoCaptureInput) :
    ((r.CaptureConnectedVideo FromTimespan input).2.2.map Effect.kind).all TraceKind.isCall
      = true := by
  have hS := fun x : UNDIMediaReceiver => SetIsCurrentlyConnected_kind x true
  simp only [List.all_eq_true, List.mem_map, forall_exists_index, and_imp,
    forall_apply_eq_imp_iff₂] at hS
  by_cases hfs : r.p_framesync_instance = nullptr
  · simp [UNDIMediaReceiver.CaptureConnectedVideo, hfs]
  by_cases hmute : r.ConnectionInformation.bMuteVideo = false
  swap
  · simp [UNDIMediaReceiver.CaptureConnectedVideo, hfs, hmute]
  by_cases hdata : input.video_frame.p_data = nullptr
  · simp [UNDIMediaReceiver.CaptureConnectedVideo, UNDIMediaReceiver.GatherPerformanceMetrics,
      hfs, hmute, hdata, Effect.kind, TraceKind.isCall]
  by_cases hnew : input.video_frame.timestamp = NDIlib_recv_timestamp_undefined ∨
      input.video_frame.timestamp ≠ r.LastFrameTimestamp ∨
      input.video_frame.frame_format_type ≠ r.LastFrameFormatType
  · have hcond : (input.video_frame.timestamp == NDIlib_recv_timestamp_undefined ||
          input.video_frame.timestamp != r.LastFrameTimestamp ||
          input.video_frame.frame_format_type != r.LastFrameFormatType) = true := by
      simpa [Bool.or_eq_true, bne_iff_ne, or_assoc] using hnew
    cases hsync : r.bSyncTimecodeToSource <;>
    cases hm : input.video_frame.p_metadata <;>
    simp [UNDIMediaReceiver.CaptureConnectedVideo, hfs, hmute, hdata,
      UNDIMediaReceiver.SetIsCurrentlyConnected_state,
      UNDIMediaReceiver.GatherPerformanceMetrics, hcond, hnew, hsync, hm, Effect.kind,
      TraceKind.isCall] <;>
    exact fun a ha => hS _ a ha
  · have hcond : (input.video_frame.timestamp == NDIlib_recv_timestamp_undefined ||
          input.video_frame.timestamp != r.LastFrameTimestamp ||
          input.video_frame.frame_format_type != r.LastFrameFormatType) = false := by
      rw [Bool.eq_false_iff]
      simpa [Bool.or_eq_true, bne_iff_ne, or_assoc] using hnew
    cases hsync : r.bSyncTimecodeToSource <;>
    simp [UNDIMediaReceiver.CaptureConnectedVideo, hfs, hmute, hdata,
      UNDIMediaReceiver.SetIsCurrentlyConnected_state,
      UNDIMediaReceiver.GatherPerformanceMetrics, hcond, hnew, hsync, Effect.kind,
      TraceKind.isCall] <;>
    exact fun a ha => hS _ a ha
namespace UNDIMediaSender

theorem ChangeRenderTargetConfiguration_trace (s s1 : UNDIMediaSender) (e : List SenderEffect)
    (InFrameSize : FIntPoint) (InFrameRate : FFrameRate)
    (h : s.ChangeRenderTargetConfiguration InFrameSize InFrameRate = .ok (s1, e)) :
    e = [SenderEffect.Lock SyncContext.RenderSyncContext] ++
        (if s.RenderTarget != nullptr then
           [SenderEffect.ResizeTarget InFrameSize.X InFrameSize.Y] else []) ++
        [SenderEffect.Unlock SyncContext.RenderSyncContext] ++
        (if IsBound s.OnBroadcastConfigurationChanged then
           [SenderEffect.OnBroadcastConfigurationChanged_Broadcast] else []) := by
  simp only [ChangeRenderTargetConfiguration, bind, Except.bind, pure, Except.pure] at h
  dsimp only at h
  cases hc : s.ReadbackTextures.Create (UYVYTextureSize InFrameSize s.OutputAlpha) with
  | error f => rw [hc] at h; cases h
  | ok ring =>
    rw [hc] at h
    simp only [Except.ok.injEq, Prod.mk.injEq] at h
    exact h.2.symm

theorem ChangeRenderTargetConfiguration_discipline (s s1 : UNDIMediaSender)
    (e : List SenderEffect) (InFrameSize : FIntPoint) (InFrameRate : FFrameRate)
    (h : s.ChangeRenderTargetConfiguration InFrameSize InFrameRate = .ok (s1, e)) :
    notifiesWhen noneHeld [] (e.map SenderEffect.kind) = true ∧
    notifiesWhen noneHeld [] (e.map SenderEffect.configurationKind) = true ∧
    notifiesWhen renderHeld [] (e.map SenderEffect.frameKind) = true ∧
    heldAfter [] (e.map SenderEffect.kind) = [] ∧
    heldAfter [] (e.map SenderEffect.configurationKind) = [] ∧
    heldAfter [] (e.map SenderEffect.frameKind) = [] := by
  rw [ChangeRenderTargetConfiguration_trace s s1 e _ _ h]
  cases s.RenderTarget != nullptr <;> cases IsBound s.OnBroadcastConfigurationChanged <;>
    simp [notifiesWhen, heldAfter, noneHeld, renderHeld, SenderEffect.kind,
      SenderEffect.configurationKind, SenderEffect.frameKind]

theorem sends_kind (calls : List SendCall) :
    ((sends calls).map SenderEffect.configurationKind).all TraceKind.isOther = true ∧
    ((sends calls).map SenderEffect.frameKind).all TraceKind.isCall = true := by
  induction calls with
  | nil => exact ⟨rfl, rfl⟩
  | cons c rest ih =>
    simp only [sends, List.map_cons, List.all_cons, Bool.and_eq_true] at ih ⊢
    exact ⟨⟨rfl, ih.1⟩, ⟨rfl, ih.2⟩⟩

theorem GetMetadataFrameLoop_kind (p : Nat) (queue : List NDIlib_metadata_frame_t) :
    ((GetMetadataFrameLoop p queue).map SenderEffect.configurationKind).all TraceKind.isOther
      = true ∧
    ((GetMetadataFrameLoop p queue).map SenderEffect.frameKind).all TraceKind.isCall = true := by
  induction queue with
  | nil => exact ⟨rfl, rfl⟩
  | cons m rest ih =>
    cases hd : m.p_data <;> by_cases hl : m.length > 0 <;>
      simp [GetMetadataFrameLoop, hd, hl, ih.1, ih.2, SenderEffect.configurationKind,
        SenderEffect.frameKind, TraceKind.isOther, TraceKind.isCall]

end UNDIMediaSender
namespace UNDIMediaSender

theorem scoped_discipline (mid tail : List SenderEffect)
    (hc : (mid.map SenderEffect.configurationKind).all TraceKind.isOther = true)
    (hf : (mid.map SenderEffect.frameKind).all TraceKind.isCall = true)
    (t1 : notifiesWhen noneHeld [] (tail.map SenderEffect.configurationKind) = true)
    (t2 : notifiesWhen renderHeld [] (tail.map SenderEffect.frameKind) = true)
    (t3 : heldAfter [] (tail.map SenderEffect.configurationKind) = []) :
    notifiesWhen noneHeld []
      (([SenderEffect.Lock SyncContext.RenderSyncContext] ++ mid ++
        [SenderEffect.Unlock SyncContext.RenderSyncContext] ++ tail).map
          SenderEffect.configurationKind) = true ∧
    notifiesWhen renderHeld []
      (([SenderEffect.Lock SyncContext.RenderSyncContext] ++ mid ++
        [SenderEffect.Unlock SyncContext.RenderSyncContext] ++ tail).map
          SenderEffect.frameKind) = true ∧
    heldAfter []
      (([SenderEffect.Lock SyncContext.RenderSyncContext] ++ mid ++
        [SenderEffect.Unlock SyncContext.RenderSyncContext] ++ tail).map
          SenderEffect.configurationKind) = [] := by
  obtain ⟨q1, q2⟩ := notifiesWhen_quiet noneHeld [SyncContext.RenderSyncContext] _ hc
  obtain ⟨c1, c2⟩ := notifiesWhen_calm renderHeld [SyncContext.RenderSyncContext] _ rfl hf
  have e1 : (SenderEffect.Unlock SyncContext.RenderSyncContext).configurationKind =
      TraceKind.Unlock SyncContext.RenderSyncContext := rfl
  have e2 : (SenderEffect.Unlock SyncContext.RenderSyncContext).frameKind =
      TraceKind.Unlock SyncContext.RenderSyncContext := rfl
  have e3 : (SenderEffect.Lock SyncContext.RenderSyncContext).configurationKind =
      TraceKind.Lock SyncContext.RenderSyncContext := rfl
  have e4 : (SenderEffect.Lock SyncContext.RenderSyncContext).frameKind =
      TraceKind.Lock SyncContext.RenderSyncContext := rfl
  simp only [List.map_append, List.map_cons, List.map_nil, List.append_assoc,
    List.singleton_append, List.cons_append, List.nil_append]
  rw [e3, e1, e4, e2]
  simp only [notifiesWhen, heldAfter]
  rw [notifiesWhen_append, notifiesWhen_append, heldAfter_append, q1, q2, c1, c2]
  simp [notifiesWhen, heldAfter, t1, t2, t3]

theorem TrySendVideoFrame_discipline (FromTimespan : Int → FFrameRate → FTimecode)
    (Frames : FTimecode → Int) (s s1 : UNDIMediaSender) (e : List SenderEffect)
    (input : SendVideoInput)
    (h : s.TrySendVideoFrame FromTimespan Frames input = .ok (s1, e)) :
    notifiesWhen noneHeld [] (e.map SenderEffect.configurationKind) = true ∧
    notifiesWhen renderHeld [] (e.map SenderEffect.frameKind) = true ∧
    heldAfter [] (e.map SenderEffect.configurationKind) = [] := by
  simp only [TrySendVideoFrame, bind, Except.bind, pure, Except.pure] at h
  obtain ⟨m1, m2⟩ := GetMetadataFrameLoop_kind s.p_send_instance input.metadata
  have plain : ∀ (st : UNDIMediaSender) (mid : List SenderEffect),
      (mid.map SenderEffect.configurationKind).all TraceKind.isOther = true →
      (mid.map SenderEffect.frameKind).all TraceKind.isCall = true →
      Except.ok (ε := Fault) (st, [SenderEffect.Lock SyncContext.RenderSyncContext] ++ mid ++
        [SenderEffect.Unlock SyncContext.RenderSyncContext] ++ []) = Except.ok (s1, e) →
      notifiesWhen noneHeld [] (e.map SenderEffect.configurationKind) = true ∧
      notifiesWhen renderHeld [] (e.map SenderEffect.frameKind) = true ∧
      heldAfter [] (e.map SenderEffect.configurationKind) = [] := by
    intro st mid hc hf heq
    simp only [Except.ok.injEq, Prod.mk.injEq] at heq
    rw [← heq.2]
    exact scoped_discipline mid [] hc hf rfl rfl rfl
  split at h
  · split at h
    · split at h
      · split at h
        · split at h
          · cases h
          · rename_i v hv
            split at h
            · split at h
              · cases h
              · rename_i m hm
                split at h
                · split at h
                  · cases h
                  · rename_i fl hfl
                    split at h
                    · cases h
                    · rename_i w hw
                      obtain ⟨-, d2, d3, -, d5, -⟩ :=
                        ChangeRenderTargetConfiguration_discipline _ _ _ _ _
                          (show _ = Except.ok (w.1, w.2) from hw)
                      simp only [Except.ok.injEq, Prod.mk.injEq] at h
                      rw [← h.2]
                      have := scoped_discipline
                        (GetMetadataFrameLoop s.p_send_instance input.metadata ++
                          [SenderEffect.NDIlib_send_get_no_connections s.p_send_instance] ++
                          sends fl.2) w.2
                        (by simp [m1, (sends_kind fl.2).1, SenderEffect.configurationKind,
                              TraceKind.isOther])
                        (by simp [m2, (sends_kind fl.2).2, SenderEffect.frameKind,
                              TraceKind.isCall])
                        d2 d3 d5
                      simpa [List.append_assoc] using this
                · split at h
                  · cases h
                  · rename_i sd hsd
                    simp only [Except.ok.injEq, Prod.mk.injEq] at h
                    rw [← h.2]
                    have := scoped_discipline
                      (GetMetadataFrameLoop s.p_send_instance input.metadata ++
                        [SenderEffect.NDIlib_send_get_no_connections s.p_send_instance] ++
                        [SenderEffect.OnSenderVideoPreSend_Broadcast] ++ sends sd.2 ++
                        [SenderEffect.OnSenderVideoSent_Broadcast]) []
                      (by simp [m1, (sends_kind sd.2).1, SenderEffect.configurationKind,
                            TraceKind.isOther])
                      (by simp [m2, (sends_kind sd.2).2, SenderEffect.frameKind,
                            TraceKind.isCall])
                      rfl rfl rfl
                    simpa [List.append_assoc] using this
            · refine plain _ (GetMetadataFrameLoop s.p_send_instance input.metadata ++
                [SenderEffect.NDIlib_send_get_no_connections s.p_send_instance]) ?_ ?_
                (by simpa [List.append_assoc] using h)
              · simp [m1, SenderEffect.configurationKind, TraceKind.isOther]
              · simp [m2, SenderEffect.frameKind, TraceKind.isCall]
        · refine plain _ (GetMetadataFrameLoop s.p_send_instance input.metadata ++
            [SenderEffect.NDIlib_send_get_no_connections s.p_send_instance]) ?_ ?_
            (by simpa [List.append_assoc] using h)
          · simp [m1, SenderEffect.configurationKind, TraceKind.isOther]
          · simp [m2, SenderEffect.frameKind, TraceKind.isCall]
      · refine plain _ (GetMetadataFrameLoop s.p_send_instance input.metadata ++
          [SenderEffect.NDIlib_send_get_no_connections s.p_send_instance]) ?_ ?_
          (by simpa [List.append_assoc] using h)
        · simp [m1, SenderEffect.configurationKind, TraceKind.isOther]
        · simp [m2, SenderEffect.frameKind, TraceKind.isCall]
    · exact plain _ (GetMetadataFrameLoop s.p_send_instance input.metadata) m1 m2
        (by simpa [List.append_assoc] using h)
  · simp only [Except.ok.injEq, Prod.mk.injEq] at h
    rw [← h.2]
    exact ⟨rfl, rfl, rfl⟩

end UNDIMediaSender
theorem CaptureConnectedVideoScoped_discipline (FromTimespan : Int → FFrameRate → FTimecode)
    (r : UNDIMediaReceiver) (input : VideoCaptureInput) :
    notifiesWhen renderHeld []
      ((r.CaptureConnectedVideoScoped FromTimespan input).2.2.map Effect.kind) = true ∧
    heldAfter [] ((r.CaptureConnectedVideoScoped FromTimespan input).2.2.map Effect.kind) = [] := by
  obtain ⟨c1, c2⟩ := notifiesWhen_calm renderHeld [SyncContext.RenderSyncContext] _ rfl
    (CaptureConnectedVideo_kind FromTimespan r input)
  have e1 : (Effect.FScopeLock_Lock SyncContext.RenderSyncContext).kind =
      TraceKind.Lock SyncContext.RenderSyncContext := rfl
  have e2 : (Effect.FScopeLock_Unlock SyncContext.RenderSyncContext).kind =
      TraceKind.Unlock SyncContext.RenderSyncContext := rfl
  simp only [UNDIMediaReceiver.CaptureConnectedVideoScoped, List.map_append, List.map_cons,
    List.map_nil, List.append_assoc, List.singleton_append, List.cons_append, List.nil_append]
  rw [e1, e2]
  simp only [notifiesWhen, heldAfter]
  rw [notifiesWhen_append, heldAfter_append, c1, c2]
  simp [notifiesWhen, heldAfter]

theorem receiver_scoped_discipline (c : SyncContext) (ok : List SyncContext → Bool)
    (hok : ok [c] = true) (mid : List Effect)
    (hmid : (mid.map Effect.kind).all TraceKind.isCall = true) :
    notifiesWhen ok []
      (([Effect.FScopeLock_Lock c] ++ mid ++ [Effect.FScopeLock_Unlock c]).map Effect.kind)
        = true ∧
    heldAfter []
      (([Effect.FScopeLock_Lock c] ++ mid ++ [Effect.FScopeLock_Unlock c]).map Effect.kind)
        = [] := by
  obtain ⟨c1, c2⟩ := notifiesWhen_calm ok [c] _ hok hmid
  have e1 : (Effect.FScopeLock_Lock c).kind = TraceKind.Lock c := rfl
  have e2 : (Effect.FScopeLock_Unlock c).kind = TraceKind.Unlock c := rfl
  simp only [List.map_append, List.map_cons, List.map_nil, List.append_assoc,
    List.singleton_append, List.cons_append, List.nil_append]
  rw [e1, e2]
  simp only [notifiesWhen, heldAfter]
  rw [notifiesWhen_append, heldAfter_append, c1, c2]
  simp [notifiesWhen, heldAfter]

theorem CaptureConnectedAudio_discipline (r : UNDIMediaReceiver) (input : AudioCaptureInput) :
    notifiesWhen audioHeld [] ((r.CaptureConnectedAudio input).2.2.map Effect.kind) = true ∧
    heldAfter [] ((r.CaptureConnectedAudio input).2.2.map Effect.kind) = [] := by
  have hS := SetIsCurrentlyConnected_kind r true
  by_cases hguard : (r.p_framesync_instance != nullptr &&
      r.ConnectionInformation.bMuteAudio == false) = true
  · by_cases hdata : (input.p_data != nullptr) = true
    · by_cases havail : input.no_samples * input.no_channels > 0
      · have ht : (r.CaptureConnectedAudio input).2.2 =
            [Effect.FScopeLock_Lock SyncContext.AudioSyncContext] ++
            ([Effect.NDIlib_framesync_audio_queue_depth r.p_framesync_instance,
              Effect.NDIlib_framesync_capture_audio r.p_framesync_instance input.queue_depth] ++
             ((r.SetIsCurrentlyConnected true).2 ++
               [Effect.OnNDIReceiverAudioCaptureEvent_Broadcast,
                Effect.OnReceiverAudioReceived_Broadcast]) ++
             [Effect.NDIlib_framesync_free_audio r.p_framesync_instance]) ++
            [Effect.FScopeLock_Unlock SyncContext.AudioSyncContext] := by
          simp only [UNDIMediaReceiver.CaptureConnectedAudio]
          rw [if_pos hguard, if_pos hdata, if_pos havail]
        rw [ht]
        refine receiver_scoped_discipline SyncContext.AudioSyncContext audioHeld rfl _ ?_
        simp only [List.map_append, List.all_append, Bool.and_eq_true, hS]
        simp [Effect.kind, TraceKind.isCall]
      · have ht : (r.CaptureConnectedAudio input).2.2 =
            [Effect.FScopeLock_Lock SyncContext.AudioSyncContext] ++
            ([Effect.NDIlib_framesync_audio_queue_depth r.p_framesync_instance,
              Effect.NDIlib_framesync_capture_audio r.p_framesync_instance input.queue_depth] ++
             (r.SetIsCurrentlyConnected true).2 ++
             [Effect.NDIlib_framesync_free_audio r.p_framesync_instance]) ++
            [Effect.FScopeLock_Unlock SyncContext.AudioSyncContext] := by
          simp only [UNDIMediaReceiver.CaptureConnectedAudio]
          rw [if_pos hguard, if_pos hdata, if_neg havail]
        rw [ht]
        refine receiver_scoped_discipline SyncContext.AudioSyncContext audioHeld rfl _ ?_
        simp only [List.map_append, List.all_append, Bool.and_eq_true, hS]
        simp [Effect.kind, TraceKind.isCall]
    · have ht : (r.CaptureConnectedAudio input).2.2 =
          [Effect.FScopeLock_Lock SyncContext.AudioSyncContext] ++
          ([Effect.NDIlib_framesync_audio_queue_depth r.p_framesync_instance,
            Effect.NDIlib_framesync_capture_audio r.p_framesync_instance input.queue_depth] ++
           [] ++ [Effect.NDIlib_framesync_free_audio r.p_framesync_instance]) ++
          [Effect.FScopeLock_Unlock SyncContext.AudioSyncContext] := by
        simp only [UNDIMediaReceiver.CaptureConnectedAudio]
        rw [if_pos hguard, if_neg hdata]
      rw [ht]
      exact receiver_scoped_discipline SyncContext.AudioSyncContext audioHeld rfl _ rfl
  · have ht : (r.CaptureConnectedAudio input).2.2 =
        [Effect.FScopeLock_Lock SyncContext.AudioSyncContext] ++ [] ++
        [Effect.FScopeLock_Unlock SyncContext.AudioSyncContext] := by
      simp only [UNDIMediaReceiver.CaptureConnectedAudio]
      rw [if_neg hguard]
    rw [ht]
    exact receiver_scoped_discipline SyncContext.AudioSyncContext audioHeld rfl _ rfl

theorem CaptureConnectedMetadata_kind (r : UNDIMediaReceiver)
    (queue : List NDIlib_metadata_frame_t) :
    ((r.CaptureConnectedMetadata queue).2.2.2.map Effect.kind).all TraceKind.isCall = true := by
  have hS := SetIsCurrentlyConnected_kind r true
  by_cases hrecv : (r.p_receive_instance != nullptr) = true
  · cases queue with
    | nil =>
      simp only [UNDIMediaReceiver.CaptureConnectedMetadata]
      rw [if_pos hrecv]
      rfl
    | cons metadata rest =>
      cases hd : metadata.p_data with
      | none =>
        simp only [UNDIMediaReceiver.CaptureConnectedMetadata]
        rw [if_pos hrecv]
        simp only [hd]
        rfl
      | some Data =>
        by_cases hl : metadata.length > 0
        · simp only [UNDIMediaReceiver.CaptureConnectedMetadata]
          rw [if_pos hrecv]
          simp only [hd]
          rw [if_pos hl]
          simp only [List.map_append, List.all_append, Bool.and_eq_true, hS]
          simp [Effect.kind, TraceKind.isCall]
        · simp only [UNDIMediaReceiver.CaptureConnectedMetadata]
          rw [if_pos hrecv]
          simp only [hd]
          rw [if_neg hl]
          simp only [List.map_append, List.all_append, Bool.and_eq_true, hS]
          simp [Effect.kind, TraceKind.isCall]
  · simp only [UNDIMediaReceiver.CaptureConnectedMetadata]
    rw [if_neg hrecv]
    rfl

theorem CaptureConnectedMetadataScoped_discipline (r : UNDIMediaReceiver)
    (queue : List NDIlib_metadata_frame_t) :
    notifiesWhen metadataHeld []
      ((r.CaptureConnectedMetadataScoped queue).2.2.2.map Effect.kind) = true ∧
    heldAfter [] ((r.CaptureConnectedMetadataScoped queue).2.2.2.map Effect.kind) = [] :=
  receiver_scoped_discipline SyncContext.MetadataSyncContext metadataHeld rfl _
    (CaptureConnectedMetadata_kind r queue)

theorem receiver_SendMetadataFrame_discipline (r : UNDIMediaReceiver) (Data : FString) :
    notifiesWhen (fun _ => false) [] ((r.SendMetadataFrame Data).2.map Effect.kind) = true ∧
    heldAfter [] ((r.SendMetadataFrame Data).2.map Effect.kind) = [] := by
  cases h : r.p_receive_instance != nullptr <;>
    simp [UNDIMediaReceiver.SendMetadataFrame, h, Effect.kind, notifiesWhen, heldAfter]

namespace UNDIMediaSender

theorem kind_notification (x : SenderEffect) :
    x.kind = TraceKind.Notification ↔
      (x.configurationKind = TraceKind.Notification ∨ x.frameKind = TraceKind.Notification) := by
  cases x <;> simp [SenderEffect.kind, SenderEffect.configurationKind, SenderEffect.frameKind]

theorem sends_kind_other (calls : List SendCall) :
    ((sends calls).map SenderEffect.kind).all TraceKind.isOther = true := by
  induction calls with
  | nil => rfl
  | cons c rest ih =>
    simp only [sends, List.map_cons, List.all_cons, Bool.and_eq_true] at ih ⊢
    exact ⟨rfl, ih⟩

theorem TrySendAudioFrame_discipline (s s1 : UNDIMediaSender) (e : List SenderEffect)
    (NumSamples NumChannels no_connections : Int)
    (h : s.TrySendAudioFrame NumSamples NumChannels no_connections = some (s1, e)) :
    notifiesWhen audioHeld [] (e.map SenderEffect.kind) = true ∧
    heldAfter [] (e.map SenderEffect.kind) = [] := by
  simp only [TrySendAudioFrame] at h
  split at h
  · split at h
    · split at h
      · cases h
      · simp only [Option.some.injEq, Prod.mk.injEq] at h
        rw [← h.2]
        exact ⟨rfl, rfl⟩
    · simp only [Option.some.injEq, Prod.mk.injEq] at h
      rw [← h.2]
      exact ⟨rfl, rfl⟩
  · simp only [Option.some.injEq, Prod.mk.injEq] at h
    rw [← h.2]
    exact ⟨rfl, rfl⟩

theorem SendMetadataFrame_discipline (s s1 : UNDIMediaSender) (e : List SenderEffect)
    (Data : FString) (AttachToVideoFrame : Bool)
    (h : s.SendMetadataFrame Data AttachToVideoFrame = .ok (s1, e)) :
    notifiesWhen noneHeld [] (e.map SenderEffect.kind) = true ∧
    heldAfter [] (e.map SenderEffect.kind) = [] := by
  simp only [SendMetadataFrame, bind, Except.bind, pure, Except.pure] at h
  split at h
  · split at h
    · split at h
      · cases h
      · simp only [Except.ok.injEq, Prod.mk.injEq] at h
        rw [← h.2]
        exact ⟨rfl, rfl⟩
    · simp only [Except.ok.injEq, Prod.mk.injEq] at h
      rw [← h.2]
      exact ⟨rfl, rfl⟩
  · simp only [Except.ok.injEq, Prod.mk.injEq] at h
    rw [← h.2]
    exact ⟨rfl, rfl⟩

theorem flush_scope_discipline (calls : List SendCall) (mid tail : List SenderEffect)
    (hmid : (mid.map SenderEffect.kind).all TraceKind.isOther = true)
    (t1 : notifiesWhen noneHeld [] (tail.map SenderEffect.kind) = true)
    (t2 : heldAfter [] (tail.map SenderEffect.kind) = []) :
    notifiesWhen noneHeld []
      (([SenderEffect.Lock SyncContext.AudioSyncContext,
         SenderEffect.Lock SyncContext.RenderSyncContext] ++ sends calls ++ mid ++
        [SenderEffect.Unlock SyncContext.RenderSyncContext,
         SenderEffect.Unlock SyncContext.AudioSyncContext] ++ tail).map SenderEffect.kind)
        = true ∧
    heldAfter []
      (([SenderEffect.Lock SyncContext.AudioSyncContext,
         SenderEffect.Lock SyncContext.RenderSyncContext] ++ sends calls ++ mid ++
        [SenderEffect.Unlock SyncContext.RenderSyncContext,
         SenderEffect.Unlock SyncContext.AudioSyncContext] ++ tail).map SenderEffect.kind)
        = [] := by
  obtain ⟨q1, q2⟩ := notifiesWhen_quiet noneHeld
    [SyncContext.RenderSyncContext, SyncContext.AudioSyncContext] _ (sends_kind_other calls)
  obtain ⟨m1, m2⟩ := notifiesWhen_quiet noneHeld
    [SyncContext.RenderSyncContext, SyncContext.AudioSyncContext] _ hmid
  have e1 : (SenderEffect.Unlock SyncContext.RenderSyncContext).kind =
      TraceKind.Unlock SyncContext.RenderSyncContext := rfl
  have e2 : (SenderEffect.Unlock SyncContext.AudioSyncContext).kind =
      TraceKind.Unlock SyncContext.AudioSyncContext := rfl
  have e3 : (SenderEffect.Lock SyncContext.RenderSyncContext).kind =
      TraceKind.Lock SyncContext.RenderSyncContext := rfl
  have e4 : (SenderEffect.Lock SyncContext.AudioSyncContext).kind =
      TraceKind.Lock SyncContext.AudioSyncContext := rfl
  simp only [List.map_append, List.map_cons, List.map_nil, List.append_assoc,
    List.singleton_append, List.cons_append, List.nil_append]
  rw [e1, e2, e3, e4]
  simp only [notifiesWhen, heldAfter]
  rw [notifiesWhen_append, notifiesWhen_append, heldAfter_append, heldAfter_append,
    q1, q2, m1, m2]
  simp [notifiesWhen, heldAfter, t1, t2]

theorem ChangeBroadcastConfiguration_discipline (s s1 : UNDIMediaSender)
    (e : List SenderEffect) (InConfiguration : FNDIBroadcastConfiguration)
    (h : s.ChangeBroadcastConfiguration InConfiguration = .ok (s1, e)) :
    notifiesWhen noneHeld [] (e.map SenderEffect.kind) = true ∧
    heldAfter [] (e.map SenderEffect.kind) = [] := by
  simp only [ChangeBroadcastConfiguration, bind, Except.bind, pure, Except.pure] at h
  split at h
  · split at h
    · cases h
    · rename_i fl hfl
      split at h
      · cases h
      · rename_i w hw
        obtain ⟨d1, -, -, d4, -, -⟩ := ChangeRenderTargetConfiguration_discipline _ _ _ _ _
          (show _ = Except.ok (w.1, w.2) from hw)
        simp only [Except.ok.injEq, Prod.mk.injEq] at h
        rw [← h.2]
        have := flush_scope_discipline fl.2 [] w.2 rfl d1 d4
        simpa [List.append_assoc] using this
  · split at h
    · cases h
    · rename_i w hw
      obtain ⟨d1, -, -, d4, -, -⟩ := ChangeRenderTargetConfiguration_discipline _ _ _ _ _
        (show _ = Except.ok (w.1, w.2) from hw)
      simp only [Except.ok.injEq, Prod.mk.injEq] at h
      rw [← h.2]
      exact ⟨d1, d4⟩

theorem CreateSender_kind (send_instance : Nat) (s : UNDIMediaSender) :
    (((s.CreateSender send_instance).2.2).map SenderEffect.kind).all TraceKind.isOther
      = true := by
  cases h1 : s.p_send_instance != nullptr <;> cases h2 : send_instance != nullptr <;>
    simp [CreateSender, h1, h2, SenderEffect.kind, TraceKind.isOther]

theorem flush_scope_silent (calls : List SendCall) (mid : List SenderEffect)
    (hmid : (mid.map SenderEffect.kind).all TraceKind.isOther = true) :
    notifiesWhen (fun _ => false) []
      (([SenderEffect.Lock SyncContext.AudioSyncContext,
         SenderEffect.Lock SyncContext.RenderSyncContext] ++ sends calls ++ mid ++
        [SenderEffect.Unlock SyncContext.RenderSyncContext,
         SenderEffect.Unlock SyncContext.AudioSyncContext]).map SenderEffect.kind) = true ∧
    heldAfter []
      (([SenderEffect.Lock SyncContext.AudioSyncContext,
         SenderEffect.Lock SyncContext.RenderSyncContext] ++ sends calls ++ mid ++
        [SenderEffect.Unlock SyncContext.RenderSyncContext,
         SenderEffect.Unlock SyncContext.AudioSyncContext]).map SenderEffect.kind) = [] := by
  obtain ⟨q1, q2⟩ := notifiesWhen_quiet (fun _ => false)
    [SyncContext.RenderSyncContext, SyncContext.AudioSyncContext] _ (sends_kind_other calls)
  obtain ⟨m1, m2⟩ := notifiesWhen_quiet (fun _ => false)
    [SyncContext.RenderSyncContext, SyncContext.AudioSyncContext] _ hmid
  have e1 : (SenderEffect.Unlock SyncContext.RenderSyncContext).kind =
      TraceKind.Unlock SyncContext.RenderSyncContext := rfl
  have e2 : (SenderEffect.Unlock SyncContext.AudioSyncContext).kind =
      TraceKind.Unlock SyncContext.AudioSyncContext := rfl
  have e3 : (SenderEffect.Lock SyncContext.RenderSyncContext).kind =
      TraceKind.Lock SyncContext.RenderSyncContext := rfl
  have e4 : (SenderEffect.Lock SyncContext.AudioSyncContext).kind =
      TraceKind.Lock SyncContext.AudioSyncContext := rfl
  simp only [List.map_append, List.map_cons, List.map_nil, List.append_assoc,
    List.singleton_append, List.cons_append, List.nil_append]
  rw [e1, e2, e3, e4]
  simp only [notifiesWhen, heldAfter]
  rw [notifiesWhen_append, notifiesWhen_append, heldAfter_append, heldAfter_append,
    q1, q2, m1, m2]
  simp [notifiesWhen, heldAfter]

theorem ChangeSourceName_silent (send_instance : Nat) (s s1 : UNDIMediaSender)
    (e : List SenderEffect) (InSourceName : FString)
    (h : s.ChangeSourceName send_instance InSourceName = .ok (s1, e)) :
    notifiesWhen (fun _ => false) [] (e.map SenderEffect.kind) = true ∧
    heldAfter [] (e.map SenderEffect.kind) = [] := by
  simp only [ChangeSourceName, bind, Except.bind, pure, Except.pure] at h
  split at h
  · split at h
    · cases h
    · rename_i fl hfl
      simp only [Except.ok.injEq, Prod.mk.injEq] at h
      rw [← h.2]
      have := flush_scope_silent fl.2 _ (CreateSender_kind send_instance
        { s with SourceName := InSourceName, ReadbackTextures := fl.1 })
      simpa [List.append_assoc] using this
  · simp only [Except.ok.injEq, Prod.mk.injEq] at h
    rw [← h.2]
    exact ⟨rfl, rfl⟩

theorem Initialize_discipline (FromTimespan : Int → FFrameRate → FTimecode)
    (send_instance RenderableTexture : Nat) (s s1 : UNDIMediaSender) (e : List SenderEffect)
    (h : s.Initialize FromTimespan send_instance RenderableTexture = .ok (s1, e)) :
    notifiesWhen noneHeld [] (e.map SenderEffect.kind) = true ∧
    heldAfter [] (e.map SenderEffect.kind) = [] := by
  obtain ⟨q1, q2⟩ := notifiesWhen_quiet noneHeld [] _ (CreateSender_kind send_instance s)
  simp only [Initialize, bind, Except.bind, pure, Except.pure] at h
  split at h
  · split at h
    · split at h
      · cases h
      · rename_i w hw
        obtain ⟨d1, -, -, d4, -, -⟩ := ChangeRenderTargetConfiguration_discipline _ _ _ _ _
          (show _ = Except.ok (w.1, w.2) from hw)
        simp only [Except.ok.injEq, Prod.mk.injEq] at h
        rw [← h.2]
        simp only [List.map_append, notifiesWhen_append, heldAfter_append, q1, q2, d1, d4]
        exact ⟨rfl, rfl⟩
    · simp only [Except.ok.injEq, Prod.mk.injEq] at h
      rw [← h.2]
      exact ⟨q2, q1⟩
  · simp only [Except.ok.injEq, Prod.mk.injEq] at h
    rw [← h.2]
    exact ⟨rfl, rfl⟩

end UNDIMediaSender
/-- Counterexample to C23 as stated: `CaptureConnectedVideo` on the sample
receiver with a new frame broadcasts the video capture event and the video
received event between taking and giving back `RenderSyncContext`, and
`TrySendVideoFrame` on the initialised sender broadcasts the metadata
received, video pre-send and video sent events between taking and giving back
`RenderSyncContext`: in both traces a notification is made while a lock is
held. The same holds of `CaptureConnectedAudio` and `TrySendAudioFrame` with
`AudioSyncContext` and of `CaptureConnectedMetadata` with
`MetadataSyncContext`. -/
theorem C23_notification_under_lock_counterexample :
    (sampleReceiver.CaptureConnectedVideoScoped sampleFromTimespan timedCapture).2.2 =
      [Effect.FScopeLock_Lock SyncContext.RenderSyncContext,
       Effect.NDIlib_framesync_capture_video 12,
       Effect.NDIlib_recv_get_performance 11,
       Effect.OnNDIReceiverVideoCaptureEvent_Broadcast timedCapture.video_frame,
       Effect.OnReceiverVideoReceived_Broadcast,
       Effect.NDIlib_framesync_free_video 12,
       Effect.FScopeLock_Unlock SyncContext.RenderSyncContext] ∧
    notifiesWhen noneHeld []
      ((sampleReceiver.CaptureConnectedVideoScoped sampleFromTimespan timedCapture).2.2.map
        Effect.kind) = false ∧
    initializedSender.TrySendVideoFrame sampleFromTimespan sampleFrames sampleSendInput =
      .ok (sendingSender, sampleSendTrace) ∧
    notifiesWhen noneHeld [] (sampleSendTrace.map SenderEffect.kind) = false ∧
    (sampleReceiver.CaptureConnectedAudio sampleAudioCapture).2.2 =
      [Effect.FScopeLock_Lock SyncContext.AudioSyncContext,
       Effect.NDIlib_framesync_audio_queue_depth 12,
       Effect.NDIlib_framesync_capture_audio 12 480,
       Effect.OnNDIReceiverAudioCaptureEvent_Broadcast,
       Effect.OnReceiverAudioReceived_Broadcast,
       Effect.NDIlib_framesync_free_audio 12,
       Effect.FScopeLock_Unlock SyncContext.AudioSyncContext] ∧
    notifiesWhen noneHeld []
      ((sampleReceiver.CaptureConnectedAudio sampleAudioCapture).2.2.map Effect.kind) = false ∧
    (sampleReceiver.CaptureConnectedMetadataScoped [sampleMetadata]).2.2.2 =
      [Effect.FScopeLock_Lock SyncContext.MetadataSyncContext,
       Effect.NDIlib_recv_capture_v3 11,
       Effect.OnNDIReceiverMetadataCaptureEvent_Broadcast sampleMetadata,
       Effect.OnReceiverMetaDataReceived_Broadcast "<a/>" false,
       Effect.NDIlib_recv_free_metadata 11,
       Effect.FScopeLock_Unlock SyncContext.MetadataSyncContext] ∧
    notifiesWhen noneHeld []
      ((sampleReceiver.CaptureConnectedMetadataScoped [sampleMetadata]).2.2.2.map Effect.kind)
        = false ∧
    initializedSender.TrySendAudioFrame 960 2 1 = some (initializedSender, sampleAudioSendTrace) ∧
    notifiesWhen noneHeld [] (sampleAudioSendTrace.map SenderEffect.kind) = false := by
  refine ⟨by decide, by decide, rfl, by decide, by decide, by decide, by decide, by decide,
    by decide, by decide⟩

/-- C23, amended: every lock an operation takes is given back before the
operation returns, and the notifications are made as follows. No lock is held
at the configuration-changed notification (`ChangeRenderTargetConfiguration`,
`ChangeBroadcastConfiguration`, `Initialize` of the sender, and
`TrySendVideoFrame` when it reconfigures the frame size) and at the metadata
pre-send and sent notifications of the sender's `SendMetadataFrame`. The
other notifications are made while exactly the lock of their kind is held:
`RenderSyncContext` at video capture, video received and metadata received in
`CaptureConnectedVideo` and at metadata received, video pre-send and video
sent in `TrySendVideoFrame`;
`AudioSyncContext` at audio capture and audio received in
`CaptureConnectedAudio` and at audio pre-send and audio sent in
`TrySendAudioFrame`; `MetadataSyncContext` at metadata capture and metadata
received in `CaptureConnectedMetadata`. `ChangeSourceName` of the sender and
`SendMetadataFrame` of the receiver make no notification. The connection
events are handed to the game thread as tasks and are not made in place. -/
theorem C23_notifications_and_locks (FromTimespan : Int → FFrameRate → FTimecode)
    (Frames : FTimecode → Int) (r : UNDIMediaReceiver) (capture : VideoCaptureInput)
    (audio : AudioCaptureInput) (queue : List NDIlib_metadata_frame_t)
    (s : UNDIMediaSender) (InFrameSize : FIntPoint) (InFrameRate : FFrameRate)
    (InConfiguration : FNDIBroadcastConfiguration) (input : SendVideoInput)
    (NumSamples NumChannels no_connections : Int) (Data : FString)
    (AttachToVideoFrame : Bool) (send_instance RenderableTexture : Nat)
    (InSourceName : FString) :
    (∀ s1 e, s.ChangeRenderTargetConfiguration InFrameSize InFrameRate = .ok (s1, e) →
      notifiesWhen noneHeld [] (e.map SenderEffect.kind) = true ∧
      heldAfter [] (e.map SenderEffect.kind) = []) ∧
    (∀ s1 e, s.TrySendVideoFrame FromTimespan Frames input = .ok (s1, e) →
      notifiesWhen noneHeld [] (e.map SenderEffect.configurationKind) = true ∧
      notifiesWhen renderHeld [] (e.map SenderEffect.frameKind) = true ∧
      heldAfter [] (e.map SenderEffect.configurationKind) = []) ∧
    notifiesWhen renderHeld []
      ((r.CaptureConnectedVideoScoped FromTimespan capture).2.2.map Effect.kind) = true ∧
    heldAfter []
      ((r.CaptureConnectedVideoScoped FromTimespan capture).2.2.map Effect.kind) = [] ∧
    (∀ x : SenderEffect, x.kind = TraceKind.Notification ↔
      (x.configurationKind = TraceKind.Notification ∨ x.frameKind = TraceKind.Notification)) ∧
    (∀ s1 e, s.ChangeBroadcastConfiguration InConfiguration = .ok (s1, e) →
      notifiesWhen noneHeld [] (e.map SenderEffect.kind) = true ∧
      heldAfter [] (e.map SenderEffect.kind) = []) ∧
    (∀ s1 e, s.TrySendAudioFrame NumSamples NumChannels no_connections = some (s1, e) →
      notifiesWhen audioHeld [] (e.map SenderEffect.kind) = true ∧
      heldAfter [] (e.map SenderEffect.kind) = []) ∧
    (∀ s1 e, s.SendMetadataFrame Data AttachToVideoFrame = .ok (s1, e) →
      notifiesWhen noneHeld [] (e.map SenderEffect.kind) = true ∧
      heldAfter [] (e.map SenderEffect.kind) = []) ∧
    (∀ s1 e, s.ChangeSourceName send_instance InSourceName = .ok (s1, e) →
      notifiesWhen (fun _ => false) [] (e.map SenderEffect.kind) = true ∧
      heldAfter [] (e.map SenderEffect.kind) = []) ∧
    (notifiesWhen audioHeld [] ((r.CaptureConnectedAudio audio).2.2.map Effect.kind) = true ∧
      heldAfter [] ((r.CaptureConnectedAudio audio).2.2.map Effect.kind) = []) ∧
    (notifiesWhen metadataHeld []
        ((r.CaptureConnectedMetadataScoped queue).2.2.2.map Effect.kind) = true ∧
      heldAfter [] ((r.CaptureConnectedMetadataScoped queue).2.2.2.map Effect.kind) = []) ∧
    (notifiesWhen (fun _ => false) [] ((r.SendMetadataFrame Data).2.map Effect.kind) = true ∧
      heldAfter [] ((r.SendMetadataFrame Data).2.map Effect.kind) = []) ∧
    (∀ s1 e, s.Initialize FromTimespan send_instance RenderableTexture = .ok (s1, e) →
      notifiesWhen noneHeld [] (e.map SenderEffect.kind) = true ∧
      heldAfter [] (e.map SenderEffect.kind) = []) := by
  obtain ⟨v1, v2⟩ := CaptureConnectedVideoScoped_discipline FromTimespan r capture
  refine ⟨?_, ?_, v1, v2, UNDIMediaSender.kind_notification, ?_, ?_, ?_, ?_,
    CaptureConnectedAudio_discipline r audio,
    CaptureConnectedMetadataScoped_discipline r queue,
    receiver_SendMetadataFrame_discipline r Data, ?_⟩
  · intro s1 e h
    obtain ⟨d1, -, -, d4, -, -⟩ :=
      UNDIMediaSender.ChangeRenderTargetConfiguration_discipline s s1 e _ _ h
    exact ⟨d1, d4⟩
  · intro s1 e h
    exact UNDIMediaSender.TrySendVideoFrame_discipline FromTimespan Frames s s1 e input h
  · intro s1 e h
    exact UNDIMediaSender.ChangeBroadcastConfiguration_discipline s s1 e _ h
  · intro s1 e h
    exact UNDIMediaSender.TrySendAudioFrame_discipline s s1 e _ _ _ h
  · intro s1 e h
    exact UNDIMediaSender.SendMetadataFrame_discipline s s1 e _ _ h
  · intro s1 e h
    exact UNDIMediaSender.ChangeSourceName_silent send_instance s s1 e _ h
  · intro s1 e h
    exact UNDIMediaSender.Initialize_discipline FromTimespan _ _ s s1 e h

/-- Witness of the amended C23: the sample receiver capturing a new video
frame, an audio frame and a metadata frame, and the initialised sender sending
a video frame and an audio frame. -/
theorem C23_notifications_and_locks_witness :
    initializedSender.TrySendVideoFrame sampleFromTimespan sampleFrames sampleSendInput =
      .ok (sendingSender, sampleSendTrace) ∧
    notifiesWhen renderHeld [] (sampleSendTrace.map SenderEffect.frameKind) = true ∧
    initializedSender.TrySendAudioFrame 960 2 1 = some (initializedSender, sampleAudioSendTrace) ∧
    notifiesWhen audioHeld [] (sampleAudioSendTrace.map SenderEffect.kind) = true ∧
    notifiesWhen renderHeld []
      ((sampleReceiver.CaptureConnectedVideoScoped sampleFromTimespan timedCapture).2.2.map
        Effect.kind) = true ∧
    notifiesWhen audioHeld []
      ((sampleReceiver.CaptureConnectedAudio sampleAudioCapture).2.2.map Effect.kind) = true ∧
    notifiesWhen metadataHeld []
      ((sampleReceiver.CaptureConnectedMetadataScoped [sampleMetadata]).2.2.2.map Effect.kind)
        = true :=
  have h := C23_notifications_and_locks sampleFromTimespan sampleFrames sampleReceiver
    timedCapture sampleAudioCapture [sampleMetadata] initializedSender
    { X := 1920, Y := 1080 } { Numerator := 60, Denominator := 1 }
    { FrameSize := { X := 1920, Y := 1080 }, FrameRate := { Numerator := 60, Denominator := 1 } }
    sampleSendInput 960 2 1 "<a/>" false 9 8 "Sender"
  ⟨rfl, (h.2.1 sendingSender sampleSendTrace rfl).2.1, rfl,
    (h.2.2.2.2.2.2.1 initializedSender sampleAudioSendTrace rfl).1,
    h.2.2.1, h.2.2.2.2.2.2.2.2.2.1.1, h.2.2.2.2.2.2.2.2.2.2.1.1⟩

/-! ## Fit rectangle: lemmas and claim -/

theorem inset_sum (N a : Int) (hN : N ≠ 0) :
    (((N - a : Int) : ℚ) / ((2 * N : Int) : ℚ)) + (((N + a : Int) : ℚ) / ((2 * N : Int) : ℚ)) = 1 := by
  have h : ((2 * N : Int) : ℚ) ≠ 0 := by
    have : (2 * N : Int) ≠ 0 := by omega
    exact_mod_cast this
  rw [← add_div]
  rw [div_eq_one_iff_eq h]
  push_cast
  ring

theorem round_scaled (a d c : Int) (ha : 0 < a) (hd : 0 < d) (hc : 0 < c) :
    0 ≤ ⌊((a : ℚ) * d) / c + 1 / 2⌋ ∧
    (⌊((a : ℚ) * d) / c + 1 / 2⌋ = 0 ↔ 2 * a * d < c) ∧
    ∀ b : Int, a * d < c * b → ⌊((a : ℚ) * d) / c + 1 / 2⌋ ≤ b := by
  have hcq : (0 : ℚ) < c := by exact_mod_cast hc
  have hx : (0 : ℚ) < ((a : ℚ) * d) / c := by
    have : (0 : ℚ) < (a : ℚ) * d := by
      have : (0 : Int) < a * d := Int.mul_pos ha hd
      exact_mod_cast this
    exact div_pos this hcq
  refine ⟨?_, ?_, ?_⟩
  · rw [Int.floor_nonneg]; linarith
  · rw [Int.floor_eq_zero_iff]
    simp only [Set.mem_Ico]
    constructor
    · rintro ⟨-, h⟩
      have h2 : ((a : ℚ) * d) / c < 1 / 2 := by linarith
      rw [div_lt_iff hcq] at h2
      have h3 : (2 : ℚ) * a * d < c := by linarith
      exact_mod_cast h3
    · intro h
      have h3 : (2 : ℚ) * a * d < c := by exact_mod_cast h
      refine ⟨by linarith, ?_⟩
      have h2 : ((a : ℚ) * d) / c < 1 / 2 := by
        rw [div_lt_iff hcq]; linarith
      linarith
  · intro b hb
    have hb2 : ((a : ℚ) * d) < c * b := by exact_mod_cast hb
    have h2 : ((a : ℚ) * d) / c < b := by
      rw [div_lt_iff hcq]; linarith
    have : ⌊((a : ℚ) * d) / c + 1 / 2⌋ < b + 1 := by
      rw [Int.floor_lt]; push_cast; linarith
    omega

theorem fitRectangle_wide (a b c d : Int) (hc : 0 < c) (hd : 0 < d)
    (h : (a : ℚ) / b < (c : ℚ) / d) :
    (fitRectangle exactArith exactLt { X := a, Y := b } { X := c, Y := d }).NewFrameSize =
      { X := a, Y := ⌊((a : ℚ) * d) / c + 1 / 2⌋ } := by
  have hcq : (c : ℚ) ≠ 0 := by
    have : (0 : ℚ) < c := by exact_mod_cast hc
    exact ne_of_gt this
  have hdq : (d : ℚ) ≠ 0 := by
    have : (0 : ℚ) < d := by exact_mod_cast hd
    exact ne_of_gt this
  have e : (a : ℚ) / ((c : ℚ) / d) = ((a : ℚ) * d) / c := by
    field_simp
  simp only [fitRectangle, exactArith, exactLt, h, decide_True, if_true, e]

theorem fitRectangle_narrow (a b c d : Int) (hd : 0 < d)
    (h : (c : ℚ) / d < (a : ℚ) / b) :
    (fitRectangle exactArith exactLt { X := a, Y := b } { X := c, Y := d }).NewFrameSize =
      { X := ⌊((b : ℚ) * c) / d + 1 / 2⌋, Y := b } := by
  have hdq : (d : ℚ) ≠ 0 := by
    have : (0 : ℚ) < d := by exact_mod_cast hd
    exact ne_of_gt this
  have e : (b : ℚ) * ((c : ℚ) / d) = ((b : ℚ) * c) / d := by
    field_simp
  have hn : ¬ ((a : ℚ) / b < (c : ℚ) / d) := not_lt.2 (le_of_lt h)
  simp only [fitRectangle, exactArith, exactLt, h, hn, decide_True, decide_False, if_true,
    Bool.false_eq_true, if_false, e]

theorem fitRectangle_equal (a b c d : Int) (h : (c : ℚ) / d = (a : ℚ) / b) :
    (fitRectangle exactArith exactLt { X := a, Y := b } { X := c, Y := d }).NewFrameSize =
      { X := a, Y := b } := by
  simp [fitRectangle, exactArith, exactLt, h]

theorem fitRectangle_insets (FrameSize TargetSize : FIntPoint) :
    ((fitRectangle exactArith exactLt FrameSize TargetSize).NewFrameSize.X ≠ 0 →
      (fitRectangle exactArith exactLt FrameSize TargetSize).ULeft +
      (fitRectangle exactArith exactLt FrameSize TargetSize).URight = 1) ∧
    ((fitRectangle exactArith exactLt FrameSize TargetSize).NewFrameSize.Y ≠ 0 →
      (fitRectangle exactArith exactLt FrameSize TargetSize).VTop +
      (fitRectangle exactArith exactLt FrameSize TargetSize).VBottom = 1) :=
  ⟨fun h => inset_sum _ _ h, fun h => inset_sum _ _ h⟩

/-- Counterexample to C26 as stated: for the output frame size 1920 by 1080
and a source texture of 4000 by 1, both positive, the source is wider, the
height `round(1920 * 1 / 4000)` of the fit rectangle is 0, so the divisor
`2 * NewFrameSize.Y` of `VTop` and `VBottom` is zero, and `VTop + VBottom` is
not 1 (a quotient by zero is zero in the exact arithmetic of the
embedding). -/
theorem C26_zero_height_counterexample :
    (fitRectangle exactArith exactLt { X := 1920, Y := 1080 }
      { X := 4000, Y := 1 }).NewFrameSize = { X := 1920, Y := 0 } ∧
    2 * (fitRectangle exactArith exactLt { X := 1920, Y := 1080 }
      { X := 4000, Y := 1 }).NewFrameSize.Y = 0 ∧
    (fitRectangle exactArith exactLt { X := 1920, Y := 1080 } { X := 4000, Y := 1 }).VTop +
      (fitRectangle exactArith exactLt { X := 1920, Y := 1080 } { X := 4000, Y := 1 }).VBottom
        ≠ 1 := by
  have hN : (fitRectangle exactArith exactLt { X := 1920, Y := 1080 }
      { X := 4000, Y := 1 }).NewFrameSize = { X := 1920, Y := 0 } := by
    rw [fitRectangle_wide 1920 1080 4000 1 (by norm_num) (by norm_num) (by norm_num)]
    have : ⌊(((1920 : Int) : ℚ) * ((1 : Int) : ℚ)) / ((4000 : Int) : ℚ) + 1 / 2⌋ = 0 :=
      ((round_scaled 1920 1 4000 (by norm_num) (by norm_num) (by norm_num)).2.1).2
        (by norm_num)
    rw [this]
  refine ⟨hN, by rw [hN]; rfl, ?_⟩
  have hT : (fitRectangle exactArith exactLt { X := 1920, Y := 1080 }
      { X := 4000, Y := 1 }).VTop = 0 := by
    show (((fitRectangle exactArith exactLt { X := 1920, Y := 1080 }
      { X := 4000, Y := 1 }).NewFrameSize.Y - 1080 : Int) : ℚ) /
      ((2 * (fitRectangle exactArith exactLt { X := 1920, Y := 1080 }
        { X := 4000, Y := 1 }).NewFrameSize.Y : Int) : ℚ) = 0
    rw [hN]; simp
  have hB : (fitRectangle exactArith exactLt { X := 1920, Y := 1080 }
      { X := 4000, Y := 1 }).VBottom = 0 := by
    show (((fitRectangle exactArith exactLt { X := 1920, Y := 1080 }
      { X := 4000, Y := 1 }).NewFrameSize.Y + 1080 : Int) : ℚ) /
      ((2 * (fitRectangle exactArith exactLt { X := 1920, Y := 1080 }
        { X := 4000, Y := 1 }).NewFrameSize.Y : Int) : ℚ) = 0
    rw [hN]; simp
  rw [hT, hB]
  norm_num

/-- C26, amended: in `DrawRenderTarget`, over exact arithmetic, for every
positive output frame size `F` and positive source texture size `T`:
`NewFrameSize` equals `F` when the ratios are equal; when the source is wider
only the height is changed, to `round(F.X * T.Y / T.X)`, which is at least 0
and at most `F.Y` (letterbox) and is 0 exactly when `2 * F.X * T.Y < T.X`; when
the source is narrower only the width is changed, to
`round(F.Y * T.X / T.Y)`, which is at least 0 and at most `F.X` (pillarbox)
and is 0 exactly when `2 * F.Y * T.X < T.Y`; and the UV inset is symmetric
wherever its divisor is not zero: `ULeft + URight = 1` when `NewFrameSize.X`
is not 0 and `VTop + VBottom = 1` when `NewFrameSize.Y` is not 0. -/
theorem C26_fit_rectangle (FrameSize TargetSize : FIntPoint)
    (hFX : 0 < FrameSize.X) (hFY : 0 < FrameSize.Y)
    (hTX : 0 < TargetSize.X) (hTY : 0 < TargetSize.Y) :
    ((TargetSize.X : ℚ) / TargetSize.Y = (FrameSize.X : ℚ) / FrameSize.Y →
      (fitRectangle exactArith exactLt FrameSize TargetSize).NewFrameSize = FrameSize) ∧
    ((FrameSize.X : ℚ) / FrameSize.Y < (TargetSize.X : ℚ) / TargetSize.Y →
      (fitRectangle exactArith exactLt FrameSize TargetSize).NewFrameSize.X = FrameSize.X ∧
      (fitRectangle exactArith exactLt FrameSize TargetSize).NewFrameSize.Y =
        ⌊((FrameSize.X : ℚ) * TargetSize.Y) / TargetSize.X + 1 / 2⌋ ∧
      0 ≤ (fitRectangle exactArith exactLt FrameSize TargetSize).NewFrameSize.Y ∧
      (fitRectangle exactArith exactLt FrameSize TargetSize).NewFrameSize.Y ≤ FrameSize.Y ∧
      ((fitRectangle exactArith exactLt FrameSize TargetSize).NewFrameSize.Y = 0 ↔
        2 * FrameSize.X * TargetSize.Y < TargetSize.X)) ∧
    ((TargetSize.X : ℚ) / TargetSize.Y < (FrameSize.X : ℚ) / FrameSize.Y →
      (fitRectangle exactArith exactLt FrameSize TargetSize).NewFrameSize.Y = FrameSize.Y ∧
      (fitRectangle exactArith exactLt FrameSize TargetSize).NewFrameSize.X =
        ⌊((FrameSize.Y : ℚ) * TargetSize.X) / TargetSize.Y + 1 / 2⌋ ∧
      0 ≤ (fitRectangle exactArith exactLt FrameSize TargetSize).NewFrameSize.X ∧
      (fitRectangle exactArith exactLt FrameSize TargetSize).NewFrameSize.X ≤ FrameSize.X ∧
      ((fitRectangle exactArith exactLt FrameSize TargetSize).NewFrameSize.X = 0 ↔
        2 * FrameSize.Y * TargetSize.X < TargetSize.Y)) ∧
    ((fitRectangle exactArith exactLt FrameSize TargetSize).NewFrameSize.X ≠ 0 →
      (fitRectangle exactArith exactLt FrameSize TargetSize).ULeft +
      (fitRectangle exactArith exactLt FrameSize TargetSize).URight = 1) ∧
    ((fitRectangle exactArith exactLt FrameSize TargetSize).NewFrameSize.Y ≠ 0 →
      (fitRectangle exactArith exactLt FrameSize TargetSize).VTop +
      (fitRectangle exactArith exactLt FrameSize TargetSize).VBottom = 1) := by
  obtain ⟨a, b⟩ := FrameSize
  obtain ⟨c, d⟩ := TargetSize
  simp only at hFX hFY hTX hTY
  have haq : (0 : ℚ) < a := by exact_mod_cast hFX
  have hbq : (0 : ℚ) < b := by exact_mod_cast hFY
  have hcq : (0 : ℚ) < c := by exact_mod_cast hTX
  have hdq : (0 : ℚ) < d := by exact_mod_cast hTY
  refine ⟨fun h => fitRectangle_equal a b c d h, ?_, ?_,
    (fitRectangle_insets _ _).1, (fitRectangle_insets _ _).2⟩
  · intro h
    rw [fitRectangle_wide a b c d hTX hTY h]
    obtain ⟨r1, r2, r3⟩ := round_scaled a d c hFX hTY hTX
    have hcross : a * d < c * b := by
      rw [div_lt_div_iff hbq hdq] at h
      have : (a : ℚ) * d < c * b := by linarith
      exact_mod_cast this
    exact ⟨rfl, rfl, r1, r3 b hcross, r2⟩
  · intro h
    rw [fitRectangle_narrow a b c d hTY h]
    obtain ⟨r1, r2, r3⟩ := round_scaled b c d hFY hTX hTY
    have hcross : b * c < d * a := by
      rw [div_lt_div_iff hdq hbq] at h
      have : (b : ℚ) * c < d * a := by linarith
      exact_mod_cast this
    exact ⟨rfl, rfl, r1, r3 a hcross, r2⟩

/-- Witness of the amended C26: a square source of 1024 by 1024 in the output
frame of 1920 by 1080 is drawn 1080 wide (pillarbox). -/
theorem C26_fit_rectangle_witness :
    (fitRectangle exactArith exactLt { X := 1920, Y := 1080 }
      { X := 1024, Y := 1024 }).NewFrameSize.Y = 1080 ∧
    (fitRectangle exactArith exactLt { X := 1920, Y := 1080 }
      { X := 1024, Y := 1024 }).NewFrameSize.X ≤ 1920 :=
  have h := (C26_fit_rectangle { X := 1920, Y := 1080 } { X := 1024, Y := 1024 }
    (by decide) (by decide) (by decide) (by decide)).2.2.1 (by norm_num)
  ⟨h.1, h.2.2.2.1⟩
theorem metadataBroadcasts_append (a b : List Effect) :
    metadataBroadcasts (a ++ b) = metadataBroadcasts a ++ metadataBroadcasts b := by
  induction a with
  | nil => rfl
  | cons x xs ih => cases x <;> simp [metadataBroadcasts, ih]

theorem SetIsCurrentlyConnected_metadataBroadcasts (r : UNDIMediaReceiver) (b : Bool) :
    metadataBroadcasts (r.SetIsCurrentlyConnected b).2 = [] := by
  cases b <;> cases h : r.bIsCurrentlyConnected <;>
    cases hc : IsBound r.OnNDIReceiverConnectedEvent <;>
    cases hd : IsBound r.OnNDIReceiverDisconnectedEvent <;>
    simp [UNDIMediaReceiver.SetIsCurrentlyConnected, h, hc, hd, metadataBroadcasts]

theorem CaptureConnectedMetadata_cons (r : UNDIMediaReceiver) (metadata : NDIlib_metadata_frame_t)
    (rest : List NDIlib_metadata_frame_t) (hrecv : r.p_receive_instance ≠ nullptr) :
    (r.CaptureConnectedMetadata (metadata :: rest)).2.1 = metadata.hasData ∧
    (r.CaptureConnectedMetadata (metadata :: rest)).2.2.1 = rest ∧
    (r.CaptureConnectedMetadata (metadata :: rest)).1.p_receive_instance = r.p_receive_instance ∧
    metadataBroadcasts (r.CaptureConnectedMetadata (metadata :: rest)).2.2.2 =
      (if metadata.hasData then [metadata] else []) := by
  have hst := UNDIMediaReceiver.SetIsCurrentlyConnected_state r true
  have hbc := SetIsCurrentlyConnected_metadataBroadcasts r true
  cases hd : metadata.p_data with
  | none =>
    simp [UNDIMediaReceiver.CaptureConnectedMetadata, hrecv, hd, NDIlib_metadata_frame_t.hasData,
      metadataBroadcasts]
  | some Data =>
    by_cases hl : metadata.length > 0
    · simp [UNDIMediaReceiver.CaptureConnectedMetadata, hrecv, hd, hl,
        NDIlib_metadata_frame_t.hasData, metadataBroadcasts, metadataBroadcasts_append, hst, hbc]
    · simp [UNDIMediaReceiver.CaptureConnectedMetadata, hrecv, hd, hl,
        NDIlib_metadata_frame_t.hasData, metadataBroadcasts, metadataBroadcasts_append, hst, hbc]

theorem CaptureConnectedMetadataLoop_spec (queue : List NDIlib_metadata_frame_t) :
    ∀ (fuel : Nat) (r : UNDIMediaReceiver), r.p_receive_instance ≠ nullptr →
      queue.length < fuel →
      ∃ s e, r.CaptureConnectedMetadataLoop fuel queue =
          some (s, (queue.dropWhile NDIlib_metadata_frame_t.hasData).drop 1, e) ∧
        metadataBroadcasts e = queue.takeWhile NDIlib_metadata_frame_t.hasData := by
  induction queue with
  | nil =>
    intro fuel r hrecv hfuel
    obtain ⟨k, rfl⟩ : ∃ k, fuel = k + 1 := ⟨fuel - 1, by simp at hfuel; omega⟩
    refine ⟨r, [Effect.NDIlib_recv_capture_v3 r.p_receive_instance], ?_, ?_⟩
    · simp [UNDIMediaReceiver.CaptureConnectedMetadataLoop,
        UNDIMediaReceiver.CaptureConnectedMetadata, hrecv]
    · simp [metadataBroadcasts]
  | cons metadata rest ih =>
    intro fuel r hrecv hfuel
    obtain ⟨k, rfl⟩ : ∃ k, fuel = k + 1 := ⟨fuel - 1, by simp at hfuel; omega⟩
    obtain ⟨h1, h2, h3, h4⟩ := CaptureConnectedMetadata_cons r metadata rest hrecv
    rw [UNDIMediaReceiver.CaptureConnectedMetadataLoop]
    generalize r.CaptureConnectedMetadata (metadata :: rest) = res at h1 h2 h3 h4
    obtain ⟨s, b, q, e⟩ := res
    simp only at h1 h2 h3 h4
    subst h1 h2
    cases hd : metadata.hasData with
    | false =>
      refine ⟨s, e, ?_, ?_⟩
      · simp [List.dropWhile, hd]
      · simp [List.takeWhile, hd, h4]
    | true =>
      obtain ⟨s2, e2, hl, hb⟩ := ih k s (by rw [h3]; exact hrecv)
        (by simp at hfuel; omega)
      refine ⟨s2, e ++ e2, ?_, ?_⟩
      · simp [List.dropWhile, hd, hl]
      · simp [List.takeWhile, hd, metadataBroadcasts_append, h4, hb]

/-- C28 as stated fails: with an empty metadata frame queued in front of a
frame with data, the loop `while(CaptureConnectedMetadata())` takes the empty
frame, frees it and ends, and the frame with data stays queued. -/
theorem C28_loop_stops_at_empty_frame :
    (sampleReceiver.CaptureConnectedMetadataLoop 5 [emptyMetadata, sampleMetadata]).map
        (fun r => (r.2.1, r.2.2)) =
      some ([sampleMetadata],
        [Effect.NDIlib_recv_capture_v3 11, Effect.NDIlib_recv_free_metadata 11]) := by
  decide

/-- C28, amended: on a receiver with a receive instance the loop
`while(CaptureConnectedMetadata())` ends for every queue of pending metadata
frames (a bound above the queue length is never reached). It consumes the
leading frames that carry data and broadcasts each of them in order, and it
consumes one frame more, the first frame without data, if there is one. When
every queued frame carries data nothing is left queued. -/
theorem C28_metadata_loop (r : UNDIMediaReceiver) (queue : List NDIlib_metadata_frame_t)
    (fuel : Nat) (hrecv : r.p_receive_instance ≠ nullptr) (hfuel : queue.length < fuel) :
    ∃ s e, r.CaptureConnectedMetadataLoop fuel queue =
        some (s, (queue.dropWhile NDIlib_metadata_frame_t.hasData).drop 1, e) ∧
      metadataBroadcasts e = queue.takeWhile NDIlib_metadata_frame_t.hasData ∧
      ((∀ metadata ∈ queue, metadata.hasData = true) →
        (queue.dropWhile NDIlib_metadata_frame_t.hasData).drop 1 = [] ∧
        metadataBroadcasts e = queue) := by
  obtain ⟨s, e, h1, h2⟩ := CaptureConnectedMetadataLoop_spec queue fuel r hrecv hfuel
  refine ⟨s, e, h1, h2, fun hall => ?_⟩
  have hd : queue.dropWhile NDIlib_metadata_frame_t.hasData = [] := by
    rw [List.dropWhile_eq_nil_iff]; exact hall
  have ht : queue.takeWhile NDIlib_metadata_frame_t.hasData = queue := by
    rw [List.takeWhile_eq_self_iff]; exact hall
  rw [hd, h2, ht]
  exact ⟨rfl, rfl⟩

theorem C28_metadata_loop_witness :
    sampleReceiver.p_receive_instance ≠ nullptr ∧
    [sampleMetadata, sampleMetadata].length < 3 ∧
    ∃ s e, sampleReceiver.CaptureConnectedMetadataLoop 3 [sampleMetadata, sampleMetadata] =
        some (s, ([sampleMetadata, sampleMetadata].dropWhile
          NDIlib_metadata_frame_t.hasData).drop 1, e) ∧
      metadataBroadcasts e =
        [sampleMetadata, sampleMetadata].takeWhile NDIlib_metadata_frame_t.hasData ∧
      ((∀ metadata ∈ [sampleMetadata, sampleMetadata], metadata.hasData = true) →
        ([sampleMetadata, sampleMetadata].dropWhile NDIlib_metadata_frame_t.hasData).drop 1 = [] ∧
        metadataBroadcasts e = [sampleMetadata, sampleMetadata]) :=
  ⟨by decide, by decide,
    C28_metadata_loop sampleReceiver [sampleMetadata, sampleMetadata] 3 (by decide) (by decide)⟩

/-- C29 fails on the code: a receiver initialised for a source and then
stopped with `StopConnection` still stores the descriptor of that source, so a second
`Initialize` for the same source creates the non-connected receive instance,
finds nothing to change in `ChangeConnection`, and returns true without a
frame-sync instance. -/
theorem C29_Initialize_same_source_not_connected :
    sampleInformation.IsValid = true ∧
    (idleReceiver.Initialize 11 13 14 5 6 sampleInformation EUsage.Controlled).1 =
      initializedReceiver ∧
    initializedReceiver.p_framesync_instance = 14 ∧
    initializedReceiver.StopConnection.1 = stoppedReceiver ∧
    stoppedReceiver.Initialize 21 23 24 7 8 sampleInformation EUsage.Controlled =
      ({ stoppedReceiver with p_receive_instance := 21 }, true,
        [Effect.InternalVideoTexture_UpdateResource,
         Effect.NDIlib_recv_create_v3 false
           NDIlib_recv_bandwidth_e.NDIlib_recv_bandwidth_highest 21]) ∧
    (stoppedReceiver.Initialize 21 23 24 7 8 sampleInformation
      EUsage.Controlled).1.p_framesync_instance = nullptr ∧
    (stoppedReceiver.Initialize 21 23 24 7 8 sampleInformation
      EUsage.Controlled).1.ConnectionInformation = sampleInformation := by
  decide
theorem sampleCompare_lt (a b c : FString) (h1 : sampleCompare a b < 0)
    (h2 : sampleCompare b c ≤ 0) : sampleCompare a c < 0 := by
  unfold sampleCompare at *
  have hab : ignoreCaseKey a < ignoreCaseKey b := by
    by_contra h
    rw [if_neg h] at h1
    split at h1 <;> omega
  have hbc : ignoreCaseKey b ≤ ignoreCaseKey c := by
    by_contra h
    have h3 : ¬ ignoreCaseKey b < ignoreCaseKey c := fun h4 => h (le_of_lt h4)
    have h5 : ¬ ignoreCaseKey b = ignoreCaseKey c := fun h4 => h (le_of_eq h4)
    rw [if_neg h3, if_neg h5] at h2
    omega
  rw [if_pos (lt_of_lt_of_le hab hbc)]
  omega

theorem sampleCompare_gt (a b c : FString) (h1 : 0 < sampleCompare a b)
    (h2 : sampleCompare c b ≤ 0) : 0 < sampleCompare a c := by
  unfold sampleCompare at *
  have hab : ignoreCaseKey b < ignoreCaseKey a := by
    by_contra h
    have := not_lt.mp h
    rcases lt_or_eq_of_le this with h3 | h3
    · rw [if_pos h3] at h1; omega
    · rw [if_neg (by rw [h3]; exact lt_irrefl _), if_pos h3] at h1; omega
  have hcb : ignoreCaseKey c ≤ ignoreCaseKey b := by
    by_contra h
    have h3 : ¬ ignoreCaseKey c < ignoreCaseKey b := fun h4 => h (le_of_lt h4)
    have h5 : ¬ ignoreCaseKey c = ignoreCaseKey b := fun h4 => h (le_of_eq h4)
    rw [if_neg h3, if_neg h5] at h2
    omega
  have hca : ignoreCaseKey c < ignoreCaseKey a := lt_of_le_of_lt hcb hab
  rw [if_neg (not_lt.mpr (le_of_lt hca)), if_neg (ne_of_gt hca)]
  omega


theorem tdiv_two_nonneg (a : Int) (h : 0 ≤ a) : Int.tdiv a 2 = a / 2 := by
  rw [Int.tdiv_eq_ediv h (by decide)]

theorem K2_loop_terminates (Compare : FString → FString → Int)
    (xs : List FNDIConnectionInformation) (q : FString) (init : FNDIConnectionInformation) :
    ∀ (L : Nat) (last : Int), last.toNat = L → ∀ (k : Nat) (current : Int), 0 ≤ current →
      (last - current).toNat = k →
      ∃ N r, (∀ fuel, N ≤ fuel →
          K2_FindNetworkSourceByName_loop Compare xs q init fuel current last = some r) ∧
        (r.2 = true → r.1 ∈ xs ∧ Compare q r.1.SourceName = 0) ∧
        (r.2 = false → r.1 = init) := by
  intro L
  induction L using Nat.strong_induction_on with
  | _ L ihL =>
  intro last hL k
  induction k using Nat.strong_induction_on with
  | _ k ihk =>
  intro current hc hk
  by_cases hlt : current < last
  swap
  · refine ⟨1, (init, false), ?_, by simp, by simp⟩
    intro fuel hf
    obtain ⟨f, rfl⟩ : ∃ f, fuel = f + 1 := ⟨fuel - 1, by omega⟩
    simp [K2_FindNetworkSourceByName_loop, hlt]
  by_cases hv : current < xs.length
  swap
  · refine ⟨1, (init, false), ?_, by simp, by simp⟩
    intro fuel hf
    obtain ⟨f, rfl⟩ : ∃ f, fuel = f + 1 := ⟨fuel - 1, by omega⟩
    simp [K2_FindNetworkSourceByName_loop, hlt, hv]
  have hi : current.toNat < xs.length := by omega
  have hget : xs[current.toNat]? = some xs[current.toNat] := List.getElem?_eq_getElem hi
  rcases lt_trichotomy (Compare q xs[current.toNat].SourceName) 0 with hneg | hzero | hpos
  · obtain ⟨N, r, h1, h2, h3⟩ := ihL current.toNat (by omega) current rfl _
      (Int.tdiv current 2) (by rw [tdiv_two_nonneg current hc]; omega) rfl
    refine ⟨N + 1, r, ?_, h2, h3⟩
    intro fuel hf
    obtain ⟨f, rfl⟩ : ∃ f, fuel = f + 1 := ⟨fuel - 1, by omega⟩
    rw [K2_FindNetworkSourceByName_loop]
    simp only [hlt, hc, hv, hget, and_self, if_true, ne_eq, hneg.ne, not_false_eq_true,
      hneg.le]
    exact h1 f (by omega)
  · refine ⟨1, (xs[current.toNat], true), ?_, ?_, by simp⟩
    · intro fuel hf
      obtain ⟨f, rfl⟩ : ∃ f, fuel = f + 1 := ⟨fuel - 1, by omega⟩
      rw [K2_FindNetworkSourceByName_loop]
      simp [hlt, hc, hv, hget, hzero]
    · intro _
      exact ⟨List.getElem_mem _, hzero⟩
  · have hnew : 0 ≤ Int.tdiv (last + current + 1) 2 ∧ current < Int.tdiv (last + current + 1) 2 := by
      rw [tdiv_two_nonneg _ (by omega)]; omega
    obtain ⟨N, r, h1, h2, h3⟩ := ihk (last - Int.tdiv (last + current + 1) 2).toNat (by omega)
      (Int.tdiv (last + current + 1) 2) hnew.1 rfl
    refine ⟨N + 1, r, ?_, h2, h3⟩
    intro fuel hf
    obtain ⟨f, rfl⟩ : ∃ f, fuel = f + 1 := ⟨fuel - 1, by omega⟩
    rw [K2_FindNetworkSourceByName_loop]
    simp only [hlt, hc, hv, hget, and_self, if_true, ne_eq, hpos.ne', not_false_eq_true,
      not_le.mpr hpos, if_false, gt_iff_lt, hpos]
    exact h1 f (by omega)

theorem K2_loop_finds (Compare : FString → FString → Int)
    (xs : List FNDIConnectionInformation) (q : FString) (init : FNDIConnectionInformation)
    (hlt : ∀ a b c, Compare a b < 0 → Compare b c ≤ 0 → Compare a c < 0)
    (hgt : ∀ a b c, 0 < Compare a b → Compare c b ≤ 0 → 0 < Compare a c)
    (hsorted : xs.Pairwise (fun x y => Compare x.SourceName y.SourceName ≤ 0))
    (t : Nat) (ht : t < xs.length) (hfound : Compare q xs[t].SourceName = 0) :
    ∀ (fuel : Nat) (current last : Int) (r : FNDIConnectionInformation × Bool),
      0 ≤ current → current < last → last ≤ xs.length → (t : Int) < last →
      K2_FindNetworkSourceByName_loop Compare xs q init fuel current last = some r →
      r.2 = true := by
  have hs := List.pairwise_iff_getElem.mp hsorted
  intro fuel
  induction fuel with
  | zero => intro current last r _ _ _ _ h; simp [K2_FindNetworkSourceByName_loop] at h
  | succ f ih =>
    intro current last r hc hcl hl htl h
    have hv : current < xs.length := by omega
    have hi : current.toNat < xs.length := by omega
    have hget : xs[current.toNat]? = some xs[current.toNat] := List.getElem?_eq_getElem hi
    rw [K2_FindNetworkSourceByName_loop] at h
    rcases lt_trichotomy (Compare q xs[current.toNat].SourceName) 0 with hneg | hzero | hpos
    · simp only [hcl, hc, hv, hget, and_self, if_true, ne_eq, hneg.ne, not_false_eq_true,
        hneg.le] at h
      have htc : t < current.toNat := by
        by_contra hge
        rcases Nat.eq_or_lt_of_le (not_lt.mp hge) with heq | hlt2
        · have : Compare q xs[t].SourceName < 0 := by simpa [← heq] using hneg
          omega
        · have := hlt _ _ _ hneg (hs current.toNat t hi ht hlt2)
          omega
      exact ih (Int.tdiv current 2) current r (by rw [tdiv_two_nonneg current hc]; omega)
        (by rw [tdiv_two_nonneg current hc]; omega) (by omega) (by omega) h
    · simp only [hcl, hc, hv, hget, and_self, if_true, ne_eq, hzero, not_true_eq_false,
        if_false, Option.some.injEq] at h
      rw [← h]
    · simp only [hcl, hc, hv, hget, and_self, if_true, ne_eq, hpos.ne', not_false_eq_true,
        not_le.mpr hpos, if_false, gt_iff_lt, hpos] at h
      have htc : current.toNat < t := by
        by_contra hge
        rcases Nat.eq_or_lt_of_le (not_lt.mp hge) with heq | hlt2
        · have : 0 < Compare q xs[t].SourceName := by simpa [heq] using hpos
          omega
        · have := hgt _ _ _ hpos (hs t current.toNat ht hi hlt2)
          omega
      exact ih (Int.tdiv (last + current + 1) 2) last r
        (by rw [tdiv_two_nonneg _ (by omega)]; omega)
        (by rw [tdiv_two_nonneg _ (by omega)]; omega) hl htl h

/-- C30: on a collection sorted in ascending order of `SourceName` under the
comparison that ignores case, `K2_FindNetworkSourceByName` ends (from some
bound on, every bound on the iterations gives the same result); when an entry
has a name that compares equal to the requested name it returns true with such
an entry of the collection, otherwise it returns false with the reset
descriptor. The comparison enters through its sign, with the two transitivity
laws of an order. -/
theorem C30_K2_FindNetworkSourceByName (Compare : FString → FString → Int)
    (NetworkSourceCollection : List FNDIConnectionInformation)
    (ConnectionInformation : FNDIConnectionInformation) (InSourceName : FString)
    (hlt : ∀ a b c, Compare a b < 0 → Compare b c ≤ 0 → Compare a c < 0)
    (hgt : ∀ a b c, 0 < Compare a b → Compare c b ≤ 0 → 0 < Compare a c)
    (hsorted : NetworkSourceCollection.Pairwise
      (fun x y => Compare x.SourceName y.SourceName ≤ 0)) :
    ∃ N r, (∀ fuel, N ≤ fuel →
        K2_FindNetworkSourceByName Compare fuel NetworkSourceCollection ConnectionInformation
          InSourceName = some r) ∧
      ((∃ e ∈ NetworkSourceCollection, Compare InSourceName e.SourceName = 0) →
        r.2 = true ∧ r.1 ∈ NetworkSourceCollection ∧
        Compare InSourceName r.1.SourceName = 0) ∧
      ((¬ ∃ e ∈ NetworkSourceCollection, Compare InSourceName e.SourceName = 0) →
        r.2 = false ∧ r.1 = ConnectionInformation.Reset) := by
  obtain ⟨N, r, h1, h2, h3⟩ := K2_loop_terminates Compare NetworkSourceCollection InSourceName
    ConnectionInformation.Reset _ (NetworkSourceCollection.length : Int) rfl _ 0 (le_refl 0) rfl
  refine ⟨N, r, fun fuel hf => h1 fuel hf, ?_, ?_⟩
  · rintro ⟨e, he, hcmp⟩
    obtain ⟨t, ht, rfl⟩ := List.getElem_of_mem he
    have hr := K2_loop_finds Compare NetworkSourceCollection InSourceName
      ConnectionInformation.Reset hlt hgt hsorted t ht hcmp N 0 _ r (le_refl 0)
      (by omega) (le_refl _) (by omega) (h1 N (le_refl N))
    exact ⟨hr, h2 hr⟩
  · intro hno
    cases hr : r.2 with
    | false => exact ⟨rfl, h3 hr⟩
    | true => exact absurd ⟨r.1, (h2 hr).1, (h2 hr).2⟩ hno

theorem C30_K2_FindNetworkSourceByName_witness :
    (∀ a b c, sampleCompare a b < 0 → sampleCompare b c ≤ 0 → sampleCompare a c < 0) ∧
    (∀ a b c, 0 < sampleCompare a b → sampleCompare c b ≤ 0 → 0 < sampleCompare a c) ∧
    sampleSources.Pairwise (fun x y => sampleCompare x.SourceName y.SourceName ≤ 0) ∧
    K2_FindNetworkSourceByName sampleCompare 10 sampleSources sampleInformation "BETA (cam)"
      = some ({ SourceName := "Beta (Cam)" }, true) ∧
    ∃ N r, (∀ fuel, N ≤ fuel →
        K2_FindNetworkSourceByName sampleCompare fuel sampleSources sampleInformation
          "BETA (cam)" = some r) ∧
      ((∃ e ∈ sampleSources, sampleCompare "BETA (cam)" e.SourceName = 0) →
        r.2 = true ∧ r.1 ∈ sampleSources ∧ sampleCompare "BETA (cam)" r.1.SourceName = 0) ∧
      ((¬ ∃ e ∈ sampleSources, sampleCompare "BETA (cam)" e.SourceName = 0) →
        r.2 = false ∧ r.1 = sampleInformation.Reset) :=
  ⟨sampleCompare_lt, sampleCompare_gt, by decide, by decide,
    C30_K2_FindNetworkSourceByName sampleCompare sampleSources sampleInformation "BETA (cam)"
      sampleCompare_lt sampleCompare_gt (by decide)⟩
theorem DrawProgressiveVideoFrame_settled (IsValid : FIntPoint → Bool) (Element : Nat)
    (s : UNDIMediaReceiver) (Result : NDIlib_video_frame_v2_t)
    (h : s.SettledFor Result.FrameSize) :
    s.DrawProgressiveVideoFrame IsValid Element Result =
      (s, s.RenderTarget, progressiveDraw s.RenderTarget Result) := by
  obtain ⟨h1, h2, h3, h4, h5, h6⟩ := h
  simp only [NDIlib_video_frame_v2_t.FrameSize] at h3 h5 h6
  simp [UNDIMediaReceiver.DrawProgressiveVideoFrame, h1, h2, h3, h4, h5, h6, progressiveDraw,
    NDIlib_video_frame_v2_t.FrameSize]

theorem DrawProgressiveVideoFrame_create (IsValid : FIntPoint → Bool) (Element : Nat)
    (s : UNDIMediaReceiver) (Result : NDIlib_video_frame_v2_t)
    (hfs : s.p_framesync_instance ≠ nullptr)
    (hne : (s.RenderTarget == nullptr || s.RenderTargetDescriptor.isNone ||
      s.RenderTargetDescriptor != some Result.FrameSize ||
      s.DrawMode != EDrawMode.Progressive) = true)
    (hvalid : IsValid Result.FrameSize = true) (hel : Element ≠ nullptr) :
    ∃ s1, s.DrawProgressiveVideoFrame IsValid Element Result =
        (s1, Element, progressiveCreate Element Result.FrameSize ++
          progressiveDraw Element Result) ∧
      s1.SettledFor Result.FrameSize ∧ s1.RenderTarget = Element := by
  simp only [NDIlib_video_frame_v2_t.FrameSize] at hne hvalid
  refine ⟨{ s with RenderTargetDescriptor := some { X := Result.xres, Y := Result.yres },
                   SourceTexture := some { X := Int.tdiv Result.xres 2, Y := Result.yres },
                   RenderTarget := Element,
                   RenderTargetItemDesc := some { X := Result.xres, Y := Result.yres },
                   DrawMode := EDrawMode.Progressive }, ?_, ?_, ?_⟩
  · simp only [UNDIMediaReceiver.DrawProgressiveVideoFrame, bne_iff_ne, ne_eq, hfs,
      not_false_eq_true, if_true, hne, Create2DDesc, hvalid, progressiveCreate, progressiveDraw,
      NDIlib_video_frame_v2_t.FrameSize, List.cons_append, List.nil_append]
  · simp [UNDIMediaReceiver.SettledFor, hfs, hel, NDIlib_video_frame_v2_t.FrameSize,
      Create2DDesc, hvalid]
  · rfl

theorem DrawProgressiveVideoFrame_first (IsValid : FIntPoint → Bool) (Element : Nat)
    (s : UNDIMediaReceiver) (Result : NDIlib_video_frame_v2_t)
    (hfs : s.p_framesync_instance ≠ nullptr) (hcoh : s.ProgressiveCoherent)
    (hvalid : IsValid Result.FrameSize = true) (hel : Element ≠ nullptr) :
    ∃ s1 pre, s.DrawProgressiveVideoFrame IsValid Element Result =
        (s1, s1.RenderTarget, pre ++ progressiveDraw s1.RenderTarget Result) ∧
      s1.SettledFor Result.FrameSize ∧
      ((pre = [] ∧ s1.RenderTarget = s.RenderTarget) ∨
       (pre = progressiveCreate Element Result.FrameSize ∧ s1.RenderTarget = Element)) := by
  by_cases hne : (s.RenderTarget == nullptr || s.RenderTargetDescriptor.isNone ||
      s.RenderTargetDescriptor != some Result.FrameSize ||
      s.DrawMode != EDrawMode.Progressive) = true
  · obtain ⟨s1, h1, h2, h3⟩ :=
      DrawProgressiveVideoFrame_create IsValid Element s Result hfs hne hvalid hel
    refine ⟨s1, progressiveCreate Element Result.FrameSize, ?_, h2, Or.inr ⟨rfl, h3⟩⟩
    rw [h1, h3]
  · simp only [Bool.or_eq_true, beq_iff_eq, bne_iff_ne, ne_eq, not_or, not_not,
      Option.isNone_iff_eq_none] at hne
    obtain ⟨⟨⟨ht, -⟩, hd⟩, hm⟩ := hne
    have hset : s.SettledFor Result.FrameSize :=
      ⟨hfs, ht, hd, hm, (hcoh ht hm _ hd).1, (hcoh ht hm _ hd).2⟩
    refine ⟨s, [], ?_, hset, Or.inl ⟨rfl, rfl⟩⟩
    rw [DrawProgressiveVideoFrame_settled IsValid Element s Result hset]
    rfl

theorem DrawProgressiveVideoFrames_settled (IsValid : FIntPoint → Bool) (d : FIntPoint)
    (s : UNDIMediaReceiver) (hset : s.SettledFor d) :
    ∀ frames : List (Nat × NDIlib_video_frame_v2_t), (∀ f ∈ frames, f.2.FrameSize = d) →
      s.DrawProgressiveVideoFrames IsValid frames =
        (s, frames.map (fun f => progressiveDraw s.RenderTarget f.2)) := by
  intro frames
  induction frames with
  | nil => intro _; rfl
  | cons f rest ih =>
    intro h
    obtain ⟨Element, Result⟩ := f
    have hF : Result.FrameSize = d := h (Element, Result) (List.mem_cons_self _ _)
    have hstep := DrawProgressiveVideoFrame_settled IsValid Element s Result (hF ▸ hset)
    have hrest := ih (fun f hf => h f (List.mem_cons_of_mem _ hf))
    simp only [UNDIMediaReceiver.DrawProgressiveVideoFrames, hstep, hrest, List.map_cons]

theorem DrawProgressiveVideoFrames_append (IsValid : FIntPoint → Bool) :
    ∀ (as bs : List (Nat × NDIlib_video_frame_v2_t)) (s : UNDIMediaReceiver),
      s.DrawProgressiveVideoFrames IsValid (as ++ bs) =
        (((s.DrawProgressiveVideoFrames IsValid as).1.DrawProgressiveVideoFrames IsValid bs).1,
         (s.DrawProgressiveVideoFrames IsValid as).2 ++
         ((s.DrawProgressiveVideoFrames IsValid as).1.DrawProgressiveVideoFrames IsValid bs).2) := by
  intro as
  induction as with
  | nil => intro bs s; rfl
  | cons f rest ih =>
    intro bs s
    obtain ⟨Element, Result⟩ := f
    rw [List.cons_append]
    simp only [UNDIMediaReceiver.DrawProgressiveVideoFrames]
    rw [ih]
    rfl

theorem progressiveDraw_no_creation (RenderTarget : Nat) (Result : NDIlib_video_frame_v2_t) :
    (progressiveDraw RenderTarget Result).all (fun c => !c.isCreation) = true := by
  simp [progressiveDraw, RenderCall.isCreation]

/-- C21: a receiver with a frame-sync instance and coherent buffers draws
progressive frames of one size `A` and then frames of another size `B`. The
first frame of size `B` creates the buffers for `B` (source texture of half
the width, descriptor and render target of the full size) and is drawn into
them; every later frame of size `B` is drawn into those same buffers without
any creation; the frames of size `A` are drawn into buffers of size `A`, and
after the first of them none creates a buffer. The calls of a draw create no
buffer. The engine's descriptor test accepts both sizes and the pool hands out
non-null render targets. -/
theorem C21_progressive_size_change (IsValid : FIntPoint → Bool) (s : UNDIMediaReceiver)
    (A B : FIntPoint) (a b : Nat × NDIlib_video_frame_v2_t)
    (as bs : List (Nat × NDIlib_video_frame_v2_t))
    (hfs : s.p_framesync_instance ≠ nullptr) (hcoh : s.ProgressiveCoherent)
    (hA : ∀ f ∈ a :: as, f.2.FrameSize = A) (hB : ∀ f ∈ b :: bs, f.2.FrameSize = B)
    (hAB : A ≠ B) (hvA : IsValid A = true) (hvB : IsValid B = true)
    (hel : ∀ f ∈ (a :: as) ++ (b :: bs), f.1 ≠ nullptr) :
    ∃ pre target,
      ((pre = [] ∧ target = s.RenderTarget) ∨ (pre = progressiveCreate a.1 A ∧ target = a.1)) ∧
      (s.DrawProgressiveVideoFrames IsValid ((a :: as) ++ (b :: bs))).2 =
        ((pre ++ progressiveDraw target a.2) ::
          as.map (fun f => progressiveDraw target f.2)) ++
        ((progressiveCreate b.1 B ++ progressiveDraw b.1 b.2) ::
          bs.map (fun f => progressiveDraw b.1 f.2)) ∧
      (∀ t f, (progressiveDraw t f).all (fun c => !c.isCreation) = true) := by
  have hFa : a.2.FrameSize = A := hA a (List.mem_cons_self _ _)
  have hFb : b.2.FrameSize = B := hB b (List.mem_cons_self _ _)
  obtain ⟨s1, pre, h1, hset1, hpre⟩ := DrawProgressiveVideoFrame_first IsValid a.1 s a.2 hfs hcoh
    (by rw [hFa]; exact hvA) (hel a (by simp))
  rw [hFa] at hset1 hpre
  have hrunA := DrawProgressiveVideoFrames_settled IsValid A s1 hset1 as
    (fun f hf => hA f (List.mem_cons_of_mem _ hf))
  have hneB : (s1.RenderTarget == nullptr || s1.RenderTargetDescriptor.isNone ||
      s1.RenderTargetDescriptor != some b.2.FrameSize ||
      s1.DrawMode != EDrawMode.Progressive) = true := by
    have hd := hset1.2.2.1
    rw [hFb, hd]
    have : (some A != some B) = true := by simpa using hAB
    simp [this]
  obtain ⟨s2, h2, hset2, ht2⟩ := DrawProgressiveVideoFrame_create IsValid b.1 s1 b.2 hset1.1 hneB
    (by rw [hFb]; exact hvB) (hel b (by simp))
  rw [hFb] at h2 hset2
  have hrunB := DrawProgressiveVideoFrames_settled IsValid B s2 hset2 bs
    (fun f hf => hB f (List.mem_cons_of_mem _ hf))
  refine ⟨pre, s1.RenderTarget, hpre, ?_, progressiveDraw_no_creation⟩
  rw [DrawProgressiveVideoFrames_append]
  obtain ⟨ea, ra⟩ := a
  obtain ⟨eb, rb⟩ := b
  simp only at h1 h2 hrunA hrunB ht2
  simp only [UNDIMediaReceiver.DrawProgressiveVideoFrames, h1, hrunA, h2, hrunB, ht2]

theorem C21_progressive_size_change_witness :
    sampleReceiver.p_framesync_instance ≠ nullptr ∧
    (sampleReceiver.DrawProgressiveVideoFrames positiveExtent
      [(41, untimedCapture.video_frame), (42, untimedCapture.video_frame),
       (43, smallFrame), (44, smallFrame)]).2 =
      [progressiveCreate 41 { X := 1920, Y := 1080 } ++
         progressiveDraw 41 untimedCapture.video_frame,
       progressiveDraw 41 untimedCapture.video_frame,
       progressiveCreate 43 { X := 1280, Y := 720 } ++ progressiveDraw 43 smallFrame,
       progressiveDraw 43 smallFrame] ∧
    ∃ pre target,
      ((pre = [] ∧ target = sampleReceiver.RenderTarget) ∨
       (pre = progressiveCreate 41 { X := 1920, Y := 1080 } ∧ target = 41)) ∧
      (sampleReceiver.DrawProgressiveVideoFrames positiveExtent
        (((41, untimedCapture.video_frame) :: [(42, untimedCapture.video_frame)]) ++
         ((43, smallFrame) :: [(44, smallFrame)]))).2 =
        ((pre ++ progressiveDraw target untimedCapture.video_frame) ::
          [(42, untimedCapture.video_frame)].map (fun f => progressiveDraw target f.2)) ++
        ((progressiveCreate 43 { X := 1280, Y := 720 } ++ progressiveDraw 43 smallFrame) ::
          [(44, smallFrame)].map (fun f => progressiveDraw 43 f.2)) ∧
      (∀ t f, (progressiveDraw t f).all (fun c => !c.isCreation) = true) :=
  ⟨by decide, by decide,
    C21_progressive_size_change positiveExtent sampleReceiver { X := 1920, Y := 1080 }
      { X := 1280, Y := 720 } (41, untimedCapture.video_frame) (43, smallFrame)
      [(42, untimedCapture.video_frame)] [(44, smallFrame)] (by decide)
      (fun _ hm => absurd hm (by decide)) (by decide) (by decide) (by decide) (by decide)
      (by decide) (by decide)⟩

end NDI
